import Mathlib

/-!
# Cockpit web service: routing, session and channel multiplexing

A shallow embedding of `src/ws/cockpitwebservice.c` and of `src/common/cockpitmemfdread.c`.

* C strings (`gchar *`) are `String`; a nullable string is `Option String`.
* GObject handles (`CockpitTransport *`, `WebSocketConnection *`) are natural numbers
  compared by identity.
* A `GHashTable` is an association list searched with the table's key equality function.
* `by_transport` and `by_connection` own their records.  A `CockpitSession *` held by
  `by_channel` / `by_host` is the transport handle under which `by_transport` owns the
  session, and a `CockpitSocket *` held by `by_scope` is the connection handle under which
  `by_connection` owns the socket.
* Calls into external collaborators (transport, web socket, signals) are recorded as a list
  of `Effect`s returned by every handler, in program order.
* `guint` counters wrap modulo `2 ^ 32`.
* A signal that a collaborator emits in answer to a call (the "closed" of a transport after
  `cockpit_transport_close`, the "close" of a connection after
  `web_socket_connection_close`) is a later `Event` of its own.
* The idle timer of a session is the field `timeout`: `none` when no source is armed,
  `some i` when a source with interval `i` seconds is armed; its firing is an `Event`.
* Where the code reads a string byte by byte (`channel_scope_hash`), the bytes are the UTF-8
  encoding of the characters, and the terminating NUL is the end of the list.
* The handlers of a resource response take the state of their web response, which
  `cockpit_web_response_get_state` returns, as an argument, and record their calls on the
  web response as a list of `ResourceEffect`s.
* The system calls of `cockpit_memfd_read` are the fields of `MemfdSys`; a buffer is the
  list of its bytes.
-/

namespace Cockpit

/-! ## Handles and byte strings -/

/-- A `CockpitTransport *`. -/
abbrev CockpitTransport := Nat

/-- A `WebSocketConnection *`. -/
abbrev WebSocketConnection := Nat

/-- A `GBytes *` payload. -/
abbrev GBytes := String

/-- The range of a `guint`. -/
def G_MAXUINT_SUCC : Nat := 4294967296

/-! ## GHashTable -/

/-- A `GHashTable`: the list of its (key, value) nodes. -/
abbrev GHashTable (K V : Type) := List (K × V)

/-- The key equality `g_str_equal`. -/
def g_str_equal (a b : String) : Bool := decide (a = b)

/-- The key equality `g_direct_equal`. -/
def g_direct_equal (a b : Nat) : Bool := decide (a = b)

/-- The value stored under the first node whose key equals `key`, as `g_hash_table_lookup`
finds it with the key equality `eq` of the table. -/
def g_hash_table_lookup {K V : Type} (eq : K → K → Bool) :
    GHashTable K V → K → Option V
  | [], _ => none
  | (k, v) :: rest, key =>
    if eq k key then some v else g_hash_table_lookup eq rest key

/-- The table after `g_hash_table_insert`: an existing node keeps its key and gets the new
value, otherwise a node is added. -/
def g_hash_table_insert {K V : Type} (eq : K → K → Bool) :
    GHashTable K V → K → V → GHashTable K V
  | [], key, val => [(key, val)]
  | (k, v) :: rest, key, val =>
    if eq k key then (k, val) :: rest else (k, v) :: g_hash_table_insert eq rest key val

/-- The table after `g_hash_table_remove`. -/
def g_hash_table_remove {K V : Type} (eq : K → K → Bool) :
    GHashTable K V → K → GHashTable K V
  | [], _ => []
  | (k, v) :: rest, key =>
    if eq k key then rest else (k, v) :: g_hash_table_remove eq rest key

/-- A set built with `g_hash_table_add`: the key is its own value. -/
def g_hash_table_add {K : Type} (eq : K → K → Bool) (set : GHashTable K Unit) (key : K) :
    GHashTable K Unit :=
  g_hash_table_insert eq set key ()

/-- The number of nodes, `g_hash_table_size`. -/
def g_hash_table_size {K V : Type} (t : GHashTable K V) : Nat := t.length

/-! ## Channel scopes -/

/-- The suffix of `s` starting at the first occurrence of `c`, as `strchr` returns it. -/
def strchr : List Char → Char → Option (List Char)
  | [], _ => none
  | x :: xs, c => if x = c then some (x :: xs) else strchr xs c

/-- The bytes of a character of a C string: its UTF-8 encoding. -/
def char_bytes (c : Char) : List Nat :=
  if c.toNat < 128 then [c.toNat]
  else if c.toNat < 2048 then [192 + c.toNat / 64, 128 + c.toNat % 64]
  else if c.toNat < 65536 then
    [224 + c.toNat / 4096, 128 + c.toNat / 64 % 64, 128 + c.toNat % 64]
  else
    [240 + c.toNat / 262144, 128 + c.toNat / 4096 % 64, 128 + c.toNat / 64 % 64,
     128 + c.toNat % 64]

/-- The bytes of a C string up to its terminating NUL, which is the end of the list. -/
def string_bytes (s : List Char) : List Nat :=
  s.foldr (fun c bytes => char_bytes c ++ bytes) []

/-- The value of a byte read through a `const signed char *`. -/
def signed_char (b : Nat) : Int :=
  if b < 128 then (b : Int) else (b : Int) - 256

/-- The conversion of an `int` to `guint32` in an unsigned addition. -/
def guint32_of_int (i : Int) : Nat := (i % (G_MAXUINT_SUCC : Int)).toNat

/-- The assignment `h = (h << 5) + h + *p` on a `guint32`. -/
def channel_scope_hash_step (h : Nat) (b : Nat) : Nat :=
  (((h <<< 5) % G_MAXUINT_SUCC + h) % G_MAXUINT_SUCC + guint32_of_int (signed_char b)) %
    G_MAXUINT_SUCC

/-- The loop of `channel_scope_hash` from the byte at `p` on, with `h` so far: it ends at
the end of the string and at the byte ':'. -/
def channel_scope_hash_loop : List Nat → Nat → Nat
  | [], h => h
  | b :: rest, h =>
    if b = 58 then h else channel_scope_hash_loop rest (channel_scope_hash_step h b)

/-- The hash of the keys of `by_scope`. -/
def channel_scope_hash (v : String) : Nat :=
  channel_scope_hash_loop (string_bytes v.data) 5381

/-- The key equality of `by_scope`: both strings have a ':' and the same non-empty bytes
before the first ':'. -/
def channel_scope_equal (v1 v2 : String) : Bool :=
  match strchr v1.data ':', strchr v2.data ':' with
  | some s1, some s2 =>
    let l1 := v1.data.length - s1.length
    let l2 := v2.data.length - s2.length
    l1 != 0 && l2 != 0 && l1 == l2 && (v1.data.take l1 == v2.data.take l1)
  | _, _ => false

/-- A browser connection known to the service. -/
structure CockpitSocket where
  scope : String
  connection : WebSocketConnection
deriving DecidableEq, Repr

/-- The socket tables.  `by_connection` owns the sockets. -/
structure CockpitSockets where
  by_scope : GHashTable String WebSocketConnection
  by_connection : GHashTable WebSocketConnection CockpitSocket
  next_scope_id : Nat
deriving DecidableEq, Repr

def cockpit_sockets_init : CockpitSockets :=
  { by_scope := [], by_connection := [], next_scope_id := 1 }

/-- Prefixes the socket-local channel with the scope of the socket. -/
def cockpit_socket_add_channel_scope (socket : CockpitSocket) (socket_channel : String) :
    String :=
  socket.scope ++ socket_channel

/-- The text after the first ':' of the scoped channel, or null. -/
def cockpit_socket_remove_channel_scope (scoped_channel : String) : Option String :=
  match strchr scoped_channel.data ':' with
  | none => none
  | some channel => some ⟨channel.tail⟩

def cockpit_socket_lookup_by_connection (sockets : CockpitSockets)
    (connection : WebSocketConnection) : Option CockpitSocket :=
  g_hash_table_lookup g_direct_equal sockets.by_connection connection

/-- Only uses the scope part of `scoped_channel`. -/
def cockpit_socket_lookup_by_channel (sockets : CockpitSockets) (scoped_channel : String) :
    Option CockpitSocket :=
  (g_hash_table_lookup channel_scope_equal sockets.by_scope scoped_channel).bind
    (g_hash_table_lookup g_direct_equal sockets.by_connection)

/-- The scope printed with `"%u:"` for the counter value `n`. -/
def scope_of_id (n : Nat) : String := Nat.repr n ++ ":"

/-- Tracks a new socket for `connection`; returns it with the updated tables. -/
def cockpit_socket_track (sockets : CockpitSockets) (connection : WebSocketConnection) :
    CockpitSocket × CockpitSockets :=
  let socket : CockpitSocket :=
    { scope := scope_of_id sockets.next_scope_id, connection := connection }
  (socket,
   { by_scope := g_hash_table_insert channel_scope_equal sockets.by_scope socket.scope
        connection
     by_connection := g_hash_table_insert g_direct_equal sockets.by_connection connection
        socket
     next_scope_id := (sockets.next_scope_id + 1) % G_MAXUINT_SUCC })

def cockpit_socket_destroy (sockets : CockpitSockets) (socket : CockpitSocket) :
    CockpitSockets :=
  { sockets with
    by_scope := g_hash_table_remove channel_scope_equal sockets.by_scope socket.scope
    by_connection :=
      g_hash_table_remove g_direct_equal sockets.by_connection socket.connection }

/-! ## JSON objects -/

/-- A `JsonNode` of json-glib. -/
inductive JsonNode where
  | null
  | boolean (b : Bool)
  | number (n : Int)
  | string (s : String)
  | array (elements : List JsonNode)
  | object (members : List (String × JsonNode))

/-- A `JsonObject`: its members, looked up by name. -/
abbrev JsonObject := GHashTable String JsonNode

def json_object_get_member (object : JsonObject) (name : String) : Option JsonNode :=
  g_hash_table_lookup g_str_equal object name

/-- Sets a string member; a null value is stored as a JSON null. -/
def json_object_set_string_member (object : JsonObject) (name : String)
    (value : Option String) : JsonObject :=
  match value with
  | some s => g_hash_table_insert g_str_equal object name (JsonNode.string s)
  | none => g_hash_table_insert g_str_equal object name JsonNode.null

def json_object_get_members (object : JsonObject) : List String :=
  object.map Prod.fst

/-- The object held by the member, null when the member is missing or holds no object. -/
def json_object_get_object_member (object : JsonObject) (name : String) :
    Option JsonObject :=
  match json_object_get_member object name with
  | some (JsonNode.object members) => some members
  | _ => none

/-- Modelled from the spec: `cockpit_json_get_string` of `common/cockpitjson.c`, which is
not part of the sources at hand.  A missing member reads as the default, a string member as
its value, and any other member is a failure (`none`) that leaves the output untouched. -/
def cockpit_json_get_string (options : JsonObject) (name : String)
    (defawlt : Option String) : Option (Option String) :=
  match json_object_get_member options name with
  | none => some defawlt
  | some (JsonNode.string s) => some (some s)
  | some _ => none

/-- Modelled from the spec: `cockpit_json_get_bool` of `common/cockpitjson.c`.  A missing
member reads as the default, a boolean member as its value, any other member fails. -/
def cockpit_json_get_bool (options : JsonObject) (name : String) (defawlt : Bool) :
    Option Bool :=
  match json_object_get_member options name with
  | none => some defawlt
  | some (JsonNode.boolean b) => some b
  | some _ => none

/-- Builds the object of a control message from (name, value) pairs, skipping the pairs
whose value is null. -/
def build_control (fields : List (String × Option String)) : JsonObject :=
  fields.foldl
    (fun object field =>
      match field.2 with
      | some value => json_object_set_string_member object field.1 (some value)
      | none => object)
    []

/-! ## Credentials -/

/-- Modelled from the spec: the credential handle `CockpitCreds` of `ws/cockpitcreds.c`,
which is not part of the sources at hand: a user, an optional password, the remote host
attribute, and whether the credentials were poisoned. -/
structure CockpitCreds where
  user : String
  password : Option String
  rhost : Option String
  poisoned : Bool
deriving DecidableEq, Repr

/-- Modelled from the spec: `cockpit_creds_new` with the password and remote host
attributes. -/
def cockpit_creds_new (user : String) (password : Option String) (rhost : Option String) :
    CockpitCreds :=
  { user := user, password := password, rhost := rhost, poisoned := false }

/-- Modelled from the spec: `cockpit_creds_poison` makes the credentials unusable. -/
def cockpit_creds_poison (creds : CockpitCreds) : CockpitCreds :=
  { creds with poisoned := true }

/-- Modelled from the spec: `cockpit_creds_get_password`; poisoned credentials have no
usable password. -/
def cockpit_creds_get_password (creds : CockpitCreds) : Option String :=
  if creds.poisoned then none else creds.password

/-- The `CockpitCreds *` a session holds: a reference to the credentials object of the
service, or credentials of its own made by `cockpit_creds_new`. -/
inductive CredsRef where
  | service
  | own (creds : CockpitCreds)
deriving DecidableEq, Repr

/-! ## Sessions -/

/-- A live conduit to one agent. -/
structure CockpitSession where
  host : String
  primary : Bool
  private_ : Bool
  channels : GHashTable String Unit
  transport : CockpitTransport
  sent_eof : Bool
  /-- The idle timer: `none` is the source id 0, `some i` a source armed with interval `i`. -/
  timeout : Option Int
  creds : CredsRef
  checksums : GHashTable String String
deriving DecidableEq, Repr

/-- The session tables.  `by_transport` owns the sessions; `by_host` and `by_channel` refer
to a session through the transport under which it is owned. -/
structure CockpitSessions where
  by_host : GHashTable String CockpitTransport
  by_channel : GHashTable String CockpitTransport
  by_transport : GHashTable CockpitTransport CockpitSession
deriving DecidableEq, Repr

def cockpit_sessions_init : CockpitSessions :=
  { by_host := [], by_channel := [], by_transport := [] }

def cockpit_session_by_transport (sessions : CockpitSessions)
    (transport : CockpitTransport) : Option CockpitSession :=
  g_hash_table_lookup g_direct_equal sessions.by_transport transport

def cockpit_session_by_channel (sessions : CockpitSessions) (channel : String) :
    Option CockpitSession :=
  (g_hash_table_lookup g_str_equal sessions.by_channel channel).bind
    (cockpit_session_by_transport sessions)

def cockpit_session_by_host (sessions : CockpitSessions) (host : String) :
    Option CockpitSession :=
  (g_hash_table_lookup g_str_equal sessions.by_host host).bind
    (cockpit_session_by_transport sessions)

/-- Writes the fields of `session` through the pointer: the record owned by `by_transport`
under its transport is replaced. -/
def session_store (sessions : CockpitSessions) (session : CockpitSession) :
    CockpitSessions :=
  { sessions with
    by_transport := sessions.by_transport.map
      (fun node => if node.1 = session.transport then (node.1, session) else node) }

/-- Removes the channel from `by_channel` and from the session; arms the idle timer with
`agent_timeout` when no channel is left. -/
def cockpit_session_remove_channel (agent_timeout : Int) (sessions : CockpitSessions)
    (session : CockpitSession) (channel : String) : CockpitSessions :=
  let by_channel := g_hash_table_remove g_str_equal sessions.by_channel channel
  let channels := g_hash_table_remove g_str_equal session.channels channel
  let timeout :=
    if g_hash_table_size channels = 0 then some agent_timeout else session.timeout
  session_store { sessions with by_channel := by_channel }
    { session with channels := channels, timeout := timeout }

/-- Adds the channel to `by_channel` and to the session; cancels the idle timer. -/
def cockpit_session_add_channel (sessions : CockpitSessions) (session : CockpitSession)
    (channel : String) : CockpitSessions :=
  let by_channel :=
    g_hash_table_insert g_str_equal sessions.by_channel channel session.transport
  let channels := g_hash_table_add g_str_equal session.channels channel
  session_store { sessions with by_channel := by_channel }
    { session with channels := channels, timeout := none }

/-- Allocates a session and enters it into `by_transport`, and into `by_host` when it is
not private.  Returns the session and the updated tables. -/
def cockpit_session_track (sessions : CockpitSessions) (host : String) (private_ : Bool)
    (creds : CredsRef) (transport : CockpitTransport) : CockpitSession × CockpitSessions :=
  let session : CockpitSession :=
    { host := host, primary := false, private_ := private_, channels := [],
      transport := transport, sent_eof := false, timeout := none, creds := creds,
      checksums := [] }
  (session,
   { sessions with
     by_host :=
       if !private_ then g_hash_table_insert g_str_equal sessions.by_host host transport
       else sessions.by_host
     by_transport := g_hash_table_insert g_direct_equal sessions.by_transport transport
       session })

/-- Purges the channels of the session from `by_channel`, its host from `by_host` when it
is not private, and the session itself from `by_transport`. -/
def cockpit_session_destroy (sessions : CockpitSessions) (session : CockpitSession) :
    CockpitSessions :=
  { by_channel := session.channels.foldl
      (fun by_channel chan => g_hash_table_remove g_str_equal by_channel chan.1)
      sessions.by_channel
    by_host :=
      if !session.private_ then g_hash_table_remove g_str_equal sessions.by_host session.host
      else sessions.by_host
    by_transport :=
      g_hash_table_remove g_direct_equal sessions.by_transport session.transport }

/-! ## The web service, its environment and its effects -/

/-- The ready state of a web socket connection, in the order of the enumeration. -/
inductive WebSocketState where
  | CONNECTING
  | OPEN
  | CLOSING
  | CLOSED
deriving DecidableEq, Repr

/-- The value of the enumerator. -/
def WebSocketState.toNat : WebSocketState → Nat
  | CONNECTING => 0
  | OPEN => 1
  | CLOSING => 2
  | CLOSED => 3

/-- The close codes the service uses. -/
inductive WebSocketCloseCode where
  | WEB_SOCKET_CLOSE_GOING_AWAY
  | WEB_SOCKET_CLOSE_SERVER_ERROR
deriving DecidableEq, Repr

/-- The tunables and the external collaborators a handler consults. -/
structure Env where
  /-- Tunable: test-only port override (0 when unset). -/
  cockpit_ws_specific_ssh_port : Int
  /-- Tunable: the idle timeout of a session, in seconds. -/
  cockpit_ws_agent_timeout : Int
  /-- What `web_socket_connection_get_ready_state` returns. -/
  ready_state : WebSocketConnection → WebSocketState
  /-- What `cockpit_transport_parse_frame` returns: the channel and the payload. -/
  parse_frame : GBytes → Option (Option String × GBytes)
  /-- What `cockpit_transport_parse_command` returns: command, channel and options. -/
  parse_command : GBytes → Option (String × Option String × JsonObject)
  /-- The encoder `cockpit_json_write_bytes`. -/
  json_write_bytes : JsonObject → GBytes
  /-- The type named by an authorize challenge (`reauthorize_type`), `none` on failure. -/
  reauthorize_type : String → Option String
  /-- The user named by an authorize challenge (`reauthorize_user`), `none` on failure. -/
  reauthorize_user : String → Option String
  /-- The response `reauthorize_crypt1` computes from challenge and password. -/
  reauthorize_crypt1 : String → String → Option String
  /-- Whether the transport is a `CockpitSshTransport`. -/
  is_ssh_transport : CockpitTransport → Bool
  /-- What `cockpit_ssh_transport_get_host_key` returns. -/
  ssh_host_key : CockpitTransport → Option String
  /-- What `cockpit_ssh_transport_get_host_fingerprint` returns. -/
  ssh_host_fingerprint : CockpitTransport → Option String

/-- A call into an external collaborator. -/
inductive Effect where
  /-- The call `cockpit_transport_send (transport, channel, payload)`. -/
  | cockpit_transport_send (transport : CockpitTransport) (channel : Option String)
      (payload : GBytes)
  /-- The call `cockpit_transport_close (transport, problem)`. -/
  | cockpit_transport_close (transport : CockpitTransport) (problem : Option String)
  /-- The call `web_socket_connection_send` of a TEXT frame made of `pfx` and `payload`. -/
  | web_socket_connection_send (connection : WebSocketConnection) (pfx : GBytes)
      (payload : GBytes)
  /-- The call `web_socket_connection_close (connection, code, reason)`. -/
  | web_socket_connection_close (connection : WebSocketConnection)
      (code : WebSocketCloseCode) (reason : String)
  /-- The emission of a signal of the service, "idling" or "destroy". -/
  | g_signal_emit (signal : String)
  /-- The creation of a `CockpitSshTransport` with the given host, port and host key. -/
  | ssh_transport_new (transport : CockpitTransport) (host : String) (port : Int)
      (host_key : Option String)
  /-- The call `cockpit_web_response_error (response, status)`. -/
  | cockpit_web_response_error (response : Nat) (status : Nat)
deriving DecidableEq, Repr

/-- The top-level object, one per authenticated user. -/
structure CockpitWebService where
  creds : CockpitCreds
  sockets : CockpitSockets
  sessions : CockpitSessions
  closing : Bool
  callers : Int
  next_resource_id : Nat
deriving DecidableEq, Repr

/-- The newline that precedes every control message sent to a web socket. -/
def control_prefix : GBytes := "\n"

/-- The credentials object a session refers to. -/
def session_creds (self : CockpitWebService) (session : CockpitSession) : CockpitCreds :=
  match session.creds with
  | CredsRef.service => self.creds
  | CredsRef.own creds => creds

/-- Fires the idle timer of the session: closes its transport with "timeout" when it still
has no channel. -/
def on_timeout_cleanup_session (self : CockpitWebService) (session : CockpitSession) :
    CockpitWebService × List Effect :=
  let session1 := { session with timeout := none }
  ({ self with sessions := session_store self.sessions session1 },
   if g_hash_table_size session1.channels = 0 then
     [Effect.cockpit_transport_close session1.transport (some "timeout")]
   else [])

/-- Disposes the service: closes every socket that is not yet closing, sends EOF on every
session that has not got it, and emits "destroy" the first time. -/
def cockpit_web_service_dispose (env : Env) (self : CockpitWebService) :
    CockpitWebService × List Effect :=
  let emit := !self.closing
  let socket_closes := self.sockets.by_scope.filterMap
    (fun node =>
      match g_hash_table_lookup g_direct_equal self.sockets.by_connection node.2 with
      | some socket =>
        if (env.ready_state socket.connection).toNat < WebSocketState.CLOSING.toNat then
          some (Effect.web_socket_connection_close socket.connection
            WebSocketCloseCode.WEB_SOCKET_CLOSE_GOING_AWAY "terminated")
        else none
      | none => none)
  let session_closes := self.sessions.by_transport.filterMap
    (fun node =>
      if !node.2.sent_eof then some (Effect.cockpit_transport_close node.2.transport none)
      else none)
  let by_transport := self.sessions.by_transport.map
    (fun node => (node.1, { node.2 with sent_eof := true }))
  ({ self with
     closing := true
     sessions := { self.sessions with by_transport := by_transport } },
   socket_closes ++ session_closes ++
     (if emit then [Effect.g_signal_emit "destroy"] else []))

def caller_begin (self : CockpitWebService) : CockpitWebService :=
  { self with callers := self.callers + 1 }

def caller_end (self : CockpitWebService) : CockpitWebService × List Effect :=
  if self.callers > 0 then
    ({ self with callers := self.callers - 1 },
     if self.callers - 1 = 0 then [Effect.g_signal_emit "idling"] else [])
  else (self, [])

def outbound_protocol_error (transport : CockpitTransport) : List Effect :=
  [Effect.cockpit_transport_close transport (some "protocol-error")]

/-- Rebuilds the checksum table of a session from the resources of a close message. -/
def process_resources (resources : JsonObject) : GHashTable String String :=
  (json_object_get_members resources).foldl
    (fun checksums module_ =>
      match json_object_get_object_member resources module_ with
      | some details =>
        match cockpit_json_get_string details "checksum" none with
        | some (some checksum) => g_hash_table_insert g_str_equal checksums checksum module_
        | _ => checksums
      | none => checksums)
    []

def process_close (env : Env) (self : CockpitWebService) (session : CockpitSession)
    (channel : String) (options : JsonObject) : Bool × CockpitWebService :=
  let session1 :=
    match json_object_get_member options "resources" with
    | some (JsonNode.object resources) =>
      { session with checksums := process_resources resources }
    | _ => session
  (true,
   { self with
     sessions := cockpit_session_remove_channel env.cockpit_ws_agent_timeout
       (session_store self.sessions session1) session1 channel })

def process_authorize (env : Env) (self : CockpitWebService) (session : CockpitSession)
    (options : JsonObject) : Bool × List Effect :=
  match cockpit_json_get_string options "challenge" none,
        cockpit_json_get_string options "cookie" none with
  | some (some challenge), some cookie =>
    match env.reauthorize_type challenge, env.reauthorize_user challenge with
    | some type, some user =>
      let response : Option String :=
        if !g_str_equal (session_creds self session).user user then none
        else if g_str_equal type "crypt1" then
          match cockpit_creds_get_password (session_creds self session) with
          | none => none
          | some password => env.reauthorize_crypt1 challenge password
        else none
      (true,
       if !session.sent_eof then
         [Effect.cockpit_transport_send session.transport none
           (env.json_write_bytes (build_control
             [("command", some "authorize"), ("cookie", cookie),
              ("response", some (response.getD ""))]))]
       else [])
    | _, _ => (false, [])
  | _, _ => (false, [])

/-- Handles a control message the agent behind `transport` sent. -/
def on_session_control (env : Env) (self : CockpitWebService) (transport : CockpitTransport)
    (command : String) (channel : Option String) (options : JsonObject) :
    CockpitWebService × List Effect :=
  match channel with
  | none =>
    match cockpit_session_by_transport self.sessions transport with
    | none => (self, outbound_protocol_error transport)
    | some session =>
      if command = "authorize" then
        let r := process_authorize env self session options
        (self, r.2 ++ (if r.1 then [] else outbound_protocol_error transport))
      else if command = "ping" then (self, [])
      else (self, outbound_protocol_error transport)
  | some channel =>
    match cockpit_session_by_channel self.sessions channel with
    | none => (self, outbound_protocol_error transport)
    | some session =>
      if session.transport ≠ transport then (self, outbound_protocol_error transport)
      else
        let r : Bool × CockpitWebService :=
          if command = "close" then process_close env self session channel options
          else (true, self)
        let forwarded : List Effect :=
          if r.1 then
            match cockpit_socket_lookup_by_channel r.2.sockets channel with
            | some socket =>
              if env.ready_state socket.connection = WebSocketState.OPEN then
                [Effect.web_socket_connection_send socket.connection control_prefix
                  (env.json_write_bytes (json_object_set_string_member options "channel"
                    (cockpit_socket_remove_channel_scope channel)))]
              else []
            | none => []
          else []
        (r.2, forwarded ++ (if r.1 then [] else outbound_protocol_error transport))

/-- Handles a data message the agent behind `transport` sent. -/
def on_session_recv (env : Env) (self : CockpitWebService) (transport : CockpitTransport)
    (channel : Option String) (payload : GBytes) : List Effect :=
  match channel with
  | none => []
  | some channel =>
    match cockpit_session_by_channel self.sessions channel with
    | none => outbound_protocol_error transport
    | some session =>
      if session.transport ≠ transport then outbound_protocol_error transport
      else
        match cockpit_socket_lookup_by_channel self.sockets channel with
        | some socket =>
          if env.ready_state socket.connection = WebSocketState.OPEN then
            [Effect.web_socket_connection_send socket.connection
              (((cockpit_socket_remove_channel_scope channel).getD "(null)") ++ "\n")
              payload]
          else []
        | none => []

/-- Handles the close of `transport`: tells the sockets that own a channel of the session,
destroys the session, and disposes the service when the session was the primary one. -/
def on_session_closed (env : Env) (self : CockpitWebService) (transport : CockpitTransport)
    (problem : Option String) : CockpitWebService × List Effect :=
  match cockpit_session_by_transport self.sessions transport with
  | none => (self, [])
  | some session =>
    let ssh := problem = some "unknown-hostkey" && env.is_ssh_transport transport
    let key := if ssh then env.ssh_host_key transport else none
    let fp := if ssh then env.ssh_host_fingerprint transport else none
    let sends := session.channels.filterMap
      (fun node =>
        match cockpit_socket_lookup_by_channel self.sockets node.1 with
        | some socket =>
          if env.ready_state socket.connection = WebSocketState.OPEN then
            some (Effect.web_socket_connection_send socket.connection control_prefix
              (env.json_write_bytes (build_control
                [("command", some "close"),
                 ("channel", cockpit_socket_remove_channel_scope node.1),
                 ("reason", problem), ("host-key", key), ("host-fingerprint", fp)])))
          else none
        | none => none)
    let self1 := { self with sessions := cockpit_session_destroy self.sessions session }
    if session.primary then
      let r := cockpit_web_service_dispose env self1
      (r.1, sends ++ r.2)
    else (self1, sends)

/-- The local `host` of `lookup_or_open_session_for_host` once a session has to be opened:
"localhost" becomes "127.0.0.1" when the test port is set, and then a null or empty host
becomes "localhost". -/
def open_session_host (env : Env) (host : Option String) : String :=
  let host1 : Option String :=
    if host = some "localhost" then
      (if env.cockpit_ws_specific_ssh_port ≠ 0 then some "127.0.0.1" else host)
    else host
  match host1 with
  | none => "localhost"
  | some h => if h = "" then "localhost" else h

/-- Finds the non-private session of the host, or opens a new one over the freshly created
ssh transport `fresh`.  Returns `none` where the C code dereferences a null host in
`g_str_hash`. -/
def lookup_or_open_session_for_host (env : Env) (self : CockpitWebService)
    (host : Option String) (host_key : Option String) (creds : CredsRef) (private_ : Bool)
    (fresh : CockpitTransport) : Option (CockpitSession × CockpitWebService × List Effect) :=
  let found : Option (Option CockpitSession) :=
    if !private_ then
      match host with
      | none => none
      | some h => some (cockpit_session_by_host self.sessions h)
    else some none
  match found with
  | none => none
  | some (some session) => some (session, self, [])
  | some none =>
    let r := cockpit_session_track self.sessions (open_session_host env host) private_ creds
      fresh
    some (r.1, { self with sessions := r.2 },
      [Effect.ssh_transport_new fresh (open_session_host env host)
        env.cockpit_ws_specific_ssh_port host_key])

/-- The local `host` of `process_open`: the member "host", or "localhost" when it is missing
or not a string. -/
def process_open_host (options : JsonObject) : String :=
  match cockpit_json_get_string options "host" (some "localhost") with
  | some (some h) => h
  | _ => "localhost"

/-- The local `specific_user` of `process_open` when it selects a private session: the
member "user" when it is a non-empty string. -/
def process_open_user (options : JsonObject) : Option String :=
  match cockpit_json_get_string options "user" none with
  | some (some u) => if u = "" then none else some u
  | _ => none

/-- The local `password` of `process_open`. -/
def process_open_password (options : JsonObject) : Option String :=
  match cockpit_json_get_string options "password" none with
  | some p => p
  | none => none

/-- The local `host_key` of `process_open`. -/
def process_open_host_key (options : JsonObject) : Option String :=
  match cockpit_json_get_string options "host-key" none with
  | some k => k
  | none => none

/-- The local `creds` of `process_open`: new credentials for a specific user, the
credentials of the service otherwise. -/
def process_open_creds (self : CockpitWebService) (options : JsonObject) : CredsRef :=
  match process_open_user options with
  | some user =>
    CredsRef.own (cockpit_creds_new user (process_open_password options) self.creds.rhost)
  | none => CredsRef.service

/-- Handles an "open" command.  Returns `none` where the C code hands a null channel to
`g_str_hash`. -/
def process_open (env : Env) (self : CockpitWebService) (channel : Option String)
    (options : JsonObject) (fresh : CockpitTransport) :
    Option (Bool × CockpitWebService × List Effect) :=
  if self.closing then some (true, self, [])
  else
    match channel with
    | none => none
    | some channel =>
      if (cockpit_session_by_channel self.sessions channel).isSome then
        some (false, self, [])
      else
        let host := process_open_host options
        let creds := process_open_creds self options
        let host_key := process_open_host_key options
        let private_ : Bool :=
          (process_open_user options).isSome || (process_open_host_key options).isSome
        match lookup_or_open_session_for_host env self (some host) host_key creds private_
            fresh with
        | none => none
        | some (session, self1, effects) =>
          some (true,
            { self1 with
              sessions := cockpit_session_add_channel self1.sessions session channel },
            effects)

def process_logout (env : Env) (self : CockpitWebService) (options : JsonObject) :
    Bool × CockpitWebService × List Effect :=
  match cockpit_json_get_bool options "disconnect" false with
  | none => (false, self, [])
  | some disconnect =>
    let self1 := { self with creds := cockpit_creds_poison self.creds }
    if disconnect then
      let r := cockpit_web_service_dispose env self1
      (true, r.1, r.2)
    else (true, self1, [])

def inbound_protocol_error (env : Env) (connection : WebSocketConnection) : List Effect :=
  if env.ready_state connection = WebSocketState.OPEN then
    [Effect.web_socket_connection_send connection control_prefix
       (env.json_write_bytes
         (build_control [("command", some "close"), ("reason", some "protocol-error")])),
     Effect.web_socket_connection_close connection
       WebSocketCloseCode.WEB_SOCKET_CLOSE_SERVER_ERROR "protocol-error"]
  else []

/-- Handles a control message a browser sent over `socket`. -/
def dispatch_inbound_command (env : Env) (self : CockpitWebService) (socket : CockpitSocket)
    (payload : GBytes) (fresh : CockpitTransport) :
    Option (CockpitWebService × List Effect) :=
  match env.parse_command payload with
  | none => some (self, inbound_protocol_error env socket.connection)
  | some (command, socket_channel, options) =>
    let channel : Option String :=
      socket_channel.map (cockpit_socket_add_channel_scope socket)
    let branch : Option (Bool × Bool × CockpitWebService × List Effect) :=
      if command = "open" then
        (process_open env self channel options fresh).map
          (fun r => (r.1, true, r.2.1, r.2.2))
      else if command = "logout" then
        let r := process_logout env self options
        some (r.1, false, r.2.1, r.2.2)
      else if command = "close" then some (true, true, self, [])
      else if command = "ping" then some (true, false, self, [])
      else some (true, true, self, [])
    match branch with
    | none => none
    | some (valid, forward, self1, effects) =>
      if !valid then some (self1, effects ++ inbound_protocol_error env socket.connection)
      else if forward then
        match channel with
        | none =>
          some (self1, effects ++ self1.sessions.by_transport.filterMap
            (fun node =>
              if !node.2.sent_eof then
                some (Effect.cockpit_transport_send node.2.transport none payload)
              else none))
        | some channel =>
          match cockpit_session_by_channel self1.sessions channel with
          | some session =>
            if !session.sent_eof then
              some (self1, effects ++
                [Effect.cockpit_transport_send session.transport none
                  (env.json_write_bytes
                    (json_object_set_string_member options "channel" (some channel)))])
            else some (self1, effects)
          | none => some (self1, effects)
      else some (self1, effects)

/-- Handles a frame a browser sent over `connection`. -/
def on_web_socket_message (env : Env) (self : CockpitWebService)
    (connection : WebSocketConnection) (message : GBytes) (fresh : CockpitTransport) :
    Option (CockpitWebService × List Effect) :=
  match cockpit_socket_lookup_by_connection self.sockets connection with
  | none => some (self, [])
  | some socket =>
    match env.parse_frame message with
    | none => some (self, [])
    | some (none, payload) => dispatch_inbound_command env self socket payload fresh
    | some (some socket_channel, payload) =>
      if !self.closing then
        let channel := cockpit_socket_add_channel_scope socket socket_channel
        match cockpit_session_by_channel self.sessions channel with
        | some session =>
          if !session.sent_eof then
            some (self, [Effect.cockpit_transport_send session.transport (some channel)
              payload])
          else some (self, [])
        | none => some (self, [])
      else some (self, [])

/-- Handles the "closing" signal of `connection`: sends a close for every channel that was
opened by this web socket. -/
def on_web_socket_closing (env : Env) (self : CockpitWebService)
    (connection : WebSocketConnection) : List Effect :=
  let snapshot : GHashTable String CockpitTransport :=
    self.sessions.by_channel.foldl
      (fun snapshot node =>
        match cockpit_socket_lookup_by_channel self.sockets node.1 with
        | some socket =>
          if socket.connection = connection then
            g_hash_table_insert g_str_equal snapshot node.1 node.2
          else snapshot
        | none => snapshot)
      []
  snapshot.filterMap
    (fun node =>
      (cockpit_session_by_transport self.sessions node.2).map
        (fun session =>
          Effect.cockpit_transport_send session.transport none
            (env.json_write_bytes (build_control
              [("command", some "close"), ("channel", some node.1),
               ("reason", some "disconnected")]))))

/-- Handles the "close" signal of `connection`. -/
def on_web_socket_close (self : CockpitWebService) (connection : WebSocketConnection) :
    CockpitWebService × List Effect :=
  match cockpit_socket_lookup_by_connection self.sockets connection with
  | none => (self, [])
  | some socket =>
    caller_end { self with sockets := cockpit_socket_destroy self.sockets socket }

def on_ping_time (env : Env) (self : CockpitWebService) : List Effect :=
  self.sockets.by_connection.filterMap
    (fun node =>
      if env.ready_state node.1 = WebSocketState.OPEN then
        some (Effect.web_socket_connection_send node.1 control_prefix
          (env.json_write_bytes (build_control [("command", some "ping")])))
      else none)

/-- Creates the service for `creds`; `pipe` is the transport made for an open
cockpit-session master process, when there is one. -/
def cockpit_web_service_new (creds : CockpitCreds) (pipe : Option CockpitTransport) :
    CockpitWebService :=
  let self : CockpitWebService :=
    { creds := creds, sockets := cockpit_sockets_init, sessions := cockpit_sessions_init,
      closing := false, callers := 0, next_resource_id := 0 }
  match pipe with
  | none => self
  | some transport =>
    let r := cockpit_session_track self.sessions "localhost" false CredsRef.service transport
    { self with sessions := session_store r.2 { r.1 with primary := true } }

/-- Serves the web socket `connection` on the service. -/
def cockpit_web_service_socket (self : CockpitWebService)
    (connection : WebSocketConnection) : CockpitWebService :=
  caller_begin
    { self with sockets := (cockpit_socket_track self.sockets connection).2 }

def cockpit_web_service_disconnect (env : Env) (self : CockpitWebService) :
    CockpitWebService × List Effect :=
  cockpit_web_service_dispose env self

def cockpit_web_service_get_idling (self : CockpitWebService) : Bool :=
  decide (self.callers = 0)

/-! ## Resources -/

/-- The text of a `guint` printed with `"%d"`. -/
def format_d (n : Nat) : String :=
  if n < 2147483648 then Nat.repr n else "-" ++ Nat.repr (G_MAXUINT_SUCC - n)

/-- Splits `remainder` at `delim` at most `n` times, as the loop of `g_strsplit` does. -/
def g_strsplit_loop (delim : Char) : Nat → List Char → List (List Char)
  | 0, remainder => [remainder]
  | n + 1, remainder =>
    match strchr remainder delim with
    | none => [remainder]
    | some s =>
      remainder.take (remainder.length - s.length) :: g_strsplit_loop delim n s.tail

/-- The pieces `g_strsplit` returns for a delimiter of one character and a positive
`max_tokens`; the empty string has no piece. -/
def g_strsplit (string : String) (delim : Char) (max_tokens : Nat) : List String :=
  if string.data = [] then []
  else (g_strsplit_loop delim (max_tokens - 1) string.data).map String.mk

/-- The state kept while a resource is served. -/
structure ResourceResponse where
  logname : String
  response : Nat
  transport : CockpitTransport
  channel : String
  cache_forever : Bool
deriving DecidableEq, Repr

/-- Modelled from the spec: the states of a `CockpitWebResponse` (`ws/cockpitwebresponse.h`,
which is not part of the sources at hand), in the order of the enumeration: READY while no
headers were written, QUEUING while the body is streamed, COMPLETE and SENT afterwards. -/
inductive CockpitWebResponding where
  | COCKPIT_WEB_RESPONSE_READY
  | COCKPIT_WEB_RESPONSE_QUEUING
  | COCKPIT_WEB_RESPONSE_COMPLETE
  | COCKPIT_WEB_RESPONSE_SENT
deriving DecidableEq, Repr

/-- The value of the enumerator. -/
def CockpitWebResponding.toNat : CockpitWebResponding → Nat
  | COCKPIT_WEB_RESPONSE_READY => 1
  | COCKPIT_WEB_RESPONSE_QUEUING => 2
  | COCKPIT_WEB_RESPONSE_COMPLETE => 3
  | COCKPIT_WEB_RESPONSE_SENT => 4

/-- A call a resource response makes on its `CockpitWebResponse`. -/
inductive ResourceEffect where
  /-- The call `cockpit_web_response_headers (response, status, reason, length, ...)` with
  the (name, value) pairs passed before the closing null. -/
  | cockpit_web_response_headers (response : Nat) (status : Nat) (reason : String)
      (length : Int) (headers : List (String × Option String))
  /-- The call `cockpit_web_response_queue (response, payload)`. -/
  | cockpit_web_response_queue (response : Nat) (payload : GBytes)
  /-- The call `cockpit_web_response_complete (response)`. -/
  | cockpit_web_response_complete (response : Nat)
  /-- The call `cockpit_web_response_error (response, status, NULL, NULL)`. -/
  | cockpit_web_response_error (response : Nat) (status : Nat)
  /-- The call `cockpit_web_response_abort (response)`. -/
  | cockpit_web_response_abort (response : Nat)
deriving DecidableEq, Repr

/-- Ends the response; `state` is what `cockpit_web_response_get_state` returns.  The
caller has lost its signal handlers when this returns. -/
def resource_response_done (rr : ResourceResponse) (state : CockpitWebResponding)
    (problem : Option String) : List ResourceEffect :=
  if ¬ state.toNat < CockpitWebResponding.COCKPIT_WEB_RESPONSE_COMPLETE.toNat then []
  else
    match problem with
    | none =>
      (if state = CockpitWebResponding.COCKPIT_WEB_RESPONSE_READY then
         [ResourceEffect.cockpit_web_response_headers rr.response 200 "OK" 0 []]
       else []) ++ [ResourceEffect.cockpit_web_response_complete rr.response]
    | some problem =>
      if state = CockpitWebResponding.COCKPIT_WEB_RESPONSE_READY then
        if g_str_equal problem "not-found" then
          [ResourceEffect.cockpit_web_response_error rr.response 404]
        else [ResourceEffect.cockpit_web_response_error rr.response 500]
      else [ResourceEffect.cockpit_web_response_abort rr.response]

/-- Handles a data message of the transport; returns whether it was handled. -/
def on_resource_recv (rr : ResourceResponse) (state : CockpitWebResponding)
    (channel : Option String) (payload : GBytes) : Bool × List ResourceEffect :=
  if channel ≠ some rr.channel then (false, [])
  else
    (true,
     (if state = CockpitWebResponding.COCKPIT_WEB_RESPONSE_READY then
        [ResourceEffect.cockpit_web_response_headers rr.response 200 "OK" (-1)
          [("Cache-Control",
            if rr.cache_forever then some "max-age=31556926, public" else none)]]
      else []) ++ [ResourceEffect.cockpit_web_response_queue rr.response payload])

/-- Handles a control message of the transport; returns whether it was handled, whether the
signal handlers of the response are still connected, and the calls made. -/
def on_resource_control (rr : ResourceResponse) (state : CockpitWebResponding)
    (command : String) (channel : Option String) (options : JsonObject) :
    Bool × Bool × List ResourceEffect :=
  if channel ≠ some rr.channel then (false, true, [])
  else if !g_str_equal command "close" then (true, true, [])
  else
    let problem : Option String :=
      match cockpit_json_get_string options "reason" none with
      | some reason => reason
      | none => some "unknown"
    (true, false,
     resource_response_done rr state (if problem = some "" then none else problem))

/-- Handles the close of the transport. -/
def on_resource_closed (rr : ResourceResponse) (state : CockpitWebResponding)
    (problem : Option String) : List ResourceEffect :=
  resource_response_done rr state
    (if problem = none ∨ problem = some "" then some "terminated" else problem)

/-- The signals of its transport a resource response listens to. -/
inductive ResourceEvent where
  | recv (channel : Option String) (payload : GBytes)
  | control (command : String) (channel : Option String) (options : JsonObject)
  | closed (problem : Option String)

/-- The handler of the response for a signal: whether the handlers are still connected
afterwards, and the calls made. -/
def resource_event (rr : ResourceResponse) (state : CockpitWebResponding) :
    ResourceEvent → Bool × List ResourceEffect
  | ResourceEvent.recv channel payload => (true, (on_resource_recv rr state channel payload).2)
  | ResourceEvent.control command channel options =>
    (on_resource_control rr state command channel options).2
  | ResourceEvent.closed problem => (false, on_resource_closed rr state problem)

/-- The calls of a response over the signals of its transport, each with the state of the
web response when it arrives; once the handlers are disconnected no signal is handled. -/
def resource_run (rr : ResourceResponse) :
    List (CockpitWebResponding × ResourceEvent) → List ResourceEffect
  | [] => []
  | (state, ev) :: rest =>
    (resource_event rr state ev).2 ++
      (if (resource_event rr state ev).1 then resource_run rr rest else [])

def resource_response_new (self : CockpitWebService) (session : CockpitSession)
    (response : Nat) (path : String) : ResourceResponse × CockpitWebService :=
  ({ logname := path, response := response, transport := session.transport,
     channel := "0:" ++ format_d self.next_resource_id, cache_forever := false },
   { self with next_resource_id := (self.next_resource_id + 1) % G_MAXUINT_SUCC })

def resource_respond_normal (env : Env) (self : CockpitWebService) (response : Nat)
    (path : String) (remaining_path : String) (fresh : CockpitTransport) :
    Option (Bool × CockpitWebService × List Effect × Option ResourceResponse) :=
  match g_strsplit remaining_path '/' 3 with
  | [part0, part1, part2] =>
    match lookup_or_open_session_for_host env self (some part0) none CredsRef.service false
        fresh with
    | none => none
    | some (session, self1, effects) =>
      let r := resource_response_new self1 session response path
      some (true, r.2,
        effects ++ [Effect.cockpit_transport_send r.1.transport none
          (env.json_write_bytes (build_control
            [("command", some "open"), ("channel", some r.1.channel),
             ("payload", some "resource1"), ("module", some part1),
             ("path", some part2)]))],
        some r.1)
  | _ => some (false, self, [], none)

def resource_respond_checksum (env : Env) (self : CockpitWebService) (response : Nat)
    (path : String) (remaining_path : String) :
    Bool × CockpitWebService × List Effect × Option ResourceResponse :=
  match g_strsplit remaining_path '/' 2 with
  | [part0, part1] =>
    match self.sessions.by_transport.find?
        (fun node => (g_hash_table_lookup g_str_equal node.2.checksums part0).isSome) with
    | none => (false, self, [], none)
    | some node =>
      let module_ := g_hash_table_lookup g_str_equal node.2.checksums part0
      let r := resource_response_new self node.2 response path
      (true, r.2,
        [Effect.cockpit_transport_send r.1.transport none
          (env.json_write_bytes (build_control
            [("command", some "open"), ("channel", some r.1.channel),
             ("payload", some "resource1"), ("module", module_),
             ("path", some part1)]))],
        some { r.1 with cache_forever := true })
  | _ => (false, self, [], none)

/-- Serves the request of `response` for `path`. -/
def cockpit_web_service_resource (env : Env) (self : CockpitWebService) (response : Nat)
    (path : String) (fresh : CockpitTransport) :
    Option (CockpitWebService × List Effect × Option ResourceResponse) :=
  let normal : Option (Bool × CockpitWebService × List Effect × Option ResourceResponse) :=
    if "/res/".data.isPrefixOf path.data then
      resource_respond_normal env self response path ⟨path.data.drop 5⟩ fresh
    else some (false, self, [], none)
  match normal with
  | none => none
  | some r1 =>
    let r2 : Bool × CockpitWebService × List Effect × Option ResourceResponse :=
      if "/cache/".data.isPrefixOf path.data then
        let c := resource_respond_checksum env r1.2.1 response path ⟨path.data.drop 7⟩
        (c.1, c.2.1, r1.2.2.1 ++ c.2.2.1, c.2.2.2)
      else r1
    some (r2.2.1,
      r2.2.2.1 ++ (if !r2.1 then [Effect.cockpit_web_response_error response 404] else []),
      r2.2.2.2)

/-- Starts listing the modules of `host`. -/
def cockpit_web_service_modules (env : Env) (self : CockpitWebService)
    (host : Option String) (fresh : CockpitTransport) :
    Option (CockpitWebService × List Effect × String) :=
  match lookup_or_open_session_for_host env self host none CredsRef.service false fresh with
  | none => none
  | some (session, self1, effects) =>
    let channel := "0:" ++ format_d self1.next_resource_id
    some ({ self1 with next_resource_id := (self1.next_resource_id + 1) % G_MAXUINT_SUCC },
      effects ++ [Effect.cockpit_transport_send session.transport none
        (env.json_write_bytes (build_control
          [("command", some "open"), ("channel", some channel),
           ("payload", some "resource1")]))],
      channel)

/-! ## The memfd reader of `common/cockpitmemfdread.c` -/

/-- The seal `F_SEAL_SHRINK` of `<fcntl.h>`. -/
def F_SEAL_SHRINK : Nat := 2

/-- The seal `F_SEAL_GROW` of `<fcntl.h>`. -/
def F_SEAL_GROW : Nat := 4

/-- The seal `F_SEAL_WRITE` of `<fcntl.h>`. -/
def F_SEAL_WRITE : Nat := 8

/-- The limit `INT_MAX`. -/
def INT_MAX : Int := 2147483647

/-- What the system calls of `common/cockpitmemfdread.c` return. -/
structure MemfdSys where
  /-- The call `fcntl (fd, F_GET_SEALS)`: the seals, or `none` for -1. -/
  fcntl_get_seals : Int → Option Nat
  /-- The call `fstat (fd, &buf)`: `buf.st_size` when it returns 0, `none` otherwise. -/
  fstat_size : Int → Option Int
  /-- The call `pread (fd, content, count, 0)`: the bytes read, or `none` for -1. -/
  pread : Int → Int → Option (List Nat)
  /-- The call `g_getenv (envvar)`. -/
  g_getenv : String → Option String
  /-- The call `strtol (fd_str, &end, 10)`: the value and the text left at `end`. -/
  strtol : String → Int × String

/-- The error that `g_set_error` stores. -/
inductive MemfdError where
  /-- "could not query seals on fd". -/
  | query_seals
  /-- "memfd fd has incorrect seals set", with the expected seals that are set. -/
  | incorrect_seals (seals : Nat)
  /-- "Failed to stat memfd". -/
  | stat_failed
  /-- "memfd must not be empty". -/
  | empty
  /-- "failed to read memfd". -/
  | read_failed
  /-- "memfd changed size", from the size of `fstat` to the size read. -/
  | changed_size (size : Int) (s : Int)
  /-- "invalid value for environment variable". -/
  | invalid_value (fd_str : String)
deriving DecidableEq, Repr

/-- Reads the content of a sealed memfd: the bytes of the returned buffer, which ends in a
NUL, or the error set. -/
def cockpit_memfd_read (sys : MemfdSys) (fd : Int) : Except MemfdError (List Nat) :=
  match sys.fcntl_get_seals fd with
  | none => Except.error MemfdError.query_seals
  | some seals =>
    let expected_seals := F_SEAL_WRITE ||| F_SEAL_GROW ||| F_SEAL_SHRINK
    if seals &&& expected_seals ≠ expected_seals then
      Except.error (MemfdError.incorrect_seals (seals &&& expected_seals))
    else
      match sys.fstat_size fd with
      | none => Except.error MemfdError.stat_failed
      | some st_size =>
        if st_size < 1 then Except.error MemfdError.empty
        else
          match sys.pread fd (st_size + 1) with
          | none => Except.error MemfdError.read_failed
          | some content =>
            if (content.length : Int) ≠ st_size then
              Except.error (MemfdError.changed_size st_size content.length)
            else Except.ok (content ++ [0])

/-- A call of `cockpit_memfd_read_from_envvar` that changes the process. -/
inductive MemfdEffect where
  | g_unsetenv (envvar : String)
  | close (fd : Int)
deriving DecidableEq, Repr

/-- What `cockpit_memfd_read_from_envvar` leaves behind. -/
structure EnvvarRead where
  /-- The value returned. -/
  ret : Bool
  /-- The value stored to `*result`: `none` when nothing is stored, `some none` for null. -/
  result : Option (Option (List Nat))
  /-- The error set. -/
  error : Option MemfdError
  /-- The calls made, in program order. -/
  effects : List MemfdEffect
deriving DecidableEq, Repr

/-- Reads the memfd whose descriptor the environment variable names. -/
def cockpit_memfd_read_from_envvar (sys : MemfdSys) (envvar : String) : EnvvarRead :=
  match sys.g_getenv envvar with
  | none => { ret := true, result := some none, error := none, effects := [] }
  | some fd_str =>
    let value := (sys.strtol fd_str).1
    if (sys.strtol fd_str).2 ≠ "" ∨ value < 0 ∨ value ≥ INT_MAX then
      { ret := false, result := none, error := some (MemfdError.invalid_value fd_str),
        effects := [] }
    else
      match cockpit_memfd_read sys value with
      | Except.error e =>
        { ret := false, result := none, error := some e,
          effects := [MemfdEffect.g_unsetenv envvar, MemfdEffect.close value] }
      | Except.ok content =>
        { ret := true, result := some (some content), error := none,
          effects := [MemfdEffect.g_unsetenv envvar, MemfdEffect.close value] }

/-! ## Events and reachable states -/

/-- The events the service reacts to. -/
inductive Event where
  /-- A browser connection is accepted (`cockpit_web_service_socket`). -/
  | socket (connection : WebSocketConnection)
  /-- The "message" signal of a connection; `fresh` is the transport an open would make. -/
  | message (connection : WebSocketConnection) (message : GBytes) (fresh : CockpitTransport)
  /-- The "closing" signal of a connection. -/
  | closing (connection : WebSocketConnection)
  /-- The "close" signal of a connection. -/
  | close (connection : WebSocketConnection)
  /-- The "control" signal of a transport. -/
  | session_control (transport : CockpitTransport) (command : String)
      (channel : Option String) (options : JsonObject)
  /-- The "recv" signal of a transport. -/
  | session_recv (transport : CockpitTransport) (channel : Option String) (payload : GBytes)
  /-- The "closed" signal of a transport. -/
  | session_closed (transport : CockpitTransport) (problem : Option String)
  /-- The idle timer of the session of a transport fires. -/
  | timeout (transport : CockpitTransport)
  /-- The ping timer fires. -/
  | ping
  /-- The service is disposed from outside (`cockpit_web_service_disconnect`). -/
  | dispose
  /-- A resource is requested (`cockpit_web_service_resource`). -/
  | resource (response : Nat) (path : String) (fresh : CockpitTransport)
  /-- A module listing is requested (`cockpit_web_service_modules`). -/
  | modules (host : Option String) (fresh : CockpitTransport)

/-- The handler of an event; `none` where the C code dereferences a null pointer. -/
def step (env : Env) (self : CockpitWebService) : Event →
    Option (CockpitWebService × List Effect)
  | Event.socket connection => some (cockpit_web_service_socket self connection, [])
  | Event.message connection message fresh =>
    on_web_socket_message env self connection message fresh
  | Event.closing connection => some (self, on_web_socket_closing env self connection)
  | Event.close connection => some (on_web_socket_close self connection)
  | Event.session_control transport command channel options =>
    some (on_session_control env self transport command channel options)
  | Event.session_recv transport channel payload =>
    some (self, on_session_recv env self transport channel payload)
  | Event.session_closed transport problem =>
    some (on_session_closed env self transport problem)
  | Event.timeout transport =>
    match cockpit_session_by_transport self.sessions transport with
    | some session => some (on_timeout_cleanup_session self session)
    | none => some (self, [])
  | Event.ping => some (self, on_ping_time env self)
  | Event.dispose => some (cockpit_web_service_disconnect env self)
  | Event.resource response path fresh =>
    (cockpit_web_service_resource env self response path fresh).map
      (fun r => (r.1, r.2.1))
  | Event.modules host fresh =>
    (cockpit_web_service_modules env self host fresh).map (fun r => (r.1, r.2.1))

/-- Whether the environment can deliver the event in this state: a new connection or a new
transport is an object the tables do not hold yet, and signals only come from the
connections and transports whose handlers are connected. -/
def Event.enabled (self : CockpitWebService) : Event → Prop
  | Event.socket connection =>
    cockpit_socket_lookup_by_connection self.sockets connection = none
  | Event.message connection _ fresh =>
    cockpit_socket_lookup_by_connection self.sockets connection ≠ none ∧
    cockpit_session_by_transport self.sessions fresh = none
  | Event.closing connection =>
    cockpit_socket_lookup_by_connection self.sockets connection ≠ none
  | Event.close connection =>
    cockpit_socket_lookup_by_connection self.sockets connection ≠ none
  | Event.session_control transport _ _ _ =>
    cockpit_session_by_transport self.sessions transport ≠ none
  | Event.session_recv transport _ _ =>
    cockpit_session_by_transport self.sessions transport ≠ none
  | Event.session_closed transport _ =>
    cockpit_session_by_transport self.sessions transport ≠ none
  | Event.timeout transport =>
    ∃ session, cockpit_session_by_transport self.sessions transport = some session ∧
      session.timeout ≠ none
  | Event.ping => True
  | Event.dispose => True
  | Event.resource _ _ fresh => cockpit_session_by_transport self.sessions fresh = none
  | Event.modules _ fresh => cockpit_session_by_transport self.sessions fresh = none

/-- The states the service reaches from its creation; the index counts the browser
connections accepted so far. -/
inductive Reach : Nat → CockpitWebService → Prop where
  | init (creds : CockpitCreds) (pipe : Option CockpitTransport) :
    Reach 0 (cockpit_web_service_new creds pipe)
  | socket {n : Nat} {self : CockpitWebService} (connection : WebSocketConnection) :
    Reach n self → (Event.socket connection).enabled self →
    Reach (n + 1) (cockpit_web_service_socket self connection)
  | event {n : Nat} {self self1 : CockpitWebService} (env : Env) (ev : Event)
      (effects : List Effect) :
    Reach n self → (∀ connection, ev ≠ Event.socket connection) → ev.enabled self →
    step env self ev = some (self1, effects) → Reach n self1

/-- The states the service reaches from its creation. -/
def Reachable (self : CockpitWebService) : Prop := ∃ n, Reach n self

/-! ## Auxiliary definitions for the statements -/

/-- The number a list of decimal digits denotes, continuing from `acc`. -/
def digits_value (acc : Nat) (ds : List Char) : Nat :=
  ds.foldl (fun a c => 10 * a + (c.toNat - 48)) acc

/-- Sample credentials. -/
def sample_creds : CockpitCreds :=
  { user := "admin", password := some "secret", rhost := some "10.0.0.1", poisoned := false }

/-- Sample control payloads and what `cockpit_transport_parse_command` reads from them. -/
def sample_commands : GHashTable GBytes (String × Option String × JsonObject) :=
  [("\x7b\"command\":\"open\",\"channel\":\"a\",\"host\":\"\"\x7d",
    ("open", some "a",
      [("command", JsonNode.string "open"), ("channel", JsonNode.string "a"),
       ("host", JsonNode.string "")])),
   ("\x7b\"command\":\"open\",\"channel\":\"a\",\"host\":\"x\"\x7d",
    ("open", some "a",
      [("command", JsonNode.string "open"), ("channel", JsonNode.string "a"),
       ("host", JsonNode.string "x")])),
   ("\x7b\"command\":\"close\",\"channel\":\"a\"\x7d",
    ("close", some "a",
      [("command", JsonNode.string "close"), ("channel", JsonNode.string "a")])),
   ("\x7b\"command\":\"hello\"\x7d",
    ("hello", none, [("command", JsonNode.string "hello")]))]

/-- A sample environment: default tunables, every connection OPEN, frames split at the
first newline, control payloads read from the sample table. -/
def sample_env : Env :=
  { cockpit_ws_specific_ssh_port := 0
    cockpit_ws_agent_timeout := 30
    ready_state := fun _ => WebSocketState.OPEN
    parse_frame := fun message =>
      match strchr message.data (Char.ofNat 10) with
      | none => none
      | some rest =>
        let channel := message.data.take (message.data.length - rest.length)
        some (if channel = [] then none else some ⟨channel⟩, ⟨rest.tail⟩)
    parse_command := g_hash_table_lookup g_str_equal sample_commands
    json_write_bytes := fun object => String.intercalate "," (json_object_get_members object)
    reauthorize_type := fun _ => none
    reauthorize_user := fun _ => none
    reauthorize_crypt1 := fun _ _ => none
    is_ssh_transport := fun _ => true
    ssh_host_key := fun _ => none
    ssh_host_fingerprint := fun _ => none }

/-- The state after the handler of an event ran. -/
def run_event (env : Env) (self : CockpitWebService) (ev : Event) : CockpitWebService :=
  match step env self ev with
  | some r => r.1
  | none => self

/-- A service with a primary session after one browser connection was accepted. -/
def sample_primary_service : CockpitWebService :=
  cockpit_web_service_socket (cockpit_web_service_new sample_creds (some 0)) 7

/-- The sample service after its browser sent an open for the empty host. -/
def sample_blank_host_service : CockpitWebService :=
  run_event sample_env sample_primary_service
    (Event.message 7 "\n\x7b\"command\":\"open\",\"channel\":\"a\",\"host\":\"\"\x7d" 1)

/-- A service without primary session after two browser connections were accepted. -/
def sample_two_sockets : CockpitWebService :=
  cockpit_web_service_socket
    (cockpit_web_service_socket (cockpit_web_service_new sample_creds none) 7) 8

/-- The service with two browser connections after the first one opened channel "a" to
host "x". -/
def sample_two_sockets_busy : CockpitWebService :=
  run_event sample_env sample_two_sockets
    (Event.message 7 "\n\x7b\"command\":\"open\",\"channel\":\"a\",\"host\":\"x\"\x7d" 1)

/-- A service that was disposed right after its creation. -/
def sample_closing_service : CockpitWebService :=
  run_event sample_env (cockpit_web_service_new sample_creds none) Event.dispose

/-- The session of host "x" in `sample_two_sockets_busy`, with the one channel "1:a". -/
def sample_session_x : CockpitSession :=
  { host := "x", primary := false, private_ := false, channels := [("1:a", ())],
    transport := 1, sent_eof := false, timeout := none, creds := CredsRef.service,
    checksums := [] }

/-- The keys of the nodes of a table, in table order. -/
def table_keys {K V : Type} (t : GHashTable K V) : List K := t.map Prod.fst

/-- The channel is an element of the `channels` set of the session. -/
def session_has_channel (session : CockpitSession) (channel : String) : Prop :=
  g_hash_table_lookup g_str_equal session.channels channel = some ()

/-- Consistency of the three session indexes. -/
structure SessionsInv (sessions : CockpitSessions) : Prop where
  /-- Every transport is a key of `by_transport` at most once. -/
  transports_nodup : (table_keys sessions.by_transport).Nodup
  /-- Every channel is a key of `by_channel` at most once. -/
  channels_nodup : (table_keys sessions.by_channel).Nodup
  /-- Every host is a key of `by_host` at most once. -/
  hosts_nodup : (table_keys sessions.by_host).Nodup
  /-- A session is owned under its own transport, and its channel set has no duplicates. -/
  owned : ∀ t session,
    g_hash_table_lookup g_direct_equal sessions.by_transport t = some session →
    session.transport = t ∧ (table_keys session.channels).Nodup
  /-- A channel maps to a session exactly when that session is tracked and has the channel
  in its set. -/
  index : ∀ ch t,
    g_hash_table_lookup g_str_equal sessions.by_channel ch = some t ↔
    ∃ session, g_hash_table_lookup g_direct_equal sessions.by_transport t = some session ∧
      session_has_channel session ch
  /-- A host maps to a tracked, non-private session of that host. -/
  hosts : ∀ h t,
    g_hash_table_lookup g_str_equal sessions.by_host h = some t →
    ∃ session, g_hash_table_lookup g_direct_equal sessions.by_transport t = some session ∧
      session.private_ = false ∧ session.host = h

/-- Whether the options of an open carry a non-empty string "user" or a string
"host-key". -/
def options_private (options : JsonObject) : Bool :=
  (match json_object_get_member options "user" with
   | some (JsonNode.string u) => u != ""
   | _ => false) ||
  (match json_object_get_member options "host-key" with
   | some (JsonNode.string _) => true
   | _ => false)

/-- Consistency of the two socket indexes after `n` browser connections were accepted. -/
structure SocketsInv (n : Nat) (sockets : CockpitSockets) : Prop where
  /-- The counter is `n + 1` modulo the range of a `guint`. -/
  next : sockets.next_scope_id = (n + 1) % G_MAXUINT_SUCC
  /-- Every connection is a key of `by_connection` at most once. -/
  connections_nodup : (table_keys sockets.by_connection).Nodup
  /-- Every scope is a key of `by_scope` at most once. -/
  scopes_nodup : (table_keys sockets.by_scope).Nodup
  /-- Every key of `by_scope` is a printed counter value. -/
  keys_scopes : ∀ key ∈ table_keys sockets.by_scope, ∃ m, key = scope_of_id m
  /-- A socket is owned under its own connection and has the scope of one of the `n`
  connections accepted. -/
  owned : ∀ c socket,
    g_hash_table_lookup g_direct_equal sockets.by_connection c = some socket →
    socket.connection = c ∧
    ∃ k, 1 ≤ k ∧ k ≤ n ∧ socket.scope = scope_of_id (k % G_MAXUINT_SUCC)
  /-- The scope of a tracked socket maps to that socket. -/
  scope_maps : ∀ c socket,
    g_hash_table_lookup g_direct_equal sockets.by_connection c = some socket →
    g_hash_table_lookup g_str_equal sockets.by_scope socket.scope = some c
  /-- A scope maps to a tracked socket with that scope. -/
  scopes : ∀ key c,
    g_hash_table_lookup g_str_equal sockets.by_scope key = some c →
    ∃ socket, g_hash_table_lookup g_direct_equal sockets.by_connection c = some socket ∧
      socket.scope = key

/-- The sample service in which the first accepted connection, 0, is still open and the
scope counter has the value `m`. -/
def wrap_service (m : Nat) : CockpitWebService :=
  { creds := sample_creds
    sockets :=
      { by_scope := [(scope_of_id 1, 0)]
        by_connection := [(0, { scope := scope_of_id 1, connection := 0 })]
        next_scope_id := m }
    sessions := cockpit_sessions_init
    closing := false
    callers := 1
    next_resource_id := 0 }

/-- The service after connection 0 stayed open while `2 ^ 32` further connections were
accepted, the last of which, 1, is still open. -/
def wrapped_service : CockpitWebService :=
  cockpit_web_service_socket (wrap_service 1) 1

/-- Whether the effect is a `cockpit_transport_send`. -/
def Effect.is_transport_send : Effect → Bool
  | Effect.cockpit_transport_send _ _ _ => true
  | _ => false

/-- The forwarding step of `dispatch_inbound_command` for a command with a channel. -/
def forward_with_channel (env : Env) (self : CockpitWebService) (options : JsonObject)
    (channel : String) : List Effect :=
  match cockpit_session_by_channel self.sessions channel with
  | some session =>
    if !session.sent_eof then
      [Effect.cockpit_transport_send session.transport none
        (env.json_write_bytes
          (json_object_set_string_member options "channel" (some channel)))]
    else []
  | none => []

/-- The socket `on_session_closed` tells about the close of a channel: the socket found by
the scope of the channel, when its connection is OPEN. -/
def open_owner (env : Env) (sockets : CockpitSockets) (channel : String) :
    Option CockpitSocket :=
  match cockpit_socket_lookup_by_channel sockets channel with
  | some socket =>
    if env.ready_state socket.connection = WebSocketState.OPEN then some socket else none
  | none => none

/-- The sample service in which the first accepted connection, 0, is still open and has
channel "a" open to host "x", and the scope counter has the value `m`. -/
def wrap_service_busy (m : Nat) : CockpitWebService :=
  { wrap_service m with
    sessions :=
      { by_host := [("x", 1)]
        by_channel := [("1:a", 1)]
        by_transport := [(1, sample_session_x)] } }

/-- The service after connection 0 opened channel "a" and stayed open while `2 ^ 32`
further connections were accepted, the last of which, 1, is still open. -/
def wrapped_service_busy : CockpitWebService :=
  cockpit_web_service_socket (wrap_service_busy 1) 1

/-- How a handler may change the channel set and the idle timer of a session that stays
tracked, from `S` to `S1`: both stay as they are; or the session has a channel and no timer
afterwards; or a channel was removed from a session that had one, and the timer is armed
with `agent_timeout` when no channel is left; or the timer fired. -/
def TimerChange (agent_timeout : Int) (fired : Prop) (S S1 : CockpitSession) : Prop :=
  (S1.channels = S.channels ∧ S1.timeout = S.timeout) ∨
  (S1.channels ≠ [] ∧ S1.timeout = none) ∨
  (S.channels ≠ [] ∧
    S1.timeout = if S1.channels = [] then some agent_timeout else S.timeout) ∨
  (fired ∧ S1.channels = S.channels ∧ S1.timeout = none)

/-- How a handler may change the channel sets and the idle timers of the sessions from the
tables `s` to the tables `s1`: a session that is new in `by_transport` has no timer, and a
session that stays changes as `TimerChange` says. -/
def TimerStep (agent_timeout : Int) (fired : CockpitTransport → Prop)
    (s s1 : CockpitSessions) : Prop :=
  ∀ t S1, cockpit_session_by_transport s1 t = some S1 →
    (cockpit_session_by_transport s t = none ∧ S1.timeout = none) ∨
    ∃ S, cockpit_session_by_transport s t = some S ∧ TimerChange agent_timeout (fired t) S S1

/-- A service without primary session after a request for a resource of host "x". -/
def sample_resource_service : CockpitWebService :=
  run_event sample_env (cockpit_web_service_new sample_creds none)
    (Event.resource 5 "/res/x/mod/file" 1)

/-- A service without primary session after a module listing for host "x". -/
def sample_modules_service : CockpitWebService :=
  run_event sample_env (cockpit_web_service_new sample_creds none)
    (Event.modules (some "x") 1)

/-- The name of the signal the effect emits, if it is an emission. -/
def Effect.signal : Effect → Option String
  | Effect.g_signal_emit s => some s
  | _ => none

/-- The handler left `closing`, `callers` and the socket tables alone and emitted no
signal. -/
def Quiet (self self1 : CockpitWebService) (effects : List Effect) : Prop :=
  self1.closing = self.closing ∧ self1.callers = self.callers ∧
  self1.sockets = self.sockets ∧ ∀ e ∈ effects, e.signal = none

/-- The handler ended in a dispose: before it, `closing`, `callers` and the socket tables
were left alone and no signal was emitted. -/
def Disposing (env : Env) (self self1 : CockpitWebService) (effects : List Effect) : Prop :=
  ∃ (s : CockpitWebService) (before : List Effect),
    s.closing = self.closing ∧ s.callers = self.callers ∧ s.sockets = self.sockets ∧
    (∀ e ∈ before, e.signal = none) ∧
    self1 = (cockpit_web_service_dispose env s).1 ∧
    effects = before ++ (cockpit_web_service_dispose env s).2

/-- A service that was disposed right after its creation and then got a request for a
resource of host "x". -/
def sample_closing_resource_service : CockpitWebService :=
  run_event sample_env sample_closing_service (Event.resource 5 "/res/x/mod/file" 1)

/-- The caller count matches the connection table: every connection is a key of
`by_connection` once, a socket is owned under its own connection, and `callers` is the
number of sockets. -/
structure CallersInv (self : CockpitWebService) : Prop where
  /-- Every connection is a key of `by_connection` at most once. -/
  connections_nodup : (table_keys self.sockets.by_connection).Nodup
  /-- The counter is the number of sockets. -/
  count : self.callers = (g_hash_table_size self.sockets.by_connection : Int)

/-- The text of a member as the sample encoder with values prints it. -/
def json_print_member (node : String × JsonNode) : String :=
  node.1 ++ "=" ++
    (match node.2 with
     | JsonNode.string s => s
     | _ => "?")

/-- The sample environment with an encoder that prints the names and the string values of
the members. -/
def sample_env_values : Env :=
  { sample_env with
    json_write_bytes := fun object => String.intercalate "," (object.map json_print_member) }

/-- The service with two browser connections and channel "a" open after a dispose. -/
def sample_disposed_busy : CockpitWebService :=
  run_event sample_env sample_two_sockets_busy Event.dispose

/-- Whether the scope of the channel resolves to the socket of `connection`. -/
def channel_of_connection (sockets : CockpitSockets) (connection : WebSocketConnection)
    (channel : String) : Bool :=
  decide ((cockpit_socket_lookup_by_channel sockets channel).map
    (fun socket => socket.connection) = some connection)

/-- The sample environment with an encoder that prints values and with challenges of the
form "type:user:rest". -/
def sample_env_authorize : Env :=
  { sample_env_values with
    reauthorize_type := fun challenge => (g_strsplit challenge ':' 3).head?
    reauthorize_user := fun challenge => (g_strsplit challenge ':' 3).tail.head? }

/-- The primary session of `sample_primary_service`. -/
def sample_primary_session : CockpitSession :=
  { host := "localhost", primary := true, private_ := false, channels := [],
    transport := 0, sent_eof := false, timeout := none, creds := CredsRef.service,
    checksums := [] }

/-- The checksum that `process_resources` reads for a module of `resources`: the string
member "checksum" of the object the member `module_` holds, if there is one. -/
def module_checksum (resources : JsonObject) (module_ : String) : Option String :=
  (json_object_get_object_member resources module_).bind
    (fun details => (cockpit_json_get_string details "checksum" none).bind id)

/-- One step of the loop of `process_resources`, for the checksum `g` reads per module. -/
def checksums_step (g : String → Option String) (checksums : GHashTable String String)
    (module_ : String) : GHashTable String String :=
  match g module_ with
  | some checksum => g_hash_table_insert g_str_equal checksums checksum module_
  | none => checksums

/-- Sample resources: two modules with the same checksum, one with another and one without
checksum. -/
def sample_resources : JsonObject :=
  [("m1", JsonNode.object [("checksum", JsonNode.string "aa")]),
   ("m2", JsonNode.object [("checksum", JsonNode.string "bb")]),
   ("m3", JsonNode.object [("checksum", JsonNode.string "aa")]),
   ("m4", JsonNode.object [("version", JsonNode.string "1")]),
   ("m5", JsonNode.string "aa")]

/-- The hash in the words of the specification: the fold of `h * 33 + byte`, the byte read
as a signed 8-bit number, modulo `2 ^ 32`, from 5381. -/
def spec_scope_hash (bytes : List Nat) : Int :=
  bytes.foldl (fun h b => (h * 33 + signed_char b) % 4294967296) 5381

/-- The sample environment with the test-only ssh port set. -/
def sample_env_port : Env :=
  { sample_env with cockpit_ws_specific_ssh_port := 2222 }

/-- The service with two browser connections after each of them opened channel "a" to the
empty host. -/
def sample_two_blank_hosts : CockpitWebService :=
  run_event sample_env
    (run_event sample_env sample_two_sockets
      (Event.message 7 "\n\x7b\"command\":\"open\",\"channel\":\"a\",\"host\":\"\"\x7d" 1))
    (Event.message 8 "\n\x7b\"command\":\"open\",\"channel\":\"a\",\"host\":\"\"\x7d" 2)

/-- The sample environment in which every control payload of a browser reads as an open of
channel "a" without further options. -/
def sample_env_local : Env :=
  { sample_env with parse_command := fun _ => some ("open", some "a", []) }

/-- A service with a primary session and two browser connections, the first of which has
channel "a" open to host "x" and the second of which has channel "a" open to the primary
session. -/
def sample_primary_busy : CockpitWebService :=
  run_event sample_env_local
    (run_event sample_env (cockpit_web_service_socket sample_primary_service 8)
      (Event.message 7 "\n\x7b\"command\":\"open\",\"channel\":\"a\",\"host\":\"x\"\x7d" 1))
    (Event.message 8 "\nopen" 2)

/-- The sample service after the agent of the primary session closed its one channel. -/
def sample_primary_idle : CockpitWebService :=
  run_event sample_env sample_primary_busy (Event.session_control 0 "close" (some "2:a") [])

/-- The sample service after the idle timer of the primary session fired. -/
def sample_primary_timed_out : CockpitWebService :=
  run_event sample_env sample_primary_idle (Event.timeout 0)

/-- The service with two sessions after the agent of the first closed its channel with the
resources of module "mod1" and the agent of the second closed its channel with the
resources of module "mod2", both with the checksum "abc". -/
def sample_two_checksums : CockpitWebService :=
  run_event sample_env
    (run_event sample_env sample_two_blank_hosts
      (Event.session_control 1 "close" (some "1:a")
        [("resources",
          JsonNode.object [("mod1", JsonNode.object [("checksum", JsonNode.string "abc")])])]))
    (Event.session_control 2 "close" (some "2:a")
      [("resources",
        JsonNode.object [("mod2", JsonNode.object [("checksum", JsonNode.string "abc")])])])

/-- Whether the call ends the web response: complete, error or abort. -/
def ResourceEffect.is_outcome : ResourceEffect → Bool
  | ResourceEffect.cockpit_web_response_complete _ => true
  | ResourceEffect.cockpit_web_response_error _ _ => true
  | ResourceEffect.cockpit_web_response_abort _ => true
  | _ => false

/-- Whether the signal makes the response end: a close control on its channel, or the close
of the transport. -/
def ResourceEvent.terminates (rr : ResourceResponse) : ResourceEvent → Bool
  | ResourceEvent.recv _ _ => false
  | ResourceEvent.control command channel _ =>
    decide (channel = some rr.channel) && g_str_equal command "close"
  | ResourceEvent.closed _ => true

/-- The reason a close control carries, as `on_resource_control` reads it: null for a
missing or empty reason, "unknown" for a reason that is not a string. -/
def close_reason (options : JsonObject) : Option String :=
  match json_object_get_member options "reason" with
  | none => none
  | some (JsonNode.string r) => if r = "" then none else some r
  | some _ => some "unknown"

/-- A sample response for a request below "/res/". -/
def sample_response : ResourceResponse :=
  { logname := "/res/x/mod/file", response := 5, transport := 1, channel := "0:0",
    cache_forever := false }

/-- A sample response for a request below "/cache/". -/
def sample_cache_response : ResourceResponse :=
  { logname := "/cache/abc/foo.js", response := 5, transport := 1, channel := "0:0",
    cache_forever := true }

/-- A sample of system calls: descriptor 3 is a sealed memfd that holds "hi", descriptor 4
is a memfd without the write seal, and the variable "COCKPIT_FD" names descriptor 3 and
"OTHER_FD" descriptor 4. -/
def sample_memfd_sys : MemfdSys :=
  { fcntl_get_seals := fun fd => if fd = 3 then some 15 else if fd = 4 then some 6 else none
    fstat_size := fun fd => if fd = 3 then some 2 else none
    pread := fun fd count => if fd = 3 ∧ count = 3 then some [104, 105] else none
    g_getenv := fun envvar =>
      if envvar = "COCKPIT_FD" then some "3" else if envvar = "OTHER_FD" then some "4"
      else none
    strtol := fun s => if s = "3" then (3, "") else if s = "4" then (4, "") else (0, s) }

/-! ## Strings and scopes -/

theorem digitChar_mod_ne_colon (n : Nat) : Nat.digitChar (n % 10) ≠ ':' := by
  have h : n % 10 < 10 := Nat.mod_lt _ (by decide)
  interval_cases (n % 10) <;> decide

theorem toDigitsCore_colon (fuel : Nat) : ∀ (n : Nat) (ds : List Char),
    ':' ∉ ds → ':' ∉ Nat.toDigitsCore 10 fuel n ds := by
  induction fuel with
  | zero => intro n ds h; simpa [Nat.toDigitsCore] using h
  | succ f ih =>
    intro n ds h
    simp only [Nat.toDigitsCore]
    have hd : ':' ∉ Nat.digitChar (n % 10) :: ds := by
      simp only [List.mem_cons, not_or]
      exact ⟨fun e => digitChar_mod_ne_colon n e.symm, h⟩
    split
    · exact hd
    · exact ih _ _ hd

theorem toDigitsCore_ne_nil (fuel : Nat) : ∀ (n : Nat) (ds : List Char),
    n < fuel → Nat.toDigitsCore 10 fuel n ds ≠ [] := by
  induction fuel with
  | zero => intro n ds h; omega
  | succ f ih =>
    intro n ds hn
    simp only [Nat.toDigitsCore]
    split
    · simp
    · exact ih _ _ (by omega)

theorem digitChar_mod_toNat (n : Nat) : (Nat.digitChar (n % 10)).toNat - 48 = n % 10 := by
  have h : n % 10 < 10 := Nat.mod_lt _ (by decide)
  interval_cases (n % 10) <;> decide

theorem toDigitsCore_value (fuel : Nat) : ∀ (n : Nat) (ds : List Char),
    n < fuel → digits_value 0 (Nat.toDigitsCore 10 fuel n ds) = digits_value n ds := by
  induction fuel with
  | zero => intro n ds h; omega
  | succ f ih =>
    intro n ds hn
    simp only [Nat.toDigitsCore]
    split
    · simp only [digits_value, List.foldl_cons, digitChar_mod_toNat]
      congr 1
      omega
    · rw [ih _ _ (by omega)]
      simp only [digits_value, List.foldl_cons, digitChar_mod_toNat]
      congr 1
      omega

theorem toDigits_injective {n m : Nat} (h : Nat.toDigits 10 n = Nat.toDigits 10 m) :
    n = m := by
  have hn := toDigitsCore_value (n + 1) n [] (by omega)
  have hm := toDigitsCore_value (m + 1) m [] (by omega)
  simp only [Nat.toDigits] at h
  rw [h, hm] at hn
  simpa [digits_value] using hn.symm

theorem toDigits_colon (n : Nat) : ':' ∉ Nat.toDigits 10 n :=
  toDigitsCore_colon _ _ _ (by simp)

theorem toDigits_ne_nil (n : Nat) : Nat.toDigits 10 n ≠ [] :=
  toDigitsCore_ne_nil _ _ _ (by omega)

theorem strchr_append {p : List Char} {c : Char} (r : List Char) (h : c ∉ p) :
    strchr (p ++ c :: r) c = some (c :: r) := by
  induction p with
  | nil => simp [strchr]
  | cons x xs ih =>
    simp only [List.mem_cons, not_or] at h
    have hx : x ≠ c := fun e => h.1 e.symm
    simp [strchr, hx, ih h.2]

theorem strchr_none {s : List Char} {c : Char} (h : c ∉ s) : strchr s c = none := by
  induction s with
  | nil => rfl
  | cons x xs ih =>
    simp only [List.mem_cons, not_or] at h
    have hx : x ≠ c := fun e => h.1 e.symm
    simp [strchr, hx, ih h.2]

theorem scope_of_id_data (n : Nat) (c : String) :
    (scope_of_id n ++ c).data = Nat.toDigits 10 n ++ ':' :: c.data := by
  simp [scope_of_id, Nat.repr, String.data_append, List.asString]

theorem strchr_scope_of_id (n : Nat) (c : String) :
    strchr (scope_of_id n ++ c).data ':' = some (':' :: c.data) := by
  rw [scope_of_id_data]
  exact strchr_append _ (toDigits_colon n)

theorem remove_scope_of_id (n : Nat) (c : String) :
    cockpit_socket_remove_channel_scope (scope_of_id n ++ c) = some c := by
  unfold cockpit_socket_remove_channel_scope
  rw [strchr_scope_of_id]
  rfl

/-- C1: a control message on a channel that is unknown or owned by the session of another
transport closes the sending transport with "protocol-error", sends nothing to any browser
socket and leaves the whole service state untouched. -/
theorem on_session_control_foreign_channel (env : Env) (self : CockpitWebService)
    (transport : CockpitTransport) (command : String) (channel : String)
    (options : JsonObject)
    (h : (cockpit_session_by_channel self.sessions channel).map (fun s => s.transport)
      ≠ some transport) :
    on_session_control env self transport command (some channel) options =
      (self, [Effect.cockpit_transport_close transport (some "protocol-error")]) := by
  unfold on_session_control
  cases hs : cockpit_session_by_channel self.sessions channel with
  | none => simp [hs, outbound_protocol_error]
  | some session =>
    have ht : session.transport ≠ transport := by
      intro e
      apply h
      simp [hs, e]
    simp [hs, ht, outbound_protocol_error]

theorem on_session_control_foreign_channel_witness :
    on_session_control sample_env (cockpit_web_service_new sample_creds (some 0)) 0 "close"
      (some "1:a") [] =
      (cockpit_web_service_new sample_creds (some 0),
       [Effect.cockpit_transport_close 0 (some "protocol-error")]) :=
  on_session_control_foreign_channel sample_env _ 0 "close" "1:a" [] (by decide)

/-- C4: stripping the scope from a channel scoped by a freshly tracked socket gives back
the socket-local channel, and a string without ':' strips to null. -/
theorem remove_channel_scope_add_channel_scope (sockets : CockpitSockets)
    (connection : WebSocketConnection) (c : String) :
    cockpit_socket_remove_channel_scope
        (cockpit_socket_add_channel_scope (cockpit_socket_track sockets connection).1 c)
      = some c ∧
    ∀ g : String, ':' ∉ g.data → cockpit_socket_remove_channel_scope g = none := by
  refine ⟨?_, ?_⟩
  · simp only [cockpit_socket_add_channel_scope, cockpit_socket_track]
    exact remove_scope_of_id _ _
  · intro g hg
    simp [cockpit_socket_remove_channel_scope, strchr_none hg]

theorem remove_channel_scope_add_channel_scope_witness :
    ':' ∉ "main".data ∧ cockpit_socket_remove_channel_scope "main" = none :=
  ⟨by decide,
   (remove_channel_scope_add_channel_scope cockpit_sockets_init 0 "main").2 "main"
     (by decide)⟩

/-- C2, as stated, fails: a data message without a channel from a tracked transport is
dropped silently, the transport is not closed. -/
theorem on_session_recv_null_channel_not_closed :
    on_session_recv sample_env (cockpit_web_service_new sample_creds (some 0)) 0 none "x"
      = [] ∧
    Effect.cockpit_transport_close 0 (some "protocol-error") ∉
      on_session_recv sample_env (cockpit_web_service_new sample_creds (some 0)) 0 none
        "x" := by
  decide

/-- C2, amended: a data message whose channel is unknown or owned by the session of
another transport closes the sending transport with "protocol-error" and forwards nothing;
a data message without a channel is dropped without any effect. -/
theorem on_session_recv_foreign_channel (env : Env) (self : CockpitWebService)
    (transport : CockpitTransport) (payload : GBytes) :
    on_session_recv env self transport none payload = [] ∧
    ∀ channel : String,
      (cockpit_session_by_channel self.sessions channel).map (fun s => s.transport)
        ≠ some transport →
      on_session_recv env self transport (some channel) payload =
        [Effect.cockpit_transport_close transport (some "protocol-error")] := by
  refine ⟨rfl, ?_⟩
  intro channel h
  unfold on_session_recv
  cases hs : cockpit_session_by_channel self.sessions channel with
  | none => simp [hs, outbound_protocol_error]
  | some session =>
    have ht : session.transport ≠ transport := by
      intro e
      apply h
      simp [hs, e]
    simp [hs, ht, outbound_protocol_error]

theorem on_session_recv_foreign_channel_witness :
    on_session_recv sample_env (cockpit_web_service_new sample_creds (some 0)) 0
      (some "1:a") "x" = [Effect.cockpit_transport_close 0 (some "protocol-error")] :=
  (on_session_recv_foreign_channel sample_env _ 0 "x").2 "1:a" (by decide)

/-- C10: a data frame with socket-local channel `c` and payload `P` from a tracked socket
leaves the service state untouched; it causes exactly one transport send, of `P` on the
scoped channel to the transport of the session owning that channel, when the service is not
closing and that session exists and has not sent EOF, and no effect at all otherwise. -/
theorem on_web_socket_message_data (env : Env) (self : CockpitWebService)
    (connection : WebSocketConnection) (message : GBytes) (fresh : CockpitTransport)
    (socket : CockpitSocket) (c : String) (P : GBytes)
    (hsocket : cockpit_socket_lookup_by_connection self.sockets connection = some socket)
    (hframe : env.parse_frame message = some (some c, P)) :
    ∃ effects : List Effect,
      on_web_socket_message env self connection message fresh = some (self, effects) ∧
      (∀ session : CockpitSession,
        self.closing = false →
        cockpit_session_by_channel self.sessions
          (cockpit_socket_add_channel_scope socket c) = some session →
        session.sent_eof = false →
        effects = [Effect.cockpit_transport_send session.transport
          (some (cockpit_socket_add_channel_scope socket c)) P]) ∧
      ((self.closing = true ∨
        cockpit_session_by_channel self.sessions
          (cockpit_socket_add_channel_scope socket c) = none ∨
        ∃ session : CockpitSession,
          cockpit_session_by_channel self.sessions
            (cockpit_socket_add_channel_scope socket c) = some session ∧
          session.sent_eof = true) →
        effects = []) := by
  unfold on_web_socket_message
  simp only [hsocket, hframe]
  cases hc : self.closing with
  | true => exact ⟨[], by simp⟩
  | false =>
    cases hs : cockpit_session_by_channel self.sessions
        (cockpit_socket_add_channel_scope socket c) with
    | none => exact ⟨[], by simp⟩
    | some session =>
      cases he : session.sent_eof with
      | true => exact ⟨[], by simp [he]⟩
      | false =>
        refine ⟨_, by simp [he]; rfl, ?_, ?_⟩
        · intro session1 _ h1 _
          cases h1
          rfl
        · intro h
          rcases h with h | h | ⟨session1, h1, h2⟩
          · cases h
          · cases h
          · cases h1
            rw [he] at h2
            cases h2

theorem on_web_socket_message_data_witness :
    (∃ effects : List Effect,
      on_web_socket_message sample_env sample_two_sockets_busy 7 "a\nhello" 2 =
        some (sample_two_sockets_busy, effects) ∧
      effects = [Effect.cockpit_transport_send 1 (some "1:a") "hello"]) ∧
    (∃ effects : List Effect,
      on_web_socket_message sample_env sample_two_sockets_busy 8 "a\nhello" 2 =
        some (sample_two_sockets_busy, effects) ∧
      effects = []) ∧
    (∃ effects : List Effect,
      on_web_socket_message sample_env sample_disposed_busy 7 "a\nhello" 2 =
        some (sample_disposed_busy, effects) ∧
      effects = []) :=
  ⟨(on_web_socket_message_data sample_env sample_two_sockets_busy 7 "a\nhello" 2
      ⟨"1:", 7⟩ "a" "hello" (by decide) (by decide)).elim
      fun effects he =>
        ⟨effects, he.1, he.2.1 sample_session_x (by decide) (by decide) rfl⟩,
   (on_web_socket_message_data sample_env sample_two_sockets_busy 8 "a\nhello" 2
      ⟨"2:", 8⟩ "a" "hello" (by decide) (by decide)).elim
      fun effects he => ⟨effects, he.1, he.2.2 (Or.inr (Or.inl (by decide)))⟩,
   (on_web_socket_message_data sample_env sample_disposed_busy 7 "a\nhello" 2
      ⟨"1:", 7⟩ "a" "hello" (by decide) (by decide)).elim
      fun effects he => ⟨effects, he.1, he.2.2 (Or.inl (by decide))⟩⟩

/-! ## Hash tables keyed by strings and by handles -/

theorem g_str_equal_iff (a b : String) : g_str_equal a b = true ↔ a = b := by
  simp [g_str_equal]

theorem g_direct_equal_iff (a b : Nat) : g_direct_equal a b = true ↔ a = b := by
  simp [g_direct_equal]

theorem lookup_insert {K V : Type} [DecidableEq K] (eq : K → K → Bool)
    (heq : ∀ a b, eq a b = true ↔ a = b) (t : GHashTable K V) (k : K) (v : V) (k1 : K) :
    g_hash_table_lookup eq (g_hash_table_insert eq t k v) k1 =
      if k = k1 then some v else g_hash_table_lookup eq t k1 := by
  induction t with
  | nil =>
    by_cases h : k = k1
    · simp [g_hash_table_insert, g_hash_table_lookup, h, (heq k1 k1).2 rfl]
    · have : ¬ eq k k1 = true := fun e => h ((heq _ _).1 e)
      simp [g_hash_table_insert, g_hash_table_lookup, h, this]
  | cons node rest ih =>
    obtain ⟨k0, v0⟩ := node
    simp only [g_hash_table_insert]
    by_cases h0 : k0 = k
    · subst h0
      simp only [(heq k0 k0).2 rfl, if_true, g_hash_table_lookup]
      by_cases h1 : k0 = k1
      · simp [h1, (heq k1 k1).2 rfl]
      · have : ¬ eq k0 k1 = true := fun e => h1 ((heq _ _).1 e)
        simp [h1, this]
    · have h0b : ¬ eq k0 k = true := fun e => h0 ((heq _ _).1 e)
      simp only [h0b, g_hash_table_lookup, ih]
      by_cases h1 : k0 = k1
      · subst h1
        have : ¬ k = k0 := fun e => h0 e.symm
        simp [(heq k0 k0).2 rfl, this]
      · have : ¬ eq k0 k1 = true := fun e => h1 ((heq _ _).1 e)
        simp [this]

theorem lookup_eq_none_iff {K V : Type} [DecidableEq K] (eq : K → K → Bool)
    (heq : ∀ a b, eq a b = true ↔ a = b) (t : GHashTable K V) (k : K) :
    g_hash_table_lookup eq t k = none ↔ k ∉ table_keys t := by
  induction t with
  | nil => simp [g_hash_table_lookup, table_keys]
  | cons node rest ih =>
    obtain ⟨k0, v0⟩ := node
    by_cases h0 : k0 = k
    · subst h0
      simp [g_hash_table_lookup, table_keys, (heq k0 k0).2 rfl]
    · have h0b : ¬ eq k0 k = true := fun e => h0 ((heq _ _).1 e)
      have : ¬ k = k0 := fun e => h0 e.symm
      simpa [g_hash_table_lookup, table_keys, h0b, this] using ih

theorem keys_insert {K V : Type} [DecidableEq K] (eq : K → K → Bool)
    (heq : ∀ a b, eq a b = true ↔ a = b) (t : GHashTable K V) (k : K) (v : V) :
    table_keys (g_hash_table_insert eq t k v) =
      if k ∈ table_keys t then table_keys t else table_keys t ++ [k] := by
  induction t with
  | nil => simp [g_hash_table_insert, table_keys]
  | cons node rest ih =>
    obtain ⟨k0, v0⟩ := node
    by_cases h0 : k0 = k
    · subst h0
      simp [g_hash_table_insert, table_keys, (heq k0 k0).2 rfl]
    · have h0b : ¬ eq k0 k = true := fun e => h0 ((heq _ _).1 e)
      have : ¬ k = k0 := fun e => h0 e.symm
      simp only [g_hash_table_insert, h0b, table_keys, List.map_cons, List.mem_cons, this,
        false_or] at ih ⊢
      simp only [Bool.false_eq_true, if_false, List.map_cons, ih]
      split <;> simp

theorem keys_insert_nodup {K V : Type} [DecidableEq K] (eq : K → K → Bool)
    (heq : ∀ a b, eq a b = true ↔ a = b) (t : GHashTable K V) (k : K) (v : V)
    (h : (table_keys t).Nodup) : (table_keys (g_hash_table_insert eq t k v)).Nodup := by
  rw [keys_insert eq heq]
  split
  · exact h
  · rename_i hk
    exact List.Nodup.append h (by simp) (by simpa using hk)

theorem lookup_remove {K V : Type} [DecidableEq K] (eq : K → K → Bool)
    (heq : ∀ a b, eq a b = true ↔ a = b) (t : GHashTable K V) (k k1 : K)
    (h : (table_keys t).Nodup) :
    g_hash_table_lookup eq (g_hash_table_remove eq t k) k1 =
      if k = k1 then none else g_hash_table_lookup eq t k1 := by
  induction t with
  | nil => simp [g_hash_table_remove, g_hash_table_lookup]
  | cons node rest ih =>
    obtain ⟨k0, v0⟩ := node
    simp only [table_keys, List.map_cons, List.nodup_cons] at h
    by_cases h0 : k0 = k
    · subst h0
      simp only [g_hash_table_remove, (heq k0 k0).2 rfl, if_true]
      by_cases h1 : k0 = k1
      · subst h1
        simpa using (lookup_eq_none_iff eq heq rest k0).2 h.1
      · have : ¬ eq k0 k1 = true := fun e => h1 ((heq _ _).1 e)
        simp [h1, g_hash_table_lookup, this]
    · have h0b : ¬ eq k0 k = true := fun e => h0 ((heq _ _).1 e)
      simp only [g_hash_table_remove, h0b, g_hash_table_lookup, ih h.2]
      by_cases h1 : k0 = k1
      · subst h1
        have : ¬ k = k0 := fun e => h0 e.symm
        simp [(heq k0 k0).2 rfl, this]
      · have : ¬ eq k0 k1 = true := fun e => h1 ((heq _ _).1 e)
        simp [this]

theorem keys_remove_sublist {K V : Type} (eq : K → K → Bool) (t : GHashTable K V) (k : K) :
    (table_keys (g_hash_table_remove eq t k)).Sublist (table_keys t) := by
  induction t with
  | nil => simp [g_hash_table_remove, table_keys]
  | cons node rest ih =>
    obtain ⟨k0, v0⟩ := node
    simp only [g_hash_table_remove]
    split
    · simp [table_keys]
    · simpa [table_keys] using ih

theorem keys_remove_nodup {K V : Type} (eq : K → K → Bool) (t : GHashTable K V) (k : K)
    (h : (table_keys t).Nodup) : (table_keys (g_hash_table_remove eq t k)).Nodup :=
  List.Nodup.sublist (keys_remove_sublist eq t k) h

/-! ## The session indexes stay consistent -/

theorem lookup_map_values {K V : Type} (eq : K → K → Bool) (f : V → V) (t : GHashTable K V)
    (k : K) :
    g_hash_table_lookup eq (t.map (fun node => (node.1, f node.2))) k =
      (g_hash_table_lookup eq t k).map f := by
  induction t with
  | nil => rfl
  | cons node rest ih =>
    simp only [List.map_cons, g_hash_table_lookup]
    split <;> simp [ih]

theorem keys_map_values {K V : Type} (f : K × V → V) (t : GHashTable K V) :
    table_keys (t.map (fun node => (node.1, f node))) = table_keys t := by
  simp [table_keys, List.map_map, Function.comp_def]

theorem session_store_by_transport (sessions : CockpitSessions) (session : CockpitSession) :
    (session_store sessions session).by_transport =
      sessions.by_transport.map
        (fun node => (node.1, if node.1 = session.transport then session else node.2)) := by
  simp only [session_store]
  apply List.map_congr_left
  intro node _
  split <;> rfl

theorem lookup_store (sessions : CockpitSessions) (session : CockpitSession)
    (t : CockpitTransport) :
    g_hash_table_lookup g_direct_equal (session_store sessions session).by_transport t =
      if t = session.transport then
        (g_hash_table_lookup g_direct_equal sessions.by_transport t).map (fun _ => session)
      else g_hash_table_lookup g_direct_equal sessions.by_transport t := by
  rw [session_store_by_transport]
  generalize sessions.by_transport = tbl
  induction tbl with
  | nil => simp [g_hash_table_lookup]
  | cons node rest ih =>
    obtain ⟨k0, v0⟩ := node
    simp only [List.map_cons, g_hash_table_lookup, ih]
    by_cases h0 : k0 = t
    · subst h0
      simp [(g_direct_equal_iff k0 k0).2 rfl]
      split <;> simp
    · have h0b : ¬ g_direct_equal k0 t = true := fun e => h0 ((g_direct_equal_iff _ _).1 e)
      simp [h0b]

theorem keys_store (sessions : CockpitSessions) (session : CockpitSession) :
    table_keys (session_store sessions session).by_transport =
      table_keys sessions.by_transport := by
  rw [session_store_by_transport]
  exact keys_map_values _ _

theorem has_channel_iff_mem (session : CockpitSession) (ch : String) :
    session_has_channel session ch ↔ ch ∈ table_keys session.channels := by
  unfold session_has_channel
  have h := lookup_eq_none_iff g_str_equal g_str_equal_iff session.channels ch
  constructor
  · intro e
    by_contra hn
    rw [h.2 hn] at e
    cases e
  · intro hm
    cases hl : g_hash_table_lookup g_str_equal session.channels ch with
    | none => exact absurd hm (h.1 hl)
    | some u => rfl

theorem inv_init : SessionsInv cockpit_sessions_init := by
  constructor <;> simp [cockpit_sessions_init, table_keys, g_hash_table_lookup]

theorem inv_update {s : CockpitSessions} (hs : SessionsInv s) (new old : CockpitSession)
    (bc : GHashTable String CockpitTransport)
    (hold : g_hash_table_lookup g_direct_equal s.by_transport new.transport = some old)
    (hpriv : new.private_ = old.private_) (hhost : new.host = old.host)
    (hnd : (table_keys new.channels).Nodup) (hbc : (table_keys bc).Nodup)
    (hidx : ∀ ch t, g_hash_table_lookup g_str_equal bc ch = some t ↔
      (t = new.transport ∧ session_has_channel new ch) ∨
      (t ≠ new.transport ∧ g_hash_table_lookup g_str_equal s.by_channel ch = some t)) :
    SessionsInv (session_store { s with by_channel := bc } new) := by
  have hL : ∀ t, g_hash_table_lookup g_direct_equal
      (session_store { s with by_channel := bc } new).by_transport t =
      if t = new.transport then some new
      else g_hash_table_lookup g_direct_equal s.by_transport t := by
    intro t
    rw [lookup_store]
    by_cases h : t = new.transport
    · subst h
      simp [hold]
    · simp [h]
  constructor
  · rw [keys_store]; exact hs.transports_nodup
  · exact hbc
  · exact hs.hosts_nodup
  · intro t session h
    rw [hL] at h
    by_cases ht : t = new.transport
    · simp only [ht, if_true, Option.some.injEq] at h
      subst h
      exact ⟨ht.symm, hnd⟩
    · simp only [ht, if_false] at h
      exact hs.owned t session h
  · intro ch t
    show g_hash_table_lookup g_str_equal bc ch = some t ↔ _
    rw [hidx]
    by_cases ht : t = new.transport
    · simp only [ht, true_and, ne_eq, not_true_eq_false, false_and, or_false, hL, if_true,
        Option.some.injEq]
      constructor
      · intro h; exact ⟨new, rfl, h⟩
      · rintro ⟨session, e, h⟩; rw [← e] at h; exact h
    · simp only [ht, false_and, ne_eq, not_false_eq_true, true_and, false_or, hL, if_false]
      exact hs.index ch t
  · intro h t hh
    have hh1 : g_hash_table_lookup g_str_equal s.by_host h = some t := hh
    obtain ⟨session, h1, h2, h3⟩ := hs.hosts h t hh1
    by_cases ht : t = new.transport
    · refine ⟨new, by rw [hL]; simp [ht], ?_, ?_⟩
      · rw [ht, hold] at h1
        cases h1
        rw [hpriv, h2]
      · rw [ht, hold] at h1
        cases h1
        rw [hhost, h3]
    · exact ⟨session, by rw [hL]; simpa [ht] using h1, h2, h3⟩

theorem sessions_eta (s : CockpitSessions) : { s with by_channel := s.by_channel } = s := rfl

theorem inv_store {s : CockpitSessions} (hs : SessionsInv s) (new old : CockpitSession)
    (hold : g_hash_table_lookup g_direct_equal s.by_transport new.transport = some old)
    (hpriv : new.private_ = old.private_) (hhost : new.host = old.host)
    (hch : new.channels = old.channels) :
    SessionsInv (session_store s new) := by
  have h := inv_update hs new old s.by_channel hold hpriv hhost
    (by rw [hch]; exact (hs.owned _ _ hold).2) hs.channels_nodup ?_
  · exact h
  · intro ch t
    rw [hs.index]
    by_cases ht : t = new.transport
    · subst ht
      simp only [hold, Option.some.injEq, exists_eq_left', true_and, ne_eq, not_true_eq_false,
        false_and, or_false]
      simp [session_has_channel, hch]
    · simp [ht]

theorem inv_add_channel {s : CockpitSessions} (hs : SessionsInv s) (session : CockpitSession)
    (channel : String)
    (hold : g_hash_table_lookup g_direct_equal s.by_transport session.transport
      = some session)
    (hfree : g_hash_table_lookup g_str_equal s.by_channel channel = none) :
    SessionsInv (cockpit_session_add_channel s session channel) := by
  unfold cockpit_session_add_channel
  refine inv_update hs _ session _ hold rfl rfl ?_ ?_ ?_
  · exact keys_insert_nodup _ g_str_equal_iff _ _ _ (hs.owned _ _ hold).2
  · exact keys_insert_nodup _ g_str_equal_iff _ _ _ hs.channels_nodup
  · intro ch t
    simp only [lookup_insert _ g_str_equal_iff, session_has_channel, g_hash_table_add]
    by_cases hc : channel = ch
    · subst hc
      simp only [if_true, Option.some.injEq, hfree, and_false, or_false, reduceCtorEq]
      constructor
      · intro e; exact ⟨e.symm, trivial⟩
      · intro e; exact e.1.symm
    · simp only [hc, if_false]
      rw [hs.index]
      by_cases ht : t = session.transport
      · subst ht
        simp [hold, session_has_channel]
      · simp [ht]

theorem inv_remove_channel {s : CockpitSessions} (hs : SessionsInv s)
    (session : CockpitSession) (channel : String) (agent_timeout : Int)
    (hold : g_hash_table_lookup g_direct_equal s.by_transport session.transport
      = some session)
    (hown : g_hash_table_lookup g_str_equal s.by_channel channel = some session.transport) :
    SessionsInv (cockpit_session_remove_channel agent_timeout s session channel) := by
  unfold cockpit_session_remove_channel
  refine inv_update hs _ session _ hold rfl rfl ?_ ?_ ?_
  · exact keys_remove_nodup _ _ _ (hs.owned _ _ hold).2
  · exact keys_remove_nodup _ _ _ hs.channels_nodup
  · intro ch t
    simp only [lookup_remove _ g_str_equal_iff _ _ _ hs.channels_nodup,
      lookup_remove _ g_str_equal_iff _ _ _ (hs.owned _ _ hold).2, session_has_channel]
    by_cases hc : channel = ch
    · subst hc
      simp only [if_true, reduceCtorEq, and_false, false_or, false_iff, not_and]
      intro hne h
      rw [hown] at h
      exact hne (Option.some.inj h).symm
    · simp only [hc, if_false]
      rw [hs.index]
      by_cases ht : t = session.transport
      · subst ht
        simp [hold, session_has_channel]
      · simp [ht]

theorem inv_track {s : CockpitSessions} (hs : SessionsInv s) (host : String)
    (private_ : Bool) (creds : CredsRef) (t : CockpitTransport)
    (hfresh : g_hash_table_lookup g_direct_equal s.by_transport t = none) :
    SessionsInv (cockpit_session_track s host private_ creds t).2 := by
  have hL : ∀ t1, g_hash_table_lookup g_direct_equal
      (cockpit_session_track s host private_ creds t).2.by_transport t1 =
      if t = t1 then some (cockpit_session_track s host private_ creds t).1
      else g_hash_table_lookup g_direct_equal s.by_transport t1 := by
    intro t1
    simp only [cockpit_session_track, lookup_insert _ g_direct_equal_iff]
  have hnew : ∀ ch, ¬ session_has_channel (cockpit_session_track s host private_ creds t).1 ch := by
    intro ch
    simp [cockpit_session_track, session_has_channel, g_hash_table_lookup]
  have hkeep : ∀ t1 session,
      g_hash_table_lookup g_direct_equal s.by_transport t1 = some session →
      g_hash_table_lookup g_direct_equal
        (cockpit_session_track s host private_ creds t).2.by_transport t1 = some session := by
    intro t1 session h
    rw [hL]
    have : t ≠ t1 := by
      intro e
      rw [← e, hfresh] at h
      cases h
    simp [this, h]
  constructor
  · exact keys_insert_nodup _ g_direct_equal_iff _ _ _ hs.transports_nodup
  · exact hs.channels_nodup
  · show (table_keys (if (!private_) = true then _ else _)).Nodup
    split
    · exact keys_insert_nodup _ g_str_equal_iff _ _ _ hs.hosts_nodup
    · exact hs.hosts_nodup
  · intro t1 session h
    rw [hL] at h
    by_cases ht : t = t1
    · simp only [ht, if_true, Option.some.injEq] at h
      subst h
      exact ⟨rfl, by simp [cockpit_session_track, table_keys]⟩
    · simp only [ht, if_false] at h
      exact hs.owned t1 session h
  · intro ch t1
    show g_hash_table_lookup g_str_equal s.by_channel ch = some t1 ↔ _
    rw [hs.index]
    by_cases ht : t = t1
    · subst ht
      simp only [hfresh, reduceCtorEq, false_and, exists_false, hL, if_true,
        Option.some.injEq, exists_eq_left', false_iff]
      exact hnew ch
    · simp only [hL, ht, if_false]
  · intro h t1 hh
    have hold : g_hash_table_lookup g_str_equal s.by_host h = some t1 →
        ∃ session, g_hash_table_lookup g_direct_equal
          (cockpit_session_track s host private_ creds t).2.by_transport t1 = some session ∧
          session.private_ = false ∧ session.host = h := by
      intro h0
      obtain ⟨session, h1, h2, h3⟩ := hs.hosts h t1 h0
      exact ⟨session, hkeep _ _ h1, h2, h3⟩
    cases hp : private_ with
    | true =>
      subst hp
      exact hold hh
    | false =>
      subst hp
      have hh1 : g_hash_table_lookup g_str_equal
          (g_hash_table_insert g_str_equal s.by_host host t) h = some t1 := hh
      rw [lookup_insert _ g_str_equal_iff] at hh1
      by_cases hk : host = h
      · simp only [hk, if_true, Option.some.injEq] at hh1
        subst hh1
        exact ⟨(cockpit_session_track s host false creds t).1, by rw [hL]; simp, rfl, hk⟩
      · simp only [hk, if_false] at hh1
        exact hold hh1

theorem lookup_foldl_remove (chans : GHashTable String Unit) :
    ∀ (bc : GHashTable String CockpitTransport), (table_keys bc).Nodup →
    (table_keys (chans.foldl
      (fun by_channel chan => g_hash_table_remove g_str_equal by_channel chan.1) bc)).Nodup ∧
    ∀ ch, g_hash_table_lookup g_str_equal (chans.foldl
      (fun by_channel chan => g_hash_table_remove g_str_equal by_channel chan.1) bc) ch =
      if ch ∈ table_keys chans then none else g_hash_table_lookup g_str_equal bc ch := by
  induction chans with
  | nil => intro bc h; exact ⟨h, by simp [table_keys]⟩
  | cons node rest ih =>
    intro bc h
    obtain ⟨h1, h2⟩ := ih (g_hash_table_remove g_str_equal bc node.1)
      (keys_remove_nodup _ _ _ h)
    refine ⟨h1, ?_⟩
    intro ch
    simp only [List.foldl_cons, h2, lookup_remove _ g_str_equal_iff _ _ _ h, table_keys,
      List.map_cons, List.mem_cons]
    by_cases hc : node.1 = ch
    · simp [hc]
    · have : ¬ ch = node.1 := fun e => hc e.symm
      simp [hc, this]

theorem inv_destroy {s : CockpitSessions} (hs : SessionsInv s) (session : CockpitSession)
    (hold : g_hash_table_lookup g_direct_equal s.by_transport session.transport
      = some session) :
    SessionsInv (cockpit_session_destroy s session) := by
  obtain ⟨hnd, hlk⟩ := lookup_foldl_remove session.channels s.by_channel hs.channels_nodup
  have hL : ∀ t1, g_hash_table_lookup g_direct_equal
      (cockpit_session_destroy s session).by_transport t1 =
      if session.transport = t1 then none
      else g_hash_table_lookup g_direct_equal s.by_transport t1 := by
    intro t1
    simp only [cockpit_session_destroy,
      lookup_remove _ g_direct_equal_iff _ _ _ hs.transports_nodup]
  constructor
  · exact keys_remove_nodup _ _ _ hs.transports_nodup
  · exact hnd
  · show (table_keys (if (!session.private_) = true then _ else _)).Nodup
    split
    · exact keys_remove_nodup _ _ _ hs.hosts_nodup
    · exact hs.hosts_nodup
  · intro t1 session1 h
    rw [hL] at h
    by_cases ht : session.transport = t1
    · simp [ht] at h
    · simp only [ht, if_false] at h
      exact hs.owned t1 session1 h
  · intro ch t1
    show g_hash_table_lookup g_str_equal (session.channels.foldl _ s.by_channel) ch = some t1 ↔ _
    rw [hlk]
    by_cases ht : session.transport = t1
    · subst ht
      simp only [hL, if_true, reduceCtorEq, false_and, exists_false, iff_false]
      intro h
      by_cases hc : ch ∈ table_keys session.channels
      · simp [hc] at h
      · simp only [hc, if_false] at h
        rw [hs.index] at h
        obtain ⟨session1, e1, e2⟩ := h
        rw [hold] at e1
        cases e1
        exact hc ((has_channel_iff_mem _ _).1 e2)
    · simp only [hL, ht, if_false]
      by_cases hc : ch ∈ table_keys session.channels
      · simp only [hc, if_true, reduceCtorEq, false_iff]
        rintro ⟨session1, e1, e2⟩
        have h1 := (hs.index ch session.transport).2
          ⟨session, hold, (has_channel_iff_mem _ _).2 hc⟩
        have h2 := (hs.index ch t1).2 ⟨session1, e1, e2⟩
        rw [h1] at h2
        exact ht (Option.some.inj h2)
      · simp only [hc, if_false]
        exact hs.index ch t1
  · intro h t1 hh
    have hne : g_hash_table_lookup g_str_equal s.by_host h = some t1 →
        (session.private_ = false → session.host ≠ h) →
        ∃ session1, g_hash_table_lookup g_direct_equal
          (cockpit_session_destroy s session).by_transport t1 = some session1 ∧
          session1.private_ = false ∧ session1.host = h := by
      intro h0 hdiff
      obtain ⟨session1, h1, h2, h3⟩ := hs.hosts h t1 h0
      refine ⟨session1, ?_, h2, h3⟩
      rw [hL]
      have : session.transport ≠ t1 := by
        intro e
        rw [← e, hold] at h1
        cases h1
        exact hdiff h2 h3
      simp [this, h1]
    cases hp : session.private_ with
    | true =>
      have hh1 : g_hash_table_lookup g_str_equal s.by_host h = some t1 := by
        simpa [cockpit_session_destroy, hp] using hh
      exact hne hh1 (by simp [hp])
    | false =>
      have hh1 : g_hash_table_lookup g_str_equal
          (g_hash_table_remove g_str_equal s.by_host session.host) h = some t1 := by
        simpa [cockpit_session_destroy, hp] using hh
      rw [lookup_remove _ g_str_equal_iff _ _ _ hs.hosts_nodup] at hh1
      by_cases hk : session.host = h
      · simp [hk] at hh1
      · simp only [hk, if_false] at hh1
        exact hne hh1 (fun _ => hk)

theorem inv_map {s : CockpitSessions} (hs : SessionsInv s)
    (f : CockpitSession → CockpitSession)
    (hf : ∀ x, (f x).transport = x.transport ∧ (f x).channels = x.channels ∧
      (f x).private_ = x.private_ ∧ (f x).host = x.host) :
    SessionsInv { s with by_transport := s.by_transport.map (fun node => (node.1, f node.2)) } := by
  have hL : ∀ t, g_hash_table_lookup g_direct_equal
      (s.by_transport.map (fun node => (node.1, f node.2))) t =
      (g_hash_table_lookup g_direct_equal s.by_transport t).map f :=
    fun t => lookup_map_values _ _ _ _
  constructor
  · show (table_keys (s.by_transport.map (fun node => (node.1, f node.2)))).Nodup
    rw [keys_map_values (fun node => f node.2)]
    exact hs.transports_nodup
  · exact hs.channels_nodup
  · exact hs.hosts_nodup
  · intro t session h
    have h1 : (g_hash_table_lookup g_direct_equal s.by_transport t).map f = some session := by
      rw [← hL]; exact h
    cases ho : g_hash_table_lookup g_direct_equal s.by_transport t with
    | none => simp [ho] at h1
    | some old =>
      simp only [ho, Option.map_some', Option.some.injEq] at h1
      subst h1
      have := hs.owned t old ho
      rw [(hf old).1, (hf old).2.1]
      exact this
  · intro ch t
    show g_hash_table_lookup g_str_equal s.by_channel ch = some t ↔
      ∃ session, g_hash_table_lookup g_direct_equal
        (s.by_transport.map (fun node => (node.1, f node.2))) t = some session ∧ _
    rw [hs.index, hL]
    constructor
    · rintro ⟨session, e1, e2⟩
      exact ⟨f session, by simp [e1], by simpa [session_has_channel, (hf session).2.1] using e2⟩
    · rintro ⟨session, e1, e2⟩
      cases ho : g_hash_table_lookup g_direct_equal s.by_transport t with
      | none => simp [ho] at e1
      | some old =>
        simp only [ho, Option.map_some', Option.some.injEq] at e1
        subst e1
        exact ⟨old, rfl, by simpa [session_has_channel, (hf old).2.1] using e2⟩
  · intro h t hh
    obtain ⟨session, h1, h2, h3⟩ := hs.hosts h t hh
    refine ⟨f session, ?_, ?_, ?_⟩
    · show g_hash_table_lookup g_direct_equal
        (s.by_transport.map (fun node => (node.1, f node.2))) t = _
      rw [hL, h1]; rfl
    · rw [(hf session).2.2.1, h2]
    · rw [(hf session).2.2.2, h3]

theorem by_channel_some {s : CockpitSessions} (hs : SessionsInv s) {ch : String}
    {session : CockpitSession} (h : cockpit_session_by_channel s ch = some session) :
    g_hash_table_lookup g_str_equal s.by_channel ch = some session.transport ∧
    g_hash_table_lookup g_direct_equal s.by_transport session.transport = some session := by
  unfold cockpit_session_by_channel cockpit_session_by_transport at h
  cases hc : g_hash_table_lookup g_str_equal s.by_channel ch with
  | none => simp [hc] at h
  | some t =>
    simp only [hc, Option.some_bind] at h
    have := (hs.owned t session h).1
    subst this
    exact ⟨rfl, h⟩

theorem by_channel_none {s : CockpitSessions} (hs : SessionsInv s) {ch : String}
    (h : cockpit_session_by_channel s ch = none) :
    g_hash_table_lookup g_str_equal s.by_channel ch = none := by
  unfold cockpit_session_by_channel cockpit_session_by_transport at h
  cases hc : g_hash_table_lookup g_str_equal s.by_channel ch with
  | none => rfl
  | some t =>
    obtain ⟨session, h1, _⟩ := (hs.index ch t).1 hc
    simp [hc, h1] at h

theorem by_host_some {s : CockpitSessions} (hs : SessionsInv s) {host : String}
    {session : CockpitSession} (h : cockpit_session_by_host s host = some session) :
    g_hash_table_lookup g_str_equal s.by_host host = some session.transport ∧
    g_hash_table_lookup g_direct_equal s.by_transport session.transport = some session := by
  unfold cockpit_session_by_host cockpit_session_by_transport at h
  cases hc : g_hash_table_lookup g_str_equal s.by_host host with
  | none => simp [hc] at h
  | some t =>
    simp only [hc, Option.some_bind] at h
    have := (hs.owned t session h).1
    subst this
    exact ⟨rfl, h⟩

theorem inv_dispose (env : Env) {self : CockpitWebService} (hs : SessionsInv self.sessions) :
    SessionsInv (cockpit_web_service_dispose env self).1.sessions :=
  inv_map hs (fun x => { x with sent_eof := true }) (fun _ => ⟨rfl, rfl, rfl, rfl⟩)

theorem track_lookup_self (s : CockpitSessions) (host : String) (private_ : Bool)
    (creds : CredsRef) (t : CockpitTransport) :
    g_hash_table_lookup g_direct_equal
      (cockpit_session_track s host private_ creds t).2.by_transport
      (cockpit_session_track s host private_ creds t).1.transport =
      some (cockpit_session_track s host private_ creds t).1 := by
  simp [cockpit_session_track, lookup_insert _ g_direct_equal_iff]

theorem lookup_or_open_spec (env : Env) {self : CockpitWebService}
    (hs : SessionsInv self.sessions) (host : Option String) (host_key : Option String)
    (creds : CredsRef) (private_ : Bool) (fresh : CockpitTransport)
    (hfresh : cockpit_session_by_transport self.sessions fresh = none)
    {session : CockpitSession} {self1 : CockpitWebService} {effects : List Effect}
    (h : lookup_or_open_session_for_host env self host host_key creds private_ fresh
      = some (session, self1, effects)) :
    SessionsInv self1.sessions ∧
    g_hash_table_lookup g_direct_equal self1.sessions.by_transport session.transport
      = some session ∧
    self1.sessions.by_channel = self.sessions.by_channel ∧
    self1.sockets = self.sockets ∧ self1.closing = self.closing ∧
    self1.callers = self.callers ∧ self1.creds = self.creds ∧
    self1.next_resource_id = self.next_resource_id := by
  unfold lookup_or_open_session_for_host at h
  simp only at h
  split at h
  · cases h
  · rename_i session0 hfound
    simp only [Option.some.injEq, Prod.mk.injEq] at h
    obtain ⟨h1, h2, _⟩ := h
    subst h1 h2
    refine ⟨hs, ?_, rfl, rfl, rfl, rfl, rfl, rfl⟩
    split at hfound
    · split at hfound
      · cases hfound
      · simp only [Option.some.injEq] at hfound
        exact (by_host_some hs hfound).2
    · cases hfound
  · simp only [Option.some.injEq, Prod.mk.injEq] at h
    obtain ⟨h1, h2, _⟩ := h
    subst h1 h2
    exact ⟨inv_track hs _ _ _ _ hfresh, track_lookup_self _ _ _ _ _, rfl, rfl, rfl, rfl, rfl,
      rfl⟩

theorem process_open_inv (env : Env) {self : CockpitWebService}
    (hs : SessionsInv self.sessions) (channel : Option String) (options : JsonObject)
    (fresh : CockpitTransport)
    (hfresh : cockpit_session_by_transport self.sessions fresh = none)
    {valid : Bool} {self1 : CockpitWebService} {effects : List Effect}
    (h : process_open env self channel options fresh = some (valid, self1, effects)) :
    SessionsInv self1.sessions ∧ self1.sockets = self.sockets := by
  unfold process_open at h
  split at h
  · simp only [Option.some.injEq, Prod.mk.injEq] at h
    obtain ⟨_, h2, _⟩ := h
    subst h2
    exact ⟨hs, rfl⟩
  · split at h
    · cases h
    · rename_i ch
      split at h
      · simp only [Option.some.injEq, Prod.mk.injEq] at h
        obtain ⟨_, h2, _⟩ := h
        subst h2
        exact ⟨hs, rfl⟩
      · rename_i hnone
        simp only at h
        split at h
        · cases h
        · rename_i session self2 effects2 hlo
          simp only [Option.some.injEq, Prod.mk.injEq] at h
          obtain ⟨_, h2, _⟩ := h
          subst h2
          obtain ⟨i1, i2, i3, i4, _⟩ := lookup_or_open_spec env hs _ _ _ _ _ hfresh hlo
          refine ⟨?_, i4⟩
          apply inv_add_channel i1 session ch i2
          rw [i3]
          apply by_channel_none hs
          simpa using hnone

theorem process_logout_inv (env : Env) {self : CockpitWebService}
    (hs : SessionsInv self.sessions) (options : JsonObject) :
    SessionsInv (process_logout env self options).2.1.sessions ∧
    (process_logout env self options).2.1.sockets = self.sockets := by
  unfold process_logout
  split
  · exact ⟨hs, rfl⟩
  · split
    · exact ⟨@inv_dispose env { self with creds := _ } hs, rfl⟩
    · exact ⟨hs, rfl⟩

theorem dispatch_inv (env : Env) {self : CockpitWebService}
    (hs : SessionsInv self.sessions) (socket : CockpitSocket) (payload : GBytes)
    (fresh : CockpitTransport)
    (hfresh : cockpit_session_by_transport self.sessions fresh = none)
    {self1 : CockpitWebService} {effects : List Effect}
    (h : dispatch_inbound_command env self socket payload fresh = some (self1, effects)) :
    SessionsInv self1.sessions ∧ self1.sockets = self.sockets := by
  unfold dispatch_inbound_command at h
  split at h
  · simp only [Option.some.injEq, Prod.mk.injEq] at h
    rw [← h.1]; exact ⟨hs, rfl⟩
  · rename_i command socket_channel options hparse
    simp only at h
    split at h
    · cases h
    · rename_i valid forward self2 effects2 hbranch
      have key : SessionsInv self2.sessions ∧ self2.sockets = self.sockets := by
        split at hbranch
        · cases ho : process_open env self
              (Option.map (cockpit_socket_add_channel_scope socket) socket_channel) options
              fresh with
          | none => simp [ho] at hbranch
          | some r =>
            obtain ⟨v, s2, e2⟩ := r
            simp only [ho, Option.map_some', Option.some.injEq, Prod.mk.injEq] at hbranch
            obtain ⟨_, _, h3, _⟩ := hbranch
            subst h3
            exact process_open_inv env hs _ _ _ hfresh ho
        · split at hbranch
          · simp only [Option.some.injEq, Prod.mk.injEq] at hbranch
            obtain ⟨_, _, h3, _⟩ := hbranch
            subst h3
            exact process_logout_inv env hs options
          · split at hbranch <;> [skip; split at hbranch] <;>
            · simp only [Option.some.injEq, Prod.mk.injEq] at hbranch
              obtain ⟨_, _, h3, _⟩ := hbranch
              subst h3
              exact ⟨hs, rfl⟩
      have hres : self1 = self2 := by
        split at h
        · simp only [Option.some.injEq, Prod.mk.injEq] at h; exact h.1.symm
        · split at h
          · split at h
            · simp only [Option.some.injEq, Prod.mk.injEq] at h; exact h.1.symm
            · split at h
              · split at h <;>
                · simp only [Option.some.injEq, Prod.mk.injEq] at h; exact h.1.symm
              · simp only [Option.some.injEq, Prod.mk.injEq] at h; exact h.1.symm
          · simp only [Option.some.injEq, Prod.mk.injEq] at h; exact h.1.symm
      rw [hres]; exact key

theorem message_inv (env : Env) {self : CockpitWebService}
    (hs : SessionsInv self.sessions) (connection : WebSocketConnection) (message : GBytes)
    (fresh : CockpitTransport)
    (hfresh : cockpit_session_by_transport self.sessions fresh = none)
    {self1 : CockpitWebService} {effects : List Effect}
    (h : on_web_socket_message env self connection message fresh = some (self1, effects)) :
    SessionsInv self1.sessions ∧ self1.sockets = self.sockets := by
  unfold on_web_socket_message at h
  split at h
  · simp only [Option.some.injEq, Prod.mk.injEq] at h
    rw [← h.1]; exact ⟨hs, rfl⟩
  · split at h
    · simp only [Option.some.injEq, Prod.mk.injEq] at h
      rw [← h.1]; exact ⟨hs, rfl⟩
    · exact dispatch_inv env hs _ _ _ hfresh h
    · have : self1 = self := by
        split at h
        · simp only at h
          split at h
          · split at h <;>
            · simp only [Option.some.injEq, Prod.mk.injEq] at h; exact h.1.symm
          · simp only [Option.some.injEq, Prod.mk.injEq] at h; exact h.1.symm
        · simp only [Option.some.injEq, Prod.mk.injEq] at h; exact h.1.symm
      rw [this]; exact ⟨hs, rfl⟩

theorem process_close_inv (env : Env) {self : CockpitWebService}
    (hs : SessionsInv self.sessions) (session : CockpitSession) (channel : String)
    (options : JsonObject)
    (hsession : cockpit_session_by_channel self.sessions channel = some session) :
    SessionsInv (process_close env self session channel options).2.sessions ∧
    (process_close env self session channel options).2.sockets = self.sockets := by
  obtain ⟨h1, h2⟩ := by_channel_some hs hsession
  refine ⟨?_, rfl⟩
  unfold process_close
  simp only
  split
  · rename_i resources _
    have hs1 : SessionsInv (session_store self.sessions
        { session with checksums := process_resources resources }) :=
      inv_store hs _ session h2 rfl rfl rfl
    apply inv_remove_channel hs1
    · rw [lookup_store]
      simp [h2]
    · exact h1
  · have hs1 : SessionsInv (session_store self.sessions session) :=
      inv_store hs _ session h2 rfl rfl rfl
    apply inv_remove_channel hs1
    · rw [lookup_store]
      simp [h2]
    · exact h1

theorem session_control_inv (env : Env) {self : CockpitWebService}
    (hs : SessionsInv self.sessions) (transport : CockpitTransport) (command : String)
    (channel : Option String) (options : JsonObject) :
    SessionsInv (on_session_control env self transport command channel options).1.sessions ∧
    (on_session_control env self transport command channel options).1.sockets
      = self.sockets := by
  unfold on_session_control
  split
  · split
    · exact ⟨hs, rfl⟩
    · split
      · exact ⟨hs, rfl⟩
      · split <;> exact ⟨hs, rfl⟩
  · rename_i ch
    split
    · exact ⟨hs, rfl⟩
    · rename_i session hsession
      split
      · exact ⟨hs, rfl⟩
      · simp only
        split
        · exact process_close_inv env hs session ch options hsession
        · exact ⟨hs, rfl⟩

theorem session_closed_inv (env : Env) {self : CockpitWebService}
    (hs : SessionsInv self.sessions) (transport : CockpitTransport)
    (problem : Option String) :
    SessionsInv (on_session_closed env self transport problem).1.sessions ∧
    (on_session_closed env self transport problem).1.sockets = self.sockets := by
  unfold on_session_closed
  split
  · exact ⟨hs, rfl⟩
  · rename_i session hsession
    have ht : session.transport = transport := (hs.owned _ _ hsession).1
    have hd : SessionsInv (cockpit_session_destroy self.sessions session) :=
      inv_destroy hs session (by rw [ht]; exact hsession)
    simp only
    split
    · exact ⟨@inv_dispose env { self with sessions := _ } hd, rfl⟩
    · exact ⟨hd, rfl⟩

theorem timeout_inv {self : CockpitWebService} (hs : SessionsInv self.sessions)
    (transport : CockpitTransport) (session : CockpitSession)
    (hsession : cockpit_session_by_transport self.sessions transport = some session) :
    SessionsInv (on_timeout_cleanup_session self session).1.sessions ∧
    (on_timeout_cleanup_session self session).1.sockets = self.sockets := by
  have ht : session.transport = transport := (hs.owned _ _ hsession).1
  refine ⟨?_, rfl⟩
  exact inv_store hs _ session (by rw [← ht] at hsession; exact hsession) rfl rfl rfl

theorem resource_inv (env : Env) {self : CockpitWebService}
    (hs : SessionsInv self.sessions) (response : Nat) (path : String)
    (fresh : CockpitTransport)
    (hfresh : cockpit_session_by_transport self.sessions fresh = none)
    {self1 : CockpitWebService} {effects : List Effect} {rr : Option ResourceResponse}
    (h : cockpit_web_service_resource env self response path fresh
      = some (self1, effects, rr)) :
    SessionsInv self1.sessions ∧ self1.sockets = self.sockets := by
  have hnormal : ∀ remaining r,
      resource_respond_normal env self response path remaining fresh = some r →
      SessionsInv r.2.1.sessions ∧ r.2.1.sockets = self.sockets := by
    intro remaining r hr
    unfold resource_respond_normal at hr
    split at hr
    · split at hr
      · cases hr
      · rename_i session self2 effects2 hlo
        simp only [Option.some.injEq] at hr
        subst hr
        obtain ⟨i1, _, _, i4, _⟩ := lookup_or_open_spec env hs _ _ _ _ _ hfresh hlo
        exact ⟨i1, i4⟩
    · simp only [Option.some.injEq] at hr
      subst hr
      exact ⟨hs, rfl⟩
  have hchecksum : ∀ (s2 : CockpitWebService) remaining, SessionsInv s2.sessions →
      SessionsInv (resource_respond_checksum env s2 response path remaining).2.1.sessions ∧
      (resource_respond_checksum env s2 response path remaining).2.1.sockets = s2.sockets := by
    intro s2 remaining h2
    unfold resource_respond_checksum
    split
    · split
      · exact ⟨h2, rfl⟩
      · exact ⟨h2, rfl⟩
    · exact ⟨h2, rfl⟩
  unfold cockpit_web_service_resource at h
  simp only at h
  split at h
  · cases h
  · rename_i r1 hr1
    have k1 : SessionsInv r1.2.1.sessions ∧ r1.2.1.sockets = self.sockets := by
      split at hr1
      · exact hnormal _ _ hr1
      · simp only [Option.some.injEq] at hr1
        subst hr1
        exact ⟨hs, rfl⟩
    simp only [Option.some.injEq, Prod.mk.injEq] at h
    obtain ⟨h1, _⟩ := h
    subst h1
    split
    · obtain ⟨c1, c2⟩ := hchecksum r1.2.1 ⟨path.data.drop 7⟩ k1.1
      exact ⟨c1, c2.trans k1.2⟩
    · exact k1

theorem modules_inv (env : Env) {self : CockpitWebService}
    (hs : SessionsInv self.sessions) (host : Option String) (fresh : CockpitTransport)
    (hfresh : cockpit_session_by_transport self.sessions fresh = none)
    {self1 : CockpitWebService} {effects : List Effect} {channel : String}
    (h : cockpit_web_service_modules env self host fresh = some (self1, effects, channel)) :
    SessionsInv self1.sessions ∧ self1.sockets = self.sockets := by
  unfold cockpit_web_service_modules at h
  split at h
  · cases h
  · rename_i session self2 effects2 hlo
    simp only [Option.some.injEq, Prod.mk.injEq] at h
    obtain ⟨h1, _⟩ := h
    subst h1
    obtain ⟨i1, _, _, i4, _⟩ := lookup_or_open_spec env hs _ _ _ _ _ hfresh hlo
    exact ⟨i1, i4⟩

theorem new_inv (creds : CockpitCreds) (pipe : Option CockpitTransport) :
    SessionsInv (cockpit_web_service_new creds pipe).sessions := by
  unfold cockpit_web_service_new
  cases pipe with
  | none => exact inv_init
  | some transport =>
    simp only
    have h1 := inv_track inv_init "localhost" false CredsRef.service transport rfl
    exact inv_store h1 _ _ (track_lookup_self _ _ _ _ _) rfl rfl rfl

theorem caller_end_fields (self : CockpitWebService) :
    (caller_end self).1.sessions = self.sessions ∧ (caller_end self).1.sockets = self.sockets := by
  unfold caller_end
  split <;> exact ⟨rfl, rfl⟩

theorem close_sessions (self : CockpitWebService) (connection : WebSocketConnection) :
    (on_web_socket_close self connection).1.sessions = self.sessions := by
  unfold on_web_socket_close
  split
  · rfl
  · exact (caller_end_fields _).1

theorem step_sessions_inv (env : Env) {self self1 : CockpitWebService} (ev : Event)
    {effects : List Effect} (hs : SessionsInv self.sessions) (hen : ev.enabled self)
    (h : step env self ev = some (self1, effects)) : SessionsInv self1.sessions := by
  cases ev with
  | socket connection =>
    simp only [step, Option.some.injEq, Prod.mk.injEq] at h
    rw [← h.1]; exact hs
  | message connection message fresh => exact (message_inv env hs _ _ _ hen.2 h).1
  | closing connection =>
    simp only [step, Option.some.injEq, Prod.mk.injEq] at h
    rw [← h.1]; exact hs
  | close connection =>
    simp only [step, Option.some.injEq] at h
    have e : _ = self1 := congrArg Prod.fst h
    rw [← e, close_sessions]; exact hs
  | session_control transport command channel options =>
    simp only [step, Option.some.injEq] at h
    have e : _ = self1 := congrArg Prod.fst h
    rw [← e]; exact (session_control_inv env hs _ _ _ _).1
  | session_recv transport channel payload =>
    simp only [step, Option.some.injEq, Prod.mk.injEq] at h
    rw [← h.1]; exact hs
  | session_closed transport problem =>
    simp only [step, Option.some.injEq] at h
    have e : _ = self1 := congrArg Prod.fst h
    rw [← e]; exact (session_closed_inv env hs _ _).1
  | timeout transport =>
    simp only [step] at h
    split at h
    · rename_i session hsession
      simp only [Option.some.injEq] at h
      have e : _ = self1 := congrArg Prod.fst h
      rw [← e]; exact (timeout_inv hs transport session hsession).1
    · simp only [Option.some.injEq, Prod.mk.injEq] at h
      rw [← h.1]; exact hs
  | ping =>
    simp only [step, Option.some.injEq, Prod.mk.injEq] at h
    rw [← h.1]; exact hs
  | dispose =>
    simp only [step, Option.some.injEq] at h
    have e : _ = self1 := congrArg Prod.fst h
    rw [← e]; exact inv_dispose env hs
  | resource response path fresh =>
    simp only [step] at h
    cases hr : cockpit_web_service_resource env self response path fresh with
    | none => simp [hr] at h
    | some r =>
      obtain ⟨s2, e2, rr⟩ := r
      simp only [hr, Option.map_some', Option.some.injEq, Prod.mk.injEq] at h
      rw [← h.1]; exact (resource_inv env hs _ _ _ hen hr).1
  | modules host fresh =>
    simp only [step] at h
    cases hr : cockpit_web_service_modules env self host fresh with
    | none => simp [hr] at h
    | some r =>
      obtain ⟨s2, e2, ch⟩ := r
      simp only [hr, Option.map_some', Option.some.injEq, Prod.mk.injEq] at h
      rw [← h.1]; exact (modules_inv env hs _ _ hen hr).1

theorem reach_sessions_inv {n : Nat} {self : CockpitWebService} (h : Reach n self) :
    SessionsInv self.sessions := by
  induction h with
  | init creds pipe => exact new_inv creds pipe
  | socket connection _ _ ih => exact ih
  | event env ev effects _ _ hen hstep ih => exact step_sessions_inv env ev ih hen hstep

/-! ## Opening channels -/

theorem add_channel_lookup {s : CockpitSessions} (hs : SessionsInv s)
    (session : CockpitSession) (channel : String)
    (hold : g_hash_table_lookup g_direct_equal s.by_transport session.transport
      = some session) :
    cockpit_session_by_channel (cockpit_session_add_channel s session channel) channel =
      some { session with
        channels := g_hash_table_add g_str_equal session.channels channel
        timeout := none } ∧
    (cockpit_session_add_channel s session channel).by_host = s.by_host ∧
    table_keys (cockpit_session_add_channel s session channel).by_transport
      = table_keys s.by_transport := by
  refine ⟨?_, rfl, ?_⟩
  · unfold cockpit_session_by_channel cockpit_session_by_transport
    have e1 : (cockpit_session_add_channel s session channel).by_channel =
        g_hash_table_insert g_str_equal s.by_channel channel session.transport := rfl
    rw [e1, lookup_insert _ g_str_equal_iff]
    simp only [if_true, Option.some_bind]
    unfold cockpit_session_add_channel
    rw [lookup_store]
    simp [hold]
  · unfold cockpit_session_add_channel
    rw [keys_store]

theorem private_flag_eq (options : JsonObject) :
    ((process_open_user options).isSome || (process_open_host_key options).isSome)
      = options_private options := by
  unfold options_private process_open_user process_open_host_key cockpit_json_get_string
  congr 1
  · cases json_object_get_member options "user" with
    | none => rfl
    | some node =>
      cases node with
      | string u => by_cases hu : u = "" <;> simp [hu]
      | _ => rfl
  · cases json_object_get_member options "host-key" with
    | none => rfl
    | some node => cases node <;> rfl

theorem lookup_or_open_total (env : Env) {self : CockpitWebService}
    (hs : SessionsInv self.sessions) (host : String) (host_key : Option String)
    (creds : CredsRef) (p : Bool) (fresh : CockpitTransport) :
    ∃ S0 self0 effects,
      lookup_or_open_session_for_host env self (some host) host_key creds p fresh
        = some (S0, self0, effects) ∧
      S0.private_ = p ∧
      (p = true → S0.transport = fresh ∧ self0.sessions.by_host = self.sessions.by_host) ∧
      (cockpit_session_by_transport self.sessions S0.transport = some S0 ∨
        S0.transport = fresh) := by
  unfold lookup_or_open_session_for_host
  cases p with
  | true =>
    simp only [Bool.not_true, Bool.false_eq_true, if_false]
    exact ⟨_, _, _, rfl, rfl, fun _ => ⟨rfl, rfl⟩, Or.inr rfl⟩
  | false =>
    simp only [Bool.not_false, if_true]
    cases hh : cockpit_session_by_host self.sessions host with
    | none => exact ⟨_, _, _, rfl, rfl, (fun e => by cases e), Or.inr rfl⟩
    | some session =>
      obtain ⟨h1, h2⟩ := by_host_some hs hh
      refine ⟨session, self, [], rfl, ?_, (fun e => by cases e), Or.inl h2⟩
      obtain ⟨session1, e1, e2, _⟩ := hs.hosts _ _ h1
      rw [h2] at e1
      cases e1
      exact e2

theorem process_open_accepted (env : Env) {self : CockpitWebService}
    (hs : SessionsInv self.sessions) (channel : String) (options : JsonObject)
    (fresh : CockpitTransport)
    (hclosing : self.closing = false)
    (hfree : cockpit_session_by_channel self.sessions channel = none)
    (hfresh : cockpit_session_by_transport self.sessions fresh = none) :
    ∃ self1 effects S,
      process_open env self (some channel) options fresh = some (true, self1, effects) ∧
      cockpit_session_by_channel self1.sessions channel = some S ∧
      S.private_ = options_private options ∧
      session_has_channel S channel ∧
      (options_private options = true →
        S.transport = fresh ∧ self1.sessions.by_host = self.sessions.by_host) ∧
      ((∃ S0, cockpit_session_by_transport self.sessions S.transport = some S0 ∧
          S0.private_ = S.private_) ∨ S.transport = fresh) := by
  unfold process_open
  simp only [hclosing, hfree, Option.isSome_none, Bool.false_eq_true, if_false]
  rw [private_flag_eq]
  generalize process_open_host options = host
  generalize process_open_host_key options = host_key
  generalize process_open_creds self options = creds
  obtain ⟨S0, self0, effects, h1, h2, h3, h4⟩ :=
    lookup_or_open_total env hs host host_key creds (options_private options) fresh
  obtain ⟨i1, i2, i3, _⟩ := lookup_or_open_spec env hs _ _ _ _ _ hfresh h1
  obtain ⟨a1, a2, _⟩ := add_channel_lookup i1 S0 channel i2
  rw [h1]
  refine ⟨_, _, _, rfl, a1, h2, ?_, ?_, ?_⟩
  · simp [session_has_channel, g_hash_table_add, lookup_insert _ g_str_equal_iff]
  · intro hp
    obtain ⟨k1, k2⟩ := h3 hp
    exact ⟨k1, by rw [← k2]; exact a2⟩
  · rcases h4 with h4 | h4
    · exact Or.inl ⟨S0, h4, rfl⟩
    · exact Or.inr h4

theorem add_channel_by_channel (s : CockpitSessions) (session : CockpitSession)
    (channel ch : String) :
    g_hash_table_lookup g_str_equal (cockpit_session_add_channel s session channel).by_channel
      ch = if channel = ch then some session.transport
        else g_hash_table_lookup g_str_equal s.by_channel ch := by
  have e1 : (cockpit_session_add_channel s session channel).by_channel =
      g_hash_table_insert g_str_equal s.by_channel channel session.transport := rfl
  rw [e1, lookup_insert _ g_str_equal_iff]

theorem add_channel_by_transport (s : CockpitSessions) (session : CockpitSession)
    (channel : String) (t : CockpitTransport)
    (hold : g_hash_table_lookup g_direct_equal s.by_transport session.transport
      = some session) :
    g_hash_table_lookup g_direct_equal
      (cockpit_session_add_channel s session channel).by_transport t =
      if t = session.transport then
        some { session with
          channels := g_hash_table_add g_str_equal session.channels channel
          timeout := none }
      else g_hash_table_lookup g_direct_equal s.by_transport t := by
  unfold cockpit_session_add_channel
  rw [lookup_store]
  by_cases h : t = session.transport
  · subst h
    simp [hold]
  · simp [h]

theorem track_keys_length (s : CockpitSessions) (host : String) (private_ : Bool)
    (creds : CredsRef) (t : CockpitTransport) :
    (table_keys (cockpit_session_track s host private_ creds t).2.by_transport).length ≤
      (table_keys s.by_transport).length + 1 := by
  simp only [cockpit_session_track, keys_insert _ g_direct_equal_iff]
  split <;> simp

/-- What `lookup_or_open_session_for_host` returns for a non-private request whose host is
left unchanged by the normalisation. -/
theorem lookup_or_open_shared (env : Env) {self : CockpitWebService}
    (hs : SessionsInv self.sessions) (H : String) (host_key : Option String)
    (creds : CredsRef) (fresh : CockpitTransport)
    (hfresh : cockpit_session_by_transport self.sessions fresh = none)
    (hH : H ≠ "") (hport : H = "localhost" → env.cockpit_ws_specific_ssh_port = 0) :
    ∃ S0 self0 effects,
      lookup_or_open_session_for_host env self (some H) host_key creds false fresh
        = some (S0, self0, effects) ∧
      cockpit_session_by_host self0.sessions H = some S0 ∧
      (table_keys self0.sessions.by_transport).length ≤
        (table_keys self.sessions.by_transport).length + 1 ∧
      (∀ t, cockpit_session_by_transport self.sessions t = none → t ≠ fresh →
        cockpit_session_by_transport self0.sessions t = none) := by
  unfold lookup_or_open_session_for_host
  simp only [Bool.not_false, if_true]
  cases hh : cockpit_session_by_host self.sessions H with
  | some session =>
    exact ⟨session, self, [], rfl, hh, Nat.le_succ _, fun t h _ => h⟩
  | none =>
    have hnorm : open_session_host env (some H) = H := by
      unfold open_session_host
      by_cases hl : H = "localhost"
      · have := hport hl
        simp [hl, this]
      · simp [hl, hH]
    simp only [hnorm]
    refine ⟨_, _, _, rfl, ?_, track_keys_length _ _ _ _ _, ?_⟩
    · unfold cockpit_session_by_host cockpit_session_by_transport
      have e1 : (cockpit_session_track self.sessions H false creds fresh).2.by_host =
          g_hash_table_insert g_str_equal self.sessions.by_host H fresh := rfl
      simp only [e1, lookup_insert _ g_str_equal_iff, if_true, Option.some_bind]
      exact track_lookup_self _ _ _ _ _
    · intro t ht hne
      unfold cockpit_session_by_transport at ht ⊢
      simp only [cockpit_session_track, lookup_insert _ g_direct_equal_iff]
      have : ¬ fresh = t := fun e => hne e.symm
      simp [this, ht]

/-- C8, amended: in a reachable state that is not closing, an open on a scoped channel
that is not yet a key of `by_channel` is accepted and attaches the channel to a session.
When the options carry a non-empty string user or a string host-key, that session is
private, was not tracked before (it is newly created over the fresh transport) and is not a
value of `by_host`.  When they carry neither, the session is not private and so differs
from every private session tracked, whatever the host. -/
theorem process_open_private_session (env : Env) {self : CockpitWebService}
    (h : Reachable self) (channel : String) (options : JsonObject) (fresh : CockpitTransport)
    (hclosing : self.closing = false)
    (hfree : cockpit_session_by_channel self.sessions channel = none)
    (hfresh : cockpit_session_by_transport self.sessions fresh = none) :
    ∃ self1 effects S,
      process_open env self (some channel) options fresh = some (true, self1, effects) ∧
      cockpit_session_by_channel self1.sessions channel = some S ∧
      session_has_channel S channel ∧
      (options_private options = true →
        S.private_ = true ∧
        cockpit_session_by_transport self.sessions S.transport = none ∧
        ∀ host, g_hash_table_lookup g_str_equal self1.sessions.by_host host
          ≠ some S.transport) ∧
      (options_private options = false →
        S.private_ = false ∧
        ∀ P, cockpit_session_by_transport self.sessions P.transport = some P →
          P.private_ = true → S.transport ≠ P.transport) := by
  obtain ⟨n, hn⟩ := h
  have hs := reach_sessions_inv hn
  obtain ⟨self1, effects, S, h1, h2, h3, h4, h5, h6⟩ :=
    process_open_accepted env hs channel options fresh hclosing hfree hfresh
  refine ⟨self1, effects, S, h1, h2, h4, ?_, ?_⟩
  · intro hp
    obtain ⟨k1, k2⟩ := h5 hp
    refine ⟨by rw [h3, hp], by rw [k1]; exact hfresh, ?_⟩
    intro host hh
    rw [k2] at hh
    obtain ⟨session, e1, _⟩ := hs.hosts _ _ hh
    rw [k1] at e1
    have : cockpit_session_by_transport self.sessions fresh = some session := e1
    rw [hfresh] at this
    cases this
  · intro hp
    refine ⟨by rw [h3, hp], ?_⟩
    intro P hP hPp e
    rcases h6 with ⟨S0, e1, e2⟩ | e1
    · rw [e, hP] at e1
      cases e1
      rw [h3, hp] at e2
      rw [hPp] at e2
      cases e2
    · rw [← e, e1, hfresh] at hP
      cases hP

theorem process_open_host_eq {options : JsonObject} {H : String}
    (h : json_object_get_member options "host" = some (JsonNode.string H)) :
    process_open_host options = H := by
  simp [process_open_host, cockpit_json_get_string, h]

theorem process_open_shared_step (env : Env) {self : CockpitWebService}
    (hs : SessionsInv self.sessions) (channel : String) (options : JsonObject) (H : String)
    (fresh : CockpitTransport)
    (hclosing : self.closing = false)
    (hhost : json_object_get_member options "host" = some (JsonNode.string H))
    (hpub : options_private options = false)
    (hH : H ≠ "") (hport : H = "localhost" → env.cockpit_ws_specific_ssh_port = 0)
    (hfree : cockpit_session_by_channel self.sessions channel = none)
    (hfresh : cockpit_session_by_transport self.sessions fresh = none) :
    ∃ self1 effects S0,
      process_open env self (some channel) options fresh = some (true, self1, effects) ∧
      SessionsInv self1.sessions ∧ self1.closing = false ∧
      g_hash_table_lookup g_str_equal self1.sessions.by_host H = some S0.transport ∧
      g_hash_table_lookup g_direct_equal self1.sessions.by_transport S0.transport
        = some S0 ∧
      (∀ ch, g_hash_table_lookup g_str_equal self1.sessions.by_channel ch =
        if channel = ch then some S0.transport
        else g_hash_table_lookup g_str_equal self.sessions.by_channel ch) ∧
      (table_keys self1.sessions.by_transport).length ≤
        (table_keys self.sessions.by_transport).length + 1 ∧
      (∀ t, cockpit_session_by_transport self.sessions t = none → t ≠ fresh →
        cockpit_session_by_transport self1.sessions t = none) ∧
      (∀ S, cockpit_session_by_host self.sessions H = some S →
        table_keys self1.sessions.by_transport = table_keys self.sessions.by_transport ∧
        S0.transport = S.transport) := by
  obtain ⟨S0, self0, effects, h1, h2, h3, h4⟩ :=
    lookup_or_open_shared env hs H (process_open_host_key options)
      (process_open_creds self options) fresh hfresh hH hport
  obtain ⟨i1, i2, i3, _, i5, _⟩ := lookup_or_open_spec env hs _ _ _ _ _ hfresh h1
  have hfree0 : g_hash_table_lookup g_str_equal self0.sessions.by_channel channel = none := by
    rw [i3]; exact by_channel_none hs hfree
  unfold process_open
  simp only [hclosing, hfree, Option.isSome_none, Bool.false_eq_true, if_false]
  rw [private_flag_eq, hpub, process_open_host_eq hhost, h1]
  refine ⟨_, _, { S0 with
      channels := g_hash_table_add g_str_equal S0.channels channel, timeout := none },
    rfl, inv_add_channel i1 S0 channel i2 hfree0, by rw [← hclosing, ← i5], ?_, ?_, ?_, ?_,
    ?_, ?_⟩
  · exact (by_host_some i1 h2).1
  · show g_hash_table_lookup g_direct_equal
      (cockpit_session_add_channel self0.sessions S0 channel).by_transport S0.transport = _
    rw [add_channel_by_transport _ _ _ _ i2]
    simp
  · intro ch
    show g_hash_table_lookup g_str_equal
      (cockpit_session_add_channel self0.sessions S0 channel).by_channel ch = _
    rw [add_channel_by_channel, i3]
  · show (table_keys (cockpit_session_add_channel self0.sessions S0 channel).by_transport).length
      ≤ _
    rw [(add_channel_lookup i1 S0 channel i2).2.2]
    exact h3
  · intro t ht hne
    have h0 := h4 t ht hne
    show g_hash_table_lookup g_direct_equal
      (cockpit_session_add_channel self0.sessions S0 channel).by_transport t = none
    rw [add_channel_by_transport _ _ _ _ i2]
    have : t ≠ S0.transport := by
      intro e
      have h0b : g_hash_table_lookup g_direct_equal self0.sessions.by_transport t = none := h0
      rw [e, i2] at h0b
      cases h0b
    simp only [this, if_false]
    exact h0
  · intro S hS
    have e : S = S0 ∧ self = self0 := by
      unfold lookup_or_open_session_for_host at h1
      simp only [Bool.not_false, if_true, hS, Option.some.injEq, Prod.mk.injEq] at h1
      exact ⟨h1.1, h1.2.1⟩
    refine ⟨?_, by rw [e.1]⟩
    show table_keys (cockpit_session_add_channel self0.sessions S0 channel).by_transport = _
    rw [(add_channel_lookup i1 S0 channel i2).2.2, e.2]

/-- C7, amended: in a reachable state that is not closing, for a host `H` that is not
empty (and not "localhost" while the test port is set), two consecutive opens without user
and host-key for `H`, on two different scoped channels that are not yet keys of
`by_channel`, are both accepted, attach both channels to the same session, and add at most
one entry to `by_transport`. -/
theorem two_opens_share_session {self : CockpitWebService} (h : Reachable self)
    (env : Env) (S1 S2 : CockpitSocket) (a b H : String) (options1 options2 : JsonObject)
    (fresh1 fresh2 : CockpitTransport)
    (hclosing : self.closing = false)
    (hhost1 : json_object_get_member options1 "host" = some (JsonNode.string H))
    (hhost2 : json_object_get_member options2 "host" = some (JsonNode.string H))
    (hpub1 : options_private options1 = false) (hpub2 : options_private options2 = false)
    (hH : H ≠ "") (hport : H = "localhost" → env.cockpit_ws_specific_ssh_port = 0)
    (hfree1 : cockpit_session_by_channel self.sessions
      (cockpit_socket_add_channel_scope S1 a) = none)
    (hfree2 : cockpit_session_by_channel self.sessions
      (cockpit_socket_add_channel_scope S2 b) = none)
    (hne : cockpit_socket_add_channel_scope S1 a ≠ cockpit_socket_add_channel_scope S2 b)
    (hfresh1 : cockpit_session_by_transport self.sessions fresh1 = none)
    (hfresh2 : cockpit_session_by_transport self.sessions fresh2 = none)
    (hfresh : fresh1 ≠ fresh2) :
    ∃ self1 effects1 self2 effects2 S,
      process_open env self (some (cockpit_socket_add_channel_scope S1 a)) options1 fresh1
        = some (true, self1, effects1) ∧
      process_open env self1 (some (cockpit_socket_add_channel_scope S2 b)) options2 fresh2
        = some (true, self2, effects2) ∧
      cockpit_session_by_channel self2.sessions (cockpit_socket_add_channel_scope S1 a)
        = some S ∧
      cockpit_session_by_channel self2.sessions (cockpit_socket_add_channel_scope S2 b)
        = some S ∧
      (table_keys self2.sessions.by_transport).length ≤
        (table_keys self.sessions.by_transport).length + 1 := by
  obtain ⟨n, hn⟩ := h
  have hs := reach_sessions_inv hn
  obtain ⟨self1, effects1, T1, p1, p2, p3, p4, p5, p6, p7, p8, _⟩ :=
    process_open_shared_step env hs _ options1 H fresh1 hclosing hhost1 hpub1 hH hport
      hfree1 hfresh1
  have hfree2b : cockpit_session_by_channel self1.sessions
      (cockpit_socket_add_channel_scope S2 b) = none := by
    unfold cockpit_session_by_channel
    rw [p6]
    simp only [hne, if_false, by_channel_none hs hfree2, Option.none_bind]
  have hfresh2b : cockpit_session_by_transport self1.sessions fresh2 = none :=
    p8 fresh2 hfresh2 (fun e => hfresh e.symm)
  have hhostS : cockpit_session_by_host self1.sessions H = some T1 := by
    unfold cockpit_session_by_host cockpit_session_by_transport
    rw [p4]
    exact p5
  obtain ⟨self2, effects2, T2, q1, q2, q3, q4, q5, q6, q7, q8, q9⟩ :=
    process_open_shared_step env p2 _ options2 H fresh2 p3 hhost2 hpub2 hH hport
      hfree2b hfresh2b
  have hT : T2.transport = T1.transport := (q9 T1 hhostS).2
  refine ⟨self1, effects1, self2, effects2, T2, p1, q1, ?_, ?_, ?_⟩
  · unfold cockpit_session_by_channel cockpit_session_by_transport
    rw [q6, p6]
    have : ¬ cockpit_socket_add_channel_scope S2 b = cockpit_socket_add_channel_scope S1 a :=
      fun e => hne e.symm
    simp only [this, if_false, if_true, Option.some_bind, ← hT]
    exact q5
  · unfold cockpit_session_by_channel cockpit_session_by_transport
    rw [q6]
    simp only [if_true, Option.some_bind]
    exact q5
  · rw [(q9 T1 hhostS).1]
    exact p7

/-- C6: in every reachable state a channel maps, in `by_channel`, to a session exactly when
that session is tracked in `by_transport` and has the channel in its `channels` set; hence
every key of `by_channel` is in the `channels` set of exactly one tracked session. -/
theorem index_consistency {self : CockpitWebService} (h : Reachable self) :
    (∀ ch S, cockpit_session_by_channel self.sessions ch = some S ↔
      (cockpit_session_by_transport self.sessions S.transport = some S ∧
        session_has_channel S ch)) ∧
    (∀ ch, ch ∈ table_keys self.sessions.by_channel →
      ∃! S, cockpit_session_by_transport self.sessions S.transport = some S ∧
        session_has_channel S ch) := by
  obtain ⟨n, hn⟩ := h
  have hs := reach_sessions_inv hn
  have hiff : ∀ ch S, cockpit_session_by_channel self.sessions ch = some S ↔
      (cockpit_session_by_transport self.sessions S.transport = some S ∧
        session_has_channel S ch) := by
    intro ch S
    constructor
    · intro hc
      obtain ⟨h1, h2⟩ := by_channel_some hs hc
      obtain ⟨session, e1, e2⟩ := (hs.index ch S.transport).1 h1
      rw [h2] at e1
      cases e1
      exact ⟨h2, e2⟩
    · rintro ⟨h1, h2⟩
      have := (hs.index ch S.transport).2 ⟨S, h1, h2⟩
      unfold cockpit_session_by_channel
      rw [this]
      exact h1
  refine ⟨hiff, ?_⟩
  intro ch hch
  cases hl : g_hash_table_lookup g_str_equal self.sessions.by_channel ch with
  | none => exact absurd hch ((lookup_eq_none_iff _ g_str_equal_iff _ _).1 hl)
  | some t =>
    obtain ⟨S, e1, e2⟩ := (hs.index ch t).1 hl
    have ht : S.transport = t := (hs.owned _ _ e1).1
    refine ⟨S, ⟨by rw [ht]; exact e1, e2⟩, ?_⟩
    rintro S1 ⟨f1, f2⟩
    have h1 := (hs.index ch S1.transport).2 ⟨S1, f1, f2⟩
    rw [hl] at h1
    have e : t = S1.transport := Option.some.inj h1
    have f3 : cockpit_session_by_transport self.sessions t = some S1 := by
      rw [e]; exact f1
    have e3 : g_hash_table_lookup g_direct_equal self.sessions.by_transport t = some S1 := f3
    rw [e1] at e3
    exact (Option.some.inj e3).symm

/-! ## Sample runs -/

theorem reach_run_event {n : Nat} {self : CockpitWebService} (env : Env) (ev : Event)
    (h : Reach n self) (hne : ∀ connection, ev ≠ Event.socket connection)
    (hen : ev.enabled self) (hsome : (step env self ev).isSome = true) :
    Reach n (run_event env self ev) := by
  unfold run_event
  cases hstep : step env self ev with
  | none => simp [hstep] at hsome
  | some r => exact Reach.event env ev r.2 h hne hen hstep

theorem sample_primary_service_reach : Reach 1 sample_primary_service :=
  Reach.socket 7 (Reach.init sample_creds (some 0)) (by unfold Event.enabled; decide)

theorem sample_blank_host_service_reach : Reach 1 sample_blank_host_service :=
  reach_run_event _ _ sample_primary_service_reach (by intro c; simp)
    (by unfold Event.enabled; decide) (by decide)

theorem sample_two_sockets_reach : Reach 2 sample_two_sockets :=
  Reach.socket 8 (Reach.socket 7 (Reach.init sample_creds none)
    (by unfold Event.enabled; decide)) (by unfold Event.enabled; decide)

theorem sample_two_sockets_busy_reach : Reach 2 sample_two_sockets_busy :=
  reach_run_event _ _ sample_two_sockets_reach (by intro c; simp)
    (by unfold Event.enabled; decide) (by decide)

theorem sample_closing_service_reach : Reach 0 sample_closing_service :=
  reach_run_event _ _ (Reach.init sample_creds none) (by intro c; simp)
    (by unfold Event.enabled; trivial) (by decide)

theorem index_consistency_witness :
    (∀ ch S, cockpit_session_by_channel sample_blank_host_service.sessions ch = some S ↔
      (cockpit_session_by_transport sample_blank_host_service.sessions S.transport = some S ∧
        session_has_channel S ch)) ∧
    (∀ ch, ch ∈ table_keys sample_blank_host_service.sessions.by_channel →
      ∃! S, cockpit_session_by_transport sample_blank_host_service.sessions S.transport
          = some S ∧
        session_has_channel S ch) :=
  index_consistency ⟨1, sample_blank_host_service_reach⟩

/-- C9, on the failing input: after a browser of a service with a primary session opens a
channel to the empty host, the primary session is tracked, not private and has the host
"localhost", but `by_host` maps "localhost" to the session of the new transport. -/
theorem blank_host_open_replaces_primary_in_by_host :
    Reachable sample_blank_host_service ∧
    (cockpit_session_by_transport sample_blank_host_service.sessions 0).map
      (fun S => (S.primary, S.private_, S.host)) = some (true, false, "localhost") ∧
    (cockpit_session_by_host sample_blank_host_service.sessions "localhost").map
      (fun S => S.transport) = some 1 :=
  ⟨⟨1, sample_blank_host_service_reach⟩, by decide, by decide⟩

/-- C8, as stated, fails: while the service is closing an open that names a user is
accepted without attaching the channel to any session. -/
theorem process_open_private_while_closing :
    Reachable sample_closing_service ∧
    options_private [("user", JsonNode.string "alice")] = true ∧
    process_open sample_env sample_closing_service (some "1:a")
      [("user", JsonNode.string "alice")] 1 = some (true, sample_closing_service, []) ∧
    cockpit_session_by_channel sample_closing_service.sessions "1:a" = none :=
  ⟨⟨0, sample_closing_service_reach⟩, by decide, by decide, by decide⟩

theorem process_open_private_session_witness :
    ∃ self1 effects S,
      process_open sample_env sample_two_sockets (some "1:a")
        [("user", JsonNode.string "alice")] 1 = some (true, self1, effects) ∧
      cockpit_session_by_channel self1.sessions "1:a" = some S ∧
      S.private_ = true :=
  have h := process_open_private_session sample_env ⟨2, sample_two_sockets_reach⟩ "1:a"
    [("user", JsonNode.string "alice")] 1 (by decide) (by decide) (by decide)
  h.elim fun self1 h1 => h1.elim fun effects h2 => h2.elim fun S h3 =>
    ⟨self1, effects, S, h3.1, h3.2.1, (h3.2.2.2.1 (by decide)).1⟩

/-- C7, as stated, fails.  (1) When the first socket already has channel "a" open to
another host, its open for host "h" is rejected, the open of the second socket makes a
session for "h", and the two channels belong to different sessions.  (2) For the empty host
both opens are accepted, but each one makes a session of its own. -/
theorem two_opens_distinct_sessions :
    (Reachable sample_two_sockets_busy ∧ sample_two_sockets_busy.closing = false ∧
     process_open sample_env sample_two_sockets_busy
       (some (cockpit_socket_add_channel_scope ⟨"1:", 7⟩ "a"))
       [("host", JsonNode.string "h")] 2 = some (false, sample_two_sockets_busy, []) ∧
     ((process_open sample_env sample_two_sockets_busy
       (some (cockpit_socket_add_channel_scope ⟨"2:", 8⟩ "b"))
       [("host", JsonNode.string "h")] 2).map (fun r =>
         ((cockpit_session_by_channel r.2.1.sessions "1:a").map
            (fun S => (S.transport, S.host)),
          (cockpit_session_by_channel r.2.1.sessions "2:b").map
            (fun S => (S.transport, S.host)))))
       = some (some (1, "x"), some (2, "h"))) ∧
    (Reachable sample_two_sockets ∧ sample_two_sockets.closing = false ∧
     (((process_open sample_env sample_two_sockets
       (some (cockpit_socket_add_channel_scope ⟨"1:", 7⟩ "a"))
       [("host", JsonNode.string "")] 1).bind (fun r1 =>
         process_open sample_env r1.2.1
           (some (cockpit_socket_add_channel_scope ⟨"2:", 8⟩ "b"))
           [("host", JsonNode.string "")] 2)).map (fun r =>
         (r.1,
          (cockpit_session_by_channel r.2.1.sessions "1:a").map (fun S => S.transport),
          (cockpit_session_by_channel r.2.1.sessions "2:b").map (fun S => S.transport),
          table_keys r.2.1.sessions.by_transport)))
       = some (true, some 1, some 2, [1, 2])) :=
  ⟨⟨⟨2, sample_two_sockets_busy_reach⟩, by decide, by decide, by decide⟩,
   ⟨⟨2, sample_two_sockets_reach⟩, by decide, by decide⟩⟩

theorem two_opens_share_session_witness :
    ∃ self1 effects1 self2 effects2 S,
      process_open sample_env sample_two_sockets
        (some (cockpit_socket_add_channel_scope ⟨"1:", 7⟩ "a"))
        [("host", JsonNode.string "h")] 1 = some (true, self1, effects1) ∧
      process_open sample_env self1
        (some (cockpit_socket_add_channel_scope ⟨"2:", 8⟩ "b"))
        [("host", JsonNode.string "h")] 2 = some (true, self2, effects2) ∧
      cockpit_session_by_channel self2.sessions
        (cockpit_socket_add_channel_scope ⟨"1:", 7⟩ "a") = some S ∧
      cockpit_session_by_channel self2.sessions
        (cockpit_socket_add_channel_scope ⟨"2:", 8⟩ "b") = some S ∧
      (table_keys self2.sessions.by_transport).length ≤
        (table_keys sample_two_sockets.sessions.by_transport).length + 1 :=
  two_opens_share_session ⟨2, sample_two_sockets_reach⟩ sample_env ⟨"1:", 7⟩ ⟨"2:", 8⟩ "a" "b"
    "h" [("host", JsonNode.string "h")] [("host", JsonNode.string "h")] 1 2 (by decide) rfl
    rfl (by decide) (by decide) (by decide) (by decide) (by decide) (by decide) (by decide)
    (by decide) (by decide) (by decide)

/-! ## The socket indexes and the scope counter -/

theorem scope_of_id_data_nil (n : Nat) :
    (scope_of_id n).data = Nat.toDigits 10 n ++ [':'] := by
  simp [scope_of_id, Nat.repr, String.data_append, List.asString]

theorem channel_scope_equal_scope (m1 m2 : Nat) (c1 c2 : String) :
    channel_scope_equal (scope_of_id m1 ++ c1) (scope_of_id m2 ++ c2) = decide (m1 = m2) := by
  unfold channel_scope_equal
  rw [strchr_scope_of_id, strchr_scope_of_id]
  simp only [scope_of_id_data, List.length_append, List.length_cons]
  have e1 : (Nat.toDigits 10 m1).length + (c1.data.length + 1) - (c1.data.length + 1)
      = (Nat.toDigits 10 m1).length := by omega
  have e2 : (Nat.toDigits 10 m2).length + (c2.data.length + 1) - (c2.data.length + 1)
      = (Nat.toDigits 10 m2).length := by omega
  rw [e1, e2]
  have hpos1 : (Nat.toDigits 10 m1).length ≠ 0 := by
    intro h; exact toDigits_ne_nil m1 (List.length_eq_zero.1 h)
  have hpos2 : (Nat.toDigits 10 m2).length ≠ 0 := by
    intro h; exact toDigits_ne_nil m2 (List.length_eq_zero.1 h)
  by_cases hm : m1 = m2
  · subst hm
    simp [hpos1]
  · have hd : Nat.toDigits 10 m1 ≠ Nat.toDigits 10 m2 := fun e => hm (toDigits_injective e)
    simp only [hm, decide_False]
    by_cases hl : (Nat.toDigits 10 m1).length = (Nat.toDigits 10 m2).length
    · have t1 : List.take (Nat.toDigits 10 m1).length (Nat.toDigits 10 m1 ++ ':' :: c1.data)
          = Nat.toDigits 10 m1 := by simp
      have t2 : List.take (Nat.toDigits 10 m1).length (Nat.toDigits 10 m2 ++ ':' :: c2.data)
          = Nat.toDigits 10 m2 := by rw [hl]; simp
      rw [t1, t2]
      simp [hd]
    · simp [hl]

theorem channel_scope_equal_scope_nil (m1 m2 : Nat) (c2 : String) :
    channel_scope_equal (scope_of_id m1) (scope_of_id m2 ++ c2) = decide (m1 = m2) := by
  have := channel_scope_equal_scope m1 m2 "" c2
  simpa using this

theorem scope_of_id_injective {m1 m2 : Nat} (h : scope_of_id m1 = scope_of_id m2) :
    m1 = m2 := by
  have h1 := channel_scope_equal_scope m1 m2 "" ""
  have h2 := channel_scope_equal_scope m1 m1 "" ""
  rw [← h] at h1
  rw [h2] at h1
  simpa using h1.symm

theorem lookup_congr {K V : Type} (eq1 eq2 : K → K → Bool) (key1 key2 : K) :
    ∀ (t : GHashTable K V), (∀ k ∈ table_keys t, eq1 k key1 = eq2 k key2) →
    g_hash_table_lookup eq1 t key1 = g_hash_table_lookup eq2 t key2 ∧
    g_hash_table_remove eq1 t key1 = g_hash_table_remove eq2 t key2 := by
  intro t
  induction t with
  | nil => intro _; exact ⟨rfl, rfl⟩
  | cons node rest ih =>
    intro h
    have h0 := h node.1 (by simp [table_keys])
    obtain ⟨i1, i2⟩ := ih (fun k hk => h k (by
      simp only [table_keys, List.map_cons, List.mem_cons]; exact Or.inr hk))
    obtain ⟨k0, v0⟩ := node
    simp only [g_hash_table_lookup, g_hash_table_remove, h0, i1, i2, and_self]

theorem insert_congr {K V : Type} (eq1 eq2 : K → K → Bool) (key : K) (v : V) :
    ∀ (t : GHashTable K V), (∀ k ∈ table_keys t, eq1 k key = eq2 k key) →
    g_hash_table_insert eq1 t key v = g_hash_table_insert eq2 t key v := by
  intro t
  induction t with
  | nil => intro _; rfl
  | cons node rest ih =>
    intro h
    have h0 := h node.1 (by simp [table_keys])
    have i1 := ih (fun k hk => h k (by
      simp only [table_keys, List.map_cons, List.mem_cons]; exact Or.inr hk))
    obtain ⟨k0, v0⟩ := node
    simp only [g_hash_table_insert, h0, i1]

theorem scope_equal_as_str_equal {V : Type} (t : GHashTable String V)
    (hkeys : ∀ key ∈ table_keys t, ∃ m, key = scope_of_id m) (m : Nat) (c : String) :
    ∀ k ∈ table_keys t,
      channel_scope_equal k (scope_of_id m ++ c) = g_str_equal k (scope_of_id m) := by
  intro k hk
  obtain ⟨m0, rfl⟩ := hkeys k hk
  rw [channel_scope_equal_scope_nil]
  unfold g_str_equal
  by_cases h : m0 = m
  · simp [h]
  · have : scope_of_id m0 ≠ scope_of_id m := fun e => h (scope_of_id_injective e)
    simp [h, this]

theorem by_scope_lookup {n : Nat} {sockets : CockpitSockets} (hs : SocketsInv n sockets)
    (m : Nat) (c : String) :
    g_hash_table_lookup channel_scope_equal sockets.by_scope (scope_of_id m ++ c) =
      g_hash_table_lookup g_str_equal sockets.by_scope (scope_of_id m) :=
  (lookup_congr _ _ _ _ _ (scope_equal_as_str_equal _ hs.keys_scopes m c)).1

theorem by_scope_remove {n : Nat} {sockets : CockpitSockets} (hs : SocketsInv n sockets)
    (m : Nat) :
    g_hash_table_remove channel_scope_equal sockets.by_scope (scope_of_id m) =
      g_hash_table_remove g_str_equal sockets.by_scope (scope_of_id m) := by
  have := (lookup_congr (V := WebSocketConnection) _ _ _ _ _
    (scope_equal_as_str_equal _ hs.keys_scopes m "")).2
  simpa using this

theorem by_scope_insert {n : Nat} {sockets : CockpitSockets} (hs : SocketsInv n sockets)
    (m : Nat) (v : WebSocketConnection) :
    g_hash_table_insert channel_scope_equal sockets.by_scope (scope_of_id m) v =
      g_hash_table_insert g_str_equal sockets.by_scope (scope_of_id m) v := by
  apply insert_congr
  have := scope_equal_as_str_equal _ hs.keys_scopes m ""
  simpa using this

theorem sockets_inv_init : SocketsInv 0 cockpit_sockets_init := by
  constructor <;> simp [cockpit_sockets_init, table_keys, g_hash_table_lookup, G_MAXUINT_SUCC]

theorem sockets_inv_track {n : Nat} {sockets : CockpitSockets} (hs : SocketsInv n sockets)
    (hn : n + 1 ≤ G_MAXUINT_SUCC) (connection : WebSocketConnection)
    (hfresh : g_hash_table_lookup g_direct_equal sockets.by_connection connection = none) :
    SocketsInv (n + 1) (cockpit_socket_track sockets connection).2 := by
  have hscope : (cockpit_socket_track sockets connection).1.scope
      = scope_of_id ((n + 1) % G_MAXUINT_SUCC) := by
    simp [cockpit_socket_track, hs.next]
  have hbs : (cockpit_socket_track sockets connection).2.by_scope =
      g_hash_table_insert g_str_equal sockets.by_scope
        (scope_of_id ((n + 1) % G_MAXUINT_SUCC)) connection := by
    simp only [cockpit_socket_track, hs.next]
    exact by_scope_insert hs _ _
  have hbc : ∀ c, g_hash_table_lookup g_direct_equal
      (cockpit_socket_track sockets connection).2.by_connection c =
      if connection = c then some (cockpit_socket_track sockets connection).1
      else g_hash_table_lookup g_direct_equal sockets.by_connection c := by
    intro c
    simp only [cockpit_socket_track, lookup_insert _ g_direct_equal_iff]
  have hdiff : ∀ k, 1 ≤ k → k ≤ n →
      scope_of_id ((n + 1) % G_MAXUINT_SUCC) ≠ scope_of_id (k % G_MAXUINT_SUCC) := by
    intro k h1 h2 e
    have := scope_of_id_injective e
    unfold G_MAXUINT_SUCC at this hn
    omega
  constructor
  · show (sockets.next_scope_id + 1) % G_MAXUINT_SUCC = _
    rw [hs.next]
    unfold G_MAXUINT_SUCC
    omega
  · exact keys_insert_nodup _ g_direct_equal_iff _ _ _ hs.connections_nodup
  · rw [hbs]
    exact keys_insert_nodup _ g_str_equal_iff _ _ _ hs.scopes_nodup
  · rw [hbs, keys_insert _ g_str_equal_iff]
    intro key hkey
    split at hkey
    · exact hs.keys_scopes key hkey
    · rcases List.mem_append.1 hkey with h | h
      · exact hs.keys_scopes key h
      · simp only [List.mem_singleton] at h
        exact ⟨_, h⟩
  · intro c socket h
    rw [hbc] at h
    by_cases hc : connection = c
    · simp only [hc, if_true, Option.some.injEq] at h
      subst h
      exact ⟨by rw [← hc]; rfl, n + 1, by omega, le_refl _, by rw [← hc]; exact hscope⟩
    · simp only [hc, if_false] at h
      obtain ⟨h1, k, h2, h3, h4⟩ := hs.owned c socket h
      exact ⟨h1, k, h2, by omega, h4⟩
  · intro c socket h
    rw [hbc] at h
    rw [hbs, lookup_insert _ g_str_equal_iff]
    by_cases hc : connection = c
    · simp only [hc, if_true, Option.some.injEq] at h
      subst h
      rw [← hc, hscope]
      simp [hc]
    · simp only [hc, if_false] at h
      obtain ⟨_, k, h2, h3, h4⟩ := hs.owned c socket h
      have := hdiff k h2 h3
      rw [h4]
      simp only [this, if_false]
      rw [← h4]
      exact hs.scope_maps c socket h
  · intro key c h
    rw [hbs, lookup_insert _ g_str_equal_iff] at h
    by_cases hk : scope_of_id ((n + 1) % G_MAXUINT_SUCC) = key
    · simp only [hk, if_true, Option.some.injEq] at h
      subst h
      exact ⟨(cockpit_socket_track sockets connection).1, by rw [hbc]; simp,
        by rw [hscope]; exact hk⟩
    · simp only [hk, if_false] at h
      obtain ⟨socket, h1, h2⟩ := hs.scopes key c h
      refine ⟨socket, ?_, h2⟩
      rw [hbc]
      have : connection ≠ c := by
        intro e
        rw [← e, hfresh] at h1
        cases h1
      simp [this, h1]

theorem sockets_inv_destroy {n : Nat} {sockets : CockpitSockets} (hs : SocketsInv n sockets)
    (connection : WebSocketConnection) (socket : CockpitSocket)
    (hsocket : g_hash_table_lookup g_direct_equal sockets.by_connection connection
      = some socket) :
    SocketsInv n (cockpit_socket_destroy sockets socket) := by
  obtain ⟨hconn, k, hk1, hk2, hscope⟩ := hs.owned _ _ hsocket
  have hbs : (cockpit_socket_destroy sockets socket).by_scope =
      g_hash_table_remove g_str_equal sockets.by_scope socket.scope := by
    simp only [cockpit_socket_destroy, hscope]
    exact by_scope_remove hs _
  have hbc : ∀ c, g_hash_table_lookup g_direct_equal
      (cockpit_socket_destroy sockets socket).by_connection c =
      if connection = c then none
      else g_hash_table_lookup g_direct_equal sockets.by_connection c := by
    intro c
    simp only [cockpit_socket_destroy, hconn,
      lookup_remove _ g_direct_equal_iff _ _ _ hs.connections_nodup]
  constructor
  · exact hs.next
  · exact keys_remove_nodup _ _ _ hs.connections_nodup
  · rw [hbs]
    exact keys_remove_nodup _ _ _ hs.scopes_nodup
  · rw [hbs]
    intro key hkey
    exact hs.keys_scopes key ((keys_remove_sublist _ _ _).subset hkey)
  · intro c socket1 h
    rw [hbc] at h
    by_cases hc : connection = c
    · simp [hc] at h
    · simp only [hc, if_false] at h
      exact hs.owned c socket1 h
  · intro c socket1 h
    rw [hbc] at h
    by_cases hc : connection = c
    · simp [hc] at h
    · simp only [hc, if_false] at h
      rw [hbs, lookup_remove _ g_str_equal_iff _ _ _ hs.scopes_nodup]
      have h1 := hs.scope_maps c socket1 h
      have h2 := hs.scope_maps connection socket hsocket
      have : socket.scope ≠ socket1.scope := by
        intro e
        rw [e, h1] at h2
        exact hc (Option.some.inj h2).symm
      simp only [this, if_false]
      exact h1
  · intro key c h
    rw [hbs, lookup_remove _ g_str_equal_iff _ _ _ hs.scopes_nodup] at h
    by_cases hk : socket.scope = key
    · simp [hk] at h
    · simp only [hk, if_false] at h
      obtain ⟨socket1, h1, h2⟩ := hs.scopes key c h
      refine ⟨socket1, ?_, h2⟩
      rw [hbc]
      have : connection ≠ c := by
        intro e
        rw [← e, hsocket] at h1
        cases h1
        exact hk h2
      simp [this, h1]

theorem step_sockets (env : Env) {self self1 : CockpitWebService} (ev : Event)
    {effects : List Effect} (hs : SessionsInv self.sessions) (hen : ev.enabled self)
    (hne : ∀ connection, ev ≠ Event.socket connection)
    (h : step env self ev = some (self1, effects)) :
    self1.sockets = self.sockets ∨
    ∃ connection socket,
      cockpit_socket_lookup_by_connection self.sockets connection = some socket ∧
      self1.sockets = cockpit_socket_destroy self.sockets socket := by
  cases ev with
  | socket connection => exact absurd rfl (hne connection)
  | message connection message fresh => exact Or.inl (message_inv env hs _ _ _ hen.2 h).2
  | closing connection =>
    simp only [step, Option.some.injEq, Prod.mk.injEq] at h
    rw [← h.1]; exact Or.inl rfl
  | close connection =>
    simp only [step, Option.some.injEq] at h
    have e : _ = self1 := congrArg Prod.fst h
    rw [← e]
    unfold on_web_socket_close
    cases hl : cockpit_socket_lookup_by_connection self.sockets connection with
    | none => exact Or.inl rfl
    | some socket => exact Or.inr ⟨connection, socket, hl, (caller_end_fields _).2⟩
  | session_control transport command channel options =>
    simp only [step, Option.some.injEq] at h
    have e : _ = self1 := congrArg Prod.fst h
    rw [← e]; exact Or.inl (session_control_inv env hs _ _ _ _).2
  | session_recv transport channel payload =>
    simp only [step, Option.some.injEq, Prod.mk.injEq] at h
    rw [← h.1]; exact Or.inl rfl
  | session_closed transport problem =>
    simp only [step, Option.some.injEq] at h
    have e : _ = self1 := congrArg Prod.fst h
    rw [← e]; exact Or.inl (session_closed_inv env hs _ _).2
  | timeout transport =>
    simp only [step] at h
    split at h
    · rename_i session hsession
      simp only [Option.some.injEq] at h
      have e : _ = self1 := congrArg Prod.fst h
      rw [← e]; exact Or.inl (timeout_inv hs transport session hsession).2
    · simp only [Option.some.injEq, Prod.mk.injEq] at h
      rw [← h.1]; exact Or.inl rfl
  | ping =>
    simp only [step, Option.some.injEq, Prod.mk.injEq] at h
    rw [← h.1]; exact Or.inl rfl
  | dispose =>
    simp only [step, Option.some.injEq] at h
    have e : _ = self1 := congrArg Prod.fst h
    rw [← e]; exact Or.inl rfl
  | resource response path fresh =>
    simp only [step] at h
    cases hr : cockpit_web_service_resource env self response path fresh with
    | none => simp [hr] at h
    | some r =>
      obtain ⟨s2, e2, rr⟩ := r
      simp only [hr, Option.map_some', Option.some.injEq, Prod.mk.injEq] at h
      rw [← h.1]; exact Or.inl (resource_inv env hs _ _ _ hen hr).2
  | modules host fresh =>
    simp only [step] at h
    cases hr : cockpit_web_service_modules env self host fresh with
    | none => simp [hr] at h
    | some r =>
      obtain ⟨s2, e2, ch⟩ := r
      simp only [hr, Option.map_some', Option.some.injEq, Prod.mk.injEq] at h
      rw [← h.1]; exact Or.inl (modules_inv env hs _ _ hen hr).2

theorem reach_sockets_inv {n : Nat} {self : CockpitWebService} (h : Reach n self) :
    n ≤ G_MAXUINT_SUCC → SocketsInv n self.sockets := by
  induction h with
  | init creds pipe =>
    intro _
    have : (cockpit_web_service_new creds pipe).sockets = cockpit_sockets_init := by
      unfold cockpit_web_service_new
      cases pipe <;> rfl
    rw [this]
    exact sockets_inv_init
  | socket connection _ hen ih =>
    intro hn
    exact sockets_inv_track (ih (by omega)) hn connection hen
  | event env ev effects hr hne hen hstep ih =>
    intro hn
    rcases step_sockets env ev (reach_sessions_inv hr) hen hne hstep with e | ⟨c, socket, h1, e⟩
    · rw [e]; exact ih hn
    · rw [e]; exact sockets_inv_destroy (ih hn) c socket h1

/-- C3, amended: in every state reached while at most 2^32 browser connections have been
accepted, for every socket `s` tracked in `by_connection` and every socket-local channel
string `c` (the empty string and strings with ':' included), looking up the scoped channel
of `s` and `c` in `by_scope` returns `s`. -/
theorem lookup_by_channel_add_channel_scope {n : Nat} {self : CockpitWebService}
    (h : Reach n self) (hn : n ≤ G_MAXUINT_SUCC) (connection : WebSocketConnection)
    (s : CockpitSocket) (c : String)
    (hs : cockpit_socket_lookup_by_connection self.sockets connection = some s) :
    cockpit_socket_lookup_by_channel self.sockets (cockpit_socket_add_channel_scope s c)
      = some s := by
  have inv := reach_sockets_inv h hn
  obtain ⟨_, k, _, _, hscope⟩ := inv.owned _ _ hs
  unfold cockpit_socket_lookup_by_channel cockpit_socket_add_channel_scope
  rw [hscope, by_scope_lookup inv, ← hscope, inv.scope_maps _ _ hs]
  exact hs

/-- C5, amended: in every state reached while at most 2^32 browser connections have been
accepted, two different tracked sockets never give the same scoped channel, whatever the
socket-local channels; and for one socket, equal scoped channels come from equal
socket-local channels. -/
theorem add_channel_scope_injective {n : Nat} {self : CockpitWebService}
    (h : Reach n self) (hn : n ≤ G_MAXUINT_SUCC) :
    (∀ (k1 k2 : WebSocketConnection) (s1 s2 : CockpitSocket) (c1 c2 : String),
      cockpit_socket_lookup_by_connection self.sockets k1 = some s1 →
      cockpit_socket_lookup_by_connection self.sockets k2 = some s2 →
      s1 ≠ s2 →
      cockpit_socket_add_channel_scope s1 c1 ≠ cockpit_socket_add_channel_scope s2 c2) ∧
    (∀ (s : CockpitSocket) (c1 c2 : String),
      cockpit_socket_add_channel_scope s c1 = cockpit_socket_add_channel_scope s c2 →
      c1 = c2) := by
  have inv := reach_sockets_inv h hn
  refine ⟨?_, ?_⟩
  · intro k1 k2 s1 s2 c1 c2 h1 h2 hne e
    obtain ⟨hc1, m1, _, _, hscope1⟩ := inv.owned _ _ h1
    obtain ⟨hc2, m2, _, _, hscope2⟩ := inv.owned _ _ h2
    unfold cockpit_socket_add_channel_scope at e
    rw [hscope1, hscope2] at e
    have hk1 := channel_scope_equal_scope (m1 % G_MAXUINT_SUCC) (m2 % G_MAXUINT_SUCC) c1 c2
    have hk2 := channel_scope_equal_scope (m2 % G_MAXUINT_SUCC) (m2 % G_MAXUINT_SUCC) c2 c2
    rw [e, hk2] at hk1
    have hm : m1 % G_MAXUINT_SUCC = m2 % G_MAXUINT_SUCC := by simpa using hk1.symm
    have hsc : s1.scope = s2.scope := by rw [hscope1, hscope2, hm]
    have m1s := inv.scope_maps _ _ h1
    have m2s := inv.scope_maps _ _ h2
    rw [hsc, m2s] at m1s
    have hkk : k2 = k1 := Option.some.inj m1s
    rw [hkk, h1] at h2
    exact hne (Option.some.inj h2)
  · intro s c1 c2 e
    unfold cockpit_socket_add_channel_scope at e
    have := congrArg String.data e
    simp only [String.data_append, List.append_cancel_left_eq] at this
    exact String.ext this

theorem wrap_service_step (m : Nat) (hm : m ≠ 1) :
    (on_web_socket_close (cockpit_web_service_socket (wrap_service m) 1) 1).1 =
      wrap_service ((m + 1) % G_MAXUINT_SUCC) := by
  have h1 : channel_scope_equal (scope_of_id 1) (scope_of_id m) = false := by
    have := channel_scope_equal_scope_nil 1 m ""
    simp only [String.append_empty] at this
    rw [this]
    simp [Ne.symm hm]
  have h2 : channel_scope_equal (scope_of_id m) (scope_of_id m) = true := by
    have := channel_scope_equal_scope_nil m m ""
    simp only [String.append_empty] at this
    rw [this]
    simp
  simp [on_web_socket_close, cockpit_web_service_socket, wrap_service, cockpit_socket_track,
    cockpit_socket_lookup_by_connection, cockpit_socket_destroy, caller_begin, caller_end,
    g_hash_table_insert, g_hash_table_lookup, g_hash_table_remove, g_direct_equal, h1, h2]

theorem wrap_service_reach_step {n m : Nat} (h : Reach n (wrap_service m)) (hm : m ≠ 1) :
    Reach (n + 1) (wrap_service ((m + 1) % G_MAXUINT_SUCC)) := by
  have hs : Reach (n + 1) (cockpit_web_service_socket (wrap_service m) 1) :=
    Reach.socket 1 h
      (by show cockpit_socket_lookup_by_connection (wrap_service m).sockets 1 = none; rfl)
  rw [← wrap_service_step m hm]
  exact Reach.event sample_env (Event.close 1)
    (on_web_socket_close (cockpit_web_service_socket (wrap_service m) 1) 1).2 hs
    (by intro c; simp)
    (by
      unfold Event.enabled
      simp [cockpit_web_service_socket, wrap_service, cockpit_socket_track, caller_begin,
        cockpit_socket_lookup_by_connection, g_hash_table_insert, g_hash_table_lookup,
        g_direct_equal])
    rfl

theorem wrap_service_reach (j : Nat) :
    j + 1 ≤ G_MAXUINT_SUCC → Reach (1 + j) (wrap_service ((2 + j) % G_MAXUINT_SUCC)) := by
  induction j with
  | zero =>
    intro _
    exact Reach.socket 0 (Reach.init sample_creds none) (by unfold Event.enabled; decide)
  | succ j ih =>
    intro hj
    have h := wrap_service_reach_step (ih (by omega)) (by unfold G_MAXUINT_SUCC at hj ⊢; omega)
    have e : ((2 + j) % G_MAXUINT_SUCC + 1) % G_MAXUINT_SUCC = (2 + (j + 1)) % G_MAXUINT_SUCC := by
      unfold G_MAXUINT_SUCC; omega
    rw [e] at h
    exact h

theorem wrapped_service_reach : Reach (G_MAXUINT_SUCC + 1) wrapped_service := by
  have h := wrap_service_reach (G_MAXUINT_SUCC - 1) (by unfold G_MAXUINT_SUCC; omega)
  have e1 : (2 + (G_MAXUINT_SUCC - 1)) % G_MAXUINT_SUCC = 1 := by
    unfold G_MAXUINT_SUCC; omega
  have e2 : 1 + (G_MAXUINT_SUCC - 1) = G_MAXUINT_SUCC := by
    unfold G_MAXUINT_SUCC; omega
  rw [e1, e2] at h
  exact Reach.socket 1 h (by unfold Event.enabled; decide)

/-- C3, as stated, fails: once the 32-bit scope counter has wrapped, the connection accepted
last gets the scope "1:" of connection 0, which is still open, and takes over its entry in
`by_scope`; a channel scoped by the socket of connection 0 then resolves to the other
socket. -/
theorem lookup_by_channel_after_wrap :
    Reachable wrapped_service ∧
    cockpit_socket_lookup_by_connection wrapped_service.sockets 0 = some ⟨"1:", 0⟩ ∧
    cockpit_socket_lookup_by_channel wrapped_service.sockets
      (cockpit_socket_add_channel_scope ⟨"1:", 0⟩ "a") = some ⟨"1:", 1⟩ :=
  ⟨⟨_, wrapped_service_reach⟩, by decide, by decide⟩

/-- C5, as stated, fails: once the 32-bit scope counter has wrapped, two different sockets
that are both tracked have the same scope, and the same socket-local channel gets the same
scoped channel on both. -/
theorem add_channel_scope_collides_after_wrap :
    Reachable wrapped_service ∧
    cockpit_socket_lookup_by_connection wrapped_service.sockets 0 = some ⟨"1:", 0⟩ ∧
    cockpit_socket_lookup_by_connection wrapped_service.sockets 1 = some ⟨"1:", 1⟩ ∧
    (⟨"1:", 0⟩ : CockpitSocket) ≠ ⟨"1:", 1⟩ ∧
    cockpit_socket_add_channel_scope ⟨"1:", 0⟩ "a" =
      cockpit_socket_add_channel_scope ⟨"1:", 1⟩ "a" :=
  ⟨⟨_, wrapped_service_reach⟩, by decide, by decide, by decide, by decide⟩

theorem lookup_by_channel_add_channel_scope_witness :
    cockpit_socket_lookup_by_channel sample_primary_service.sockets
      (cockpit_socket_add_channel_scope ⟨"1:", 7⟩ "a:b") = some ⟨"1:", 7⟩ :=
  lookup_by_channel_add_channel_scope sample_primary_service_reach (by decide) 7 ⟨"1:", 7⟩
    "a:b" (by decide)

theorem add_channel_scope_injective_witness :
    cockpit_socket_add_channel_scope ⟨"1:", 7⟩ "a" ≠
      cockpit_socket_add_channel_scope ⟨"2:", 8⟩ "a" :=
  (add_channel_scope_injective sample_two_sockets_reach (by decide)).1 7 8 ⟨"1:", 7⟩
    ⟨"2:", 8⟩ "a" "a" (by decide) (by decide) (by decide)

/-! ## Forwarding of browser commands -/

theorem filterMap_sent_eof (tbl : GHashTable CockpitTransport CockpitSession)
    (payload : GBytes) :
    tbl.filterMap
      (fun node =>
        if !node.2.sent_eof then
          some (Effect.cockpit_transport_send node.2.transport none payload)
        else none) =
    (tbl.filter (fun node => !node.2.sent_eof)).map
      (fun node => Effect.cockpit_transport_send node.2.transport none payload) := by
  induction tbl with
  | nil => rfl
  | cons node rest ih =>
    simp only [List.filterMap_cons, List.filter_cons]
    cases node.2.sent_eof
    · simp only [Bool.not_false, if_true, List.map_cons, ih]
    · simp only [Bool.not_true, Bool.false_eq_true, if_false, ih]

/-- What `dispatch_inbound_command` does with a command that is neither "open" nor
"logout" nor "ping". -/
theorem dispatch_other (env : Env) (self : CockpitWebService) (socket : CockpitSocket)
    (payload : GBytes) (fresh : CockpitTransport) (command : String)
    (socket_channel : Option String) (options : JsonObject)
    (hparse : env.parse_command payload = some (command, socket_channel, options))
    (hopen : command ≠ "open") (hping : command ≠ "ping") (hlogout : command ≠ "logout") :
    dispatch_inbound_command env self socket payload fresh =
      match socket_channel.map (cockpit_socket_add_channel_scope socket) with
      | none =>
        some (self, self.sessions.by_transport.filterMap
          (fun node =>
            if !node.2.sent_eof then
              some (Effect.cockpit_transport_send node.2.transport none payload)
            else none))
      | some channel =>
        match cockpit_session_by_channel self.sessions channel with
        | some session =>
          if !session.sent_eof then
            some (self, [Effect.cockpit_transport_send session.transport none
              (env.json_write_bytes
                (json_object_set_string_member options "channel" (some channel)))])
          else some (self, [])
        | none => some (self, []) := by
  unfold dispatch_inbound_command
  simp only [hparse, hopen, hping, hlogout, if_false]
  by_cases hclose : command = "close"
  · simp only [hclose, if_true]
    cases socket_channel with
    | none => simp
    | some c =>
      simp only [Option.map_some']
      cases cockpit_session_by_channel self.sessions
        (cockpit_socket_add_channel_scope socket c) with
      | none => simp
      | some session => cases h : session.sent_eof <;> simp [h]
  · simp only [hclose, if_false]
    cases socket_channel with
    | none => simp
    | some c =>
      simp only [Option.map_some']
      cases cockpit_session_by_channel self.sessions
        (cockpit_socket_add_channel_scope socket c) with
      | none => simp
      | some session => cases h : session.sent_eof <;> simp [h]

theorem dispatch_other_channel (env : Env) (self : CockpitWebService)
    (socket : CockpitSocket) (payload : GBytes) (fresh : CockpitTransport)
    (command c : String) (options : JsonObject)
    (hparse : env.parse_command payload = some (command, some c, options))
    (hopen : command ≠ "open") (hping : command ≠ "ping") (hlogout : command ≠ "logout") :
    dispatch_inbound_command env self socket payload fresh =
      some (self, forward_with_channel env self options
        (cockpit_socket_add_channel_scope socket c)) := by
  rw [dispatch_other env self socket payload fresh command (some c) options hparse hopen
    hping hlogout]
  unfold forward_with_channel
  simp only [Option.map_some']
  cases cockpit_session_by_channel self.sessions
    (cockpit_socket_add_channel_scope socket c) with
  | none => rfl
  | some session => cases h : session.sent_eof <;> simp [h]

theorem dispatch_open_channel (env : Env) (self : CockpitWebService)
    (socket : CockpitSocket) (payload : GBytes) (fresh : CockpitTransport)
    (c : String) (options : JsonObject)
    (hparse : env.parse_command payload = some ("open", some c, options))
    {valid : Bool} {self1 : CockpitWebService} {effects1 : List Effect}
    (hopen : process_open env self (some (cockpit_socket_add_channel_scope socket c)) options
      fresh = some (valid, self1, effects1)) :
    dispatch_inbound_command env self socket payload fresh =
      some (self1, effects1 ++
        (if valid then
          forward_with_channel env self1 options (cockpit_socket_add_channel_scope socket c)
         else inbound_protocol_error env socket.connection)) := by
  unfold dispatch_inbound_command forward_with_channel
  simp only [hparse, Option.map_some', hopen, if_true]
  cases valid with
  | false => simp
  | true =>
    simp only [Bool.not_true, Bool.false_eq_true, if_false, if_true]
    cases cockpit_session_by_channel self1.sessions
      (cockpit_socket_add_channel_scope socket c) with
    | none => simp
    | some session => cases h : session.sent_eof <;> simp [h]

theorem forward_with_channel_length (env : Env) (self : CockpitWebService)
    (options : JsonObject) (channel : String) :
    (forward_with_channel env self options channel).length ≤ 1 := by
  unfold forward_with_channel
  cases cockpit_session_by_channel self.sessions channel with
  | none => simp
  | some session => cases h : session.sent_eof <;> simp [h]

theorem set_string_member_get (options : JsonObject) (name : String) (value : String)
    (name1 : String) :
    json_object_get_member (json_object_set_string_member options name (some value)) name1 =
      if name = name1 then some (JsonNode.string value)
      else json_object_get_member options name1 := by
  unfold json_object_get_member json_object_set_string_member
  exact lookup_insert _ g_str_equal_iff _ _ _ _

theorem dispose_effects_no_send (env : Env) (self : CockpitWebService) :
    ∀ e ∈ (cockpit_web_service_dispose env self).2, e.is_transport_send = false := by
  intro e he
  unfold cockpit_web_service_dispose at he
  simp only [List.mem_append, List.mem_filterMap] at he
  rcases he with (⟨node, _, h⟩ | ⟨node, _, h⟩) | h
  · split at h
    · split at h
      · cases h; rfl
      · cases h
    · cases h
  · split at h
    · cases h; rfl
    · cases h
  · split at h
    · simp only [List.mem_singleton] at h
      subst h; rfl
    · cases h

theorem lookup_or_open_effects (env : Env) (self : CockpitWebService)
    (host host_key : Option String) (creds : CredsRef) (private_ : Bool)
    (fresh : CockpitTransport) {session : CockpitSession} {self1 : CockpitWebService}
    {effects : List Effect}
    (h : lookup_or_open_session_for_host env self host host_key creds private_ fresh
      = some (session, self1, effects)) :
    ∀ e ∈ effects, e.is_transport_send = false := by
  unfold lookup_or_open_session_for_host at h
  simp only at h
  split at h
  · cases h
  · simp only [Option.some.injEq, Prod.mk.injEq] at h
    obtain ⟨_, _, h3⟩ := h
    subst h3
    simp
  · simp only [Option.some.injEq, Prod.mk.injEq] at h
    obtain ⟨_, _, h3⟩ := h
    subst h3
    intro e he
    simp only [List.mem_singleton] at he
    subst he; rfl

theorem process_open_effects (env : Env) (self : CockpitWebService)
    (channel : Option String) (options : JsonObject) (fresh : CockpitTransport)
    {valid : Bool} {self1 : CockpitWebService} {effects : List Effect}
    (h : process_open env self channel options fresh = some (valid, self1, effects)) :
    (∀ e ∈ effects, e.is_transport_send = false) ∧
    (self.closing = true → self1 = self ∧ valid = true ∧ effects = []) ∧
    self1.closing = self.closing := by
  unfold process_open at h
  split at h
  · rename_i hc
    simp only [Option.some.injEq, Prod.mk.injEq] at h
    obtain ⟨h1, h2, h3⟩ := h
    subst h1 h2 h3
    exact ⟨by simp, fun _ => ⟨rfl, rfl, rfl⟩, rfl⟩
  · rename_i hc
    have hcf : ¬ self.closing = true := hc
    split at h
    · cases h
    · split at h
      · simp only [Option.some.injEq, Prod.mk.injEq] at h
        obtain ⟨h1, h2, h3⟩ := h
        subst h1 h2 h3
        exact ⟨by simp, fun e => absurd e hcf, rfl⟩
      · simp only at h
        split at h
        · cases h
        · rename_i session self2 effects2 hlo
          simp only [Option.some.injEq, Prod.mk.injEq] at h
          obtain ⟨h1, h2, h3⟩ := h
          subst h1 h2 h3
          refine ⟨lookup_or_open_effects env self _ _ _ _ _ hlo, fun e => absurd e hcf, ?_⟩
          unfold lookup_or_open_session_for_host at hlo
          simp only at hlo
          split at hlo
          · cases hlo
          · simp only [Option.some.injEq, Prod.mk.injEq] at hlo
            rw [← hlo.2.1]
          · simp only [Option.some.injEq, Prod.mk.injEq] at hlo
            rw [← hlo.2.1]

theorem dispose_closing (env : Env) (self : CockpitWebService) :
    (cockpit_web_service_dispose env self).1.closing = true := rfl

theorem dispatch_closing (env : Env) (self : CockpitWebService) (socket : CockpitSocket)
    (payload : GBytes) (fresh : CockpitTransport) {self1 : CockpitWebService}
    {effects : List Effect}
    (h : dispatch_inbound_command env self socket payload fresh = some (self1, effects))
    (hc : self.closing = true) : self1.closing = true := by
  cases hparse : env.parse_command payload with
  | none =>
    unfold dispatch_inbound_command at h
    simp only [hparse, Option.some.injEq, Prod.mk.injEq] at h
    rw [← h.1]; exact hc
  | some r =>
    obtain ⟨command, socket_channel, options⟩ := r
    by_cases hopen : command = "open"
    · subst hopen
      have hpo : process_open env self
          (socket_channel.map (cockpit_socket_add_channel_scope socket)) options fresh
          = some (true, self, []) := by
        unfold process_open
        simp [hc]
      unfold dispatch_inbound_command at h
      simp only [hparse, if_true, hpo, Option.map_some', Bool.not_true, Bool.false_eq_true,
        if_false] at h
      have : self1 = self := by
        split at h
        · simp only [Option.some.injEq, Prod.mk.injEq] at h; exact h.1.symm
        · split at h
          · split at h <;>
            · simp only [Option.some.injEq, Prod.mk.injEq] at h; exact h.1.symm
          · simp only [Option.some.injEq, Prod.mk.injEq] at h; exact h.1.symm
      rw [this]; exact hc
    · by_cases hlogout : command = "logout"
      · subst hlogout
        unfold dispatch_inbound_command at h
        simp only [hparse, hopen, if_false, if_true] at h
        have hl : (process_logout env self options).2.1.closing = true := by
          unfold process_logout
          split
          · exact hc
          · split
            · rfl
            · exact hc
        have : self1 = (process_logout env self options).2.1 := by
          split at h
          · simp only [Option.some.injEq, Prod.mk.injEq] at h; exact h.1.symm
          · simp only [Bool.false_eq_true, if_false, Option.some.injEq, Prod.mk.injEq] at h
            exact h.1.symm
        rw [this]; exact hl
      · by_cases hping : command = "ping"
        · subst hping
          unfold dispatch_inbound_command at h
          simp only [hparse, hopen, hlogout, if_false] at h
          have : self1 = self := by
            simp at h
            exact h.1.symm
          rw [this]; exact hc
        · rw [dispatch_other env self socket payload fresh command socket_channel options
            hparse hopen hping hlogout] at h
          have : self1 = self := by
            split at h
            · simp only [Option.some.injEq, Prod.mk.injEq] at h; exact h.1.symm
            · split at h
              · split at h <;>
                · simp only [Option.some.injEq, Prod.mk.injEq] at h; exact h.1.symm
              · simp only [Option.some.injEq, Prod.mk.injEq] at h; exact h.1.symm
          rw [this]; exact hc

theorem lookup_or_open_closing (env : Env) (self : CockpitWebService)
    (host host_key : Option String) (creds : CredsRef) (private_ : Bool)
    (fresh : CockpitTransport) {session : CockpitSession} {self1 : CockpitWebService}
    {effects : List Effect}
    (h : lookup_or_open_session_for_host env self host host_key creds private_ fresh
      = some (session, self1, effects)) :
    self1.closing = self.closing := by
  unfold lookup_or_open_session_for_host at h
  simp only at h
  split at h
  · cases h
  · simp only [Option.some.injEq, Prod.mk.injEq] at h
    rw [← h.2.1]
  · simp only [Option.some.injEq, Prod.mk.injEq] at h
    rw [← h.2.1]

theorem step_closing (env : Env) {self self1 : CockpitWebService} (ev : Event)
    {effects : List Effect} (h : step env self ev = some (self1, effects))
    (hc : self.closing = true) : self1.closing = true := by
  cases ev with
  | socket connection =>
    simp only [step, Option.some.injEq, Prod.mk.injEq] at h
    rw [← h.1]; exact hc
  | message connection message fresh =>
    simp only [step] at h
    unfold on_web_socket_message at h
    split at h
    · simp only [Option.some.injEq, Prod.mk.injEq] at h
      rw [← h.1]; exact hc
    · split at h
      · simp only [Option.some.injEq, Prod.mk.injEq] at h
        rw [← h.1]; exact hc
      · exact dispatch_closing env self _ _ _ h hc
      · simp only [hc, Bool.not_true, Bool.false_eq_true, if_false, Option.some.injEq,
          Prod.mk.injEq] at h
        rw [← h.1]; exact hc
  | closing connection =>
    simp only [step, Option.some.injEq, Prod.mk.injEq] at h
    rw [← h.1]; exact hc
  | close connection =>
    simp only [step, Option.some.injEq] at h
    have e : _ = self1 := congrArg Prod.fst h
    rw [← e]
    unfold on_web_socket_close
    split
    · exact hc
    · unfold caller_end
      split <;> exact hc
  | session_control transport command channel options =>
    simp only [step, Option.some.injEq] at h
    have e : _ = self1 := congrArg Prod.fst h
    rw [← e]
    unfold on_session_control
    split
    · split
      · exact hc
      · split
        · exact hc
        · split <;> exact hc
    · split
      · exact hc
      · split
        · exact hc
        · simp only
          split
          · exact hc
          · exact hc
  | session_recv transport channel payload =>
    simp only [step, Option.some.injEq, Prod.mk.injEq] at h
    rw [← h.1]; exact hc
  | session_closed transport problem =>
    simp only [step, Option.some.injEq] at h
    have e : _ = self1 := congrArg Prod.fst h
    rw [← e]
    unfold on_session_closed
    split
    · exact hc
    · simp only
      split
      · rfl
      · exact hc
  | timeout transport =>
    simp only [step] at h
    split at h
    · simp only [Option.some.injEq] at h
      have e : _ = self1 := congrArg Prod.fst h
      rw [← e]; exact hc
    · simp only [Option.some.injEq, Prod.mk.injEq] at h
      rw [← h.1]; exact hc
  | ping =>
    simp only [step, Option.some.injEq, Prod.mk.injEq] at h
    rw [← h.1]; exact hc
  | dispose =>
    simp only [step, Option.some.injEq] at h
    have e : _ = self1 := congrArg Prod.fst h
    rw [← e]; rfl
  | resource response path fresh =>
    simp only [step] at h
    cases hr : cockpit_web_service_resource env self response path fresh with
    | none => simp [hr] at h
    | some r =>
      obtain ⟨s2, e2, rr⟩ := r
      simp only [hr, Option.map_some', Option.some.injEq, Prod.mk.injEq] at h
      rw [← h.1]
      unfold cockpit_web_service_resource at hr
      simp only at hr
      split at hr
      · cases hr
      · rename_i r1 hr1
        have k1 : r1.2.1.closing = true := by
          split at hr1
          · unfold resource_respond_normal at hr1
            split at hr1
            · split at hr1
              · cases hr1
              · rename_i session self2 effects2 hlo
                simp only [Option.some.injEq] at hr1
                subst hr1
                have := lookup_or_open_closing env self _ _ _ _ _ hlo
                show self2.closing = true
                rw [this]; exact hc
            · simp only [Option.some.injEq] at hr1
              subst hr1
              exact hc
          · simp only [Option.some.injEq] at hr1
            subst hr1
            exact hc
        simp only [Option.some.injEq, Prod.mk.injEq] at hr
        obtain ⟨h1, _⟩ := hr
        subst h1
        split
        · unfold resource_respond_checksum
          split
          · split
            · exact k1
            · exact k1
          · exact k1
        · exact k1
  | modules host fresh =>
    simp only [step] at h
    cases hr : cockpit_web_service_modules env self host fresh with
    | none => simp [hr] at h
    | some r =>
      obtain ⟨s2, e2, ch⟩ := r
      simp only [hr, Option.map_some', Option.some.injEq, Prod.mk.injEq] at h
      rw [← h.1]
      unfold cockpit_web_service_modules at hr
      split at hr
      · cases hr
      · rename_i session self2 effects2 hlo
        simp only [Option.some.injEq, Prod.mk.injEq] at hr
        obtain ⟨h1, _⟩ := hr
        subst h1
        have := lookup_or_open_closing env self _ _ _ _ _ hlo
        show self2.closing = true
        rw [this]; exact hc

theorem process_open_effects_new (env : Env) (self : CockpitWebService)
    (channel : Option String) (options : JsonObject) (fresh : CockpitTransport)
    {valid : Bool} {self1 : CockpitWebService} {effects : List Effect}
    (h : process_open env self channel options fresh = some (valid, self1, effects)) :
    ∀ e ∈ effects, ∃ host port host_key, e = Effect.ssh_transport_new fresh host port
      host_key := by
  unfold process_open at h
  split at h
  · simp only [Option.some.injEq, Prod.mk.injEq] at h
    obtain ⟨_, _, h3⟩ := h
    subst h3
    simp
  · split at h
    · cases h
    · split at h
      · simp only [Option.some.injEq, Prod.mk.injEq] at h
        obtain ⟨_, _, h3⟩ := h
        subst h3
        simp
      · simp only at h
        split at h
        · cases h
        · rename_i session self2 effects2 hlo
          simp only [Option.some.injEq, Prod.mk.injEq] at h
          obtain ⟨_, _, h3⟩ := h
          subst h3
          unfold lookup_or_open_session_for_host at hlo
          simp only at hlo
          split at hlo
          · cases hlo
          · simp only [Option.some.injEq, Prod.mk.injEq] at hlo
            obtain ⟨_, _, h3⟩ := hlo
            subst h3
            simp
          · simp only [Option.some.injEq, Prod.mk.injEq] at hlo
            obtain ⟨_, _, h3⟩ := hlo
            subst h3
            intro e he
            simp only [List.mem_singleton] at he
            exact ⟨_, _, _, he⟩

/-- C12: a forwardable control command (not "ping", not "logout", not a failed open) with
socket-local channel `c` from socket `s` is forwarded, after the command itself was
processed, as exactly one message with null channel header on the transport of the session
that owns the scoped channel, when that session has not sent EOF; the JSON sent is the
options with member "channel" set to the scoped channel and every other member unchanged.
When no session owns the scoped channel, or it has sent EOF, nothing is sent and no
protocol error is raised: the only other effect can be the creation of the transport of a
session that an open makes. -/
theorem dispatch_forwards_channel_command (env : Env) (self : CockpitWebService)
    (socket : CockpitSocket) (payload : GBytes) (fresh : CockpitTransport)
    (command c : String) (options : JsonObject)
    (hparse : env.parse_command payload = some (command, some c, options))
    (hping : command ≠ "ping") (hlogout : command ≠ "logout")
    (self1 : CockpitWebService) (effects1 : List Effect)
    (hown : (command = "open" ∧
        process_open env self (some (cockpit_socket_add_channel_scope socket c)) options
          fresh = some (true, self1, effects1)) ∨
      (command ≠ "open" ∧ self1 = self ∧ effects1 = [])) :
    ∃ effects : List Effect,
      dispatch_inbound_command env self socket payload fresh
        = some (self1, effects1 ++ effects) ∧
      (∀ e ∈ effects1, e.is_transport_send = false) ∧
      (∀ session : CockpitSession,
        cockpit_session_by_channel self1.sessions (cockpit_socket_add_channel_scope socket c)
          = some session →
        session.sent_eof = false →
        effects = [Effect.cockpit_transport_send session.transport none
          (env.json_write_bytes (json_object_set_string_member options "channel"
            (some (cockpit_socket_add_channel_scope socket c))))]) ∧
      (∀ session : CockpitSession,
        cockpit_session_by_channel self1.sessions (cockpit_socket_add_channel_scope socket c)
          = some session →
        session.sent_eof = true → effects = []) ∧
      (cockpit_session_by_channel self1.sessions (cockpit_socket_add_channel_scope socket c)
          = none → effects = []) ∧
      (∀ name : String,
        json_object_get_member (json_object_set_string_member options "channel"
          (some (cockpit_socket_add_channel_scope socket c))) name =
        if "channel" = name then
          some (JsonNode.string (cockpit_socket_add_channel_scope socket c))
        else json_object_get_member options name) ∧
      (∀ e ∈ effects1, ∃ host port host_key,
        e = Effect.ssh_transport_new fresh host port host_key) := by
  have hfw : ∀ s1 : CockpitWebService,
      (∀ session : CockpitSession,
        cockpit_session_by_channel s1.sessions (cockpit_socket_add_channel_scope socket c)
          = some session →
        session.sent_eof = false →
        forward_with_channel env s1 options (cockpit_socket_add_channel_scope socket c) =
          [Effect.cockpit_transport_send session.transport none
            (env.json_write_bytes (json_object_set_string_member options "channel"
              (some (cockpit_socket_add_channel_scope socket c))))]) ∧
      (∀ session : CockpitSession,
        cockpit_session_by_channel s1.sessions (cockpit_socket_add_channel_scope socket c)
          = some session →
        session.sent_eof = true →
        forward_with_channel env s1 options (cockpit_socket_add_channel_scope socket c)
          = []) ∧
      (cockpit_session_by_channel s1.sessions (cockpit_socket_add_channel_scope socket c)
          = none →
        forward_with_channel env s1 options (cockpit_socket_add_channel_scope socket c)
          = []) := by
    intro s1
    unfold forward_with_channel
    refine ⟨?_, ?_, ?_⟩
    · intro session h1 h2
      simp [h1, h2]
    · intro session h1 h2
      simp [h1, h2]
    · intro h1
      simp [h1]
  refine ⟨forward_with_channel env self1 options (cockpit_socket_add_channel_scope socket c),
    ?_, ?_, (hfw self1).1, (hfw self1).2.1, (hfw self1).2.2,
    fun name => set_string_member_get options "channel" _ name, ?_⟩
  · rcases hown with ⟨h1, h2⟩ | ⟨h1, h2, h3⟩
    · subst h1
      rw [dispatch_open_channel env self socket payload fresh c options hparse h2]
      simp
    · subst h2 h3
      rw [dispatch_other_channel env self1 socket payload fresh command c options hparse h1
        hping hlogout]
      simp
  · rcases hown with ⟨_, h2⟩ | ⟨_, _, h3⟩
    · exact (process_open_effects env self _ _ _ h2).1
    · subst h3
      simp
  · rcases hown with ⟨_, h2⟩ | ⟨_, _, h3⟩
    · exact process_open_effects_new env self _ _ _ h2
    · subst h3
      simp

/-- C14: a control command without channel whose command is none of "open", "ping",
"logout" leaves the state untouched and sends the original payload, with null channel, once
on the transport of every session in `by_transport` whose `sent_eof` is false and on no
other; the handling of a control that carries a channel sends at most one message to a
transport. -/
theorem dispatch_broadcasts_channelless_command (env : Env) (self : CockpitWebService)
    (socket : CockpitSocket) (payload : GBytes) (fresh : CockpitTransport)
    (command : String) (options : JsonObject)
    (hparse : env.parse_command payload = some (command, none, options))
    (hopen : command ≠ "open") (hping : command ≠ "ping") (hlogout : command ≠ "logout") :
    dispatch_inbound_command env self socket payload fresh =
      some (self,
        (self.sessions.by_transport.filter (fun node => !node.2.sent_eof)).map
          (fun node => Effect.cockpit_transport_send node.2.transport none payload)) ∧
    (∀ (payload1 : GBytes) (command1 c : String) (options1 : JsonObject)
      (self1 : CockpitWebService) (effects1 : List Effect),
      env.parse_command payload1 = some (command1, some c, options1) →
      dispatch_inbound_command env self socket payload1 fresh = some (self1, effects1) →
      (effects1.filter Effect.is_transport_send).length ≤ 1) := by
  refine ⟨?_, ?_⟩
  · rw [dispatch_other env self socket payload fresh command none options hparse hopen hping
      hlogout]
    simp only [Option.map_none']
    rw [filterMap_sent_eof]
  · intro payload1 command1 c options1 self1 effects1 hp hd
    have hnone : ∀ l : List Effect, (∀ e ∈ l, e.is_transport_send = false) →
        l.filter Effect.is_transport_send = [] := by
      intro l hl
      rw [List.filter_eq_nil_iff]
      intro e he
      simp [hl e he]
    have hfwd : ∀ s1 : CockpitWebService,
        ((forward_with_channel env s1 options1
          (cockpit_socket_add_channel_scope socket c)).filter
            Effect.is_transport_send).length ≤ 1 := by
      intro s1
      exact le_trans (List.length_filter_le _ _) (forward_with_channel_length _ _ _ _)
    by_cases ho : command1 = "open"
    · subst ho
      cases hpo : process_open env self (some (cockpit_socket_add_channel_scope socket c))
          options1 fresh with
      | none =>
        unfold dispatch_inbound_command at hd
        simp [hp, hpo] at hd
      | some r =>
        obtain ⟨valid, s2, e2⟩ := r
        rw [dispatch_open_channel env self socket payload1 fresh c options1 hp hpo] at hd
        simp only [Option.some.injEq, Prod.mk.injEq] at hd
        obtain ⟨_, h2⟩ := hd
        subst h2
        rw [List.filter_append, hnone e2 (process_open_effects env self _ _ _ hpo).1]
        cases valid with
        | true => simpa using hfwd s2
        | false =>
          have : (inbound_protocol_error env socket.connection).filter
              Effect.is_transport_send = [] := by
            apply hnone
            intro e he
            unfold inbound_protocol_error at he
            split at he
            · simp only [List.mem_cons, List.mem_singleton, List.not_mem_nil, or_false] at he
              rcases he with he | he <;> (subst he; rfl)
            · cases he
          simp [this]
    · by_cases hl : command1 = "logout"
      · subst hl
        unfold dispatch_inbound_command at hd
        simp only [hp, ho, if_false, if_true] at hd
        have hle : ∀ e ∈ (process_logout env self options1).2.2,
            e.is_transport_send = false := by
          unfold process_logout
          split
          · simp
          · split
            · exact dispose_effects_no_send env _
            · simp
        have : effects1.filter Effect.is_transport_send = [] := by
          split at hd
          · simp only [Option.some.injEq, Prod.mk.injEq] at hd
            rw [← hd.2, List.filter_append, hnone _ hle]
            have : (inbound_protocol_error env socket.connection).filter
                Effect.is_transport_send = [] := by
              apply hnone
              intro e he
              unfold inbound_protocol_error at he
              split at he
              · simp only [List.mem_cons, List.mem_singleton, List.not_mem_nil,
                  or_false] at he
                rcases he with he | he <;> (subst he; rfl)
              · cases he
            simp [this]
          · simp only [Bool.false_eq_true, if_false, Option.some.injEq, Prod.mk.injEq] at hd
            rw [← hd.2]
            exact hnone _ hle
        simp [this]
      · by_cases hpg : command1 = "ping"
        · subst hpg
          unfold dispatch_inbound_command at hd
          simp only [hp, ho, hl, if_false] at hd
          simp at hd
          rw [hd.2]
          simp
        · rw [dispatch_other_channel env self socket payload1 fresh command1 c options1 hp ho
            hpg hl] at hd
          simp only [Option.some.injEq, Prod.mk.injEq] at hd
          rw [← hd.2]
          exact hfwd self

/-- C15: in a reachable state that is not closing, an open whose scoped channel is already
a key of `by_channel` fails in `process_open` without any change of the state (so
`by_channel`, `by_host`, `by_transport` and every channel set stay as they are, no session
is created), and the browser socket gets the inbound protocol error: when it is OPEN, a
"close" control with reason "protocol-error" and then a close of the connection with the
server-error code. -/
theorem process_open_duplicate_channel {self : CockpitWebService} (h : Reachable self)
    (env : Env) (socket : CockpitSocket) (payload : GBytes) (fresh : CockpitTransport)
    (c : String) (options : JsonObject)
    (hclosing : self.closing = false)
    (hparse : env.parse_command payload = some ("open", some c, options))
    (hdup : cockpit_socket_add_channel_scope socket c ∈ table_keys self.sessions.by_channel) :
    process_open env self (some (cockpit_socket_add_channel_scope socket c)) options fresh
      = some (false, self, []) ∧
    dispatch_inbound_command env self socket payload fresh
      = some (self, inbound_protocol_error env socket.connection) ∧
    (env.ready_state socket.connection = WebSocketState.OPEN →
      inbound_protocol_error env socket.connection =
        [Effect.web_socket_connection_send socket.connection "\n"
           (env.json_write_bytes
             [("command", JsonNode.string "close"),
              ("reason", JsonNode.string "protocol-error")]),
         Effect.web_socket_connection_close socket.connection
           WebSocketCloseCode.WEB_SOCKET_CLOSE_SERVER_ERROR "protocol-error"]) := by
  obtain ⟨n, hn⟩ := h
  have hs := reach_sessions_inv hn
  have hsome : (cockpit_session_by_channel self.sessions
      (cockpit_socket_add_channel_scope socket c)).isSome = true := by
    cases hl : cockpit_session_by_channel self.sessions
        (cockpit_socket_add_channel_scope socket c) with
    | some session => rfl
    | none =>
      exact absurd hdup ((lookup_eq_none_iff _ g_str_equal_iff _ _).1 (by_channel_none hs hl))
  have hpo : process_open env self (some (cockpit_socket_add_channel_scope socket c)) options
      fresh = some (false, self, []) := by
    unfold process_open
    simp [hclosing, hsome]
  refine ⟨hpo, ?_, ?_⟩
  · rw [dispatch_open_channel env self socket payload fresh c options hparse hpo]
    simp
  · intro hopen
    unfold inbound_protocol_error
    simp only [hopen, if_true]
    rfl

/-- C16: once `closing` is true it stays true over every event; and while `closing` is
true an open command with a channel is accepted: the state stays exactly as it is (no key,
channel or session is added) and the only effects are transport sends, no protocol error
reaches the browser socket. -/
theorem closing_stays_and_ignores_open (self : CockpitWebService)
    (hclosing : self.closing = true) :
    (∀ (env : Env) (ev : Event) (self1 : CockpitWebService) (effects : List Effect),
      step env self ev = some (self1, effects) → self1.closing = true) ∧
    (∀ (env : Env) (socket : CockpitSocket) (payload : GBytes) (fresh : CockpitTransport)
      (c : String) (options : JsonObject),
      env.parse_command payload = some ("open", some c, options) →
      process_open env self (some (cockpit_socket_add_channel_scope socket c)) options fresh
        = some (true, self, []) ∧
      ∃ effects : List Effect,
        dispatch_inbound_command env self socket payload fresh = some (self, effects) ∧
        ∀ e ∈ effects, e.is_transport_send = true) := by
  refine ⟨fun env ev self1 effects h => step_closing env ev h hclosing, ?_⟩
  intro env socket payload fresh c options hparse
  have hpo : process_open env self (some (cockpit_socket_add_channel_scope socket c)) options
      fresh = some (true, self, []) := by
    unfold process_open
    simp [hclosing]
  refine ⟨hpo,
    forward_with_channel env self options (cockpit_socket_add_channel_scope socket c),
    ?_, ?_⟩
  · rw [dispatch_open_channel env self socket payload fresh c options hparse hpo]
    simp only [if_true, List.nil_append]
  · intro e he
    unfold forward_with_channel at he
    split at he
    · split at he
      · simp only [List.mem_singleton] at he
        subst he; rfl
      · cases he
    · cases he

/-! ## Idle timer and destruction of sessions -/

/-- C17: (1) when `cockpit_session_remove_channel` removes the last channel of a tracked
session the idle timer is armed with the agent timeout; (2) removing a channel that is not
the last one leaves the timer field as it was; (3) when the timer fires while the channel
set is empty the transport is closed with "timeout", and when the set is not empty nothing
is closed; (4) `cockpit_session_add_channel` cancels the timer, so that the timer event of
the session is no longer enabled and even a firing would close nothing. -/
theorem idle_timer_arming (self : CockpitWebService) (session : CockpitSession)
    (channel : String) (agent_timeout : Int)
    (hold : cockpit_session_by_transport self.sessions session.transport = some session) :
    (g_hash_table_remove g_str_equal session.channels channel = [] →
      (cockpit_session_by_transport
        (cockpit_session_remove_channel agent_timeout self.sessions session channel)
        session.transport).map (fun S => S.timeout) = some (some agent_timeout)) ∧
    (g_hash_table_remove g_str_equal session.channels channel ≠ [] →
      (cockpit_session_by_transport
        (cockpit_session_remove_channel agent_timeout self.sessions session channel)
        session.transport).map (fun S => S.timeout) = some session.timeout) ∧
    (session.channels = [] →
      (on_timeout_cleanup_session self session).2 =
        [Effect.cockpit_transport_close session.transport (some "timeout")]) ∧
    (session.channels ≠ [] → (on_timeout_cleanup_session self session).2 = []) ∧
    (∃ S, cockpit_session_by_transport
        (cockpit_session_add_channel self.sessions session channel) session.transport
          = some S ∧
      S.timeout = none ∧
      ¬ (Event.timeout session.transport).enabled
        { self with sessions := cockpit_session_add_channel self.sessions session channel } ∧
      (on_timeout_cleanup_session
        { self with sessions := cockpit_session_add_channel self.sessions session channel }
        S).2 = []) := by
  have hold1 : g_hash_table_lookup g_direct_equal self.sessions.by_transport
      session.transport = some session := hold
  refine ⟨?_, ?_, ?_, ?_, ?_⟩
  · intro h
    unfold cockpit_session_by_transport cockpit_session_remove_channel
    rw [lookup_store]
    simp [hold1, h, g_hash_table_size]
  · intro h
    unfold cockpit_session_by_transport cockpit_session_remove_channel
    rw [lookup_store]
    have : ¬ (g_hash_table_remove g_str_equal session.channels channel).length = 0 := by
      intro e
      exact h (List.length_eq_zero.1 e)
    simp [hold1, this, g_hash_table_size]
  · intro h
    simp [on_timeout_cleanup_session, h, g_hash_table_size]
  · intro h
    have : ¬ session.channels.length = 0 := by
      intro e
      exact h (List.length_eq_zero.1 e)
    simp [on_timeout_cleanup_session, this, g_hash_table_size]
  · have hS := add_channel_by_transport self.sessions session channel session.transport hold1
    simp only [if_true] at hS
    refine ⟨_, hS, rfl, ?_, ?_⟩
    · unfold Event.enabled
      rintro ⟨S1, h1, h2⟩
      have h1b : g_hash_table_lookup g_direct_equal
          (cockpit_session_add_channel self.sessions session channel).by_transport
          session.transport = some S1 := h1
      rw [hS] at h1b
      cases h1b
      exact h2 rfl
    · have hne : ¬ (g_hash_table_add g_str_equal session.channels channel).length = 0 := by
        intro e
        have hk := keys_insert g_str_equal g_str_equal_iff session.channels channel ()
        have hl : (table_keys (g_hash_table_add g_str_equal session.channels channel)).length
            = 0 := by
          simp [table_keys, e]
        unfold g_hash_table_add at hl
        rw [hk] at hl
        split at hl
        · rename_i hm
          have : table_keys session.channels = [] := List.length_eq_zero.1 hl
          rw [this] at hm
          cases hm
        · simp at hl
      simp [on_timeout_cleanup_session, hne, g_hash_table_size]

/-- C19: in a state whose session indexes are consistent, after `cockpit_session_destroy`
of a tracked session `S` no key of `by_channel` maps to `S` (every channel of `S` is gone
from `by_channel`), no entry of `by_host` maps to `S`, `by_transport` has no entry for the
transport of `S`, and the `by_channel` and `by_transport` entries of other sessions are
unchanged. -/
theorem session_destroy_purges {sessions : CockpitSessions} (hs : SessionsInv sessions)
    (S : CockpitSession)
    (hS : cockpit_session_by_transport sessions S.transport = some S) :
    (∀ ch, g_hash_table_lookup g_str_equal (cockpit_session_destroy sessions S).by_channel ch
      ≠ some S.transport) ∧
    (∀ ch, session_has_channel S ch →
      g_hash_table_lookup g_str_equal (cockpit_session_destroy sessions S).by_channel ch
        = none) ∧
    (∀ h, g_hash_table_lookup g_str_equal (cockpit_session_destroy sessions S).by_host h
      ≠ some S.transport) ∧
    cockpit_session_by_transport (cockpit_session_destroy sessions S) S.transport = none ∧
    (∀ ch t, t ≠ S.transport →
      (g_hash_table_lookup g_str_equal (cockpit_session_destroy sessions S).by_channel ch
          = some t ↔
        g_hash_table_lookup g_str_equal sessions.by_channel ch = some t)) ∧
    (∀ t, t ≠ S.transport →
      cockpit_session_by_transport (cockpit_session_destroy sessions S) t =
        cockpit_session_by_transport sessions t) := by
  have hold : g_hash_table_lookup g_direct_equal sessions.by_transport S.transport = some S :=
    hS
  have hd := inv_destroy hs S hold
  obtain ⟨_, hlk⟩ := lookup_foldl_remove S.channels sessions.by_channel hs.channels_nodup
  have hbc : ∀ ch, g_hash_table_lookup g_str_equal (cockpit_session_destroy sessions S).by_channel
      ch = if ch ∈ table_keys S.channels then none
        else g_hash_table_lookup g_str_equal sessions.by_channel ch := hlk
  have hL : ∀ t1, g_hash_table_lookup g_direct_equal
      (cockpit_session_destroy sessions S).by_transport t1 =
      if S.transport = t1 then none
      else g_hash_table_lookup g_direct_equal sessions.by_transport t1 := by
    intro t1
    simp only [cockpit_session_destroy,
      lookup_remove _ g_direct_equal_iff _ _ _ hs.transports_nodup]
  have hgone : cockpit_session_by_transport (cockpit_session_destroy sessions S) S.transport
      = none := by
    unfold cockpit_session_by_transport
    rw [hL]
    simp
  refine ⟨?_, ?_, ?_, hgone, ?_, ?_⟩
  · intro ch e
    obtain ⟨S1, e1, _⟩ := (hd.index ch S.transport).1 e
    have : cockpit_session_by_transport (cockpit_session_destroy sessions S) S.transport
        = some S1 := e1
    rw [hgone] at this
    cases this
  · intro ch hch
    rw [hbc]
    simp [(has_channel_iff_mem S ch).1 hch]
  · intro h e
    obtain ⟨S1, e1, _⟩ := hd.hosts h S.transport e
    have : cockpit_session_by_transport (cockpit_session_destroy sessions S) S.transport
        = some S1 := e1
    rw [hgone] at this
    cases this
  · intro ch t ht
    rw [hbc]
    by_cases hc : ch ∈ table_keys S.channels
    · simp only [hc, if_true, reduceCtorEq, false_iff]
      intro e
      have h1 := (hs.index ch S.transport).2 ⟨S, hold, (has_channel_iff_mem S ch).2 hc⟩
      rw [h1] at e
      exact ht (Option.some.inj e).symm
    · simp only [hc, if_false]
  · intro t ht
    unfold cockpit_session_by_transport
    rw [hL]
    have : ¬ S.transport = t := fun e => ht e.symm
    simp only [this, if_false]

theorem dispatch_forwards_channel_command_witness :
    ∃ effects : List Effect,
      dispatch_inbound_command sample_env sample_two_sockets_busy ⟨"1:", 7⟩
        "\x7b\"command\":\"close\",\"channel\":\"a\"\x7d" 2
        = some (sample_two_sockets_busy, [] ++ effects) ∧
      effects = [Effect.cockpit_transport_send 1 none "command,channel"] :=
  (dispatch_forwards_channel_command sample_env sample_two_sockets_busy ⟨"1:", 7⟩
    "\x7b\"command\":\"close\",\"channel\":\"a\"\x7d" 2 "close" "a"
    [("command", JsonNode.string "close"), ("channel", JsonNode.string "a")]
    rfl (by decide) (by decide) sample_two_sockets_busy []
    (Or.inr ⟨by decide, rfl, rfl⟩)).elim
    fun effects h => ⟨effects, h.1, h.2.2.1 sample_session_x (by decide) (by decide)⟩

theorem dispatch_broadcasts_channelless_command_witness :
    dispatch_inbound_command sample_env sample_two_sockets_busy ⟨"1:", 7⟩
      "\x7b\"command\":\"hello\"\x7d" 2 =
      some (sample_two_sockets_busy,
        [Effect.cockpit_transport_send 1 none "\x7b\"command\":\"hello\"\x7d"]) :=
  (dispatch_broadcasts_channelless_command sample_env sample_two_sockets_busy ⟨"1:", 7⟩
    "\x7b\"command\":\"hello\"\x7d" 2 "hello" [("command", JsonNode.string "hello")]
    rfl (by decide) (by decide) (by decide)).1

theorem process_open_duplicate_channel_witness :
    process_open sample_env sample_two_sockets_busy
      (some (cockpit_socket_add_channel_scope ⟨"1:", 7⟩ "a"))
      [("command", JsonNode.string "open"), ("channel", JsonNode.string "a"),
       ("host", JsonNode.string "x")] 2 = some (false, sample_two_sockets_busy, []) ∧
    dispatch_inbound_command sample_env sample_two_sockets_busy ⟨"1:", 7⟩
      "\x7b\"command\":\"open\",\"channel\":\"a\",\"host\":\"x\"\x7d" 2
      = some (sample_two_sockets_busy, inbound_protocol_error sample_env 7) :=
  have h := process_open_duplicate_channel ⟨2, sample_two_sockets_busy_reach⟩ sample_env
    ⟨"1:", 7⟩ "\x7b\"command\":\"open\",\"channel\":\"a\",\"host\":\"x\"\x7d" 2 "a"
    [("command", JsonNode.string "open"), ("channel", JsonNode.string "a"),
     ("host", JsonNode.string "x")] (by decide) rfl (by decide)
  ⟨h.1, h.2.1⟩

theorem closing_stays_and_ignores_open_witness :
    (run_event sample_env sample_closing_service Event.ping).closing = true ∧
    process_open sample_env sample_closing_service
      (some (cockpit_socket_add_channel_scope ⟨"1:", 7⟩ "a"))
      [("command", JsonNode.string "open"), ("channel", JsonNode.string "a"),
       ("host", JsonNode.string "x")] 2 = some (true, sample_closing_service, []) :=
  have h := closing_stays_and_ignores_open sample_closing_service (by decide)
  ⟨h.1 sample_env Event.ping _ _ rfl,
   (h.2 sample_env ⟨"1:", 7⟩ "\x7b\"command\":\"open\",\"channel\":\"a\",\"host\":\"x\"\x7d"
     2 "a" _ rfl).1⟩

theorem idle_timer_arming_witness :
    (cockpit_session_by_transport
      (cockpit_session_remove_channel 30 sample_two_sockets_busy.sessions sample_session_x
        "1:a") 1).map (fun S => S.timeout) = some (some 30) ∧
    (on_timeout_cleanup_session sample_two_sockets_busy sample_session_x).2 = [] :=
  have h := idle_timer_arming sample_two_sockets_busy sample_session_x "1:a" 30 (by decide)
  ⟨h.1 (by decide), h.2.2.2.1 (by decide)⟩

theorem session_destroy_purges_witness :
    g_hash_table_lookup g_str_equal
      (cockpit_session_destroy sample_two_sockets_busy.sessions sample_session_x).by_channel
      "1:a" = none ∧
    cockpit_session_by_transport
      (cockpit_session_destroy sample_two_sockets_busy.sessions sample_session_x) 1 = none :=
  have h := session_destroy_purges (reach_sessions_inv sample_two_sockets_busy_reach)
    sample_session_x (by decide)
  ⟨h.2.1 "1:a" rfl, h.2.2.2.1⟩

/-! ## The close of a session -/

theorem dispose_effects_no_frame (env : Env) (self : CockpitWebService) :
    ∀ e ∈ (cockpit_web_service_dispose env self).2,
      ∀ k pfx pl, e ≠ Effect.web_socket_connection_send k pfx pl := by
  intro e he k pfx pl
  unfold cockpit_web_service_dispose at he
  simp only [List.mem_append, List.mem_filterMap] at he
  rcases he with (⟨node, _, h⟩ | ⟨node, _, h⟩) | h
  · split at h
    · split at h
      · cases h; simp
      · cases h
    · cases h
  · split at h
    · cases h; simp
    · cases h
  · split at h
    · simp at h; subst h; simp
    · cases h

theorem build_control_close_members (ch p key fp : Option String) (name : String) :
    json_object_get_member
      (build_control [("command", some "close"), ("channel", ch), ("reason", p),
        ("host-key", key), ("host-fingerprint", fp)]) name =
      if "command" = name then some (JsonNode.string "close")
      else if "channel" = name then ch.map JsonNode.string
      else if "reason" = name then p.map JsonNode.string
      else if "host-key" = name then key.map JsonNode.string
      else if "host-fingerprint" = name then fp.map JsonNode.string
      else none := by
  cases ch <;> cases p <;> cases key <;> cases fp <;>
    simp only [build_control, json_object_set_string_member, json_object_get_member,
      g_hash_table_insert, g_hash_table_lookup, g_str_equal, List.foldl_cons, List.foldl_nil,
      Option.map_some', Option.map_none', decide_eq_true_eq] <;>
    (try split_ifs) <;> (try rfl) <;> (try (subst_vars; simp_all))

/-- C20: when the transport of the tracked session `S` closes with problem `p`,
`on_session_closed` sends, channel by channel of `S`, one control frame (newline prefix) to
the socket that owns the scope of the channel when that socket is tracked and OPEN, and
none for the other channels; the frame holds "command" "close", "channel" the socket-local
channel, "reason" `p` (no member when `p` is null), and "host-key" and "host-fingerprint"
only when `p` is "unknown-hostkey" on an ssh transport; every frame goes to a socket that
owns a channel of `S`; and when `S` is not primary there is no other effect, so no browser
socket is closed. -/
theorem on_session_closed_notifies (env : Env) (self : CockpitWebService)
    (T : CockpitTransport) (p : Option String) (S : CockpitSession)
    (hS : cockpit_session_by_transport self.sessions T = some S) :
    ∃ (key fp : Option String) (rest : List Effect),
      (p = some "unknown-hostkey" ∧ env.is_ssh_transport T = true →
        key = env.ssh_host_key T ∧ fp = env.ssh_host_fingerprint T) ∧
      (¬ (p = some "unknown-hostkey" ∧ env.is_ssh_transport T = true) →
        key = none ∧ fp = none) ∧
      (on_session_closed env self T p).2 =
        S.channels.filterMap (fun node =>
          (open_owner env self.sockets node.1).map (fun socket =>
            Effect.web_socket_connection_send socket.connection "\n"
              (env.json_write_bytes (build_control
                [("command", some "close"),
                 ("channel", cockpit_socket_remove_channel_scope node.1),
                 ("reason", p), ("host-key", key), ("host-fingerprint", fp)])))) ++ rest ∧
      (S.primary = false → rest = []) ∧
      (∀ e ∈ rest, ∀ k pfx pl, e ≠ Effect.web_socket_connection_send k pfx pl) ∧
      (∀ k pfx pl,
        Effect.web_socket_connection_send k pfx pl ∈ (on_session_closed env self T p).2 →
        ∃ ch ∈ table_keys S.channels, ∃ socket,
          cockpit_socket_lookup_by_channel self.sockets ch = some socket ∧
          socket.connection = k ∧ env.ready_state k = WebSocketState.OPEN) ∧
      (S.primary = false → ∀ e ∈ (on_session_closed env self T p).2,
        ∀ k code reason, e ≠ Effect.web_socket_connection_close k code reason) ∧
      (∀ (ch : Option String) (name : String),
        json_object_get_member
          (build_control [("command", some "close"), ("channel", ch), ("reason", p),
            ("host-key", key), ("host-fingerprint", fp)]) name =
          if "command" = name then some (JsonNode.string "close")
          else if "channel" = name then ch.map JsonNode.string
          else if "reason" = name then p.map JsonNode.string
          else if "host-key" = name then key.map JsonNode.string
          else if "host-fingerprint" = name then fp.map JsonNode.string
          else none) := by
  let key : Option String :=
    if (decide (p = some "unknown-hostkey") && env.is_ssh_transport T) = true then
      env.ssh_host_key T else none
  let fp : Option String :=
    if (decide (p = some "unknown-hostkey") && env.is_ssh_transport T) = true then
      env.ssh_host_fingerprint T else none
  let sends : List Effect := S.channels.filterMap (fun node =>
    (open_owner env self.sockets node.1).map (fun socket =>
      Effect.web_socket_connection_send socket.connection "\n"
        (env.json_write_bytes (build_control
          [("command", some "close"),
           ("channel", cockpit_socket_remove_channel_scope node.1),
           ("reason", p), ("host-key", key), ("host-fingerprint", fp)]))))
  let rest : List Effect :=
    if S.primary then
      (cockpit_web_service_dispose env
        { self with sessions := cockpit_session_destroy self.sessions S }).2
    else []
  have heff : (on_session_closed env self T p).2 = sends ++ rest := by
    unfold on_session_closed
    rw [hS]
    cases hp : S.primary
    · simp only [rest, hp, sends, Bool.false_eq_true, if_false, List.append_nil]
      apply congrArg (fun f => List.filterMap f S.channels)
      funext node
      unfold open_owner control_prefix
      cases cockpit_socket_lookup_by_channel self.sockets node.1 with
      | none => rfl
      | some socket =>
        by_cases ho : env.ready_state socket.connection = WebSocketState.OPEN
        · simp [ho, key, fp]
        · simp [ho]
    · simp only [rest, hp, sends, if_true]
      apply congrArg (fun l => l ++ _)
      apply congrArg (fun f => List.filterMap f S.channels)
      funext node
      unfold open_owner control_prefix
      cases cockpit_socket_lookup_by_channel self.sockets node.1 with
      | none => rfl
      | some socket =>
        by_cases ho : env.ready_state socket.connection = WebSocketState.OPEN
        · simp [ho, key, fp]
        · simp [ho]
  have hrest : ∀ e ∈ rest, ∀ k pfx pl, e ≠ Effect.web_socket_connection_send k pfx pl := by
    intro e he
    cases hp : S.primary
    · simp [rest, hp] at he
    · simp only [rest, hp, if_true] at he
      exact dispose_effects_no_frame env _ e he
  have hto : ∀ k pfx pl, Effect.web_socket_connection_send k pfx pl ∈ sends →
      ∃ ch ∈ table_keys S.channels, ∃ socket,
        cockpit_socket_lookup_by_channel self.sockets ch = some socket ∧
        socket.connection = k ∧ env.ready_state k = WebSocketState.OPEN := by
    intro k pfx pl hmem
    simp only [sends, List.mem_filterMap] at hmem
    obtain ⟨node, hnode, hn⟩ := hmem
    unfold open_owner at hn
    cases hl : cockpit_socket_lookup_by_channel self.sockets node.1 with
    | none => simp [hl] at hn
    | some socket =>
      by_cases ho : env.ready_state socket.connection = WebSocketState.OPEN
      · simp only [hl, ho, if_true, Option.map_some', Option.some.injEq,
          Effect.web_socket_connection_send.injEq] at hn
        refine ⟨node.1, List.mem_map_of_mem _ hnode, socket, hl, hn.1, ?_⟩
        rw [← hn.1]; exact ho
      · simp [hl, ho] at hn
  refine ⟨key, fp, rest, ?_, ?_, heff, ?_, hrest, ?_, ?_, ?_⟩
  · rintro ⟨h1, h2⟩
    simp [key, fp, h1, h2]
  · intro h
    have : (decide (p = some "unknown-hostkey") && env.is_ssh_transport T) = false := by
      by_cases h1 : p = some "unknown-hostkey"
      · have h2 : env.is_ssh_transport T = false := by
          cases h3 : env.is_ssh_transport T
          · rfl
          · exact absurd ⟨h1, h3⟩ h
        simp [h2]
      · simp [h1]
    simp [key, fp, this]
  · intro hp
    simp [rest, hp]
  · intro k pfx pl hmem
    rw [heff, List.mem_append] at hmem
    rcases hmem with hmem | hmem
    · exact hto k pfx pl hmem
    · exact absurd rfl (hrest _ hmem k pfx pl)
  · intro hp e he k code reason
    rw [heff] at he
    have hr : rest = [] := by simp [rest, hp]
    rw [hr, List.append_nil] at he
    simp only [sends, List.mem_filterMap] at he
    obtain ⟨node, _, hn⟩ := he
    cases ho : open_owner env self.sockets node.1 with
    | none => simp [ho] at hn
    | some socket =>
      simp only [ho, Option.map_some', Option.some.injEq] at hn
      rw [← hn]
      simp
  · intro ch name
    exact build_control_close_members ch p key fp name

theorem on_session_closed_notifies_witness :
    (on_session_closed sample_env sample_two_sockets_busy 1 (some "terminated")).2 =
      [Effect.web_socket_connection_send 7 "\n" "command,channel,reason"] := by
  obtain ⟨key, fp, rest, _, h2, h3, h4, _⟩ :=
    on_session_closed_notifies sample_env sample_two_sockets_busy 1 (some "terminated")
      sample_session_x (by decide)
  obtain ⟨rfl, rfl⟩ := h2 (by decide)
  rw [h3, h4 rfl]
  decide

/-! ## Messages of the agent to the browser -/

theorem wrap_service_busy_step (m : Nat) (hm : m ≠ 1) :
    (on_web_socket_close (cockpit_web_service_socket (wrap_service_busy m) 1) 1).1 =
      wrap_service_busy ((m + 1) % G_MAXUINT_SUCC) := by
  have h1 : channel_scope_equal (scope_of_id 1) (scope_of_id m) = false := by
    have := channel_scope_equal_scope_nil 1 m ""
    simp only [String.append_empty] at this
    rw [this]
    simp [Ne.symm hm]
  have h2 : channel_scope_equal (scope_of_id m) (scope_of_id m) = true := by
    have := channel_scope_equal_scope_nil m m ""
    simp only [String.append_empty] at this
    rw [this]
    simp
  simp [on_web_socket_close, cockpit_web_service_socket, wrap_service_busy, wrap_service,
    cockpit_socket_track,
    cockpit_socket_lookup_by_connection, cockpit_socket_destroy, caller_begin, caller_end,
    g_hash_table_insert, g_hash_table_lookup, g_hash_table_remove, g_direct_equal, h1, h2]

theorem wrap_service_busy_reach_step {n m : Nat} (h : Reach n (wrap_service_busy m))
    (hm : m ≠ 1) : Reach (n + 1) (wrap_service_busy ((m + 1) % G_MAXUINT_SUCC)) := by
  have hs : Reach (n + 1) (cockpit_web_service_socket (wrap_service_busy m) 1) :=
    Reach.socket 1 h
      (by show cockpit_socket_lookup_by_connection (wrap_service_busy m).sockets 1 = none; rfl)
  rw [← wrap_service_busy_step m hm]
  exact Reach.event sample_env (Event.close 1)
    (on_web_socket_close (cockpit_web_service_socket (wrap_service_busy m) 1) 1).2 hs
    (by intro c; simp)
    (by
      unfold Event.enabled
      simp [cockpit_web_service_socket, wrap_service_busy, wrap_service, cockpit_socket_track,
        caller_begin, cockpit_socket_lookup_by_connection, g_hash_table_insert,
        g_hash_table_lookup, g_direct_equal])
    rfl

theorem wrap_service_busy_start : Reach 1 (wrap_service_busy 2) :=
  Reach.event sample_env
    (Event.message 0 "\n\x7b\"command\":\"open\",\"channel\":\"a\",\"host\":\"x\"\x7d" 1)
    [Effect.ssh_transport_new 1 "x" 0 none, Effect.cockpit_transport_send 1 none
      "command,channel,host"]
    (wrap_service_reach 0 (by decide)) (by intro c; simp)
    (by unfold Event.enabled; decide) (by decide)

theorem wrap_service_busy_reach (j : Nat) :
    j + 1 ≤ G_MAXUINT_SUCC →
    Reach (1 + j) (wrap_service_busy ((2 + j) % G_MAXUINT_SUCC)) := by
  induction j with
  | zero =>
    intro _
    exact wrap_service_busy_start
  | succ j ih =>
    intro hj
    have h := wrap_service_busy_reach_step (ih (by omega))
      (by unfold G_MAXUINT_SUCC at hj ⊢; omega)
    have e : ((2 + j) % G_MAXUINT_SUCC + 1) % G_MAXUINT_SUCC
        = (2 + (j + 1)) % G_MAXUINT_SUCC := by
      unfold G_MAXUINT_SUCC; omega
    rw [e] at h
    exact h

theorem wrapped_service_busy_reach : Reach (G_MAXUINT_SUCC + 1) wrapped_service_busy := by
  have h := wrap_service_busy_reach (G_MAXUINT_SUCC - 1) (by unfold G_MAXUINT_SUCC; omega)
  have e1 : (2 + (G_MAXUINT_SUCC - 1)) % G_MAXUINT_SUCC = 1 := by
    unfold G_MAXUINT_SUCC; omega
  have e2 : 1 + (G_MAXUINT_SUCC - 1) = G_MAXUINT_SUCC := by
    unfold G_MAXUINT_SUCC; omega
  rw [e1, e2] at h
  exact Reach.socket 1 h (by unfold Event.enabled; decide)

theorem socket_of_scoped_channel {n : Nat} {sockets : CockpitSockets}
    (inv : SocketsInv n sockets) (connection : WebSocketConnection) (s : CockpitSocket)
    (c : String) (hs : cockpit_socket_lookup_by_connection sockets connection = some s) :
    s.connection = connection ∧
    cockpit_socket_lookup_by_channel sockets (cockpit_socket_add_channel_scope s c) = some s ∧
    cockpit_socket_remove_channel_scope (cockpit_socket_add_channel_scope s c) = some c := by
  obtain ⟨hc, k, _, _, hscope⟩ := inv.owned _ _ hs
  refine ⟨hc, ?_, ?_⟩
  · unfold cockpit_socket_lookup_by_channel cockpit_socket_add_channel_scope
    rw [hscope, by_scope_lookup inv, ← hscope, inv.scope_maps _ _ hs]
    exact hs
  · unfold cockpit_socket_add_channel_scope
    rw [hscope]
    exact remove_scope_of_id _ _

theorem no_socket_of_scope {n : Nat} {sockets : CockpitSockets}
    (inv : SocketsInv n sockets) (m : Nat) (c : String)
    (hnone : ∀ k socket, cockpit_socket_lookup_by_connection sockets k = some socket →
      socket.scope ≠ scope_of_id m) :
    cockpit_socket_lookup_by_channel sockets (scope_of_id m ++ c) = none := by
  unfold cockpit_socket_lookup_by_channel
  rw [by_scope_lookup inv]
  cases hl : g_hash_table_lookup g_str_equal sockets.by_scope (scope_of_id m) with
  | none => rfl
  | some k =>
    obtain ⟨socket, h1, h2⟩ := inv.scopes _ _ hl
    exact absurd h2 (hnone k socket h1)

/-- C11, as stated, fails: once the 32-bit scope counter has wrapped, the connection accepted
last has the scope "1:" of connection 0; a data message of the agent on channel "a" of the
socket of connection 0, which is tracked and OPEN, is then sent to connection 1. -/
theorem on_session_recv_after_wrap :
    Reachable wrapped_service_busy ∧
    cockpit_socket_lookup_by_connection wrapped_service_busy.sockets 0 = some ⟨"1:", 0⟩ ∧
    sample_env.ready_state 0 = WebSocketState.OPEN ∧
    (cockpit_session_by_channel wrapped_service_busy.sessions
      (cockpit_socket_add_channel_scope ⟨"1:", 0⟩ "a")).map (fun S => S.transport)
        = some 1 ∧
    on_session_recv sample_env wrapped_service_busy 1
      (some (cockpit_socket_add_channel_scope ⟨"1:", 0⟩ "a")) "P" =
      [Effect.web_socket_connection_send 1 "a\n" "P"] :=
  ⟨⟨_, wrapped_service_busy_reach⟩, by decide, by decide, by decide, by decide⟩

/-- C11, amended: for a data message with payload `P` from transport `T` on a channel that
belongs to the session of `T`.  In every state reached while at most 2^32 browser
connections have been accepted: (1) when the channel is the scoped channel of the tracked
socket `s` and the socket-local channel `c`, exactly one TEXT frame is sent when `s` is
OPEN, to the connection of `s`, made of `c`, a newline and `P`, and nothing is sent when `s`
is not OPEN; (2) when no tracked socket has the scope of the channel nothing is sent.  In
every reachable state, however many connections have been accepted: (3) whatever the
channel, a frame only goes to the socket that `by_scope` gives for the scope of the channel,
and it carries the payload unchanged. -/
theorem on_session_recv_delivers {n : Nat} {self : CockpitWebService} (h : Reach n self)
    (env : Env) (T : CockpitTransport) (P : GBytes) :
    (n ≤ G_MAXUINT_SUCC →
      ∀ (connection : WebSocketConnection) (s : CockpitSocket) (c : String)
      (session : CockpitSession),
      cockpit_socket_lookup_by_connection self.sockets connection = some s →
      cockpit_session_by_channel self.sessions (cockpit_socket_add_channel_scope s c)
        = some session →
      session.transport = T →
      (env.ready_state s.connection = WebSocketState.OPEN →
        on_session_recv env self T (some (cockpit_socket_add_channel_scope s c)) P =
          [Effect.web_socket_connection_send s.connection (c ++ "\n") P]) ∧
      (env.ready_state s.connection ≠ WebSocketState.OPEN →
        on_session_recv env self T (some (cockpit_socket_add_channel_scope s c)) P = [])) ∧
    (n ≤ G_MAXUINT_SUCC →
      ∀ (m : Nat) (c : String) (session : CockpitSession),
      cockpit_session_by_channel self.sessions (scope_of_id m ++ c) = some session →
      session.transport = T →
      (∀ k socket, cockpit_socket_lookup_by_connection self.sockets k = some socket →
        socket.scope ≠ scope_of_id m) →
      on_session_recv env self T (some (scope_of_id m ++ c)) P = []) ∧
    (∀ (ch : String) (k : WebSocketConnection) (pfx pl : GBytes),
      Effect.web_socket_connection_send k pfx pl ∈ on_session_recv env self T (some ch) P →
      ∃ socket, cockpit_socket_lookup_by_channel self.sockets ch = some socket ∧
        socket.connection = k ∧ pl = P) := by
  refine ⟨?_, ?_, ?_⟩
  · intro hn connection s c session hs hsession hT
    have inv := reach_sockets_inv h hn
    obtain ⟨_, hlook, hrem⟩ := socket_of_scoped_channel inv connection s c hs
    have hT1 : ¬ session.transport ≠ T := fun e => e hT
    refine ⟨?_, ?_⟩
    · intro ho
      simp [on_session_recv, hsession, hT1, hlook, ho, hrem]
    · intro ho
      simp [on_session_recv, hsession, hT1, hlook, ho]
  · intro hn m c session hsession hT hnone
    have inv := reach_sockets_inv h hn
    have hT1 : ¬ session.transport ≠ T := fun e => e hT
    simp [on_session_recv, hsession, hT1, no_socket_of_scope inv m c hnone]
  · intro ch k pfx pl hmem
    unfold on_session_recv at hmem
    simp only at hmem
    cases hsession : cockpit_session_by_channel self.sessions ch with
    | none => simp [hsession, outbound_protocol_error] at hmem
    | some session =>
      simp only [hsession] at hmem
      split at hmem
      · simp [outbound_protocol_error] at hmem
      · cases hl : cockpit_socket_lookup_by_channel self.sockets ch with
        | none => simp [hl] at hmem
        | some socket =>
          simp only [hl] at hmem
          split at hmem
          · simp only [List.mem_singleton, Effect.web_socket_connection_send.injEq] at hmem
            exact ⟨socket, rfl, hmem.1.symm, hmem.2.2⟩
          · simp at hmem

theorem on_session_recv_delivers_witness :
    on_session_recv sample_env sample_two_sockets_busy 1
      (some (cockpit_socket_add_channel_scope ⟨"1:", 7⟩ "a")) "P" =
      [Effect.web_socket_connection_send 7 ("a" ++ "\n") "P"] ∧
    on_session_recv sample_env (run_event sample_env sample_two_sockets_busy (Event.close 7))
      1 (some (scope_of_id 1 ++ "a")) "P" = [] ∧
    (∃ socket,
      cockpit_socket_lookup_by_channel wrapped_service_busy.sockets "1:a" = some socket ∧
      socket.connection = 1 ∧ "P" = "P") :=
  ⟨((on_session_recv_delivers sample_two_sockets_busy_reach sample_env 1 "P").1 (by decide)
      7 ⟨"1:", 7⟩ "a" sample_session_x (by decide) (by decide) rfl).1 (by decide),
   (on_session_recv_delivers
      (reach_run_event sample_env (Event.close 7) sample_two_sockets_busy_reach
        (by intro c; simp) (by unfold Event.enabled; decide) (by decide))
      sample_env 1 "P").2.1 (by decide) 1 "a" sample_session_x (by decide) rfl
      (by
        intro k socket hk
        have e : cockpit_socket_lookup_by_connection
            (run_event sample_env sample_two_sockets_busy (Event.close 7)).sockets k =
            if g_direct_equal 8 k then some ⟨"2:", 8⟩ else none := rfl
        rw [e] at hk
        split at hk
        · cases hk
          decide
        · cases hk),
   (on_session_recv_delivers wrapped_service_busy_reach sample_env 1 "P").2.2 "1:a" 1
     "a\n" "P" (by decide)⟩

theorem insert_insert {K V : Type} (eq : K → K → Bool) (heq : ∀ a, eq a a = true)
    (t : GHashTable K V) (k : K) (v1 v2 : V) :
    g_hash_table_insert eq (g_hash_table_insert eq t k v1) k v2 =
      g_hash_table_insert eq t k v2 := by
  induction t with
  | nil => simp [g_hash_table_insert, heq]
  | cons node rest ih =>
    obtain ⟨k0, v0⟩ := node
    by_cases h : eq k0 k = true
    · simp [g_hash_table_insert, h]
    · simp [g_hash_table_insert, h, ih]

theorem insert_lookup_self {K V : Type} (eq : K → K → Bool) (t : GHashTable K V) (k : K)
    (v : V) (h : g_hash_table_lookup eq t k = some v) : g_hash_table_insert eq t k v = t := by
  induction t with
  | nil => simp [g_hash_table_lookup] at h
  | cons node rest ih =>
    obtain ⟨k0, v0⟩ := node
    by_cases h0 : eq k0 k = true
    · simp only [g_hash_table_lookup, h0, if_true, Option.some.injEq] at h
      simp [g_hash_table_insert, h0, h]
    · simp only [g_hash_table_lookup, h0, if_false, Bool.false_eq_true] at h
      simp [g_hash_table_insert, h0, ih h]

theorem set_channel_round_trip (options : JsonObject) (channel c : String)
    (h : json_object_get_member options "channel" = some (JsonNode.string c)) :
    json_object_set_string_member
      (json_object_set_string_member options "channel" (some channel)) "channel" (some c)
      = options := by
  unfold json_object_set_string_member
  simp only
  rw [insert_insert _ (fun a => (g_str_equal_iff a a).2 rfl)]
  exact insert_lookup_self _ _ _ _ h

theorem on_session_control_channel (env : Env) (self : CockpitWebService)
    (T : CockpitTransport) (command channel : String) (options : JsonObject)
    (session : CockpitSession) (socket : CockpitSocket)
    (hsession : cockpit_session_by_channel self.sessions channel = some session)
    (hT : session.transport = T)
    (hlook : cockpit_socket_lookup_by_channel self.sockets channel = some socket) :
    (on_session_control env self T command (some channel) options).2 =
      if env.ready_state socket.connection = WebSocketState.OPEN then
        [Effect.web_socket_connection_send socket.connection "\n"
          (env.json_write_bytes (json_object_set_string_member options "channel"
            (cockpit_socket_remove_channel_scope channel)))]
      else [] := by
  have hT1 : ¬ session.transport ≠ T := fun e => e hT
  unfold on_session_control
  simp only [hsession, hT1, if_false]
  by_cases hc : command = "close"
  · simp only [hc, if_true]
    have hsock : (process_close env self session channel options).2.sockets = self.sockets :=
      rfl
    have hval : (process_close env self session channel options).1 = true := rfl
    simp only [hval, hsock, hlook, if_true, List.append_nil]
    rfl
  · simp only [hc, if_false, if_true, hlook, List.append_nil]
    rfl

/-- C13, as stated, fails: once the 32-bit scope counter has wrapped, the connection accepted
last has the scope "1:" of connection 0; a control message of the agent on channel "a" of
the socket of connection 0, which is tracked and OPEN, is then sent to connection 1. -/
theorem on_session_control_after_wrap :
    Reachable wrapped_service_busy ∧
    cockpit_socket_lookup_by_connection wrapped_service_busy.sockets 0 = some ⟨"1:", 0⟩ ∧
    sample_env.ready_state 0 = WebSocketState.OPEN ∧
    (cockpit_session_by_channel wrapped_service_busy.sessions
      (cockpit_socket_add_channel_scope ⟨"1:", 0⟩ "a")).map (fun S => S.transport)
        = some 1 ∧
    (on_session_control sample_env wrapped_service_busy 1 "ready"
      (some (cockpit_socket_add_channel_scope ⟨"1:", 0⟩ "a"))
      [("command", JsonNode.string "ready"), ("channel", JsonNode.string "1:a")]).2 =
      [Effect.web_socket_connection_send 1 "\n" "command,channel"] :=
  ⟨⟨_, wrapped_service_busy_reach⟩, by decide, by decide, by decide, by decide⟩

/-- C13, amended: in every state reached while at most 2^32 browser connections have been
accepted, for a control message from transport `T` on the scoped channel of the tracked,
OPEN socket `s` and the socket-local channel `c`, where the channel belongs to the session
of `T`: exactly one TEXT frame is sent, to the connection of `s`, made of a newline and the
JSON of the options with member "channel" set to the string `c` and every other member
unchanged.  Composed with the rewrite of the browser-to-agent direction: when the agent
echoes options that the service made from browser options with "channel" `c` by setting the
scoped channel, the browser gets back the JSON of its own options. -/
theorem on_session_control_forwards {n : Nat} {self : CockpitWebService} (h : Reach n self)
    (hn : n ≤ G_MAXUINT_SUCC) (env : Env) (T : CockpitTransport) (command : String)
    (connection : WebSocketConnection) (s : CockpitSocket) (c : String)
    (session : CockpitSession)
    (hs : cockpit_socket_lookup_by_connection self.sockets connection = some s)
    (hsession : cockpit_session_by_channel self.sessions
      (cockpit_socket_add_channel_scope s c) = some session)
    (hT : session.transport = T)
    (hopen : env.ready_state s.connection = WebSocketState.OPEN) :
    (∀ options : JsonObject,
      (on_session_control env self T command
        (some (cockpit_socket_add_channel_scope s c)) options).2 =
        [Effect.web_socket_connection_send s.connection "\n"
          (env.json_write_bytes (json_object_set_string_member options "channel"
            (some c)))]) ∧
    (∀ (options : JsonObject) (name : String),
      json_object_get_member (json_object_set_string_member options "channel" (some c)) name =
        if "channel" = name then some (JsonNode.string c)
        else json_object_get_member options name) ∧
    (∀ options0 : JsonObject,
      json_object_get_member options0 "channel" = some (JsonNode.string c) →
      (on_session_control env self T command
        (some (cockpit_socket_add_channel_scope s c))
        (json_object_set_string_member options0 "channel"
          (some (cockpit_socket_add_channel_scope s c)))).2 =
        [Effect.web_socket_connection_send s.connection "\n"
          (env.json_write_bytes options0)]) := by
  have inv := reach_sockets_inv h hn
  obtain ⟨_, hlook, hrem⟩ := socket_of_scoped_channel inv connection s c hs
  have main : ∀ options : JsonObject,
      (on_session_control env self T command
        (some (cockpit_socket_add_channel_scope s c)) options).2 =
        [Effect.web_socket_connection_send s.connection "\n"
          (env.json_write_bytes (json_object_set_string_member options "channel"
            (some c)))] := by
    intro options
    rw [on_session_control_channel env self T command _ options session s hsession hT hlook,
      hrem]
    simp [hopen]
  refine ⟨main, ?_, ?_⟩
  · intro options name
    exact set_string_member_get options "channel" c name
  · intro options0 h0
    rw [main, set_channel_round_trip options0 _ c h0]

theorem on_session_control_forwards_witness :
    (on_session_control sample_env sample_two_sockets_busy 1 "ready"
      (some (cockpit_socket_add_channel_scope ⟨"1:", 7⟩ "a"))
      [("command", JsonNode.string "ready"), ("channel", JsonNode.string "1:a")]).2 =
      [Effect.web_socket_connection_send 7 "\n"
        (sample_env.json_write_bytes (json_object_set_string_member
          [("command", JsonNode.string "ready"), ("channel", JsonNode.string "1:a")]
          "channel" (some "a")))] :=
  (on_session_control_forwards sample_two_sockets_busy_reach (by decide) sample_env 1 "ready"
    7 ⟨"1:", 7⟩ "a" sample_session_x (by decide) (by decide) rfl (by decide)).1 _

/-! ## The idle timer over the steps of the service -/

theorem dispatch_state (env : Env) (self : CockpitWebService) (socket : CockpitSocket)
    (payload : GBytes) (fresh : CockpitTransport)
    {self1 : CockpitWebService} {effects : List Effect}
    (h : dispatch_inbound_command env self socket payload fresh = some (self1, effects)) :
    self1 = self ∨
    (∃ channel options valid effects1,
      process_open env self channel options fresh = some (valid, self1, effects1)) ∨
    (∃ options, self1 = (process_logout env self options).2.1) := by
  unfold dispatch_inbound_command at h
  split at h
  · simp only [Option.some.injEq, Prod.mk.injEq] at h
    exact Or.inl h.1.symm
  · rename_i command socket_channel options hparse
    simp only at h
    split at h
    · cases h
    · rename_i valid forward self2 effects2 hbranch
      have key : self2 = self ∨
          (∃ channel options valid effects1,
            process_open env self channel options fresh = some (valid, self2, effects1)) ∨
          (∃ options, self2 = (process_logout env self options).2.1) := by
        split at hbranch
        · cases ho : process_open env self
              (Option.map (cockpit_socket_add_channel_scope socket) socket_channel) options
              fresh with
          | none => simp [ho] at hbranch
          | some r =>
            obtain ⟨v, s2, e2⟩ := r
            simp only [ho, Option.map_some', Option.some.injEq, Prod.mk.injEq] at hbranch
            obtain ⟨_, _, h3, _⟩ := hbranch
            subst h3
            exact Or.inr (Or.inl ⟨_, _, _, _, ho⟩)
        · split at hbranch
          · simp only [Option.some.injEq, Prod.mk.injEq] at hbranch
            obtain ⟨_, _, h3, _⟩ := hbranch
            subst h3
            exact Or.inr (Or.inr ⟨options, rfl⟩)
          · split at hbranch <;> [skip; split at hbranch] <;>
            · simp only [Option.some.injEq, Prod.mk.injEq] at hbranch
              obtain ⟨_, _, h3, _⟩ := hbranch
              subst h3
              exact Or.inl rfl
      have hres : self1 = self2 := by
        split at h
        · simp only [Option.some.injEq, Prod.mk.injEq] at h; exact h.1.symm
        · split at h
          · split at h
            · simp only [Option.some.injEq, Prod.mk.injEq] at h; exact h.1.symm
            · split at h
              · split at h <;>
                · simp only [Option.some.injEq, Prod.mk.injEq] at h; exact h.1.symm
              · simp only [Option.some.injEq, Prod.mk.injEq] at h; exact h.1.symm
          · simp only [Option.some.injEq, Prod.mk.injEq] at h; exact h.1.symm
      rw [hres]; exact key

theorem message_state (env : Env) (self : CockpitWebService)
    (connection : WebSocketConnection) (message : GBytes) (fresh : CockpitTransport)
    {self1 : CockpitWebService} {effects : List Effect}
    (h : on_web_socket_message env self connection message fresh = some (self1, effects)) :
    self1 = self ∨
    (∃ channel options valid effects1,
      process_open env self channel options fresh = some (valid, self1, effects1)) ∨
    (∃ options, self1 = (process_logout env self options).2.1) := by
  unfold on_web_socket_message at h
  split at h
  · simp only [Option.some.injEq, Prod.mk.injEq] at h
    exact Or.inl h.1.symm
  · split at h
    · simp only [Option.some.injEq, Prod.mk.injEq] at h
      exact Or.inl h.1.symm
    · exact dispatch_state env self _ _ _ h
    · have : self1 = self := by
        split at h
        · simp only at h
          split at h
          · split at h <;>
            · simp only [Option.some.injEq, Prod.mk.injEq] at h; exact h.1.symm
          · simp only [Option.some.injEq, Prod.mk.injEq] at h; exact h.1.symm
        · simp only [Option.some.injEq, Prod.mk.injEq] at h; exact h.1.symm
      exact Or.inl this

theorem resource_state (env : Env) (self : CockpitWebService) (response : Nat)
    (path : String) (fresh : CockpitTransport)
    {self1 : CockpitWebService} {effects : List Effect} {r : Option ResourceResponse}
    (h : cockpit_web_service_resource env self response path fresh
      = some (self1, effects, r)) :
    self1.sessions = self.sessions ∨
    (∃ host session self2 effects1,
      lookup_or_open_session_for_host env self host none CredsRef.service false fresh
        = some (session, self2, effects1) ∧ self1.sessions = self2.sessions) := by
  unfold cockpit_web_service_resource at h
  simp only at h
  have hchk : ∀ (s : CockpitWebService) (rp : String),
      (resource_respond_checksum env s response path rp).2.1.sessions = s.sessions := by
    intro s rp
    unfold resource_respond_checksum
    split
    · split
      · rfl
      · rfl
    · rfl
  have hnorm : ∀ (rp : String) (r1 : Bool × CockpitWebService × List Effect ×
      Option ResourceResponse),
      resource_respond_normal env self response path rp fresh = some r1 →
      r1.2.1.sessions = self.sessions ∨
      (∃ host session self2 effects1,
        lookup_or_open_session_for_host env self host none CredsRef.service false fresh
          = some (session, self2, effects1) ∧ r1.2.1.sessions = self2.sessions) := by
    intro rp r1 hr
    unfold resource_respond_normal at hr
    split at hr
    · rename_i part0 part1 part2 _
      split at hr
      · cases hr
      · rename_i session self2 effects1 hlo
        simp only [Option.some.injEq] at hr
        subst hr
        exact Or.inr ⟨_, _, _, _, hlo, rfl⟩
    · simp only [Option.some.injEq] at hr
      subst hr
      exact Or.inl rfl
  split at h
  · cases h
  · rename_i r1 hr1
    simp only [Option.some.injEq, Prod.mk.injEq] at h
    have e := h.1
    have hr1s : r1.2.1.sessions = self.sessions ∨
        (∃ host session self2 effects1,
          lookup_or_open_session_for_host env self host none CredsRef.service false fresh
            = some (session, self2, effects1) ∧ r1.2.1.sessions = self2.sessions) := by
      split at hr1
      · exact hnorm _ _ hr1
      · simp only [Option.some.injEq] at hr1
        subst hr1
        exact Or.inl rfl
    have hs1 : self1.sessions = r1.2.1.sessions := by
      rw [← e]
      split
      · exact hchk _ _
      · rfl
    rw [hs1]
    exact hr1s

theorem modules_state (env : Env) (self : CockpitWebService) (host : Option String)
    (fresh : CockpitTransport)
    {self1 : CockpitWebService} {effects : List Effect} {channel : String}
    (h : cockpit_web_service_modules env self host fresh = some (self1, effects, channel)) :
    ∃ session self2 effects1,
      lookup_or_open_session_for_host env self host none CredsRef.service false fresh
        = some (session, self2, effects1) ∧ self1.sessions = self2.sessions := by
  unfold cockpit_web_service_modules at h
  split at h
  · cases h
  · rename_i session self2 effects1 hlo
    simp only [Option.some.injEq, Prod.mk.injEq] at h
    refine ⟨_, _, _, hlo, ?_⟩
    rw [← h.1]

theorem timer_refl (a : Int) (fired : CockpitTransport → Prop) (s : CockpitSessions) :
    TimerStep a fired s s :=
  fun _ S1 h => Or.inr ⟨S1, h, Or.inl ⟨rfl, rfl⟩⟩

theorem timer_of_eq (a : Int) (fired : CockpitTransport → Prop) {s s1 : CockpitSessions}
    (e : s1 = s) : TimerStep a fired s s1 := by
  rw [e]; exact timer_refl a fired s

theorem timer_dispose (env : Env) (a : Int) (fired : CockpitTransport → Prop)
    (s : CockpitSessions) (self : CockpitWebService)
    (h : TimerStep a fired s self.sessions) :
    TimerStep a fired s (cockpit_web_service_dispose env self).1.sessions := by
  intro t S1 hS1
  have hl : (g_hash_table_lookup g_direct_equal self.sessions.by_transport t).map
      (fun S => { S with sent_eof := true }) = some S1 :=
    (lookup_map_values g_direct_equal (fun S : CockpitSession => { S with sent_eof := true })
      self.sessions.by_transport t).symm.trans hS1
  cases h0 : g_hash_table_lookup g_direct_equal self.sessions.by_transport t with
  | none => simp [h0] at hl
  | some S0 =>
    simp only [h0, Option.map_some', Option.some.injEq] at hl
    subst hl
    rcases h t S0 h0 with ⟨h1, h2⟩ | ⟨S, h1, h2⟩
    · exact Or.inl ⟨h1, h2⟩
    · exact Or.inr ⟨S, h1, h2⟩

theorem lookup_or_open_by_transport (env : Env) {self : CockpitWebService}
    (hs : SessionsInv self.sessions) (host : Option String) (host_key : Option String)
    (creds : CredsRef) (private_ : Bool) (fresh : CockpitTransport)
    (hfresh : cockpit_session_by_transport self.sessions fresh = none)
    {session : CockpitSession} {self1 : CockpitWebService} {effects : List Effect}
    (h : lookup_or_open_session_for_host env self host host_key creds private_ fresh
      = some (session, self1, effects)) :
    (∀ t, cockpit_session_by_transport self1.sessions t =
      if session.transport = t then some session
      else cockpit_session_by_transport self.sessions t) ∧
    (cockpit_session_by_transport self.sessions session.transport = some session ∨
      (cockpit_session_by_transport self.sessions session.transport = none ∧
        session.timeout = none ∧ session.channels = [])) := by
  unfold lookup_or_open_session_for_host at h
  simp only at h
  split at h
  · cases h
  · rename_i session0 hfound
    simp only [Option.some.injEq, Prod.mk.injEq] at h
    obtain ⟨h1, h2, _⟩ := h
    subst h1 h2
    have hold : cockpit_session_by_transport self.sessions session0.transport
        = some session0 := by
      split at hfound
      · split at hfound
        · cases hfound
        · simp only [Option.some.injEq] at hfound
          exact (by_host_some hs hfound).2
      · cases hfound
    refine ⟨?_, Or.inl hold⟩
    intro t
    by_cases e : session0.transport = t
    · simp only [e, if_true]; rw [← e]; exact hold
    · simp only [e, if_false]
  · simp only [Option.some.injEq, Prod.mk.injEq] at h
    obtain ⟨h1, h2, _⟩ := h
    subst h1 h2
    refine ⟨?_, Or.inr ⟨hfresh, rfl, rfl⟩⟩
    intro t
    show g_hash_table_lookup g_direct_equal
      (g_hash_table_insert g_direct_equal self.sessions.by_transport fresh _) t = _
    rw [lookup_insert _ g_direct_equal_iff]
    rfl

theorem timer_lookup_or_open (env : Env) (a : Int) (fired : CockpitTransport → Prop)
    {self : CockpitWebService}
    (hs : SessionsInv self.sessions) (host : Option String) (host_key : Option String)
    (creds : CredsRef) (private_ : Bool) (fresh : CockpitTransport)
    (hfresh : cockpit_session_by_transport self.sessions fresh = none)
    {session : CockpitSession} {self1 : CockpitWebService} {effects : List Effect}
    (h : lookup_or_open_session_for_host env self host host_key creds private_ fresh
      = some (session, self1, effects)) :
    TimerStep a fired self.sessions self1.sessions := by
  obtain ⟨h1, h2⟩ := lookup_or_open_by_transport env hs _ _ _ _ _ hfresh h
  intro t S1 hS1
  rw [h1] at hS1
  by_cases e : session.transport = t
  · simp only [e, if_true, Option.some.injEq] at hS1
    subst hS1
    rw [e] at h2
    rcases h2 with h2 | ⟨h2, h3, _⟩
    · exact Or.inr ⟨_, h2, Or.inl ⟨rfl, rfl⟩⟩
    · exact Or.inl ⟨h2, h3⟩
  · simp only [e, if_false] at hS1
    exact Or.inr ⟨_, hS1, Or.inl ⟨rfl, rfl⟩⟩

theorem add_ne_nil (channels : GHashTable String Unit) (channel : String) :
    g_hash_table_add g_str_equal channels channel ≠ [] := by
  unfold g_hash_table_add
  cases channels with
  | nil => simp [g_hash_table_insert]
  | cons node rest =>
    obtain ⟨k, v⟩ := node
    by_cases e : g_str_equal k channel = true
    · simp [g_hash_table_insert, e]
    · simp [g_hash_table_insert, e]

theorem timer_process_open (env : Env) (a : Int) (fired : CockpitTransport → Prop)
    {self : CockpitWebService}
    (hs : SessionsInv self.sessions) (channel : Option String) (options : JsonObject)
    (fresh : CockpitTransport)
    (hfresh : cockpit_session_by_transport self.sessions fresh = none)
    {valid : Bool} {self1 : CockpitWebService} {effects : List Effect}
    (h : process_open env self channel options fresh = some (valid, self1, effects)) :
    TimerStep a fired self.sessions self1.sessions := by
  unfold process_open at h
  split at h
  · simp only [Option.some.injEq, Prod.mk.injEq] at h
    obtain ⟨_, h2, _⟩ := h
    subst h2
    exact timer_refl _ _ _
  · split at h
    · cases h
    · rename_i ch
      split at h
      · simp only [Option.some.injEq, Prod.mk.injEq] at h
        obtain ⟨_, h2, _⟩ := h
        subst h2
        exact timer_refl _ _ _
      · simp only at h
        split at h
        · cases h
        · rename_i session self2 effects2 hlo
          simp only [Option.some.injEq, Prod.mk.injEq] at h
          obtain ⟨_, h2, _⟩ := h
          subst h2
          obtain ⟨h1, h3⟩ := lookup_or_open_by_transport env hs _ _ _ _ _ hfresh hlo
          have hnew : cockpit_session_by_transport self2.sessions session.transport
              = some session := by
            rw [h1]; simp
          intro t S1 hS1
          have hS1b : g_hash_table_lookup g_direct_equal
              (cockpit_session_add_channel self2.sessions session ch).by_transport t
              = some S1 := hS1
          rw [add_channel_by_transport _ _ _ _ hnew] at hS1b
          by_cases e : t = session.transport
          · simp only [e, if_true, Option.some.injEq] at hS1b
            subst hS1b
            rw [e]
            rcases h3 with h3 | ⟨h3, _, _⟩
            · exact Or.inr ⟨_, h3, Or.inr (Or.inl ⟨add_ne_nil _ _, rfl⟩)⟩
            · exact Or.inl ⟨h3, rfl⟩
          · simp only [e, if_false] at hS1b
            have hS2 : cockpit_session_by_transport self2.sessions t = some S1 := hS1b
            rw [h1] at hS2
            have e1 : ¬ session.transport = t := fun x => e x.symm
            simp only [e1, if_false] at hS2
            exact Or.inr ⟨_, hS2, Or.inl ⟨rfl, rfl⟩⟩

theorem timer_process_logout (env : Env) (a : Int) (fired : CockpitTransport → Prop)
    (self : CockpitWebService) (options : JsonObject) :
    TimerStep a fired self.sessions (process_logout env self options).2.1.sessions := by
  unfold process_logout
  split
  · exact timer_refl _ _ _
  · split
    · exact timer_dispose env a fired self.sessions { self with creds := _ }
        (timer_refl _ _ _)
    · exact timer_refl _ _ _

theorem timer_process_close (env : Env) (fired : CockpitTransport → Prop)
    {self : CockpitWebService}
    (hs : SessionsInv self.sessions) (session : CockpitSession) (channel : String)
    (options : JsonObject)
    (hsession : cockpit_session_by_channel self.sessions channel = some session) :
    TimerStep env.cockpit_ws_agent_timeout fired self.sessions
      (process_close env self session channel options).2.sessions := by
  obtain ⟨h1, h2⟩ := by_channel_some hs hsession
  have hne : session.channels ≠ [] := by
    intro e
    obtain ⟨S0, h3, h4⟩ := (hs.index channel session.transport).1 h1
    rw [h2] at h3
    cases h3
    have h1b : g_hash_table_lookup g_str_equal session.channels channel = some () := h4
    rw [e] at h1b
    simp [g_hash_table_lookup] at h1b
  have key : ∀ session1 : CockpitSession, session1.transport = session.transport →
      session1.channels = session.channels → session1.timeout = session.timeout →
      TimerStep env.cockpit_ws_agent_timeout fired self.sessions
        (cockpit_session_remove_channel env.cockpit_ws_agent_timeout
          (session_store self.sessions session1) session1 channel) := by
    intro session1 ht hc hto t S1 hS1
    have hS1b : g_hash_table_lookup g_direct_equal
        (cockpit_session_remove_channel env.cockpit_ws_agent_timeout
          (session_store self.sessions session1) session1 channel).by_transport t
        = some S1 := hS1
    unfold cockpit_session_remove_channel at hS1b
    simp only at hS1b
    rw [lookup_store] at hS1b
    simp only at hS1b
    have hst : g_hash_table_lookup g_direct_equal
        (session_store self.sessions session1).by_transport t =
        if t = session1.transport then
          (g_hash_table_lookup g_direct_equal self.sessions.by_transport t).map
            (fun _ => session1)
        else g_hash_table_lookup g_direct_equal self.sessions.by_transport t :=
      lookup_store _ _ _
    by_cases e : t = session1.transport
    · simp only [e, if_true] at hS1b
      have hst1 := hst
      rw [e] at hst1
      simp only [if_true] at hst1
      rw [hst1, ht, h2] at hS1b
      simp only [Option.map_some', Option.some.injEq] at hS1b
      subst hS1b
      refine Or.inr ⟨session, ?_, Or.inr (Or.inr (Or.inl ⟨hne, ?_⟩))⟩
      · rw [e, ht]; exact h2
      · simp only [g_hash_table_size, hto]
        by_cases hz : g_hash_table_remove g_str_equal session1.channels channel = []
        · simp [hz]
        · have : ¬ (g_hash_table_remove g_str_equal session1.channels channel).length = 0 :=
            fun x => hz (List.length_eq_zero.1 x)
          simp [hz, this]
    · simp only [e, if_false] at hS1b
      rw [hst] at hS1b
      simp only [e, if_false] at hS1b
      exact Or.inr ⟨S1, hS1b, Or.inl ⟨rfl, rfl⟩⟩
  unfold process_close
  simp only
  split
  · exact key _ rfl rfl rfl
  · exact key _ rfl rfl rfl

theorem timer_session_control (env : Env) (fired : CockpitTransport → Prop)
    {self : CockpitWebService}
    (hs : SessionsInv self.sessions) (transport : CockpitTransport) (command : String)
    (channel : Option String) (options : JsonObject) :
    TimerStep env.cockpit_ws_agent_timeout fired self.sessions
      (on_session_control env self transport command channel options).1.sessions := by
  unfold on_session_control
  split
  · split
    · exact timer_refl _ _ _
    · split
      · exact timer_refl _ _ _
      · split <;> exact timer_refl _ _ _
  · rename_i ch
    split
    · exact timer_refl _ _ _
    · rename_i session hsession
      split
      · exact timer_refl _ _ _
      · simp only
        split
        · exact timer_process_close env fired hs session ch options hsession
        · exact timer_refl _ _ _

theorem timer_session_closed (env : Env) (a : Int) (fired : CockpitTransport → Prop)
    {self : CockpitWebService}
    (hs : SessionsInv self.sessions) (transport : CockpitTransport)
    (problem : Option String) :
    TimerStep a fired self.sessions
      (on_session_closed env self transport problem).1.sessions := by
  unfold on_session_closed
  split
  · exact timer_refl _ _ _
  · rename_i session hsession
    have hd : TimerStep a fired self.sessions
        (cockpit_session_destroy self.sessions session) := by
      intro t S1 hS1
      have hS1b : g_hash_table_lookup g_direct_equal
          (g_hash_table_remove g_direct_equal self.sessions.by_transport session.transport) t
          = some S1 := hS1
      rw [lookup_remove _ g_direct_equal_iff _ _ _ hs.transports_nodup] at hS1b
      split at hS1b
      · cases hS1b
      · exact Or.inr ⟨S1, hS1b, Or.inl ⟨rfl, rfl⟩⟩
    simp only
    split
    · exact timer_dispose env a fired self.sessions
        { self with sessions := cockpit_session_destroy self.sessions session } hd
    · exact hd

theorem timer_timeout (a : Int) {self : CockpitWebService} (hs : SessionsInv self.sessions)
    (transport : CockpitTransport) (session : CockpitSession)
    (hsession : cockpit_session_by_transport self.sessions transport = some session) :
    TimerStep a
      (fun t => t = transport ∧ (session.channels = [] →
        Effect.cockpit_transport_close t (some "timeout") ∈
          (on_timeout_cleanup_session self session).2))
      self.sessions (on_timeout_cleanup_session self session).1.sessions := by
  have ht : session.transport = transport := (hs.owned _ _ hsession).1
  intro t S1 hS1
  have hS1b : g_hash_table_lookup g_direct_equal
      (session_store self.sessions { session with timeout := none }).by_transport t
      = some S1 := hS1
  rw [lookup_store] at hS1b
  by_cases e : t = session.transport
  · have hl : g_hash_table_lookup g_direct_equal self.sessions.by_transport t
        = some session := by
      rw [e, ht]; exact hsession
    simp only [e, if_true] at hS1b
    rw [e] at hl
    rw [hl] at hS1b
    simp only [Option.map_some', Option.some.injEq] at hS1b
    subst hS1b
    refine Or.inr ⟨session, ?_, Or.inr (Or.inr (Or.inr ⟨⟨?_, ?_⟩, rfl, rfl⟩))⟩
    · rw [e]; exact hl
    · rw [e, ht]
    · intro hc
      simp [on_timeout_cleanup_session, g_hash_table_size, hc, e]
  · simp only [e, if_false] at hS1b
    exact Or.inr ⟨S1, hS1b, Or.inl ⟨rfl, rfl⟩⟩

theorem timer_mono (a : Int) {fired fired1 : CockpitTransport → Prop}
    {s s1 : CockpitSessions} (h : TimerStep a fired s s1)
    (hf : ∀ t, fired t → fired1 t) : TimerStep a fired1 s s1 := by
  intro t S1 hS1
  rcases h t S1 hS1 with h1 | ⟨S, h1, h2⟩
  · exact Or.inl h1
  · refine Or.inr ⟨S, h1, ?_⟩
    rcases h2 with h2 | h2 | h2 | ⟨h2, h3⟩
    · exact Or.inl h2
    · exact Or.inr (Or.inl h2)
    · exact Or.inr (Or.inr (Or.inl h2))
    · exact Or.inr (Or.inr (Or.inr ⟨hf t h2, h3⟩))

theorem step_timer (env : Env) {self self1 : CockpitWebService} (ev : Event)
    {effects : List Effect} (hs : SessionsInv self.sessions) (hen : ev.enabled self)
    (h : step env self ev = some (self1, effects)) :
    TimerStep env.cockpit_ws_agent_timeout
      (fun t => ev = Event.timeout t ∧
        ∀ S, cockpit_session_by_transport self.sessions t = some S → S.channels = [] →
          Effect.cockpit_transport_close t (some "timeout") ∈ effects)
      self.sessions self1.sessions := by
  cases ev with
  | socket connection =>
    simp only [step, Option.some.injEq, Prod.mk.injEq] at h
    rw [← h.1]; exact timer_refl _ _ _
  | message connection message fresh =>
    rcases message_state env self _ _ _ h with e | ⟨ch, options, v, e1, ho⟩ | ⟨options, e⟩
    · rw [e]; exact timer_refl _ _ _
    · exact timer_process_open env _ _ hs _ _ _ hen.2 ho
    · rw [e]; exact timer_process_logout env _ _ self options
  | closing connection =>
    simp only [step, Option.some.injEq, Prod.mk.injEq] at h
    rw [← h.1]; exact timer_refl _ _ _
  | close connection =>
    simp only [step, Option.some.injEq] at h
    have e : _ = self1 := congrArg Prod.fst h
    rw [← e, close_sessions]; exact timer_refl _ _ _
  | session_control transport command channel options =>
    simp only [step, Option.some.injEq] at h
    have e : _ = self1 := congrArg Prod.fst h
    rw [← e]; exact timer_session_control env _ hs _ _ _ _
  | session_recv transport channel payload =>
    simp only [step, Option.some.injEq, Prod.mk.injEq] at h
    rw [← h.1]; exact timer_refl _ _ _
  | session_closed transport problem =>
    simp only [step, Option.some.injEq] at h
    have e : _ = self1 := congrArg Prod.fst h
    rw [← e]; exact timer_session_closed env _ _ hs _ _
  | timeout transport =>
    simp only [step] at h
    split at h
    · rename_i session hsession
      simp only [Option.some.injEq] at h
      have e : _ = self1 := congrArg Prod.fst h
      have e2 : _ = effects := congrArg Prod.snd h
      rw [← e]
      apply timer_mono _ (timer_timeout _ hs transport session hsession)
      rintro t ⟨ht, hc⟩
      subst ht
      refine ⟨rfl, ?_⟩
      intro S hS hch
      have hS0 : cockpit_session_by_transport self.sessions t = some session := hsession
      rw [hS0] at hS
      cases hS
      rw [← e2]
      exact hc hch
    · simp only [Option.some.injEq, Prod.mk.injEq] at h
      rw [← h.1]; exact timer_refl _ _ _
  | ping =>
    simp only [step, Option.some.injEq, Prod.mk.injEq] at h
    rw [← h.1]; exact timer_refl _ _ _
  | dispose =>
    simp only [step, Option.some.injEq] at h
    have e : _ = self1 := congrArg Prod.fst h
    rw [← e]
    exact timer_dispose env _ _ self.sessions self (timer_refl _ _ _)
  | resource response path fresh =>
    simp only [step] at h
    cases hr : cockpit_web_service_resource env self response path fresh with
    | none => simp [hr] at h
    | some r =>
      obtain ⟨s2, e2, rr⟩ := r
      simp only [hr, Option.map_some', Option.some.injEq, Prod.mk.injEq] at h
      rw [← h.1]
      rcases resource_state env self _ _ _ hr with e | ⟨host, session, self2, e1, hlo, e⟩
      · exact timer_of_eq _ _ e
      · show TimerStep _ _ self.sessions s2.sessions
        rw [e]
        exact timer_lookup_or_open env _ _ hs _ _ _ _ _ hen hlo
  | modules host fresh =>
    simp only [step] at h
    cases hr : cockpit_web_service_modules env self host fresh with
    | none => simp [hr] at h
    | some r =>
      obtain ⟨s2, e2, ch⟩ := r
      simp only [hr, Option.map_some', Option.some.injEq, Prod.mk.injEq] at h
      rw [← h.1]
      obtain ⟨session, self2, e1, hlo, e⟩ := modules_state env self _ _ hr
      show TimerStep _ _ self.sessions s2.sessions
      rw [e]
      exact timer_lookup_or_open env _ _ hs _ _ _ _ _ hen hlo

theorem timer_step_armed {a : Int} {fired : CockpitTransport → Prop}
    {s s1 : CockpitSessions} (h : TimerStep a fired s s1)
    (hinv : ∀ t S, cockpit_session_by_transport s t = some S → S.timeout ≠ none →
      S.channels = []) :
    ∀ t S, cockpit_session_by_transport s1 t = some S → S.timeout ≠ none →
      S.channels = [] := by
  intro t S1 hS1 harmed
  rcases h t S1 hS1 with ⟨_, h2⟩ | ⟨S, h1, h2⟩
  · exact absurd h2 harmed
  · rcases h2 with ⟨h2, h3⟩ | ⟨_, h3⟩ | ⟨h2, h3⟩ | ⟨_, _, h3⟩
    · rw [h2]
      apply hinv t S h1
      rw [← h3]; exact harmed
    · exact absurd h3 harmed
    · by_cases hc : S1.channels = []
      · exact hc
      · simp only [hc, if_false] at h3
        have := hinv t S h1 (by rw [← h3]; exact harmed)
        exact absurd this h2
    · exact absurd h3 harmed

theorem reach_timer_inv {n : Nat} {self : CockpitWebService} (h : Reach n self) :
    ∀ t S, cockpit_session_by_transport self.sessions t = some S → S.timeout ≠ none →
      S.channels = [] := by
  induction h with
  | init creds pipe =>
    intro t S hS harmed
    cases pipe with
    | none =>
      simp [cockpit_web_service_new, cockpit_sessions_init, cockpit_session_by_transport,
        g_hash_table_lookup] at hS
    | some transport =>
      have hS1 : g_hash_table_lookup g_direct_equal
          (session_store
            (cockpit_session_track cockpit_sessions_init "localhost" false CredsRef.service
              transport).2
            { (cockpit_session_track cockpit_sessions_init "localhost" false
                CredsRef.service transport).1 with primary := true }).by_transport t
          = some S := hS
      rw [lookup_store] at hS1
      have hl : g_hash_table_lookup g_direct_equal
          (cockpit_session_track cockpit_sessions_init "localhost" false CredsRef.service
            transport).2.by_transport t =
          if transport = t then
            some (cockpit_session_track cockpit_sessions_init "localhost" false
              CredsRef.service transport).1
          else none :=
        lookup_insert _ g_direct_equal_iff _ _ _ _
      rw [hl] at hS1
      by_cases e : transport = t
      · simp only [e, if_true] at hS1
        split at hS1
        · simp only [Option.map_some', Option.some.injEq] at hS1
          subst hS1
          rfl
        · simp only [Option.some.injEq] at hS1
          subst hS1
          rfl
      · simp [e] at hS1
  | socket connection _ _ ih => exact ih
  | event env ev effects hr _ hen hstep ih =>
    exact timer_step_armed (step_timer env ev (reach_sessions_inv hr) hen hstep) ih

theorem sample_resource_service_reach : Reach 0 sample_resource_service :=
  reach_run_event _ _ (Reach.init sample_creds none) (by intro c; simp)
    (by unfold Event.enabled; decide) (by decide)

theorem sample_modules_service_reach : Reach 0 sample_modules_service :=
  reach_run_event _ _ (Reach.init sample_creds none) (by intro c; simp)
    (by unfold Event.enabled; decide) (by decide)

/-- C18, as stated, fails.  (1) Right after `cockpit_web_service_new` with a pipe, no
handler having run, the primary session has no channel and no timer.  (2) After a /res/
request for a new host, and (3) after a module listing for a new host, the session made for
the host has no channel and no timer, while the handler asked no transport to close: its
effects are the creation of the transport and one send. -/
theorem untimed_idle_sessions :
    (Reachable (cockpit_web_service_new sample_creds (some 0)) ∧
      (cockpit_session_by_transport (cockpit_web_service_new sample_creds (some 0)).sessions
        0).map (fun S => (S.channels, S.timeout, S.sent_eof)) = some ([], none, false)) ∧
    (Reachable sample_resource_service ∧
      (step sample_env (cockpit_web_service_new sample_creds none)
        (Event.resource 5 "/res/x/mod/file" 1)).map
        (fun r => ((cockpit_session_by_transport r.1.sessions 1).map
          (fun S => (S.channels, S.timeout, S.sent_eof)), r.2)) =
        some (some ([], none, false),
          [Effect.ssh_transport_new 1 "x" 0 none,
           Effect.cockpit_transport_send 1 none "command,channel,payload,module,path"]) ∧
      (cockpit_session_by_transport sample_resource_service.sessions 1).map
        (fun S => (S.channels, S.timeout, S.sent_eof)) = some ([], none, false)) ∧
    (Reachable sample_modules_service ∧
      (step sample_env (cockpit_web_service_new sample_creds none)
        (Event.modules (some "x") 1)).map
        (fun r => ((cockpit_session_by_transport r.1.sessions 1).map
          (fun S => (S.channels, S.timeout, S.sent_eof)), r.2)) =
        some (some ([], none, false),
          [Effect.ssh_transport_new 1 "x" 0 none,
           Effect.cockpit_transport_send 1 none "command,channel,payload"]) ∧
      (cockpit_session_by_transport sample_modules_service.sessions 1).map
        (fun S => (S.channels, S.timeout, S.sent_eof)) = some ([], none, false)) :=
  ⟨⟨⟨0, Reach.init sample_creds (some 0)⟩, by decide⟩,
   ⟨⟨0, sample_resource_service_reach⟩, rfl, by decide⟩,
   ⟨⟨0, sample_modules_service_reach⟩, rfl, by decide⟩⟩

/-- C18, amended: in every reachable state (1) a session whose idle timer is armed has no
channel; and over every step of the service, (2) a session that becomes tracked has no
timer, (3) a tracked session that had a channel and has none afterwards has its timer armed
with the agent timeout, (4) an armed timer is only disarmed when the session has a channel
afterwards or when the timer fired, which asked the transport to close with "timeout", and
(5) a session with no channel and no timer still has no timer afterwards when it still has
no channel. -/
theorem idle_timer_transitions {self : CockpitWebService} (h : Reachable self) :
    (∀ t S, cockpit_session_by_transport self.sessions t = some S → S.timeout ≠ none →
      S.channels = []) ∧
    (∀ (env : Env) (ev : Event) (self1 : CockpitWebService) (effects : List Effect),
      ev.enabled self → step env self ev = some (self1, effects) →
      (∀ t S1, cockpit_session_by_transport self.sessions t = none →
        cockpit_session_by_transport self1.sessions t = some S1 → S1.timeout = none) ∧
      (∀ t S S1, cockpit_session_by_transport self.sessions t = some S →
        cockpit_session_by_transport self1.sessions t = some S1 →
        (S.channels ≠ [] → S1.channels = [] →
          S1.timeout = some env.cockpit_ws_agent_timeout) ∧
        (S.timeout ≠ none → S1.timeout = none →
          S1.channels ≠ [] ∨
          (ev = Event.timeout t ∧
            Effect.cockpit_transport_close t (some "timeout") ∈ effects)) ∧
        (S.channels = [] → S.timeout = none → S1.channels = [] → S1.timeout = none))) := by
  obtain ⟨n, hr⟩ := h
  have hinv := reach_timer_inv hr
  refine ⟨hinv, ?_⟩
  intro env ev self1 effects hen hstep
  have hstep1 := step_timer env ev (reach_sessions_inv hr) hen hstep
  refine ⟨?_, ?_⟩
  · intro t S1 hnone hS1
    rcases hstep1 t S1 hS1 with ⟨_, h2⟩ | ⟨S, h1, _⟩
    · exact h2
    · rw [hnone] at h1
      cases h1
  · intro t S S1 hS hS1
    rcases hstep1 t S1 hS1 with ⟨h1, _⟩ | ⟨S0, h1, h2⟩
    · rw [hS] at h1
      cases h1
    · rw [hS] at h1
      cases h1
      rcases h2 with ⟨h2, h3⟩ | ⟨h2, h3⟩ | ⟨h2, h3⟩ | ⟨⟨h4, h5⟩, h2, h3⟩
      · refine ⟨?_, ?_, ?_⟩
        · intro a b
          rw [h2] at b
          exact absurd b a
        · intro a b
          rw [h3] at b
          exact absurd b a
        · intro _ b _
          rw [h3]; exact b
      · refine ⟨?_, ?_, ?_⟩
        · intro _ b
          exact absurd b h2
        · intro _ _
          exact Or.inl h2
        · intro _ _ _
          exact h3
      · refine ⟨?_, ?_, ?_⟩
        · intro _ b
          rw [h3]
          simp [b]
        · intro a _
          exact absurd (hinv t S hS a) h2
        · intro a _ _
          exact absurd a h2
      · refine ⟨?_, ?_, ?_⟩
        · intro a b
          rw [h2] at b
          exact absurd b a
        · intro a _
          exact Or.inr ⟨h4, h5 S hS (hinv t S hS a)⟩
        · intro _ _ _
          exact h3

theorem idle_timer_transitions_witness :
    ∃ S1, cockpit_session_by_transport
        (run_event sample_env sample_two_sockets_busy
          (Event.session_control 1 "close" (some "1:a") [])).sessions 1 = some S1 ∧
      sample_session_x.channels ≠ [] ∧ S1.channels = [] ∧ S1.timeout = some 30 :=
  ⟨{ sample_session_x with channels := [], timeout := some 30 }, by decide, by decide,
    by decide,
    ((((idle_timer_transitions ⟨2, sample_two_sockets_busy_reach⟩).2 sample_env
      (Event.session_control 1 "close" (some "1:a") []) _ _
      (by unfold Event.enabled; decide) rfl).2 1 sample_session_x
      { sample_session_x with channels := [], timeout := some 30 } (by decide)
      (by decide)).1 (by decide) (by decide))⟩

/-! ## The dispose of the service -/

theorem destroy_absent {sessions : CockpitSessions} (hs : SessionsInv sessions)
    (S : CockpitSession)
    (hS : cockpit_session_by_transport sessions S.transport = some S) :
    cockpit_session_by_transport (cockpit_session_destroy sessions S) S.transport = none ∧
    (∀ ch, g_hash_table_lookup g_str_equal (cockpit_session_destroy sessions S).by_channel ch
      ≠ some S.transport) ∧
    (∀ ch, session_has_channel S ch →
      g_hash_table_lookup g_str_equal (cockpit_session_destroy sessions S).by_channel ch
        = none) := by
  have hold : g_hash_table_lookup g_direct_equal sessions.by_transport S.transport = some S :=
    hS
  have hd := inv_destroy hs S hold
  obtain ⟨_, hlk⟩ := lookup_foldl_remove S.channels sessions.by_channel hs.channels_nodup
  have hgone : cockpit_session_by_transport (cockpit_session_destroy sessions S) S.transport
      = none := by
    unfold cockpit_session_by_transport
    simp only [cockpit_session_destroy,
      lookup_remove _ g_direct_equal_iff _ _ _ hs.transports_nodup]
    simp
  refine ⟨hgone, ?_, ?_⟩
  · intro ch e
    obtain ⟨S1, e1, _⟩ := (hd.index ch S.transport).1 e
    have : cockpit_session_by_transport (cockpit_session_destroy sessions S) S.transport
        = some S1 := e1
    rw [hgone] at this
    cases this
  · intro ch hch
    have := hlk ch
    simp only [(has_channel_iff_mem S ch).1 hch, if_true] at this
    exact this

theorem dispose_by_transport (env : Env) (self : CockpitWebService) (t : CockpitTransport) :
    cockpit_session_by_transport (cockpit_web_service_dispose env self).1.sessions t =
      (cockpit_session_by_transport self.sessions t).map
        (fun S => { S with sent_eof := true }) :=
  lookup_map_values g_direct_equal (fun S : CockpitSession => { S with sent_eof := true })
    self.sessions.by_transport t

theorem dispose_emits_destroy (env : Env) (self : CockpitWebService) :
    (Effect.g_signal_emit "destroy" ∈ (cockpit_web_service_dispose env self).2 ↔
      self.closing = false) ∧
    (∀ s, Effect.g_signal_emit s ∈ (cockpit_web_service_dispose env self).2 →
      s = "destroy") := by
  have key : ∀ s, Effect.g_signal_emit s ∈ (cockpit_web_service_dispose env self).2 ↔
      (s = "destroy" ∧ self.closing = false) := by
    intro s
    unfold cockpit_web_service_dispose
    simp only [List.mem_append, List.mem_filterMap]
    constructor
    · rintro ((⟨node, _, h⟩ | ⟨node, _, h⟩) | h)
      · split at h
        · split at h
          · cases h
          · cases h
        · cases h
      · split at h
        · cases h
        · cases h
      · cases hc : self.closing
        · simp only [hc, Bool.not_false, if_true, List.mem_singleton,
            Effect.g_signal_emit.injEq] at h
          exact ⟨h, rfl⟩
        · simp [hc] at h
    · rintro ⟨h1, h2⟩
      right
      simp [h1, h2]
  refine ⟨?_, ?_⟩
  · rw [key]; simp
  · intro s hs
    exact ((key s).1 hs).1

/-- C21: in a reachable state that is not closing, `on_session_closed` for a tracked
transport `T` leaves no entry for `T` in `by_transport`, no key of `by_channel` that maps to
`T` and none of the channels of its session in `by_channel`; afterwards `closing` is true
exactly when the session was the primary one, and exactly then "destroy" was emitted.  For
a transport that is not tracked the state is unchanged and nothing happens. -/
theorem on_session_closed_disposes_iff_primary {self : CockpitWebService}
    (h : Reachable self) (env : Env) (T : CockpitTransport) (p : Option String)
    (hclosing : self.closing = false) :
    (∀ S, cockpit_session_by_transport self.sessions T = some S →
      cockpit_session_by_transport (on_session_closed env self T p).1.sessions T = none ∧
      (∀ ch, g_hash_table_lookup g_str_equal
        (on_session_closed env self T p).1.sessions.by_channel ch ≠ some T) ∧
      (∀ ch, session_has_channel S ch →
        cockpit_session_by_channel (on_session_closed env self T p).1.sessions ch = none) ∧
      ((on_session_closed env self T p).1.closing = true ↔ S.primary = true) ∧
      (Effect.g_signal_emit "destroy" ∈ (on_session_closed env self T p).2 ↔
        S.primary = true)) ∧
    (cockpit_session_by_transport self.sessions T = none →
      on_session_closed env self T p = (self, [])) := by
  obtain ⟨n, hr⟩ := h
  have hs := reach_sessions_inv hr
  refine ⟨?_, ?_⟩
  · intro S hS
    have hT : S.transport = T := (hs.owned _ _ hS).1
    subst hT
    obtain ⟨d1, d2, d3⟩ := destroy_absent hs S hS
    cases hp : S.primary
    · have e1 : (on_session_closed env self S.transport p).1 =
          { self with sessions := cockpit_session_destroy self.sessions S } := by
        unfold on_session_closed
        simp [hS, hp]
      have e2 : ∀ s, Effect.g_signal_emit s ∉ (on_session_closed env self S.transport p).2 := by
        intro s hmem
        unfold on_session_closed at hmem
        simp only [hS, hp, Bool.false_eq_true, if_false, List.mem_filterMap] at hmem
        obtain ⟨node, _, hn⟩ := hmem
        split at hn
        · split at hn
          · cases hn
          · cases hn
        · cases hn
      rw [e1]
      refine ⟨d1, d2, ?_, ?_, ?_⟩
      · intro ch hch
        unfold cockpit_session_by_channel
        rw [d3 ch hch]
        rfl
      · simp [hclosing]
      · simp [e2]
    · have e1 : (on_session_closed env self S.transport p).1 =
          (cockpit_web_service_dispose env
            { self with sessions := cockpit_session_destroy self.sessions S }).1 := by
        unfold on_session_closed
        simp [hS, hp]
      have e2 : Effect.g_signal_emit "destroy" ∈
          (on_session_closed env self S.transport p).2 := by
        unfold on_session_closed
        simp only [hS, hp, if_true, List.mem_append]
        right
        exact (dispose_emits_destroy env _).1.2 hclosing
      rw [e1]
      refine ⟨?_, ?_, ?_, ?_, ?_⟩
      · rw [dispose_by_transport]
        have d1b : cockpit_session_by_transport
            ({ self with sessions := cockpit_session_destroy self.sessions S }
              : CockpitWebService).sessions S.transport = none := d1
        rw [d1b]
        rfl
      · exact d2
      · intro ch hch
        unfold cockpit_session_by_channel
        have : g_hash_table_lookup g_str_equal
            (cockpit_web_service_dispose env
              { self with sessions := cockpit_session_destroy self.sessions S
                }).1.sessions.by_channel ch = none := d3 ch hch
        rw [this]
        rfl
      · simp [cockpit_web_service_dispose]
      · simp [e2]
  · intro hnone
    unfold on_session_closed
    simp [hnone]

theorem on_session_closed_disposes_iff_primary_witness :
    (on_session_closed sample_env sample_two_sockets_busy 1 none).1.closing = false ∧
    cockpit_session_by_transport
      (on_session_closed sample_env sample_two_sockets_busy 1 none).1.sessions 1 = none :=
  have h := (on_session_closed_disposes_iff_primary ⟨2, sample_two_sockets_busy_reach⟩
    sample_env 1 none (by decide)).1 sample_session_x (by decide)
  ⟨by
    cases hc : (on_session_closed sample_env sample_two_sockets_busy 1 none).1.closing
    · rfl
    · exact absurd (h.2.2.2.1.1 hc) (by decide), h.1⟩

theorem lookup_mem {K V : Type} (eq : K → K → Bool) (heq : ∀ a b, eq a b = true → a = b)
    (t : GHashTable K V) (k : K) (v : V) (h : g_hash_table_lookup eq t k = some v) :
    (k, v) ∈ t := by
  induction t with
  | nil => simp [g_hash_table_lookup] at h
  | cons node rest ih =>
    obtain ⟨k0, v0⟩ := node
    by_cases e : eq k0 k = true
    · simp only [g_hash_table_lookup, e, if_true, Option.some.injEq] at h
      have := heq _ _ e
      subst this h
      simp
    · simp only [g_hash_table_lookup, e, if_false, Bool.false_eq_true] at h
      exact List.mem_cons_of_mem _ (ih h)

theorem count_filterMap_lookup {K V E : Type} [DecidableEq K] [DecidableEq E]
    (eq : K → K → Bool) (heq : ∀ a b, eq a b = true ↔ a = b) (f : K × V → Option E) (e : E)
    (k : K) (v : V) :
    ∀ (t : GHashTable K V), (table_keys t).Nodup →
      g_hash_table_lookup eq t k = some v →
      (∀ node ∈ t, node.1 ≠ k → f node ≠ some e) →
      (t.filterMap f).count e = if f (k, v) = some e then 1 else 0 := by
  intro t
  induction t with
  | nil => intro _ h; simp [g_hash_table_lookup] at h
  | cons node rest ih =>
    intro hnd hl hother
    obtain ⟨k0, v0⟩ := node
    simp only [table_keys, List.map_cons, List.nodup_cons] at hnd
    by_cases e0 : k0 = k
    · subst e0
      have hk : eq k0 k0 = true := (heq _ _).2 rfl
      simp only [g_hash_table_lookup, hk, if_true, Option.some.injEq] at hl
      subst hl
      have hrest : (rest.filterMap f).count e = 0 := by
        rw [List.count_eq_zero]
        intro hmem
        simp only [List.mem_filterMap] at hmem
        obtain ⟨node, hn, hf⟩ := hmem
        have hne : node.1 ≠ k0 := by
          intro x
          apply hnd.1
          rw [← x]
          exact List.mem_map_of_mem _ hn
        exact hother node (List.mem_cons_of_mem _ hn) hne hf
      cases hf : f (k0, v0) with
      | none => simp [List.filterMap_cons, hf, hrest]
      | some e1 =>
        by_cases he : e1 = e
        · subst he
          simp [List.filterMap_cons, hf, hrest]
        · simp [List.filterMap_cons, hf, hrest, he, List.count_cons]
    · have hk : ¬ eq k0 k = true := fun x => e0 ((heq _ _).1 x)
      simp only [g_hash_table_lookup, hk, if_false, Bool.false_eq_true] at hl
      have h0 : f (k0, v0) ≠ some e := hother (k0, v0) (List.mem_cons_self _ _) e0
      have ih1 := ih hnd.2 hl (fun node hn => hother node (List.mem_cons_of_mem _ hn))
      cases hf : f (k0, v0) with
      | none => simp [List.filterMap_cons, hf, ih1]
      | some e1 =>
        have he : e1 ≠ e := fun x => h0 (by rw [hf, x])
        simp only [List.filterMap_cons, hf, List.count_cons, ih1]
        simp [he]

theorem dispose_socket_closes (env : Env) (self : CockpitWebService)
    (k : WebSocketConnection) (code : WebSocketCloseCode) (reason : String) :
    Effect.web_socket_connection_close k code reason ∈ (cockpit_web_service_dispose env self).2
      ↔
    (code = WebSocketCloseCode.WEB_SOCKET_CLOSE_GOING_AWAY ∧ reason = "terminated" ∧
      ∃ node ∈ self.sockets.by_scope, ∃ socket,
        cockpit_socket_lookup_by_connection self.sockets node.2 = some socket ∧
        (env.ready_state socket.connection).toNat < WebSocketState.CLOSING.toNat ∧
        socket.connection = k) := by
  unfold cockpit_web_service_dispose
  simp only [List.mem_append, List.mem_filterMap]
  constructor
  · rintro ((⟨node, hn, hf⟩ | ⟨node, _, hf⟩) | hf)
    · cases hl : g_hash_table_lookup g_direct_equal self.sockets.by_connection node.2 with
      | none => simp [hl] at hf
      | some socket =>
        simp only [hl] at hf
        split at hf
        · rename_i hlt
          simp only [Option.some.injEq, Effect.web_socket_connection_close.injEq] at hf
          exact ⟨hf.2.1.symm, hf.2.2.symm, node, hn, socket, hl, hlt, hf.1⟩
        · cases hf
    · split at hf
      · cases hf
      · cases hf
    · split at hf
      · simp at hf
      · cases hf
  · rintro ⟨h1, h2, node, hn, socket, hl, hlt, hk⟩
    subst hk
    left; left
    refine ⟨node, hn, ?_⟩
    have hl1 : g_hash_table_lookup g_direct_equal self.sockets.by_connection node.2
        = some socket := hl
    simp [hl1, hlt, h1, h2]

theorem count_middle {E : Type} [DecidableEq E] (A B C : List E) (e : E)
    (hA : ∀ x ∈ A, x ≠ e) (hC : ∀ x ∈ C, x ≠ e) : (A ++ B ++ C).count e = B.count e := by
  have h1 : A.count e = 0 := List.count_eq_zero.2 (fun hmem => hA e hmem rfl)
  have h2 : C.count e = 0 := List.count_eq_zero.2 (fun hmem => hC e hmem rfl)
  simp [List.count_append, h1, h2]

theorem dispose_session_closes (env : Env) (self : CockpitWebService)
    (t : CockpitTransport) (p : Option String) :
    ((cockpit_web_service_dispose env self).2).count (Effect.cockpit_transport_close t p) =
      (self.sessions.by_transport.filterMap
        (fun node => if node.2.sent_eof = false then
          some (Effect.cockpit_transport_close node.2.transport none) else none)).count
        (Effect.cockpit_transport_close t p) := by
  unfold cockpit_web_service_dispose
  refine (count_middle _ _ _ _ ?_ ?_).trans ?_
  · intro e he
    simp only [List.mem_filterMap] at he
    obtain ⟨node, _, hf⟩ := he
    split at hf
    · split at hf
      · cases hf; simp
      · cases hf
    · cases hf
  · intro e he
    split at he
    · simp only [List.mem_singleton] at he
      subst he
      simp
    · cases he
  · apply congrArg (fun f => List.count (Effect.cockpit_transport_close t p)
      (List.filterMap f self.sessions.by_transport))
    funext node
    cases node.2.sent_eof <;> simp

theorem lookup_of_mem {K V : Type} [DecidableEq K] (eq : K → K → Bool)
    (heq : ∀ a b, eq a b = true ↔ a = b) (t : GHashTable K V) (k : K) (v : V)
    (hnd : (table_keys t).Nodup) (h : (k, v) ∈ t) : g_hash_table_lookup eq t k = some v := by
  induction t with
  | nil => cases h
  | cons node rest ih =>
    obtain ⟨k0, v0⟩ := node
    simp only [table_keys, List.map_cons, List.nodup_cons] at hnd
    rcases List.mem_cons.1 h with e | e
    · cases e
      simp [g_hash_table_lookup, (heq k k).2 rfl]
    · have hne : ¬ eq k0 k = true := by
        intro x
        have := (heq _ _).1 x
        subst this
        exact hnd.1 (List.mem_map_of_mem Prod.fst e)
      simp only [g_hash_table_lookup, hne, if_false, Bool.false_eq_true]
      exact ih hnd.2 e

/-- C22, as stated, fails: once the 32-bit scope counter has wrapped, connection 0 is
tracked and OPEN but has lost its entry in `by_scope` to connection 1; a dispose then closes
connection 1 only. -/
theorem dispose_misses_socket_after_wrap :
    Reachable wrapped_service ∧
    cockpit_socket_lookup_by_connection wrapped_service.sockets 0 = some ⟨"1:", 0⟩ ∧
    (sample_env.ready_state 0).toNat < WebSocketState.CLOSING.toNat ∧
    (cockpit_web_service_dispose sample_env wrapped_service).2 =
      [Effect.web_socket_connection_close 1 WebSocketCloseCode.WEB_SOCKET_CLOSE_GOING_AWAY
         "terminated",
       Effect.g_signal_emit "destroy"] :=
  ⟨⟨_, wrapped_service_reach⟩, by decide, by decide, by decide⟩

/-- C22, amended: in every state reached while at most 2^32 browser connections have been
accepted, after `cockpit_web_service_dispose` (1) `closing` is true; (2) every session in
`by_transport` has `sent_eof` true; (3) the transport of a session whose `sent_eof` was false
was closed exactly once, with null problem, and that of a session whose `sent_eof` was true
not at all; (4) no other transport was closed; (5) every tracked socket whose ready state
was before CLOSING was asked to close with the going-away code; (6) the socket tables,
`by_channel`, `by_host` and the keys of `by_transport` are as before. -/
theorem dispose_closes_everything {n : Nat} {self : CockpitWebService} (h : Reach n self)
    (hn : n ≤ G_MAXUINT_SUCC) (env : Env) :
    (cockpit_web_service_dispose env self).1.closing = true ∧
    (∀ t S1, cockpit_session_by_transport (cockpit_web_service_dispose env self).1.sessions t
      = some S1 → S1.sent_eof = true) ∧
    (∀ t S, cockpit_session_by_transport self.sessions t = some S →
      ((cockpit_web_service_dispose env self).2).count (Effect.cockpit_transport_close t none)
        = if S.sent_eof = false then 1 else 0) ∧
    (∀ t p, Effect.cockpit_transport_close t p ∈ (cockpit_web_service_dispose env self).2 →
      p = none ∧
      ∃ S, cockpit_session_by_transport self.sessions t = some S ∧ S.sent_eof = false) ∧
    (∀ k socket, cockpit_socket_lookup_by_connection self.sockets k = some socket →
      (env.ready_state socket.connection).toNat < WebSocketState.CLOSING.toNat →
      Effect.web_socket_connection_close socket.connection
        WebSocketCloseCode.WEB_SOCKET_CLOSE_GOING_AWAY "terminated" ∈
        (cockpit_web_service_dispose env self).2) ∧
    ((cockpit_web_service_dispose env self).1.sockets = self.sockets ∧
      (cockpit_web_service_dispose env self).1.sessions.by_channel = self.sessions.by_channel ∧
      (cockpit_web_service_dispose env self).1.sessions.by_host = self.sessions.by_host ∧
      table_keys (cockpit_web_service_dispose env self).1.sessions.by_transport =
        table_keys self.sessions.by_transport) := by
  have hs := reach_sessions_inv h
  have inv := reach_sockets_inv h hn
  have hnode : ∀ node ∈ self.sessions.by_transport,
      cockpit_session_by_transport self.sessions node.1 = some node.2 ∧
      node.2.transport = node.1 := by
    intro node hmem
    have hl := lookup_of_mem g_direct_equal g_direct_equal_iff self.sessions.by_transport
      node.1 node.2 hs.transports_nodup hmem
    exact ⟨hl, (hs.owned _ _ hl).1⟩
  refine ⟨rfl, ?_, ?_, ?_, ?_, rfl, rfl, rfl, ?_⟩
  · intro t S1 hS1
    rw [dispose_by_transport] at hS1
    cases hl : cockpit_session_by_transport self.sessions t with
    | none => simp [hl] at hS1
    | some S =>
      simp only [hl, Option.map_some', Option.some.injEq] at hS1
      rw [← hS1]
  · intro t S hS
    rw [dispose_session_closes]
    have hT : S.transport = t := (hs.owned _ _ hS).1
    rw [count_filterMap_lookup g_direct_equal g_direct_equal_iff _ _ t S
      self.sessions.by_transport hs.transports_nodup hS]
    · cases hse : S.sent_eof
      · simp [hT]
      · simp
    · intro node hmem hne hf
      split at hf
      · simp only [Option.some.injEq, Effect.cockpit_transport_close.injEq, and_true] at hf
        exact hne ((hnode node hmem).2.symm.trans hf)
      · cases hf
  · intro t p hmem
    have hc : 0 < ((cockpit_web_service_dispose env self).2).count
        (Effect.cockpit_transport_close t p) := List.count_pos_iff.2 hmem
    rw [dispose_session_closes] at hc
    have hm := List.count_pos_iff.1 hc
    simp only [List.mem_filterMap] at hm
    obtain ⟨node, hmem1, hf⟩ := hm
    split at hf
    · rename_i hse
      simp only [Option.some.injEq, Effect.cockpit_transport_close.injEq] at hf
      refine ⟨hf.2.symm, node.2, ?_, hse⟩
      rw [← hf.1, (hnode node hmem1).2]
      exact (hnode node hmem1).1
    · cases hf
  · intro k socket hsock hlt
    apply (dispose_socket_closes env self _ _ _).2
    refine ⟨rfl, rfl, (socket.scope, k), ?_, socket, hsock, hlt, rfl⟩
    exact lookup_mem g_str_equal (fun a b e => (g_str_equal_iff a b).1 e) _ _ _
      (inv.scope_maps _ _ hsock)
  · exact keys_map_values (fun node => { node.2 with sent_eof := true })
      self.sessions.by_transport

theorem dispose_closes_everything_witness :
    ((cockpit_web_service_dispose sample_env sample_two_sockets_busy).2).count
      (Effect.cockpit_transport_close 1 none) = 1 ∧
    Effect.web_socket_connection_close 7 WebSocketCloseCode.WEB_SOCKET_CLOSE_GOING_AWAY
      "terminated" ∈ (cockpit_web_service_dispose sample_env sample_two_sockets_busy).2 :=
  have h := dispose_closes_everything sample_two_sockets_busy_reach (by decide) sample_env
  ⟨h.2.2.1 1 sample_session_x (by decide), h.2.2.2.2.1 7 ⟨"1:", 7⟩ (by decide) (by decide)⟩

/-! ## Signals over the steps of the service -/

theorem quiet_refl (self : CockpitWebService) (effects : List Effect)
    (h : ∀ e ∈ effects, e.signal = none) : Quiet self self effects :=
  ⟨rfl, rfl, rfl, h⟩

theorem quiet_nil (self : CockpitWebService) : Quiet self self [] :=
  quiet_refl self [] (by simp)

theorem quiet_append {self self1 : CockpitWebService} {effects : List Effect}
    (h : Quiet self self1 effects) (more : List Effect)
    (hm : ∀ e ∈ more, e.signal = none) : Quiet self self1 (effects ++ more) := by
  obtain ⟨h1, h2, h3, h4⟩ := h
  refine ⟨h1, h2, h3, ?_⟩
  intro e he
  rcases List.mem_append.1 he with he | he
  · exact h4 e he
  · exact hm e he

theorem inbound_error_signals (env : Env) (connection : WebSocketConnection) :
    ∀ e ∈ inbound_protocol_error env connection, e.signal = none := by
  intro e he
  unfold inbound_protocol_error at he
  split at he
  · simp only [List.mem_cons, List.mem_singleton, List.not_mem_nil, or_false] at he
    rcases he with he | he <;> subst he <;> rfl
  · cases he

theorem outbound_error_signals (transport : CockpitTransport) :
    ∀ e ∈ outbound_protocol_error transport, e.signal = none := by
  intro e he
  simp only [outbound_protocol_error, List.mem_singleton] at he
  subst he; rfl

theorem lookup_or_open_quiet (env : Env) (self : CockpitWebService)
    (host host_key : Option String) (creds : CredsRef) (private_ : Bool)
    (fresh : CockpitTransport) {session : CockpitSession} {self1 : CockpitWebService}
    {effects : List Effect}
    (h : lookup_or_open_session_for_host env self host host_key creds private_ fresh
      = some (session, self1, effects)) :
    Quiet self self1 effects ∧ self1.next_resource_id = self.next_resource_id := by
  unfold lookup_or_open_session_for_host at h
  simp only at h
  split at h
  · cases h
  · simp only [Option.some.injEq, Prod.mk.injEq] at h
    obtain ⟨_, h2, h3⟩ := h
    subst h2 h3
    exact ⟨quiet_nil _, rfl⟩
  · simp only [Option.some.injEq, Prod.mk.injEq] at h
    obtain ⟨_, h2, h3⟩ := h
    subst h2 h3
    refine ⟨⟨rfl, rfl, rfl, ?_⟩, rfl⟩
    intro e he
    simp only [List.mem_singleton] at he
    subst he; rfl

theorem process_open_quiet (env : Env) (self : CockpitWebService)
    (channel : Option String) (options : JsonObject) (fresh : CockpitTransport)
    {valid : Bool} {self1 : CockpitWebService} {effects : List Effect}
    (h : process_open env self channel options fresh = some (valid, self1, effects)) :
    Quiet self self1 effects := by
  unfold process_open at h
  split at h
  · simp only [Option.some.injEq, Prod.mk.injEq] at h
    obtain ⟨_, h2, h3⟩ := h
    subst h2 h3
    exact quiet_nil _
  · split at h
    · cases h
    · split at h
      · simp only [Option.some.injEq, Prod.mk.injEq] at h
        obtain ⟨_, h2, h3⟩ := h
        subst h2 h3
        exact quiet_nil _
      · simp only at h
        split at h
        · cases h
        · rename_i session self2 effects2 hlo
          simp only [Option.some.injEq, Prod.mk.injEq] at h
          obtain ⟨_, h2, h3⟩ := h
          subst h2 h3
          obtain ⟨⟨q1, q2, q3, q4⟩, _⟩ := lookup_or_open_quiet env self _ _ _ _ _ hlo
          exact ⟨q1, q2, q3, q4⟩

theorem process_logout_cases (env : Env) (self : CockpitWebService) (options : JsonObject) :
    Quiet self (process_logout env self options).2.1 (process_logout env self options).2.2 ∨
    Disposing env self (process_logout env self options).2.1
      (process_logout env self options).2.2 := by
  unfold process_logout
  split
  · exact Or.inl (quiet_nil _)
  · split
    · exact Or.inr ⟨{ self with creds := cockpit_creds_poison self.creds }, [], rfl, rfl, rfl,
        by simp, rfl, rfl⟩
    · exact Or.inl ⟨rfl, rfl, rfl, by simp⟩

theorem dispatch_cases (env : Env) (self : CockpitWebService) (socket : CockpitSocket)
    (payload : GBytes) (fresh : CockpitTransport)
    {self1 : CockpitWebService} {effects : List Effect}
    (h : dispatch_inbound_command env self socket payload fresh = some (self1, effects)) :
    Quiet self self1 effects ∨ Disposing env self self1 effects := by
  have hfw : ∀ (s : CockpitWebService) (l : List (CockpitTransport × CockpitSession)),
      ∀ e ∈ l.filterMap
        (fun node =>
          if (!node.2.sent_eof) = true then
            some (Effect.cockpit_transport_send node.2.transport none payload)
          else none), e.signal = none := by
    intro s l e he
    simp only [List.mem_filterMap] at he
    obtain ⟨node, _, hf⟩ := he
    split at hf
    · cases hf; rfl
    · cases hf
  cases hparse : env.parse_command payload with
  | none =>
    unfold dispatch_inbound_command at h
    simp only [hparse, Option.some.injEq, Prod.mk.injEq] at h
    rw [← h.1, ← h.2]
    exact Or.inl (quiet_refl _ _ (inbound_error_signals env _))
  | some r =>
    obtain ⟨command, socket_channel, options⟩ := r
    by_cases hopen : command = "open"
    · subst hopen
      cases hpo : process_open env self
          (socket_channel.map (cockpit_socket_add_channel_scope socket)) options fresh with
      | none =>
        unfold dispatch_inbound_command at h
        simp [hparse, hpo] at h
      | some r =>
        obtain ⟨valid, self2, effects2⟩ := r
        have q := process_open_quiet env self _ _ _ hpo
        unfold dispatch_inbound_command at h
        simp only [hparse, if_true, hpo, Option.map_some'] at h
        left
        split at h
        · simp only [Option.some.injEq, Prod.mk.injEq] at h
          rw [← h.1, ← h.2]
          exact quiet_append q _ (inbound_error_signals env _)
        · split at h
          · simp only [Option.some.injEq, Prod.mk.injEq] at h
            rw [← h.1, ← h.2]
            exact quiet_append q _ (hfw self2 _)
          · split at h
            · split at h
              · simp only [Option.some.injEq, Prod.mk.injEq] at h
                rw [← h.1, ← h.2]
                apply quiet_append q
                intro e he
                simp only [List.mem_singleton] at he
                subst he; rfl
              · simp only [Option.some.injEq, Prod.mk.injEq] at h
                rw [← h.1, ← h.2]
                exact q
            · simp only [Option.some.injEq, Prod.mk.injEq] at h
              rw [← h.1, ← h.2]
              exact q
    · by_cases hlogout : command = "logout"
      · subst hlogout
        unfold dispatch_inbound_command at h
        simp only [hparse, hopen, if_false, if_true] at h
        cases hd : cockpit_json_get_bool options "disconnect" false with
        | none =>
          simp only [process_logout, hd, Bool.not_false, if_true, Option.some.injEq,
            Prod.mk.injEq] at h
          rw [← h.1, ← h.2]
          exact Or.inl (quiet_refl _ _ (by
            intro e he
            simp only [List.nil_append] at he
            exact inbound_error_signals env _ e he))
        | some disconnect =>
          cases disconnect with
          | false =>
            simp only [process_logout, hd, Bool.not_true, Bool.false_eq_true, if_false,
              Option.some.injEq, Prod.mk.injEq] at h
            rw [← h.1, ← h.2]
            exact Or.inl ⟨rfl, rfl, rfl, by simp⟩
          | true =>
            simp only [process_logout, hd, Bool.not_true, Bool.false_eq_true, if_false,
              if_true, Option.some.injEq, Prod.mk.injEq] at h
            rw [← h.1, ← h.2]
            exact Or.inr ⟨{ self with creds := cockpit_creds_poison self.creds }, [], rfl,
              rfl, rfl, by simp, rfl, rfl⟩
      · by_cases hping : command = "ping"
        · subst hping
          unfold dispatch_inbound_command at h
          simp only [hparse, hopen, hlogout, if_false] at h
          simp at h
          obtain ⟨h1, h2⟩ := h
          subst h1 h2
          exact Or.inl (quiet_nil _)
        · rw [dispatch_other env self socket payload fresh command socket_channel options
            hparse hopen hping hlogout] at h
          left
          split at h
          · simp only [Option.some.injEq, Prod.mk.injEq] at h
            rw [← h.1, ← h.2]
            apply quiet_refl
            intro e he
            simp only [List.nil_append] at he
            exact hfw self _ e he
          · split at h
            · split at h
              · simp only [Option.some.injEq, Prod.mk.injEq] at h
                rw [← h.1, ← h.2]
                apply quiet_refl
                intro e he
                simp only [List.nil_append, List.mem_singleton] at he
                subst he; rfl
              · simp only [Option.some.injEq, Prod.mk.injEq] at h
                rw [← h.1, ← h.2]
                exact quiet_nil _
            · simp only [Option.some.injEq, Prod.mk.injEq] at h
              rw [← h.1, ← h.2]
              exact quiet_nil _

theorem message_cases (env : Env) (self : CockpitWebService)
    (connection : WebSocketConnection) (message : GBytes) (fresh : CockpitTransport)
    {self1 : CockpitWebService} {effects : List Effect}
    (h : on_web_socket_message env self connection message fresh = some (self1, effects)) :
    Quiet self self1 effects ∨ Disposing env self self1 effects := by
  unfold on_web_socket_message at h
  split at h
  · simp only [Option.some.injEq, Prod.mk.injEq] at h
    rw [← h.1, ← h.2]
    exact Or.inl (quiet_nil _)
  · split at h
    · simp only [Option.some.injEq, Prod.mk.injEq] at h
      rw [← h.1, ← h.2]
      exact Or.inl (quiet_nil _)
    · exact dispatch_cases env self _ _ _ h
    · left
      split at h
      · simp only at h
        split at h
        · split at h
          · simp only [Option.some.injEq, Prod.mk.injEq] at h
            rw [← h.1, ← h.2]
            apply quiet_refl
            intro e he
            simp only [List.mem_singleton] at he
            subst he; rfl
          · simp only [Option.some.injEq, Prod.mk.injEq] at h
            rw [← h.1, ← h.2]
            exact quiet_nil _
        · simp only [Option.some.injEq, Prod.mk.injEq] at h
          rw [← h.1, ← h.2]
          exact quiet_nil _
      · simp only [Option.some.injEq, Prod.mk.injEq] at h
        rw [← h.1, ← h.2]
        exact quiet_nil _

theorem closing_signals (env : Env) (self : CockpitWebService)
    (connection : WebSocketConnection) :
    ∀ e ∈ on_web_socket_closing env self connection, e.signal = none := by
  intro e he
  unfold on_web_socket_closing at he
  simp only [List.mem_filterMap] at he
  obtain ⟨node, _, hf⟩ := he
  cases hl : cockpit_session_by_transport self.sessions node.2 with
  | none => simp [hl] at hf
  | some session =>
    simp only [hl, Option.map_some', Option.some.injEq] at hf
    subst hf; rfl

theorem process_authorize_signals (env : Env) (self : CockpitWebService)
    (session : CockpitSession) (options : JsonObject) :
    ∀ e ∈ (process_authorize env self session options).2, e.signal = none := by
  intro e he
  unfold process_authorize at he
  split at he
  · split at he
    · simp only at he
      split at he
      · simp only [List.mem_singleton] at he
        subst he; rfl
      · cases he
    · cases he
  · cases he

theorem session_control_quiet (env : Env) (self : CockpitWebService)
    (transport : CockpitTransport) (command : String) (channel : Option String)
    (options : JsonObject) :
    Quiet self (on_session_control env self transport command channel options).1
      (on_session_control env self transport command channel options).2 := by
  unfold on_session_control
  split
  · split
    · exact quiet_refl _ _ (outbound_error_signals _)
    · split
      · apply quiet_refl
        intro e he
        simp only [List.mem_append] at he
        rcases he with he | he
        · exact process_authorize_signals env self _ _ e he
        · split at he
          · cases he
          · exact outbound_error_signals _ e he
      · split
        · exact quiet_nil _
        · exact quiet_refl _ _ (outbound_error_signals _)
  · rename_i ch
    split
    · exact quiet_refl _ _ (outbound_error_signals _)
    · rename_i session hsession
      split
      · exact quiet_refl _ _ (outbound_error_signals _)
      · by_cases hc : command = "close"
        · simp only [hc, if_true, process_close, List.append_nil]
          refine ⟨rfl, rfl, rfl, ?_⟩
          intro e he
          split at he
          · split at he
            · simp only [List.mem_singleton] at he
              subst he; rfl
            · cases he
          · cases he
        · simp only [hc, if_false, if_true, List.append_nil]
          refine ⟨rfl, rfl, rfl, ?_⟩
          intro e he
          split at he
          · split at he
            · simp only [List.mem_singleton] at he
              subst he; rfl
            · cases he
          · cases he

theorem session_recv_signals (env : Env) (self : CockpitWebService)
    (transport : CockpitTransport) (channel : Option String) (payload : GBytes) :
    ∀ e ∈ on_session_recv env self transport channel payload, e.signal = none := by
  intro e he
  unfold on_session_recv at he
  split at he
  · cases he
  · split at he
    · exact outbound_error_signals _ e he
    · split at he
      · exact outbound_error_signals _ e he
      · split at he
        · split at he
          · simp only [List.mem_singleton] at he
            subst he; rfl
          · cases he
        · cases he

theorem session_closed_cases (env : Env) (self : CockpitWebService)
    (transport : CockpitTransport) (problem : Option String) :
    Quiet self (on_session_closed env self transport problem).1
      (on_session_closed env self transport problem).2 ∨
    Disposing env self (on_session_closed env self transport problem).1
      (on_session_closed env self transport problem).2 := by
  unfold on_session_closed
  split
  · exact Or.inl (quiet_nil _)
  · rename_i session hsession
    simp only
    have hsends : ∀ (key fp : Option String), ∀ e ∈ session.channels.filterMap
        (fun node =>
          match cockpit_socket_lookup_by_channel self.sockets node.1 with
          | some socket =>
            if env.ready_state socket.connection = WebSocketState.OPEN then
              some (Effect.web_socket_connection_send socket.connection control_prefix
                (env.json_write_bytes (build_control
                  [("command", some "close"),
                   ("channel", cockpit_socket_remove_channel_scope node.1),
                   ("reason", problem), ("host-key", key), ("host-fingerprint", fp)])))
            else none
          | none => none), e.signal = none := by
      intro key fp e he
      simp only [List.mem_filterMap] at he
      obtain ⟨node, _, hf⟩ := he
      split at hf
      · split at hf
        · cases hf; rfl
        · cases hf
      · cases hf
    split
    · right
      refine ⟨{ self with sessions := cockpit_session_destroy self.sessions session }, _,
        rfl, rfl, rfl, ?_, rfl, rfl⟩
      intro e he
      simp only [List.mem_filterMap] at he
      obtain ⟨node, _, hf⟩ := he
      split at hf
      · split at hf
        · cases hf; rfl
        · cases hf
      · cases hf
    · left
      refine ⟨rfl, rfl, rfl, ?_⟩
      intro e he
      simp only [List.mem_filterMap] at he
      obtain ⟨node, _, hf⟩ := he
      split at hf
      · split at hf
        · cases hf; rfl
        · cases hf
      · cases hf

theorem ping_signals (env : Env) (self : CockpitWebService) :
    ∀ e ∈ on_ping_time env self, e.signal = none := by
  intro e he
  unfold on_ping_time at he
  simp only [List.mem_filterMap] at he
  obtain ⟨node, _, hf⟩ := he
  split at hf
  · cases hf; rfl
  · cases hf

theorem resource_quiet (env : Env) (self : CockpitWebService) (response : Nat)
    (path : String) (fresh : CockpitTransport)
    {self1 : CockpitWebService} {effects : List Effect} {r : Option ResourceResponse}
    (h : cockpit_web_service_resource env self response path fresh
      = some (self1, effects, r)) : Quiet self self1 effects := by
  unfold cockpit_web_service_resource at h
  simp only at h
  have hchk : ∀ (s : CockpitWebService) (rp : String),
      Quiet s (resource_respond_checksum env s response path rp).2.1
        (resource_respond_checksum env s response path rp).2.2.1 := by
    intro s rp
    unfold resource_respond_checksum
    split
    · split
      · exact quiet_nil _
      · refine ⟨rfl, rfl, rfl, ?_⟩
        intro e he
        simp only [List.mem_singleton] at he
        subst he; rfl
    · exact quiet_nil _
  have hnorm : ∀ (rp : String) (r1 : Bool × CockpitWebService × List Effect ×
      Option ResourceResponse),
      resource_respond_normal env self response path rp fresh = some r1 →
      Quiet self r1.2.1 r1.2.2.1 := by
    intro rp r1 hr
    unfold resource_respond_normal at hr
    split at hr
    · split at hr
      · cases hr
      · rename_i session self2 effects1 hlo
        simp only [Option.some.injEq] at hr
        subst hr
        obtain ⟨⟨q1, q2, q3, q4⟩, _⟩ := lookup_or_open_quiet env self _ _ _ _ _ hlo
        refine ⟨q1, q2, q3, ?_⟩
        intro e he
        simp only [List.mem_append, List.mem_singleton] at he
        rcases he with he | he
        · exact q4 e he
        · subst he; rfl
    · simp only [Option.some.injEq] at hr
      subst hr
      exact quiet_nil _
  split at h
  · cases h
  · rename_i r1 hr1
    simp only [Option.some.injEq, Prod.mk.injEq] at h
    obtain ⟨e1, e2, _⟩ := h
    have hq1 : Quiet self r1.2.1 r1.2.2.1 := by
      split at hr1
      · exact hnorm _ _ hr1
      · simp only [Option.some.injEq] at hr1
        subst hr1
        exact quiet_nil _
    have h404 : ∀ b : Bool, ∀ e ∈ (if (!b) = true then
        [Effect.cockpit_web_response_error response 404] else []), e.signal = none := by
      intro b e he
      split at he
      · simp only [List.mem_singleton] at he
        subst he; rfl
      · cases he
    rw [← e1, ← e2]
    split
    · obtain ⟨q1, q2, q3, q4⟩ := hq1
      obtain ⟨c1, c2, c3, c4⟩ := hchk r1.2.1 ⟨path.data.drop 7⟩
      refine ⟨c1.trans q1, c2.trans q2, c3.trans q3, ?_⟩
      intro e he
      simp only [List.mem_append] at he
      rcases he with (he | he) | he
      · exact q4 e he
      · exact c4 e he
      · exact h404 _ e he
    · exact quiet_append hq1 _ (h404 _)

theorem modules_quiet (env : Env) (self : CockpitWebService) (host : Option String)
    (fresh : CockpitTransport)
    {self1 : CockpitWebService} {effects : List Effect} {channel : String}
    (h : cockpit_web_service_modules env self host fresh = some (self1, effects, channel)) :
    Quiet self self1 effects := by
  unfold cockpit_web_service_modules at h
  split at h
  · cases h
  · rename_i session self2 effects1 hlo
    simp only [Option.some.injEq, Prod.mk.injEq] at h
    obtain ⟨e1, e2, _⟩ := h
    obtain ⟨⟨q1, q2, q3, q4⟩, _⟩ := lookup_or_open_quiet env self _ _ _ _ _ hlo
    rw [← e1, ← e2]
    refine ⟨q1, q2, q3, ?_⟩
    intro e he
    simp only [List.mem_append, List.mem_singleton] at he
    rcases he with he | he
    · exact q4 e he
    · subst he; rfl

/-- Every event other than the acceptance and the close of a connection is quiet or ends
in a dispose. -/
theorem step_cases (env : Env) {self self1 : CockpitWebService} (ev : Event)
    {effects : List Effect} (h : step env self ev = some (self1, effects))
    (hsocket : ∀ connection, ev ≠ Event.socket connection)
    (hclose : ∀ connection, ev ≠ Event.close connection) :
    Quiet self self1 effects ∨ Disposing env self self1 effects := by
  cases ev with
  | socket connection => exact absurd rfl (hsocket connection)
  | message connection message fresh => exact message_cases env self _ _ _ h
  | closing connection =>
    simp only [step, Option.some.injEq, Prod.mk.injEq] at h
    rw [← h.1, ← h.2]
    exact Or.inl (quiet_refl _ _ (closing_signals env self connection))
  | close connection => exact absurd rfl (hclose connection)
  | session_control transport command channel options =>
    simp only [step, Option.some.injEq] at h
    have e1 : _ = self1 := congrArg Prod.fst h
    have e2 : _ = effects := congrArg Prod.snd h
    rw [← e1, ← e2]
    exact Or.inl (session_control_quiet env self _ _ _ _)
  | session_recv transport channel payload =>
    simp only [step, Option.some.injEq, Prod.mk.injEq] at h
    rw [← h.1, ← h.2]
    exact Or.inl (quiet_refl _ _ (session_recv_signals env self _ _ _))
  | session_closed transport problem =>
    simp only [step, Option.some.injEq] at h
    have e1 : _ = self1 := congrArg Prod.fst h
    have e2 : _ = effects := congrArg Prod.snd h
    rw [← e1, ← e2]
    exact session_closed_cases env self _ _
  | timeout transport =>
    simp only [step] at h
    split at h
    · simp only [Option.some.injEq] at h
      have e1 : _ = self1 := congrArg Prod.fst h
      have e2 : _ = effects := congrArg Prod.snd h
      rw [← e1, ← e2]
      left
      refine ⟨rfl, rfl, rfl, ?_⟩
      intro e he
      unfold on_timeout_cleanup_session at he
      simp only at he
      split at he
      · simp only [List.mem_singleton] at he
        subst he; rfl
      · cases he
    · simp only [Option.some.injEq, Prod.mk.injEq] at h
      rw [← h.1, ← h.2]
      exact Or.inl (quiet_nil _)
  | ping =>
    simp only [step, Option.some.injEq, Prod.mk.injEq] at h
    rw [← h.1, ← h.2]
    exact Or.inl (quiet_refl _ _ (ping_signals env self))
  | dispose =>
    simp only [step, Option.some.injEq] at h
    have e1 : _ = self1 := congrArg Prod.fst h
    have e2 : _ = effects := congrArg Prod.snd h
    rw [← e1, ← e2]
    exact Or.inr ⟨self, [], rfl, rfl, rfl, by simp, rfl, rfl⟩
  | resource response path fresh =>
    simp only [step] at h
    cases hr : cockpit_web_service_resource env self response path fresh with
    | none => simp [hr] at h
    | some r =>
      obtain ⟨s2, e2, rr⟩ := r
      simp only [hr, Option.map_some', Option.some.injEq, Prod.mk.injEq] at h
      rw [← h.1, ← h.2]
      exact Or.inl (resource_quiet env self _ _ _ hr)
  | modules host fresh =>
    simp only [step] at h
    cases hr : cockpit_web_service_modules env self host fresh with
    | none => simp [hr] at h
    | some r =>
      obtain ⟨s2, e2, ch⟩ := r
      simp only [hr, Option.map_some', Option.some.injEq, Prod.mk.injEq] at h
      rw [← h.1, ← h.2]
      exact Or.inl (modules_quiet env self _ _ hr)

theorem sample_closing_resource_service_reach : Reach 0 sample_closing_resource_service :=
  reach_run_event _ _ sample_closing_service_reach (by intro c; simp)
    (by unfold Event.enabled; decide) (by decide)

theorem count_of_signal_none (effects : List Effect) (s : String)
    (h : ∀ e ∈ effects, e.signal = none) : effects.count (Effect.g_signal_emit s) = 0 := by
  rw [List.count_eq_zero]
  intro hmem
  have := h _ hmem
  simp [Effect.signal] at this

theorem dispose_signal_count (env : Env) (self : CockpitWebService) (s : String) :
    ((cockpit_web_service_dispose env self).2).count (Effect.g_signal_emit s) =
      if s = "destroy" ∧ self.closing = false then 1 else 0 := by
  unfold cockpit_web_service_dispose
  simp only [List.count_append]
  have h1 : ∀ l : List Effect, (∀ e ∈ l, e.signal = none) →
      l.count (Effect.g_signal_emit s) = 0 := fun l hl => count_of_signal_none l s hl
  rw [h1, h1]
  · cases hc : self.closing
    · by_cases hs : s = "destroy"
      · simp [hs]
      · have : ¬ "destroy" = s := fun x => hs x.symm
        simp [hs, List.count_cons, this]
    · simp
  · intro e he
    simp only [List.mem_filterMap] at he
    obtain ⟨node, _, hf⟩ := he
    split at hf
    · cases hf; rfl
    · cases hf
  · intro e he
    simp only [List.mem_filterMap] at he
    obtain ⟨node, _, hf⟩ := he
    split at hf
    · split at hf
      · cases hf; rfl
      · cases hf
    · cases hf

theorem close_quiet (self : CockpitWebService) (connection : WebSocketConnection) :
    (on_web_socket_close self connection).1.closing = self.closing ∧
    ∀ s, Effect.g_signal_emit s ∈ (on_web_socket_close self connection).2 → s = "idling" := by
  unfold on_web_socket_close
  split
  · exact ⟨rfl, by simp⟩
  · unfold caller_end
    simp only
    split
    · refine ⟨rfl, ?_⟩
      intro s hs
      split at hs
      · simp only [List.mem_singleton, Effect.g_signal_emit.injEq] at hs
        exact hs
      · cases hs
    · exact ⟨rfl, by simp⟩

/-- Over every step "destroy" is emitted once when `closing` turns true, and not otherwise. -/
theorem step_destroy_count (env : Env) {self self1 : CockpitWebService} (ev : Event)
    {effects : List Effect} (h : step env self ev = some (self1, effects)) :
    effects.count (Effect.g_signal_emit "destroy") =
      if self.closing = false ∧ self1.closing = true then 1 else 0 := by
  by_cases hsocket : ∃ connection, ev = Event.socket connection
  · obtain ⟨connection, rfl⟩ := hsocket
    simp only [step, Option.some.injEq, Prod.mk.injEq] at h
    rw [← h.1, ← h.2]
    have : (cockpit_web_service_socket self connection).closing = self.closing := rfl
    rw [this]
    cases self.closing <;> simp
  · by_cases hclose : ∃ connection, ev = Event.close connection
    · obtain ⟨connection, rfl⟩ := hclose
      simp only [step, Option.some.injEq] at h
      have e1 : _ = self1 := congrArg Prod.fst h
      have e2 : _ = effects := congrArg Prod.snd h
      obtain ⟨q1, q2⟩ := close_quiet self connection
      rw [← e1, ← e2, q1]
      have : ((on_web_socket_close self connection).2).count (Effect.g_signal_emit "destroy")
          = 0 := by
        rw [List.count_eq_zero]
        intro hmem
        have := q2 _ hmem
        simp at this
      rw [this]
      cases self.closing <;> simp
    · rcases step_cases env ev h (fun c e => hsocket ⟨c, e⟩) (fun c e => hclose ⟨c, e⟩) with
        ⟨q1, _, _, q4⟩ | ⟨s, before, d1, _, _, d4, d5, d6⟩
      · rw [count_of_signal_none effects _ q4, q1]
        cases self.closing <;> simp
      · rw [d6, List.count_append, count_of_signal_none before _ d4, dispose_signal_count, d5,
          d1]
        have : (cockpit_web_service_dispose env s).1.closing = true := rfl
        rw [this]
        cases self.closing <;> simp

theorem dispose_twice (env : Env) (self : CockpitWebService) :
    (cockpit_web_service_dispose env (cockpit_web_service_dispose env self).1).1 =
      (cockpit_web_service_dispose env self).1 ∧
    ∀ e ∈ (cockpit_web_service_dispose env (cockpit_web_service_dispose env self).1).2,
      ∃ k, e = Effect.web_socket_connection_close k
        WebSocketCloseCode.WEB_SOCKET_CLOSE_GOING_AWAY "terminated" := by
  refine ⟨?_, ?_⟩
  · unfold cockpit_web_service_dispose
    simp [List.map_map, Function.comp_def]
  · intro e he
    have hsig : ∀ s, e ≠ Effect.g_signal_emit s := by
      intro s hs
      subst hs
      have hc := List.count_pos_iff.2 he
      rw [dispose_signal_count] at hc
      have : (cockpit_web_service_dispose env self).1.closing = true := rfl
      simp [this] at hc
    have hclose : ∀ t p, e ≠ Effect.cockpit_transport_close t p := by
      intro t p hs
      subst hs
      have hc := List.count_pos_iff.2 he
      rw [dispose_session_closes] at hc
      have hm := List.count_pos_iff.1 hc
      simp only [List.mem_filterMap] at hm
      obtain ⟨node, hmem, hf⟩ := hm
      have : node.2.sent_eof = true := by
        have hmem1 : node ∈ self.sessions.by_transport.map
            (fun node => (node.1, { node.2 with sent_eof := true })) := hmem
        simp only [List.mem_map] at hmem1
        obtain ⟨node0, _, e0⟩ := hmem1
        rw [← e0]
      simp [this] at hf
    unfold cockpit_web_service_dispose at he
    simp only [List.mem_append, List.mem_filterMap] at he
    rcases he with (⟨node, _, hf⟩ | ⟨node, _, hf⟩) | hf
    · split at hf
      · split at hf
        · simp only [Option.some.injEq] at hf
          exact ⟨_, hf.symm⟩
        · cases hf
      · cases hf
    · split at hf
      · simp only [Option.some.injEq] at hf
        exact absurd hf.symm (hclose _ _)
      · cases hf
    · split at hf
      · simp only [List.mem_singleton] at hf
        exact absurd hf (hsig _)
      · cases hf

/-- C23, as stated, fails: a session that a /res/ request opens while the service is
closing has `sent_eof` false; the next dispose closes its transport and sets the flag. -/
theorem dispose_while_closing_closes_new_session :
    Reachable sample_closing_resource_service ∧
    sample_closing_resource_service.closing = true ∧
    (cockpit_session_by_transport sample_closing_resource_service.sessions 1).map
      (fun S => S.sent_eof) = some false ∧
    (cockpit_web_service_dispose sample_env sample_closing_resource_service).2 =
      [Effect.cockpit_transport_close 1 none] ∧
    (cockpit_session_by_transport
      (cockpit_web_service_dispose sample_env sample_closing_resource_service).1.sessions
      1).map (fun S => S.sent_eof) = some true :=
  ⟨⟨0, sample_closing_resource_service_reach⟩, by decide, by decide, by decide, by decide⟩

/-- C23, amended: in every reachable state (1) a dispose emits "destroy" once when `closing`
was false and not at all when it was true; (2) over every step of the service "destroy" is
emitted once when the step turns `closing` true and not otherwise, and `closing` stays true
once it is; (3) a dispose while `closing` is true leaves `closing` true, and for every
session whose `sent_eof` is already true it leaves the session as it is and closes its
transport not again; (4) a dispose right after a dispose leaves the whole state as it is,
and its only effects are closes of browser connections. -/
theorem dispose_idempotent {self : CockpitWebService} (h : Reachable self) (env : Env) :
    (((cockpit_web_service_dispose env self).2).count (Effect.g_signal_emit "destroy") =
      if self.closing = false then 1 else 0) ∧
    (∀ (ev : Event) (self1 : CockpitWebService) (effects : List Effect),
      step env self ev = some (self1, effects) →
      (effects.count (Effect.g_signal_emit "destroy") =
        if self.closing = false ∧ self1.closing = true then 1 else 0) ∧
      (self.closing = true → self1.closing = true)) ∧
    (self.closing = true →
      (cockpit_web_service_dispose env self).1.closing = true ∧
      (∀ t S, cockpit_session_by_transport self.sessions t = some S → S.sent_eof = true →
        cockpit_session_by_transport (cockpit_web_service_dispose env self).1.sessions t
          = some S ∧
        ∀ p, Effect.cockpit_transport_close t p ∉ (cockpit_web_service_dispose env self).2)) ∧
    ((cockpit_web_service_dispose env (cockpit_web_service_dispose env self).1).1 =
      (cockpit_web_service_dispose env self).1 ∧
    ∀ e ∈ (cockpit_web_service_dispose env (cockpit_web_service_dispose env self).1).2,
      ∃ k, e = Effect.web_socket_connection_close k
        WebSocketCloseCode.WEB_SOCKET_CLOSE_GOING_AWAY "terminated") := by
  obtain ⟨n, hr⟩ := h
  have hs := reach_sessions_inv hr
  refine ⟨?_, ?_, ?_, dispose_twice env self⟩
  · rw [dispose_signal_count]
    simp
  · intro ev self1 effects hstep
    exact ⟨step_destroy_count env ev hstep, step_closing env ev hstep⟩
  · intro _
    refine ⟨rfl, ?_⟩
    intro t S hS hse
    refine ⟨?_, ?_⟩
    · rw [dispose_by_transport, hS]
      simp only [Option.map_some', Option.some.injEq]
      cases S
      simp only at hse
      subst hse
      rfl
    · intro p hmem
      have hc := List.count_pos_iff.2 hmem
      rw [dispose_session_closes] at hc
      have hm := List.count_pos_iff.1 hc
      simp only [List.mem_filterMap] at hm
      obtain ⟨node, hmem1, hf⟩ := hm
      have hl := lookup_of_mem g_direct_equal g_direct_equal_iff self.sessions.by_transport
        node.1 node.2 hs.transports_nodup hmem1
      have ht := (hs.owned _ _ hl).1
      split at hf
      · rename_i hse1
        simp only [Option.some.injEq, Effect.cockpit_transport_close.injEq] at hf
        have : node.1 = t := ht.symm.trans hf.1
        rw [this] at hl
        have hS1 : g_hash_table_lookup g_direct_equal self.sessions.by_transport t
            = some S := hS
        rw [hS1] at hl
        cases hl
        rw [hse] at hse1
        cases hse1
      · cases hf

theorem dispose_idempotent_witness :
    cockpit_session_by_transport
      (cockpit_web_service_dispose sample_env
        (cockpit_web_service_dispose sample_env sample_two_sockets_busy).1).1.sessions 1 =
      some { sample_session_x with sent_eof := true } ∧
    Effect.cockpit_transport_close 1 none ∉
      (cockpit_web_service_dispose sample_env
        (cockpit_web_service_dispose sample_env sample_two_sockets_busy).1).2 :=
  have h := ((dispose_idempotent
    ⟨2, reach_run_event sample_env Event.dispose sample_two_sockets_busy_reach
      (by intro c; simp) (by unfold Event.enabled; trivial) (by decide)⟩ sample_env).2.2.1
    (by decide)).2 1 { sample_session_x with sent_eof := true } (by decide) rfl
  ⟨h.1, h.2 none⟩

/-! ## Callers and browser connections -/

theorem insert_length {K V : Type} [DecidableEq K] (eq : K → K → Bool)
    (heq : ∀ a b, eq a b = true ↔ a = b) (t : GHashTable K V) (k : K) (v : V)
    (h : g_hash_table_lookup eq t k = none) :
    (g_hash_table_insert eq t k v).length = t.length + 1 := by
  have hk := keys_insert eq heq t k v
  have hnot := (lookup_eq_none_iff eq heq t k).1 h
  simp only [hnot, if_false] at hk
  have := congrArg List.length hk
  simpa [table_keys] using this

theorem remove_length {K V : Type} (eq : K → K → Bool) (t : GHashTable K V) (k : K) (v : V)
    (h : g_hash_table_lookup eq t k = some v) :
    (g_hash_table_remove eq t k).length + 1 = t.length := by
  induction t with
  | nil => simp [g_hash_table_lookup] at h
  | cons node rest ih =>
    obtain ⟨k0, v0⟩ := node
    by_cases e : eq k0 k = true
    · simp [g_hash_table_remove, e]
    · simp only [g_hash_table_lookup, e, if_false, Bool.false_eq_true] at h
      simp [g_hash_table_remove, e, ih h]

theorem close_tracked (self : CockpitWebService) (connection : WebSocketConnection)
    (socket : CockpitSocket)
    (hsock : cockpit_socket_lookup_by_connection self.sockets connection = some socket)
    (hpos : 0 < self.callers) :
    on_web_socket_close self connection =
      ({ self with
         sockets := cockpit_socket_destroy self.sockets socket
         callers := self.callers - 1 },
       if self.callers - 1 = 0 then [Effect.g_signal_emit "idling"] else []) := by
  unfold on_web_socket_close caller_end
  simp [hsock, hpos]

theorem reach_callers_inv {n : Nat} {self : CockpitWebService} (h : Reach n self) :
    CallersInv self ∧
    ∀ c socket, cockpit_socket_lookup_by_connection self.sockets c = some socket →
      socket.connection = c := by
  induction h with
  | init creds pipe =>
    have e1 : (cockpit_web_service_new creds pipe).sockets = cockpit_sockets_init := by
      unfold cockpit_web_service_new
      cases pipe <;> rfl
    have e2 : (cockpit_web_service_new creds pipe).callers = 0 := by
      unfold cockpit_web_service_new
      cases pipe <;> rfl
    refine ⟨⟨?_, ?_⟩, ?_⟩
    · rw [e1]; simp [cockpit_sockets_init, table_keys]
    · rw [e1, e2]; simp [cockpit_sockets_init, g_hash_table_size]
    · intro c socket hl
      rw [e1] at hl
      simp [cockpit_sockets_init, cockpit_socket_lookup_by_connection, g_hash_table_lookup]
        at hl
  | socket connection hr0 hen ih =>
    rename_i n0 self0
    obtain ⟨⟨i1, i2⟩, i3⟩ := ih
    have hnone : g_hash_table_lookup g_direct_equal self0.sockets.by_connection connection
        = none := hen
    refine ⟨⟨?_, ?_⟩, ?_⟩
    · exact keys_insert_nodup _ g_direct_equal_iff _ _ _ i1
    · show self0.callers + 1 = ((g_hash_table_insert g_direct_equal
        self0.sockets.by_connection connection _).length : Int)
      rw [insert_length _ g_direct_equal_iff _ _ _ hnone, i2]
      simp [g_hash_table_size]
    · intro c socket hl
      have hl1 : g_hash_table_lookup g_direct_equal
          (g_hash_table_insert g_direct_equal self0.sockets.by_connection connection
            { scope := scope_of_id self0.sockets.next_scope_id, connection := connection }) c
          = some socket := hl
      rw [lookup_insert _ g_direct_equal_iff] at hl1
      split at hl1
      · rename_i e
        simp only [Option.some.injEq] at hl1
        rw [← hl1]; exact e
      · exact i3 c socket hl1
  | event env ev effects hr hne hen hstep ih =>
    rename_i n0 self0 self1
    obtain ⟨⟨i1, i2⟩, i3⟩ := ih
    by_cases hclose : ∃ connection, ev = Event.close connection
    · obtain ⟨connection, rfl⟩ := hclose
      cases hsock : cockpit_socket_lookup_by_connection self0.sockets connection with
      | none => exact absurd hsock hen
      | some socket =>
        have hc : socket.connection = connection := i3 _ _ hsock
        have hlen := remove_length g_direct_equal self0.sockets.by_connection connection
          socket hsock
        have hpos : 0 < self0.callers := by
          rw [i2]
          simp only [g_hash_table_size]
          omega
        simp only [step, Option.some.injEq] at hstep
        rw [close_tracked self0 connection socket hsock hpos] at hstep
        have e1 : _ = self1 := congrArg Prod.fst hstep
        rw [← e1]
        refine ⟨⟨?_, ?_⟩, ?_⟩
        · exact keys_remove_nodup _ _ _ i1
        · show self0.callers - 1 = ((g_hash_table_remove g_direct_equal
            self0.sockets.by_connection socket.connection).length : Int)
          rw [hc, i2]
          simp only [g_hash_table_size]
          omega
        · intro c socket1 hl
          have hl1 : g_hash_table_lookup g_direct_equal
              (g_hash_table_remove g_direct_equal self0.sockets.by_connection
                socket.connection) c = some socket1 := hl
          rw [lookup_remove _ g_direct_equal_iff _ _ _ i1] at hl1
          split at hl1
          · cases hl1
          · exact i3 c socket1 hl1
    · have key : self1.callers = self0.callers ∧ self1.sockets = self0.sockets := by
        rcases step_cases env ev hstep hne (fun c e => hclose ⟨c, e⟩) with
          ⟨_, q2, q3, _⟩ | ⟨s, before, _, d2, d3, _, d5, _⟩
        · exact ⟨q2, q3⟩
        · rw [d5]
          exact ⟨d2, d3⟩
      refine ⟨⟨?_, ?_⟩, ?_⟩
      · rw [key.2]; exact i1
      · rw [key.1, key.2]; exact i2
      · rw [key.2]; exact i3

/-- C29: in every reachable state `callers` is the number of sockets in `by_connection`, so
`callers` is 0, and `cockpit_web_service_get_idling` true, exactly when `by_connection` is
empty.  Over a step, "idling" is emitted, once, exactly by the close of a connection that
leaves `callers` at 0: the close of a tracked connection lowers `callers` by one, and no
other event emits "idling". -/
theorem callers_count_sockets {self : CockpitWebService} (h : Reachable self) :
    self.callers = (g_hash_table_size self.sockets.by_connection : Int) ∧
    (self.callers = 0 ↔ self.sockets.by_connection = []) ∧
    (cockpit_web_service_get_idling self = true ↔ self.sockets.by_connection = []) ∧
    (∀ (env : Env) (connection : WebSocketConnection) (self1 : CockpitWebService)
      (effects : List Effect),
      (Event.close connection).enabled self →
      step env self (Event.close connection) = some (self1, effects) →
      self1.callers = self.callers - 1 ∧
      effects = if self1.callers = 0 then [Effect.g_signal_emit "idling"] else []) ∧
    (∀ (env : Env) (connection : WebSocketConnection) (self1 : CockpitWebService)
      (effects : List Effect),
      step env self (Event.socket connection) = some (self1, effects) →
      self1.callers = self.callers + 1 ∧ effects = []) ∧
    (∀ (env : Env) (ev : Event) (self1 : CockpitWebService) (effects : List Effect),
      step env self ev = some (self1, effects) →
      (∀ connection, ev ≠ Event.socket connection) →
      (∀ connection, ev ≠ Event.close connection) →
      self1.callers = self.callers ∧ Effect.g_signal_emit "idling" ∉ effects) := by
  obtain ⟨n, hr⟩ := h
  obtain ⟨⟨i1, i2⟩, i3⟩ := reach_callers_inv hr
  have hzero : self.callers = 0 ↔ self.sockets.by_connection = [] := by
    rw [i2]
    simp only [g_hash_table_size]
    constructor
    · intro e
      apply List.length_eq_zero.1
      omega
    · intro e
      rw [e]; rfl
  refine ⟨i2, hzero, ?_, ?_, ?_, ?_⟩
  · rw [← hzero]
    simp [cockpit_web_service_get_idling]
  · intro env connection self1 effects hen hstep
    cases hsock : cockpit_socket_lookup_by_connection self.sockets connection with
    | none => exact absurd hsock hen
    | some socket =>
      have hlen := remove_length g_direct_equal self.sockets.by_connection connection
        socket hsock
      have hpos : 0 < self.callers := by
        rw [i2]
        simp only [g_hash_table_size]
        omega
      simp only [step, Option.some.injEq] at hstep
      rw [close_tracked self connection socket hsock hpos] at hstep
      have e1 : _ = self1 := congrArg Prod.fst hstep
      have e2 : _ = effects := congrArg Prod.snd hstep
      rw [← e1, ← e2]
      exact ⟨rfl, rfl⟩
  · intro env connection self1 effects hstep
    simp only [step, Option.some.injEq, Prod.mk.injEq] at hstep
    rw [← hstep.1, ← hstep.2]
    exact ⟨rfl, rfl⟩
  · intro env ev self1 effects hstep hsocket hclose
    rcases step_cases env ev hstep hsocket hclose with
      ⟨_, q2, _, q4⟩ | ⟨s, before, _, d2, _, d4, d5, d6⟩
    · refine ⟨q2, ?_⟩
      intro hmem
      have := q4 _ hmem
      simp [Effect.signal] at this
    · rw [d5, d6]
      refine ⟨d2, ?_⟩
      intro hmem
      rcases List.mem_append.1 hmem with hmem | hmem
      · have := d4 _ hmem
        simp [Effect.signal] at this
      · have := (dispose_emits_destroy env s).2 _ hmem
        simp at this

theorem callers_count_sockets_witness :
    sample_two_sockets.callers = 2 ∧
    (step sample_env sample_two_sockets (Event.close 7)).map (fun r => (r.1.callers, r.2))
      = some (1, []) :=
  have h := callers_count_sockets ⟨2, sample_two_sockets_reach⟩
  ⟨h.1, by
    have h4 := h.2.2.2.1 sample_env 7 _ _ (by unfold Event.enabled; decide) rfl
    rw [show step sample_env sample_two_sockets (Event.close 7) =
      some (on_web_socket_close sample_two_sockets 7) from rfl]
    simp only [Option.map_some', Option.some.injEq, Prod.mk.injEq]
    exact ⟨h4.1, h4.2⟩⟩

/-! ## The closing of a browser connection -/

theorem sample_disposed_busy_reach : Reach 2 sample_disposed_busy :=
  reach_run_event _ _ sample_two_sockets_busy_reach (by intro c; simp)
    (by unfold Event.enabled; trivial) (by decide)

/-- C24, on the failing input: after a dispose the session of host "x" has `sent_eof` true;
the closing of the browser connection that owns its channel still sends a close control on
its transport, and so does a /res/ request for host "x". -/
theorem sends_after_eof :
    Reachable sample_disposed_busy ∧
    (cockpit_session_by_transport sample_disposed_busy.sessions 1).map
      (fun S => S.sent_eof) = some true ∧
    on_web_socket_closing sample_env sample_disposed_busy 7 =
      [Effect.cockpit_transport_send 1 none "command,channel,reason"] ∧
    (step sample_env sample_disposed_busy (Event.resource 5 "/res/x/mod/file" 2)).map
      (fun r => r.2) =
      some [Effect.cockpit_transport_send 1 none "command,channel,payload,module,path"] :=
  ⟨⟨2, sample_disposed_busy_reach⟩, by decide, by decide, by decide⟩

theorem insert_absent {K V : Type} [DecidableEq K] (eq : K → K → Bool)
    (heq : ∀ a b, eq a b = true ↔ a = b) (t : GHashTable K V) (k : K) (v : V)
    (h : k ∉ table_keys t) : g_hash_table_insert eq t k v = t ++ [(k, v)] := by
  induction t with
  | nil => rfl
  | cons node rest ih =>
    obtain ⟨k0, v0⟩ := node
    simp only [table_keys, List.map_cons, List.mem_cons, not_or] at h
    have hne : ¬ eq k0 k = true := fun x => h.1 ((heq _ _).1 x).symm
    simp only [g_hash_table_insert, hne, if_false, Bool.false_eq_true, List.cons_append]
    rw [ih h.2]

theorem foldl_insert_filter {K V : Type} [DecidableEq K] (eq : K → K → Bool)
    (heq : ∀ a b, eq a b = true ↔ a = b) (P : K × V → Bool)
    (f : GHashTable K V → K × V → GHashTable K V)
    (hf : ∀ acc node, f acc node =
      if P node = true then g_hash_table_insert eq acc node.1 node.2 else acc) :
    ∀ (l acc : GHashTable K V), (table_keys (acc ++ l)).Nodup →
      l.foldl f acc = acc ++ l.filter P := by
  intro l
  induction l with
  | nil => intro acc _; simp
  | cons node rest ih =>
    intro acc hnd
    simp only [List.foldl_cons, hf]
    have hnd1 : (table_keys acc ++ node.1 :: table_keys rest).Nodup := by
      simpa [table_keys] using hnd
    have hnot : node.1 ∉ table_keys acc := by
      intro hmem
      have := (List.nodup_append.1 hnd1).2.2
      exact this hmem (List.mem_cons_self _ _)
    by_cases hP : P node = true
    · simp only [hP, if_true, List.filter_cons]
      rw [insert_absent eq heq acc node.1 node.2 hnot, ih]
      · simp
      · simpa [table_keys] using hnd
    · simp only [hP, if_false, List.filter_cons, Bool.false_eq_true]
      apply ih
      have h2 : (table_keys acc ++ table_keys rest).Nodup := by
        have := List.Nodup.sublist
          (List.Sublist.append_left (List.sublist_cons_self node.1 (table_keys rest))
            (table_keys acc)) hnd1
        exact this
      simpa [table_keys] using h2

/-- What `on_web_socket_closing` sends, in a state whose session indexes are consistent:
one close control, with the key of `by_channel` as "channel", for every node of
`by_channel` whose scope resolves to the socket of the connection. -/
theorem closing_effects (env : Env) {self : CockpitWebService}
    (hs : SessionsInv self.sessions) (connection : WebSocketConnection) :
    on_web_socket_closing env self connection =
      (self.sessions.by_channel.filter
        (fun node => channel_of_connection self.sockets connection node.1)).map
        (fun node => Effect.cockpit_transport_send node.2 none
          (env.json_write_bytes
            [("command", JsonNode.string "close"), ("channel", JsonNode.string node.1),
             ("reason", JsonNode.string "disconnected")])) := by
  unfold on_web_socket_closing
  simp only
  rw [foldl_insert_filter g_str_equal g_str_equal_iff
    (fun node => channel_of_connection self.sockets connection node.1) _ ?_
    self.sessions.by_channel [] (by simpa using hs.channels_nodup)]
  · simp only [List.nil_append]
    have hmem : ∀ node ∈ self.sessions.by_channel.filter
        (fun node => channel_of_connection self.sockets connection node.1),
        ∃ session, cockpit_session_by_transport self.sessions node.2 = some session ∧
          session.transport = node.2 := by
      intro node hn
      have hn1 := (List.mem_filter.1 hn).1
      have hl := lookup_of_mem g_str_equal g_str_equal_iff self.sessions.by_channel node.1
        node.2 hs.channels_nodup hn1
      obtain ⟨session, h1, _⟩ := (hs.index _ _).1 hl
      exact ⟨session, h1, (hs.owned _ _ h1).1⟩
    generalize self.sessions.by_channel.filter
      (fun node => channel_of_connection self.sockets connection node.1) = l at hmem
    induction l with
    | nil => rfl
    | cons node rest ih =>
      obtain ⟨session, h1, h2⟩ := hmem node (List.mem_cons_self _ _)
      simp only [List.filterMap_cons, h1, Option.map_some', List.map_cons, h2]
      rw [ih (fun n hn => hmem n (List.mem_cons_of_mem _ hn))]
      rfl
  · intro acc node
    simp only [channel_of_connection]
    split
    · rename_i socket heq
      by_cases e : socket.connection = connection
      · simp [heq, e]
      · simp [heq, e]
    · rename_i heq
      simp [heq]

/-- C25, as stated, fails: the close control that the closing of connection 7 sends for its
channel carries the scoped channel "1:a", not the socket-local channel "a". -/
theorem closing_sends_scoped_channel :
    Reachable sample_two_sockets_busy ∧
    cockpit_socket_lookup_by_connection sample_two_sockets_busy.sockets 7
      = some ⟨"1:", 7⟩ ∧
    cockpit_session_by_channel sample_two_sockets_busy.sessions
      (cockpit_socket_add_channel_scope ⟨"1:", 7⟩ "a") = some sample_session_x ∧
    on_web_socket_closing sample_env_values sample_two_sockets_busy 7 =
      [Effect.cockpit_transport_send 1 none
        "command=close,channel=1:a,reason=disconnected"] ∧
    cockpit_socket_remove_channel_scope "1:a" = some "a" :=
  ⟨⟨2, sample_two_sockets_busy_reach⟩, by decide, by decide, by decide, by decide⟩

/-- C25, amended: in a reachable state every control that `on_web_socket_closing` sends has
exactly the members "command" with "close", "channel" with a key of `by_channel` as it is
keyed there, scope included, whose scope resolves to the socket of the connection, and
"reason" with "disconnected"; it goes, with null channel header, to the transport that
`by_channel` holds for that key. -/
theorem closing_control_members {self : CockpitWebService} (h : Reachable self) (env : Env)
    (connection : WebSocketConnection) :
    ∀ e ∈ on_web_socket_closing env self connection,
      ∃ ch t, g_hash_table_lookup g_str_equal self.sessions.by_channel ch = some t ∧
        channel_of_connection self.sockets connection ch = true ∧
        e = Effect.cockpit_transport_send t none
          (env.json_write_bytes
            [("command", JsonNode.string "close"), ("channel", JsonNode.string ch),
             ("reason", JsonNode.string "disconnected")]) := by
  obtain ⟨n, hr⟩ := h
  have hs := reach_sessions_inv hr
  intro e he
  rw [closing_effects env hs] at he
  simp only [List.mem_map, List.mem_filter] at he
  obtain ⟨node, ⟨hn, hP⟩, he⟩ := he
  exact ⟨node.1, node.2,
    lookup_of_mem g_str_equal g_str_equal_iff _ _ _ hs.channels_nodup hn, hP, he.symm⟩

theorem closing_control_members_witness :
    ∃ ch t, g_hash_table_lookup g_str_equal sample_two_sockets_busy.sessions.by_channel ch
        = some t ∧
      channel_of_connection sample_two_sockets_busy.sockets 7 ch = true ∧
      Effect.cockpit_transport_send 1 none "command=close,channel=1:a,reason=disconnected" =
        Effect.cockpit_transport_send t none
          (sample_env_values.json_write_bytes
            [("command", JsonNode.string "close"), ("channel", JsonNode.string ch),
             ("reason", JsonNode.string "disconnected")]) :=
  closing_control_members ⟨2, sample_two_sockets_busy_reach⟩ sample_env_values 7 _
    (by decide)

/-- C26: in a reachable state `on_web_socket_closing` sends exactly one close control for
every key of `by_channel` whose scope resolves to the socket of the connection, in table
order, each to the transport `by_channel` holds for the key, and none for any other
channel; the handler returns the state as it is, so no session or socket table changes. -/
theorem closing_notifies_owned_channels {self : CockpitWebService} (h : Reachable self)
    (env : Env) (connection : WebSocketConnection) :
    on_web_socket_closing env self connection =
      (self.sessions.by_channel.filter
        (fun node => channel_of_connection self.sockets connection node.1)).map
        (fun node => Effect.cockpit_transport_send node.2 none
          (env.json_write_bytes
            [("command", JsonNode.string "close"), ("channel", JsonNode.string node.1),
             ("reason", JsonNode.string "disconnected")])) ∧
    (on_web_socket_closing env self connection).length =
      ((table_keys self.sessions.by_channel).filter
        (channel_of_connection self.sockets connection)).length ∧
    (∀ ch t, g_hash_table_lookup g_str_equal self.sessions.by_channel ch = some t →
      channel_of_connection self.sockets connection ch = true →
      Effect.cockpit_transport_send t none
        (env.json_write_bytes
          [("command", JsonNode.string "close"), ("channel", JsonNode.string ch),
           ("reason", JsonNode.string "disconnected")]) ∈
        on_web_socket_closing env self connection) ∧
    step env self (Event.closing connection) =
      some (self, on_web_socket_closing env self connection) := by
  obtain ⟨n, hr⟩ := h
  have hs := reach_sessions_inv hr
  refine ⟨closing_effects env hs connection, ?_, ?_, rfl⟩
  · rw [closing_effects env hs, List.length_map]
    simp only [table_keys]
    have : ∀ l : List (String × CockpitTransport),
        (l.filter (fun node => channel_of_connection self.sockets connection node.1)).length
          = ((l.map Prod.fst).filter
            (channel_of_connection self.sockets connection)).length := by
      intro l
      induction l with
      | nil => rfl
      | cons node rest ih =>
        simp only [List.filter_cons, List.map_cons]
        split <;> simp [ih]
    exact this _
  · intro ch t hl hP
    rw [closing_effects env hs]
    simp only [List.mem_map, List.mem_filter]
    exact ⟨(ch, t), ⟨lookup_mem g_str_equal (fun a b e => (g_str_equal_iff a b).1 e) _ _ _ hl,
      hP⟩, rfl⟩

theorem closing_notifies_owned_channels_witness :
    on_web_socket_closing sample_env_values sample_two_sockets_busy 7 =
      [Effect.cockpit_transport_send 1 none
        "command=close,channel=1:a,reason=disconnected"] ∧
    on_web_socket_closing sample_env_values sample_two_sockets_busy 8 = [] :=
  ⟨(closing_notifies_owned_channels ⟨2, sample_two_sockets_busy_reach⟩ sample_env_values
      7).1,
   (closing_notifies_owned_channels ⟨2, sample_two_sockets_busy_reach⟩ sample_env_values
      8).1⟩

/-! ## Authorize challenges -/

/-- C27, as stated, fails: an authorize control whose challenge names the user "mallory",
on the session of "admin", is answered with an authorize control that carries the cookie
and an empty response, and the transport is not closed. -/
theorem authorize_wrong_user_answered :
    Reachable sample_primary_service ∧
    cockpit_session_by_transport sample_primary_service.sessions 0
      = some sample_primary_session ∧
    (session_creds sample_primary_service sample_primary_session).user = "admin" ∧
    sample_env_authorize.reauthorize_user "crypt1:mallory:x" = some "mallory" ∧
    process_authorize sample_env_authorize sample_primary_service sample_primary_session
      [("challenge", JsonNode.string "crypt1:mallory:x"), ("cookie", JsonNode.string "c1")]
      = (true, [Effect.cockpit_transport_send 0 none
          "command=authorize,cookie=c1,response="]) ∧
    (on_session_control sample_env_authorize sample_primary_service 0 "authorize" none
      [("challenge", JsonNode.string "crypt1:mallory:x"),
       ("cookie", JsonNode.string "c1")]).2
      = [Effect.cockpit_transport_send 0 none "command=authorize,cookie=c1,response="] :=
  ⟨⟨1, sample_primary_service_reach⟩, by decide, by decide, by decide, by decide, by decide⟩

/-- C27, amended: for an authorize control whose challenge and cookie are well-formed and
whose challenge names a user different from the user of the session credentials,
`process_authorize` reports the command as valid and, unless the session has sent EOF,
sends exactly one authorize control on the transport of the session, with the cookie and
an empty response; `on_session_control` then leaves the state as it is and has no other
effect, so the transport is not closed. -/
theorem process_authorize_wrong_user (env : Env) (self : CockpitWebService)
    (session : CockpitSession) (options : JsonObject) (challenge type user : String)
    (cookie : Option String)
    (hchallenge : cockpit_json_get_string options "challenge" none = some (some challenge))
    (hcookie : cockpit_json_get_string options "cookie" none = some cookie)
    (htype : env.reauthorize_type challenge = some type)
    (huser : env.reauthorize_user challenge = some user)
    (hwrong : (session_creds self session).user ≠ user) :
    process_authorize env self session options =
      (true,
       if session.sent_eof = false then
         [Effect.cockpit_transport_send session.transport none
           (env.json_write_bytes (build_control
             [("command", some "authorize"), ("cookie", cookie), ("response", some "")]))]
       else []) ∧
    (∀ T, cockpit_session_by_transport self.sessions T = some session →
      on_session_control env self T "authorize" none options =
        (self,
         if session.sent_eof = false then
           [Effect.cockpit_transport_send session.transport none
             (env.json_write_bytes (build_control
               [("command", some "authorize"), ("cookie", cookie), ("response", some "")]))]
         else [])) ∧
    (∀ name, json_object_get_member (build_control
        [("command", some "authorize"), ("cookie", cookie), ("response", some "")]) name =
      if "command" = name then some (JsonNode.string "authorize")
      else if "cookie" = name then cookie.map JsonNode.string
      else if "response" = name then some (JsonNode.string "")
      else none) := by
  have main : process_authorize env self session options =
      (true,
       if session.sent_eof = false then
         [Effect.cockpit_transport_send session.transport none
           (env.json_write_bytes (build_control
             [("command", some "authorize"), ("cookie", cookie), ("response", some "")]))]
       else []) := by
    unfold process_authorize
    simp only [hchallenge, hcookie, htype, huser]
    have hne : g_str_equal (session_creds self session).user user = false := by
      simp [g_str_equal, hwrong]
    cases hse : session.sent_eof <;> simp [hne]
  refine ⟨main, ?_, ?_⟩
  · intro T hT
    unfold on_session_control
    simp only [hT, if_true, main]
    cases hse : session.sent_eof <;> simp
  · intro name
    cases cookie <;>
      simp only [build_control, json_object_set_string_member, json_object_get_member,
        g_hash_table_insert, g_hash_table_lookup, g_str_equal, List.foldl_cons,
        List.foldl_nil, Option.map_some', Option.map_none', decide_eq_true_eq] <;>
      (try split_ifs) <;> (try rfl) <;> (try (subst_vars; simp_all))

theorem process_authorize_wrong_user_witness :
    process_authorize sample_env_authorize sample_primary_service sample_primary_session
      [("challenge", JsonNode.string "crypt1:mallory:x"), ("cookie", JsonNode.string "c1")]
      = (true,
         if sample_primary_session.sent_eof = false then
           [Effect.cockpit_transport_send sample_primary_session.transport none
             (sample_env_authorize.json_write_bytes (build_control
               [("command", some "authorize"), ("cookie", some "c1"),
                ("response", some "")]))]
         else []) :=
  (process_authorize_wrong_user sample_env_authorize sample_primary_service
    sample_primary_session
    [("challenge", JsonNode.string "crypt1:mallory:x"), ("cookie", JsonNode.string "c1")]
    "crypt1:mallory:x" "crypt1" "mallory" (some "c1") rfl rfl (by decide) (by decide)
    (by decide)).1

/-! ## Checksums of resources -/

theorem process_resources_fold (resources : JsonObject) :
    process_resources resources =
      (json_object_get_members resources).foldl
        (checksums_step (module_checksum resources)) [] := by
  unfold process_resources
  apply congrArg (fun f => List.foldl f [] (json_object_get_members resources))
  funext checksums module_
  unfold checksums_step module_checksum
  cases json_object_get_object_member resources module_ with
  | none => rfl
  | some details =>
    simp only [Option.some_bind]
    cases cockpit_json_get_string details "checksum" none with
    | none => rfl
    | some c =>
      cases c with
      | none => rfl
      | some checksum => rfl

theorem fold_checksums (g : String → Option String) (c : String) :
    ∀ (ms : List String) (acc : GHashTable String String), (table_keys acc).Nodup →
      (table_keys (ms.foldl (checksums_step g) acc)).Nodup ∧
      g_hash_table_lookup g_str_equal (ms.foldl (checksums_step g) acc) c =
        ((ms.filter (fun m => decide (g m = some c))).getLast?).or
          (g_hash_table_lookup g_str_equal acc c) := by
  intro ms
  induction ms with
  | nil => intro acc h; exact ⟨h, by simp⟩
  | cons m rest ih =>
    intro acc hnd
    simp only [List.foldl_cons]
    cases hg : g m with
    | none =>
      have hstep : checksums_step g acc m = acc := by simp [checksums_step, hg]
      rw [hstep]
      obtain ⟨i1, i2⟩ := ih acc hnd
      refine ⟨i1, ?_⟩
      rw [i2]
      simp [List.filter_cons, hg]
    | some c0 =>
      have hstep : checksums_step g acc m = g_hash_table_insert g_str_equal acc c0 m := by
        simp [checksums_step, hg]
      rw [hstep]
      obtain ⟨i1, i2⟩ := ih (g_hash_table_insert g_str_equal acc c0 m)
        (keys_insert_nodup _ g_str_equal_iff _ _ _ hnd)
      refine ⟨i1, ?_⟩
      rw [i2, lookup_insert _ g_str_equal_iff]
      by_cases e : c0 = c
      · subst e
        simp only [List.filter_cons, hg, decide_True, if_true, List.getLast?_cons]
        cases (rest.filter (fun m => decide (g m = some c0))).getLast? <;> simp
      · have : ¬ some c0 = some c := fun x => e (Option.some.inj x)
        simp [List.filter_cons, hg, e]

theorem module_checksum_iff (resources : JsonObject) (module_ c : String) :
    module_checksum resources module_ = some c ↔
      ∃ details, json_object_get_member resources module_ = some (JsonNode.object details) ∧
        json_object_get_member details "checksum" = some (JsonNode.string c) := by
  unfold module_checksum json_object_get_object_member cockpit_json_get_string
  cases h1 : json_object_get_member resources module_ with
  | none => simp
  | some node =>
    cases node with
    | object details =>
      simp only [Option.some_bind, Option.some.injEq, JsonNode.object.injEq, exists_eq_left']
      cases h2 : json_object_get_member details "checksum" with
      | none => simp
      | some node2 => cases node2 <;> simp
    | _ => simp

theorem process_close_by_transport (env : Env) {self : CockpitWebService}
    (hs : SessionsInv self.sessions) (session : CockpitSession) (channel : String)
    (options : JsonObject)
    (hsession : cockpit_session_by_channel self.sessions channel = some session) :
    ∃ S1, cockpit_session_by_transport
        (process_close env self session channel options).2.sessions session.transport
        = some S1 ∧
      S1.channels = g_hash_table_remove g_str_equal session.channels channel ∧
      (process_close env self session channel options).2.sessions.by_channel =
        g_hash_table_remove g_str_equal self.sessions.by_channel channel ∧
      (∀ R, json_object_get_member options "resources" = some (JsonNode.object R) →
        S1.checksums = process_resources R) ∧
      ((∀ R, json_object_get_member options "resources" ≠ some (JsonNode.object R)) →
        S1.checksums = session.checksums) := by
  obtain ⟨_, h2⟩ := by_channel_some hs hsession
  have key : ∀ session1 : CockpitSession, session1.transport = session.transport →
      session1.channels = session.channels →
      ∃ S1, cockpit_session_by_transport
          (cockpit_session_remove_channel env.cockpit_ws_agent_timeout
            (session_store self.sessions session1) session1 channel) session.transport
          = some S1 ∧
        S1.channels = g_hash_table_remove g_str_equal session.channels channel ∧
        (cockpit_session_remove_channel env.cockpit_ws_agent_timeout
            (session_store self.sessions session1) session1 channel).by_channel =
          g_hash_table_remove g_str_equal self.sessions.by_channel channel ∧
        S1.checksums = session1.checksums := by
    intro session1 ht hc
    have hst : g_hash_table_lookup g_direct_equal
        (session_store self.sessions session1).by_transport session.transport =
        some session1 := by
      rw [lookup_store]
      simp [ht, h2]
    refine ⟨{ session1 with
        channels := g_hash_table_remove g_str_equal session1.channels channel
        timeout :=
          if g_hash_table_size (g_hash_table_remove g_str_equal session1.channels channel) = 0
          then some env.cockpit_ws_agent_timeout else session1.timeout }, ?_, ?_, rfl, rfl⟩
    · unfold cockpit_session_by_transport cockpit_session_remove_channel
      simp only
      rw [lookup_store]
      simp only [ht, if_true]
      have hst1 : g_hash_table_lookup g_direct_equal
          ({ session_store self.sessions session1 with
              by_channel := g_hash_table_remove g_str_equal
                (session_store self.sessions session1).by_channel channel }
            : CockpitSessions).by_transport session.transport = some session1 := hst
      rw [hst1]
      rfl
    · exact congrArg (fun c => g_hash_table_remove g_str_equal c channel) hc
  unfold process_close
  simp only
  cases hr : json_object_get_member options "resources" with
  | none =>
    obtain ⟨S1, k1, k2, k3, k4⟩ := key session rfl rfl
    exact ⟨S1, k1, k2, k3, (fun R e => by cases e), fun _ => k4⟩
  | some node =>
    cases node with
    | object R =>
      obtain ⟨S1, k1, k2, k3, k4⟩ :=
        key { session with checksums := process_resources R } rfl rfl
      refine ⟨S1, k1, k2, k3, ?_, ?_⟩
      · intro R1 e
        simp only [Option.some.injEq, JsonNode.object.injEq] at e
        rw [← e]; exact k4
      · intro hno
        exact absurd rfl (hno R)
    | _ =>
      obtain ⟨S1, k1, k2, k3, k4⟩ := key session rfl rfl
      exact ⟨S1, k1, k2, k3, (fun R e => by cases e), fun _ => k4⟩

/-- C28: in a reachable state, after a close control from transport `T` on a channel `ch` of
its session `S`, the session is still tracked; the channel is gone from its channel set and
from `by_channel`; when the member "resources" of the options is an object `R`, the
checksum table of the session is `process_resources R`, a table without duplicate keys in
which a checksum maps to the last member of `R`, in member order, that holds an object with
that string as member "checksum", and to nothing when there is no such member, whatever the
table held before; when "resources" is missing or not an object the checksum table is as
before. -/
theorem process_close_checksums {self : CockpitWebService} (h : Reachable self) (env : Env)
    (T : CockpitTransport) (ch : String) (options : JsonObject) (S : CockpitSession)
    (hS : cockpit_session_by_channel self.sessions ch = some S) (hT : S.transport = T) :
    ∃ S1, cockpit_session_by_transport
        (on_session_control env self T "close" (some ch) options).1.sessions T = some S1 ∧
      S1.channels = g_hash_table_remove g_str_equal S.channels ch ∧
      ¬ session_has_channel S1 ch ∧
      cockpit_session_by_channel
        (on_session_control env self T "close" (some ch) options).1.sessions ch = none ∧
      (∀ R, json_object_get_member options "resources" = some (JsonNode.object R) →
        S1.checksums = process_resources R ∧
        (table_keys S1.checksums).Nodup ∧
        (∀ c, g_hash_table_lookup g_str_equal S1.checksums c =
          ((json_object_get_members R).filter
            (fun m => decide (module_checksum R m = some c))).getLast?) ∧
        (∀ m c, module_checksum R m = some c ↔
          ∃ details, json_object_get_member R m = some (JsonNode.object details) ∧
            json_object_get_member details "checksum" = some (JsonNode.string c))) ∧
      ((∀ R, json_object_get_member options "resources" ≠ some (JsonNode.object R)) →
        S1.checksums = S.checksums) := by
  obtain ⟨n, hr⟩ := h
  have hs := reach_sessions_inv hr
  subst hT
  obtain ⟨S1, k1, k2, k3, k4, k5⟩ := process_close_by_transport env hs S ch options hS
  have hstate : (on_session_control env self S.transport "close" (some ch) options).1 =
      (process_close env self S ch options).2 := by
    unfold on_session_control
    simp [hS]
  obtain ⟨_, hold⟩ := by_channel_some hs hS
  have hnd := (hs.owned _ _ hold).2
  rw [hstate]
  refine ⟨S1, k1, k2, ?_, ?_, ?_, k5⟩
  · unfold session_has_channel
    rw [k2, lookup_remove _ g_str_equal_iff _ _ _ hnd]
    simp
  · unfold cockpit_session_by_channel
    rw [k3, lookup_remove _ g_str_equal_iff _ _ _ hs.channels_nodup]
    simp
  · intro R hR
    have e := k4 R hR
    refine ⟨e, ?_, ?_, fun m c => module_checksum_iff R m c⟩
    · rw [e, process_resources_fold]
      exact (fold_checksums (module_checksum R) "" _ [] (by simp [table_keys])).1
    · intro c
      rw [e, process_resources_fold,
        (fold_checksums (module_checksum R) c _ [] (by simp [table_keys])).2]
      simp [g_hash_table_lookup]

theorem process_close_checksums_witness :
    ∃ S1, cockpit_session_by_transport
        (on_session_control sample_env sample_two_sockets_busy 1 "close" (some "1:a")
          [("command", JsonNode.string "close"),
           ("resources", JsonNode.object sample_resources)]).1.sessions 1 = some S1 ∧
      S1.channels = [] ∧
      S1.checksums = [("aa", "m3"), ("bb", "m2")] :=
  (process_close_checksums ⟨2, sample_two_sockets_busy_reach⟩ sample_env 1 "1:a"
    [("command", JsonNode.string "close"), ("resources", JsonNode.object sample_resources)]
    sample_session_x (by decide) rfl).elim
    fun S1 h => ⟨S1, h.1, h.2.1, (h.2.2.2.2.1 sample_resources rfl).1⟩

/-! ## Resource requests -/

theorem strchr_some_split {s t : List Char} {c : Char} (h : strchr s c = some t) :
    ∃ p t1, s = p ++ c :: t1 ∧ t = c :: t1 ∧ c ∉ p := by
  induction s with
  | nil => simp [strchr] at h
  | cons x xs ih =>
    by_cases e : x = c
    · subst e
      simp only [strchr, if_true, Option.some.injEq] at h
      exact ⟨[], xs, rfl, h.symm, by simp⟩
    · simp only [strchr, e, if_false] at h
      obtain ⟨p, t1, h1, h2, h3⟩ := ih h
      refine ⟨x :: p, t1, by rw [h1]; rfl, h2, ?_⟩
      simp only [List.mem_cons, not_or]
      exact ⟨fun x1 => e x1.symm, h3⟩

theorem strchr_eq_none {s : List Char} {c : Char} (h : strchr s c = none) : c ∉ s := by
  induction s with
  | nil => simp
  | cons x xs ih =>
    by_cases e : x = c
    · subst e
      simp [strchr] at h
    · simp only [strchr, e, if_false] at h
      simp only [List.mem_cons, not_or]
      exact ⟨fun x1 => e x1.symm, ih h⟩

theorem take_prefix (p s : List Char) : (p ++ s).take ((p ++ s).length - s.length) = p := by
  simp

theorem g_strsplit_loop_length (c : Char) :
    ∀ (n : Nat) (l : List Char), (g_strsplit_loop c n l).length ≤ l.count c + 1 := by
  intro n
  induction n with
  | zero => intro l; simp [g_strsplit_loop]
  | succ n ih =>
    intro l
    unfold g_strsplit_loop
    cases h : strchr l c with
    | none => simp
    | some s =>
      obtain ⟨p, t1, h1, h2, _⟩ := strchr_some_split h
      simp only [List.length_cons]
      have := ih s.tail
      rw [h2] at this
      simp only [List.tail_cons] at this
      rw [h2, h1]
      simp only [List.tail_cons, List.count_append, List.count_cons_self]
      omega

theorem g_strsplit_three (host module_ rest : String)
    (h1 : '/' ∉ host.data) (h2 : '/' ∉ module_.data) :
    g_strsplit (host ++ "/" ++ module_ ++ "/" ++ rest) '/' 3 = [host, module_, rest] := by
  have hd : (host ++ "/" ++ module_ ++ "/" ++ rest).data =
      host.data ++ '/' :: (module_.data ++ '/' :: rest.data) := by
    simp [String.data_append]
  unfold g_strsplit
  rw [hd]
  have hne : ¬ host.data ++ '/' :: (module_.data ++ '/' :: rest.data) = [] := by simp
  simp only [hne, if_false]
  have e1 : g_strsplit_loop '/' 2 (host.data ++ '/' :: (module_.data ++ '/' :: rest.data)) =
      [host.data, module_.data, rest.data] := by
    rw [g_strsplit_loop, strchr_append _ h1]
    simp only [List.tail_cons]
    rw [g_strsplit_loop, strchr_append _ h2]
    simp only [List.tail_cons, g_strsplit_loop]
    have t1 := take_prefix host.data ('/' :: (module_.data ++ '/' :: rest.data))
    have t2 := take_prefix module_.data ('/' :: rest.data)
    rw [t1, t2]
  show List.map String.mk (g_strsplit_loop '/' 2 _) = _
  rw [e1]
  rfl

theorem g_strsplit_short (r : String) (h : r.data.count '/' < 2) :
    (g_strsplit r '/' 3).length < 3 := by
  unfold g_strsplit
  split
  · simp
  · simp only [List.length_map]
    have := g_strsplit_loop_length '/' 2 r.data
    show (g_strsplit_loop '/' 2 r.data).length < 3
    omega

theorem split_at_two_slashes (r : String) (h : 2 ≤ r.data.count '/') :
    ∃ host module_ rest : String, '/' ∉ host.data ∧ '/' ∉ module_.data ∧
      r = host ++ "/" ++ module_ ++ "/" ++ rest := by
  cases hs : strchr r.data '/' with
  | none =>
    have := strchr_eq_none hs
    have : r.data.count '/' = 0 := List.count_eq_zero.2 this
    omega
  | some s =>
    obtain ⟨p, t1, e1, _, hp⟩ := strchr_some_split hs
    have hc : r.data.count '/' = t1.count '/' + 1 := by
      rw [e1]
      simp [List.count_append, List.count_eq_zero.2 hp]
    cases hs2 : strchr t1 '/' with
    | none =>
      have := strchr_eq_none hs2
      have : t1.count '/' = 0 := List.count_eq_zero.2 this
      omega
    | some s2 =>
      obtain ⟨p2, t2, e2, _, hp2⟩ := strchr_some_split hs2
      refine ⟨⟨p⟩, ⟨p2⟩, ⟨t2⟩, hp, hp2, ?_⟩
      apply String.ext
      simp only [String.data_append]
      rw [e1, e2]
      simp

theorem res_prefix (r : String) :
    "/res/".data.isPrefixOf ("/res/" ++ r).data = true ∧
    "/cache/".data.isPrefixOf ("/res/" ++ r).data = false ∧
    (⟨("/res/" ++ r).data.drop 5⟩ : String) = r := by
  have h : ("/res/" ++ r).data = '/' :: 'r' :: 'e' :: 's' :: '/' :: r.data := by
    simp [String.data_append]
  have h1 : "/res/".data = ['/', 'r', 'e', 's', '/'] := rfl
  have h2 : "/cache/".data = ['/', 'c', 'a', 'c', 'h', 'e', '/'] := rfl
  rw [h, h1, h2]
  refine ⟨?_, ?_, ?_⟩
  · simp [List.isPrefixOf]
  · simp [List.isPrefixOf]
  · rfl

theorem normal_short (env : Env) (self : CockpitWebService) (response : Nat)
    (path r : String) (fresh : CockpitTransport) (h : (g_strsplit r '/' 3).length < 3) :
    resource_respond_normal env self response path r fresh = some (false, self, [], none) := by
  unfold resource_respond_normal
  split
  · rename_i heq
    rw [heq] at h
    simp at h
  · rfl

theorem normal_three (env : Env) (self : CockpitWebService) (response : Nat)
    (path r : String) (fresh : CockpitTransport) (part0 part1 part2 : String)
    (h : g_strsplit r '/' 3 = [part0, part1, part2])
    {session : CockpitSession} {self2 : CockpitWebService} {effects1 : List Effect}
    (hlo : lookup_or_open_session_for_host env self (some part0) none CredsRef.service false
      fresh = some (session, self2, effects1)) :
    resource_respond_normal env self response path r fresh =
      some (true,
        { self2 with next_resource_id := (self2.next_resource_id + 1) % G_MAXUINT_SUCC },
        effects1 ++ [Effect.cockpit_transport_send session.transport none
          (env.json_write_bytes (build_control
            [("command", some "open"),
             ("channel", some ("0:" ++ format_d self2.next_resource_id)),
             ("payload", some "resource1"), ("module", some part1),
             ("path", some part2)]))],
        some { logname := path, response := response, transport := session.transport,
               channel := "0:" ++ format_d self2.next_resource_id,
               cache_forever := false }) := by
  unfold resource_respond_normal
  rw [h]
  simp only [hlo]
  rfl

theorem lookup_or_open_which (env : Env) {self : CockpitWebService}
    (host : String) (host_key : Option String) (creds : CredsRef) (fresh : CockpitTransport)
    {session : CockpitSession} {self1 : CockpitWebService} {effects : List Effect}
    (h : lookup_or_open_session_for_host env self (some host) host_key creds false fresh
      = some (session, self1, effects)) :
    (cockpit_session_by_host self.sessions host = some session ∧ self1 = self ∧
      effects = []) ∨
    (cockpit_session_by_host self.sessions host = none ∧ session.transport = fresh ∧
      session.host = open_session_host env (some host) ∧ session.channels = [] ∧
      effects = [Effect.ssh_transport_new fresh (open_session_host env (some host))
        env.cockpit_ws_specific_ssh_port host_key]) := by
  unfold lookup_or_open_session_for_host at h
  simp only [Bool.not_false, if_true] at h
  cases hb : cockpit_session_by_host self.sessions host with
  | some session0 =>
    simp only [hb, Option.some.injEq, Prod.mk.injEq] at h
    obtain ⟨h1, h2, h3⟩ := h
    subst h1 h2 h3
    exact Or.inl ⟨rfl, rfl, rfl⟩
  | none =>
    simp only [hb, Option.some.injEq, Prod.mk.injEq] at h
    obtain ⟨h1, h2, h3⟩ := h
    subst h1 h2 h3
    exact Or.inr ⟨rfl, rfl, rfl, rfl, rfl⟩

/-- C30: in a reachable state, for a request path "/res/" followed by `r`: (1) when `r` has
fewer than two '/', `cockpit_web_service_resource` answers 404, leaves the state as it is
and has no other effect; (2) when `r` is `host`, '/', `module_`, '/', `rest`, with no '/' in
`host` and `module_` (`rest` may hold '/'), it takes the session that
`lookup_or_open_session_for_host` gives for `host`, which is not private and is the session
`by_host` holds for `host` or else a newly opened one, and sends on its transport exactly
one control, with null channel header: command "open", a channel "0:" and the resource
counter, payload "resource1", module `module_` and path `rest`; no 404 is answered;
(3) every `r` with at least two '/' has that form; (4) a path with neither the "/res/" nor
the "/cache/" prefix gets 404. -/
theorem resource_request {self : CockpitWebService} (h : Reachable self) (env : Env)
    (response : Nat) (fresh : CockpitTransport) :
    (∀ r : String, r.data.count '/' < 2 →
      cockpit_web_service_resource env self response ("/res/" ++ r) fresh =
        some (self, [Effect.cockpit_web_response_error response 404], none)) ∧
    (∀ host module_ rest : String, '/' ∉ host.data → '/' ∉ module_.data →
      ∃ session self2 effects1,
        lookup_or_open_session_for_host env self (some host) none CredsRef.service false
          fresh = some (session, self2, effects1) ∧
        session.private_ = false ∧
        ((cockpit_session_by_host self.sessions host = some session ∧ effects1 = []) ∨
          (cockpit_session_by_host self.sessions host = none ∧ session.transport = fresh ∧
            effects1 = [Effect.ssh_transport_new fresh (open_session_host env (some host))
              env.cockpit_ws_specific_ssh_port none])) ∧
        cockpit_web_service_resource env self response
            ("/res/" ++ (host ++ "/" ++ module_ ++ "/" ++ rest)) fresh =
          some ({ self2 with
                  next_resource_id := (self.next_resource_id + 1) % G_MAXUINT_SUCC },
            effects1 ++ [Effect.cockpit_transport_send session.transport none
              (env.json_write_bytes (build_control
                [("command", some "open"),
                 ("channel", some ("0:" ++ format_d self.next_resource_id)),
                 ("payload", some "resource1"), ("module", some module_),
                 ("path", some rest)]))],
            some { logname := "/res/" ++ (host ++ "/" ++ module_ ++ "/" ++ rest),
                   response := response, transport := session.transport,
                   channel := "0:" ++ format_d self.next_resource_id,
                   cache_forever := false })) ∧
    (∀ r : String, 2 ≤ r.data.count '/' →
      ∃ host module_ rest : String, '/' ∉ host.data ∧ '/' ∉ module_.data ∧
        r = host ++ "/" ++ module_ ++ "/" ++ rest) ∧
    (∀ path : String, "/res/".data.isPrefixOf path.data = false →
      "/cache/".data.isPrefixOf path.data = false →
      cockpit_web_service_resource env self response path fresh =
        some (self, [Effect.cockpit_web_response_error response 404], none)) := by
  obtain ⟨n, hr⟩ := h
  have hs := reach_sessions_inv hr
  refine ⟨?_, ?_, split_at_two_slashes, ?_⟩
  · intro r hcount
    obtain ⟨p1, p2, p3⟩ := res_prefix r
    unfold cockpit_web_service_resource
    simp only [p1, p2, p3, if_true,
      normal_short env self response _ r fresh (g_strsplit_short r hcount)]
    rfl
  · intro host module_ rest h1 h2
    obtain ⟨session, self2, effects1, hlo, hpriv, _⟩ :=
      lookup_or_open_total env hs host none CredsRef.service false fresh
    obtain ⟨⟨_, _, _, _⟩, hnext⟩ := lookup_or_open_quiet env self _ _ _ _ _ hlo
    refine ⟨session, self2, effects1, hlo, hpriv, ?_, ?_⟩
    · rcases lookup_or_open_which env host none CredsRef.service fresh hlo with
        ⟨a, _, c⟩ | ⟨a, b, _, _, e⟩
      · exact Or.inl ⟨a, c⟩
      · exact Or.inr ⟨a, b, e⟩
    · obtain ⟨p1, p2, p3⟩ := res_prefix (host ++ "/" ++ module_ ++ "/" ++ rest)
      unfold cockpit_web_service_resource
      simp only [p1, p2, p3, if_true,
        normal_three env self response _ _ fresh host module_ rest
          (g_strsplit_three host module_ rest h1 h2) hlo, hnext]
      simp
  · intro path p1 p2
    unfold cockpit_web_service_resource
    simp only [p1, p2]
    rfl

theorem resource_request_witness :
    cockpit_web_service_resource sample_env_values sample_two_sockets_busy 5
      ("/res/" ++ ("x" ++ "/" ++ "mod" ++ "/" ++ "dir/file")) 2 =
      some ({ sample_two_sockets_busy with next_resource_id := 1 },
        [Effect.cockpit_transport_send 1 none
          "command=open,channel=0:0,payload=resource1,module=mod,path=dir/file"],
        some { logname := "/res/x/mod/dir/file", response := 5, transport := 1,
               channel := "0:0", cache_forever := false }) := by
  obtain ⟨session, self2, effects1, hlo, _, _, hres⟩ :=
    (resource_request ⟨2, sample_two_sockets_busy_reach⟩ sample_env_values 5 2).2.1
      "x" "mod" "dir/file" (by decide) (by decide)
  have e : lookup_or_open_session_for_host sample_env_values sample_two_sockets_busy
      (some "x") none CredsRef.service false 2
      = some (sample_session_x, sample_two_sockets_busy, []) := by decide
  rw [e] at hlo
  simp only [Option.some.injEq, Prod.mk.injEq] at hlo
  obtain ⟨e1, e2, e3⟩ := hlo
  subst e1 e2 e3
  rw [hres]
  rfl

/-! ## The equality of channel scopes -/

theorem channel_scope_equal_no_colon (a b : String) (h : ':' ∉ a.data) :
    channel_scope_equal a b = false ∧ channel_scope_equal b a = false := by
  unfold channel_scope_equal
  rw [strchr_none h]
  constructor
  · rfl
  · cases strchr b.data ':' <;> rfl

theorem channel_scope_equal_split (p1 p2 x y : List Char) (h1 : ':' ∉ p1) (h2 : ':' ∉ p2) :
    channel_scope_equal ⟨p1 ++ ':' :: x⟩ ⟨p2 ++ ':' :: y⟩ = decide (p1 ≠ [] ∧ p1 = p2) := by
  unfold channel_scope_equal
  simp only [strchr_append x h1, strchr_append y h2]
  have e1 : (p1 ++ ':' :: x).length - (':' :: x).length = p1.length := by
    simp
  have e2 : (p2 ++ ':' :: y).length - (':' :: y).length = p2.length := by
    simp
  simp only [e1, e2, List.take_left']
  by_cases hl : p1.length = p2.length
  · have e3 : (p2 ++ ':' :: y).take p1.length = p2 := by
      rw [hl]; exact List.take_left' rfl
    rw [e3]
    by_cases hp : p1 = p2
    · subst hp
      cases p1 <;> simp
    · simp [hp]
  · have hp : p1 ≠ p2 := fun e => hl (by rw [e])
    simp [hl, hp]

theorem string_colon_cases (a : String) :
    ':' ∉ a.data ∨ ∃ p x : List Char, ':' ∉ p ∧ a = ⟨p ++ ':' :: x⟩ := by
  cases h : strchr a.data ':' with
  | none => exact Or.inl (strchr_eq_none h)
  | some t =>
    obtain ⟨p, t1, e, _, hp⟩ := strchr_some_split h
    refine Or.inr ⟨p, t1, hp, ?_⟩
    cases a
    simp only at e
    rw [e]

theorem prefix_unique {p1 p2 x y : List Char} (h1 : ':' ∉ p1) (h2 : ':' ∉ p2)
    (h : p1 ++ ':' :: x = p2 ++ ':' :: y) : p1 = p2 ∧ x = y := by
  have e1 := strchr_append x h1
  rw [h, strchr_append y h2] at e1
  simp only [Option.some.injEq, List.cons.injEq, true_and] at e1
  subst e1
  exact ⟨List.append_cancel_right h, rfl⟩

theorem channel_scope_equal_spec (a b : String) :
    channel_scope_equal a b = true ↔
      ∃ p x y : List Char, p ≠ [] ∧ ':' ∉ p ∧ a.data = p ++ ':' :: x ∧
        b.data = p ++ ':' :: y := by
  constructor
  · intro h
    rcases string_colon_cases a with ha | ⟨p1, x, hp1, rfl⟩
    · rw [(channel_scope_equal_no_colon a b ha).1] at h
      cases h
    rcases string_colon_cases b with hb | ⟨p2, y, hp2, rfl⟩
    · rw [(channel_scope_equal_no_colon b _ hb).2] at h
      cases h
    rw [channel_scope_equal_split p1 p2 x y hp1 hp2] at h
    simp only [decide_eq_true_eq] at h
    obtain ⟨hne, rfl⟩ := h
    exact ⟨p1, x, y, hne, hp1, rfl, rfl⟩
  · rintro ⟨p, x, y, hne, hp, ea, eb⟩
    have ea1 : a = ⟨p ++ ':' :: x⟩ := by cases a; simp only at ea; rw [ea]
    have eb1 : b = ⟨p ++ ':' :: y⟩ := by cases b; simp only at eb; rw [eb]
    rw [ea1, eb1, channel_scope_equal_split p p x y hp hp]
    simp [hne]

/-- C36: `channel_scope_equal a b` is true exactly when both strings hold a ':' and the
characters before their first ':' are the same, non-empty sequence `p`; a string that
starts with ':' and a string without ':' compare unequal to every string on either side,
themselves included; the relation is symmetric and transitive. -/
theorem channel_scope_equal_characterised (a b : String) :
    (channel_scope_equal a b = true ↔
      ∃ p x y : List Char, p ≠ [] ∧ ':' ∉ p ∧ a.data = p ++ ':' :: x ∧
        b.data = p ++ ':' :: y) ∧
    (∀ x : List Char, channel_scope_equal ⟨':' :: x⟩ b = false ∧
      channel_scope_equal b ⟨':' :: x⟩ = false ∧
      channel_scope_equal ⟨':' :: x⟩ ⟨':' :: x⟩ = false) ∧
    (':' ∉ a.data → channel_scope_equal a b = false ∧ channel_scope_equal b a = false ∧
      channel_scope_equal a a = false) ∧
    channel_scope_equal a b = channel_scope_equal b a ∧
    (∀ c : String, channel_scope_equal a b = true → channel_scope_equal b c = true →
      channel_scope_equal a c = true) := by
  have hempty : ∀ (x : List Char) (c : String),
      channel_scope_equal ⟨':' :: x⟩ c = false ∧ channel_scope_equal c ⟨':' :: x⟩ = false := by
    intro x c
    rcases string_colon_cases c with hc | ⟨p2, y, hp2, rfl⟩
    · exact ⟨(channel_scope_equal_no_colon c _ hc).2, (channel_scope_equal_no_colon c _ hc).1⟩
    · have h1 := channel_scope_equal_split [] p2 x y (by simp) hp2
      have h2 := channel_scope_equal_split p2 [] y x hp2 (by simp)
      simp only [List.nil_append] at h1 h2
      constructor
      · rw [h1]; simp
      · rw [h2]
        by_cases e : p2 = []
        · simp [e]
        · simp [e]
  have hsymm : ∀ u v : String, channel_scope_equal u v = true →
      channel_scope_equal v u = true := by
    intro u v h
    obtain ⟨p, x, y, hne, hp, eu, ev⟩ := (channel_scope_equal_spec u v).1 h
    exact (channel_scope_equal_spec v u).2 ⟨p, y, x, hne, hp, ev, eu⟩
  refine ⟨channel_scope_equal_spec a b, ?_, ?_, ?_, ?_⟩
  · intro x
    exact ⟨(hempty x b).1, (hempty x b).2, (hempty x _).1⟩
  · intro h
    exact ⟨(channel_scope_equal_no_colon a b h).1, (channel_scope_equal_no_colon a b h).2,
      (channel_scope_equal_no_colon a a h).1⟩
  · cases h1 : channel_scope_equal a b with
    | true => exact (hsymm a b h1).symm
    | false =>
      cases h2 : channel_scope_equal b a with
      | true => rw [hsymm b a h2] at h1; cases h1
      | false => rfl
  · intro c h1 h2
    obtain ⟨p, x, y, hne, hp, ea, eb⟩ := (channel_scope_equal_spec a b).1 h1
    obtain ⟨q, y1, z, _, hq, eb1, ec⟩ := (channel_scope_equal_spec b c).1 h2
    rw [eb] at eb1
    obtain ⟨rfl, _⟩ := prefix_unique hp hq eb1
    exact (channel_scope_equal_spec a c).2 ⟨p, x, z, hne, hp, ea, ec⟩

theorem channel_scope_equal_characterised_witness :
    channel_scope_equal "7:main" "7:other:x" = true ∧
    channel_scope_equal "7:main" "8:main" = false ∧
    channel_scope_equal ":main" ":main" = false ∧
    channel_scope_equal "main" "main" = false ∧
    channel_scope_equal "7:other:x" "7:main" = true :=
  ⟨(channel_scope_equal_characterised "7:main" "7:other:x").1.2
      ⟨['7'], "main".data, "other:x".data, by decide, by decide, rfl, rfl⟩,
   by decide,
   ((channel_scope_equal_characterised ":main" ":main").2.1 "main".data).1,
   ((channel_scope_equal_characterised "main" "main").2.2.1 (by decide)).1,
   by decide⟩

/-! ## The hash of channel scopes -/

theorem char_bytes_colon (c : Char) (h : c ≠ ':') : 58 ∉ char_bytes c := by
  have hn : c.toNat ≠ 58 := by
    intro e
    apply h
    apply Char.ext
    apply UInt32.ext
    exact e
  unfold char_bytes
  split
  · simp only [List.mem_singleton]
    exact fun e => hn e.symm
  · split
    · simp only [List.mem_cons, List.mem_singleton, List.not_mem_nil, or_false]
      omega
    · split
      · simp only [List.mem_cons, List.mem_singleton, List.not_mem_nil, or_false]
        omega
      · simp only [List.mem_cons, List.mem_singleton, List.not_mem_nil, or_false]
        omega

theorem string_bytes_colon (p : List Char) (h : ':' ∉ p) : 58 ∉ string_bytes p := by
  induction p with
  | nil => simp [string_bytes]
  | cons c cs ih =>
    simp only [List.mem_cons, not_or] at h
    simp only [string_bytes, List.foldr_cons, List.mem_append, not_or]
    exact ⟨char_bytes_colon c (fun e => h.1 e.symm), ih h.2⟩

theorem string_bytes_append (p x : List Char) :
    string_bytes (p ++ ':' :: x) = string_bytes p ++ 58 :: string_bytes x := by
  induction p with
  | nil => rfl
  | cons c cs ih =>
    simp only [string_bytes, List.cons_append, List.foldr_cons, List.append_assoc] at ih ⊢
    rw [ih]

theorem hash_loop_stops (rest : List Nat) :
    ∀ (bs : List Nat) (h : Nat), 58 ∉ bs →
      channel_scope_hash_loop (bs ++ 58 :: rest) h = channel_scope_hash_loop bs h := by
  intro bs
  induction bs with
  | nil => intro h _; simp [channel_scope_hash_loop]
  | cons b bs ih =>
    intro h hb
    simp only [List.mem_cons, not_or] at hb
    have hne : b ≠ 58 := fun e => hb.1 e.symm
    simp only [List.cons_append, channel_scope_hash_loop, hne, if_false]
    exact ih _ hb.2

theorem hash_step_spec (h b : Nat) :
    (channel_scope_hash_step h b : Int) = ((h : Int) * 33 + signed_char b) % 4294967296 := by
  unfold channel_scope_hash_step guint32_of_int signed_char G_MAXUINT_SUCC
  rw [Nat.shiftLeft_eq]
  split <;> omega

theorem hash_loop_spec :
    ∀ (bs : List Nat) (h : Nat), 58 ∉ bs →
      (channel_scope_hash_loop bs h : Int) =
        bs.foldl (fun h b => (h * 33 + signed_char b) % 4294967296) (h : Int) := by
  intro bs
  induction bs with
  | nil => intro h _; rfl
  | cons b bs ih =>
    intro h hb
    simp only [List.mem_cons, not_or] at hb
    have hne : b ≠ 58 := fun e => hb.1 e.symm
    simp only [channel_scope_hash_loop, hne, if_false, List.foldl_cons]
    rw [ih _ hb.2, hash_step_spec]

theorem hash_of_prefix (p x : List Char) (hp : ':' ∉ p) :
    channel_scope_hash ⟨p ++ ':' :: x⟩ = channel_scope_hash ⟨p⟩ := by
  unfold channel_scope_hash
  simp only [string_bytes_append]
  exact hash_loop_stops _ _ _ (string_bytes_colon p hp)

/-- C37: for a string `p` without ':' and all strings `x`, `y`, the hashes of `p:x`, of
`p:y` and of `p` are the same number, which is the fold of `h * 33 + byte` modulo `2 ^ 32`
from 5381 over the bytes of `p`, each read as a signed 8-bit number, and lies below
`2 ^ 32`; and two strings that `channel_scope_equal` holds equal have the same hash. -/
theorem channel_scope_hash_of_scope (p x y a b : String) :
    (':' ∉ p.data →
      channel_scope_hash (p ++ ":" ++ x) = channel_scope_hash (p ++ ":" ++ y) ∧
      channel_scope_hash (p ++ ":" ++ x) = channel_scope_hash p ∧
      (channel_scope_hash p : Int) = spec_scope_hash (string_bytes p.data)) ∧
    (channel_scope_equal a b = true → channel_scope_hash a = channel_scope_hash b) := by
  constructor
  · intro hp
    have e : ∀ z : String, channel_scope_hash (p ++ ":" ++ z) = channel_scope_hash p := by
      intro z
      have ez : p ++ ":" ++ z = ⟨p.data ++ ':' :: z.data⟩ := by
        apply String.ext
        simp [String.data_append]
      rw [ez]
      exact hash_of_prefix p.data z.data hp
    refine ⟨by rw [e x, e y], e x, ?_⟩
    exact hash_loop_spec _ _ (string_bytes_colon _ hp)
  · intro h
    obtain ⟨q, u, v, _, hq, ea, eb⟩ := (channel_scope_equal_spec a b).1 h
    have ea1 : a = ⟨q ++ ':' :: u⟩ := by cases a; simp only at ea; rw [ea]
    have eb1 : b = ⟨q ++ ':' :: v⟩ := by cases b; simp only at eb; rw [eb]
    rw [ea1, eb1, hash_of_prefix q u hq, hash_of_prefix q v hq]

theorem channel_scope_hash_of_scope_witness :
    channel_scope_hash ("7" ++ ":" ++ "main") = channel_scope_hash ("7" ++ ":" ++ "x:y") ∧
    channel_scope_hash ("7" ++ ":" ++ "main") = channel_scope_hash "7" ∧
    (channel_scope_hash "7" : Int) = spec_scope_hash [55] ∧
    channel_scope_hash "7" = 177628 ∧
    channel_scope_hash "é:a" = 5857809 ∧
    channel_scope_hash "7:main" = channel_scope_hash "7:other" :=
  ⟨((channel_scope_hash_of_scope "7" "main" "x:y" "7:main" "7:other").1 (by decide)).1,
   ((channel_scope_hash_of_scope "7" "main" "x:y" "7:main" "7:other").1 (by decide)).2.1,
   ((channel_scope_hash_of_scope "7" "main" "x:y" "7:main" "7:other").1 (by decide)).2.2,
   by decide, by decide,
   (channel_scope_hash_of_scope "7" "main" "x:y" "7:main" "7:other").2 (by decide)⟩

/-! ## The scopes of the accepted sockets -/

theorem reach_next_scope_id {n : Nat} {self : CockpitWebService} (h : Reach n self) :
    self.sockets.next_scope_id = (n + 1) % G_MAXUINT_SUCC := by
  induction h with
  | init creds pipe =>
    have : (cockpit_web_service_new creds pipe).sockets = cockpit_sockets_init := by
      unfold cockpit_web_service_new
      cases pipe <;> rfl
    rw [this]
    rfl
  | socket connection _ hen ih =>
    simp only [cockpit_web_service_socket, caller_begin, cockpit_socket_track, ih]
    unfold G_MAXUINT_SUCC
    omega
  | event env ev effects hr hne hen hstep ih =>
    rcases step_sockets env ev (reach_sessions_inv hr) hen hne hstep with e | ⟨c, socket, _, e⟩
    · rw [e]; exact ih
    · rw [e]; exact ih

/-- C34, as stated, fails: with connection 0 accepted first and still open, the socket
accepted as number `2 ^ 32` gets the scope "0:", whose number is not positive, and the socket
accepted as number `2 ^ 32 + 1` gets the scope "1:" that the socket of connection 0 has. -/
theorem scope_repeats_after_wrap :
    Reach (G_MAXUINT_SUCC - 1) (wrap_service 0) ∧
    (cockpit_socket_track (wrap_service 0).sockets 1).1.scope = "0:" ∧
    Reach G_MAXUINT_SUCC (wrap_service 1) ∧
    cockpit_socket_lookup_by_connection (wrap_service 1).sockets 0 = some ⟨"1:", 0⟩ ∧
    (cockpit_socket_track (wrap_service 1).sockets 1).1.scope = "1:" := by
  refine ⟨?_, by decide, ?_, by decide, by decide⟩
  · have h := wrap_service_reach (G_MAXUINT_SUCC - 2) (by unfold G_MAXUINT_SUCC; omega)
    have e1 : (2 + (G_MAXUINT_SUCC - 2)) % G_MAXUINT_SUCC = 0 := by
      unfold G_MAXUINT_SUCC; omega
    have e2 : 1 + (G_MAXUINT_SUCC - 2) = G_MAXUINT_SUCC - 1 := by
      unfold G_MAXUINT_SUCC; omega
    rw [e1, e2] at h
    exact h
  · have h := wrap_service_reach (G_MAXUINT_SUCC - 1) (by unfold G_MAXUINT_SUCC; omega)
    have e1 : (2 + (G_MAXUINT_SUCC - 1)) % G_MAXUINT_SUCC = 1 := by
      unfold G_MAXUINT_SUCC; omega
    have e2 : 1 + (G_MAXUINT_SUCC - 1) = G_MAXUINT_SUCC := by
      unfold G_MAXUINT_SUCC; omega
    rw [e1, e2] at h
    exact h

/-- C34, amended: in a state reached after `n` sockets were accepted, the socket accepted
next, number `n + 1`, has the scope that prints `(n + 1) mod 2 ^ 32` followed by ':'; while
`n + 1 < 2 ^ 32` that is the decimal representation of `n + 1`, a positive number, followed
by ':', every tracked socket has the scope of a number `k` with `1 ≤ k ≤ n`, so the new scope
differs from the scope of every tracked socket, and the scopes of two different numbers
below `2 ^ 32` are different. -/
theorem socket_scope_of_count {n : Nat} {self : CockpitWebService} (h : Reach n self)
    (connection : WebSocketConnection) :
    (cockpit_socket_track self.sockets connection).1.scope =
      scope_of_id ((n + 1) % G_MAXUINT_SUCC) ∧
    (n + 1 < G_MAXUINT_SUCC →
      (cockpit_socket_track self.sockets connection).1.scope = Nat.repr (n + 1) ++ ":" ∧
      0 < n + 1 ∧
      (∀ c socket, cockpit_socket_lookup_by_connection self.sockets c = some socket →
        (∃ k, 1 ≤ k ∧ k ≤ n ∧ socket.scope = Nat.repr k ++ ":") ∧
        socket.scope ≠ (cockpit_socket_track self.sockets connection).1.scope)) ∧
    (∀ j k : Nat, Nat.repr j ++ ":" = Nat.repr k ++ ":" → j = k) := by
  have hnext := reach_next_scope_id h
  have hscope : (cockpit_socket_track self.sockets connection).1.scope =
      scope_of_id ((n + 1) % G_MAXUINT_SUCC) := by
    simp only [cockpit_socket_track, hnext]
  refine ⟨hscope, ?_, ?_⟩
  · intro hn
    have hmod : (n + 1) % G_MAXUINT_SUCC = n + 1 := Nat.mod_eq_of_lt hn
    rw [hscope, hmod]
    refine ⟨rfl, Nat.succ_pos n, ?_⟩
    intro c socket hs
    have inv := reach_sockets_inv h (by omega)
    obtain ⟨_, k, hk1, hk2, hsc⟩ := inv.owned c socket hs
    have hkmod : k % G_MAXUINT_SUCC = k := Nat.mod_eq_of_lt (by omega)
    rw [hkmod] at hsc
    refine ⟨⟨k, hk1, hk2, hsc⟩, ?_⟩
    rw [hsc]
    intro e
    have := scope_of_id_injective e
    omega
  · intro j k e
    exact scope_of_id_injective e

theorem socket_scope_of_count_witness :
    (cockpit_socket_track sample_two_sockets.sockets 9).1.scope = "3:" ∧
    (∀ c socket,
      cockpit_socket_lookup_by_connection sample_two_sockets.sockets c = some socket →
      socket.scope ≠ "3:") :=
  have h := (socket_scope_of_count sample_two_sockets_reach 9).2.1
    (by unfold G_MAXUINT_SUCC; omega)
  ⟨h.1, fun c socket hs => (h.2.2 c socket hs).2⟩

/-! ## The host of a new session -/

/-- C35: the host of a newly opened session is worked out in the order of the code, the
test substitution first and the default for a blank host second: "localhost" becomes
"127.0.0.1" exactly when the test port is set, a null or empty host becomes "localhost"
whether or not the test port is set, and every other host is kept.  On the failing input, a
service in which no session is tracked and the test port 2222: the session opened for the
empty host has the host and the `by_host` key "localhost", not "127.0.0.1", while the
session opened for "localhost" has "127.0.0.1". -/
theorem blank_host_misses_test_substitution :
    (∀ (env : Env) (host : Option String),
      open_session_host env host =
        if host = some "localhost" then
          (if env.cockpit_ws_specific_ssh_port ≠ 0 then "127.0.0.1" else "localhost")
        else if host = none ∨ host = some "" then "localhost"
        else host.getD "") ∧
    Reachable sample_two_sockets ∧
    (lookup_or_open_session_for_host sample_env_port sample_two_sockets (some "") none
      CredsRef.service false 1).map (fun r => (r.1.host, r.2.1.sessions.by_host, r.2.2))
      = some ("localhost", [("localhost", 1)],
          [Effect.ssh_transport_new 1 "localhost" 2222 none]) ∧
    (lookup_or_open_session_for_host sample_env_port sample_two_sockets (some "localhost")
      none CredsRef.service false 1).map
        (fun r => (r.1.host, r.2.1.sessions.by_host, r.2.2))
      = some ("127.0.0.1", [("127.0.0.1", 1)],
          [Effect.ssh_transport_new 1 "127.0.0.1" 2222 none]) := by
  refine ⟨?_, ⟨2, sample_two_sockets_reach⟩, by decide, by decide⟩
  intro env host
  unfold open_session_host
  by_cases h1 : host = some "localhost"
  · subst h1
    by_cases hp : env.cockpit_ws_specific_ssh_port = 0
    · simp [hp]
    · simp [hp]
  · cases host with
    | none => simp
    | some h =>
      by_cases h2 : h = ""
      · subst h2; simp
      · simp [h1, h2]

/-! ## The entry of a destroyed session in `by_host` -/

theorem sample_two_blank_hosts_reach : Reach 2 sample_two_blank_hosts :=
  reach_run_event _ _
    (reach_run_event _ _ sample_two_sockets_reach (by intro c; simp)
      (by unfold Event.enabled; decide) (by decide))
    (by intro c; simp) (by unfold Event.enabled; decide) (by decide)

/-- C39: `cockpit_session_destroy` of a session that is not private removes the entry of
`by_host` under the host of the session, whatever session that entry maps to, and leaves
the entries under every other host in place.  On the failing input, after two browsers
opened a channel to the empty host: the sessions of transports 1 and 2 both have the host
"localhost", `by_host` maps "localhost" to the session of transport 2, and destroying the
session of transport 1 (as the close of transport 1 does) removes that entry although the
session of transport 2 stays tracked. -/
theorem destroy_removes_entry_of_other_session :
    (∀ (sessions : CockpitSessions) (S : CockpitSession) (h : String),
      (table_keys sessions.by_host).Nodup →
      g_hash_table_lookup g_str_equal (cockpit_session_destroy sessions S).by_host h =
        if S.private_ = false ∧ S.host = h then none
        else g_hash_table_lookup g_str_equal sessions.by_host h) ∧
    Reachable sample_two_blank_hosts ∧
    (cockpit_session_by_transport sample_two_blank_hosts.sessions 1).map
      (fun S => (S.private_, S.host)) = some (false, "localhost") ∧
    sample_two_blank_hosts.sessions.by_host = [("localhost", 2)] ∧
    (cockpit_session_by_transport sample_two_blank_hosts.sessions 1).map
      (fun S =>
        ((cockpit_session_destroy sample_two_blank_hosts.sessions S).by_host,
         (cockpit_session_by_transport
           (cockpit_session_destroy sample_two_blank_hosts.sessions S) 2).map
           (fun S2 => (S2.private_, S2.host)))) =
      some ([], some (false, "localhost")) ∧
    (on_session_closed sample_env sample_two_blank_hosts 1 none).1.sessions.by_host = [] ∧
    table_keys
      (on_session_closed sample_env sample_two_blank_hosts 1 none).1.sessions.by_transport
      = [2] := by
  refine ⟨?_, ⟨2, sample_two_blank_hosts_reach⟩, by decide, by decide, by decide, by decide,
    by decide⟩
  intro sessions S h hn
  unfold cockpit_session_destroy
  cases hp : S.private_ with
  | true => simp
  | false =>
    simp only [Bool.not_false, if_true, true_and]
    exact lookup_remove g_str_equal g_str_equal_iff _ _ _ hn

/-! ## The idle timer of the primary session -/

theorem sample_primary_busy_reach : Reach 2 sample_primary_busy :=
  reach_run_event _ _
    (reach_run_event _ _
      (Reach.socket 8 sample_primary_service_reach (by unfold Event.enabled; decide))
      (by intro c; simp) (by unfold Event.enabled; decide) (by decide))
    (by intro c; simp) (by unfold Event.enabled; decide) (by decide)

theorem remove_channel_by_transport (a : Int) (sessions : CockpitSessions)
    (session1 : CockpitSession) (channel : String) (t1 : CockpitTransport)
    (hst : cockpit_session_by_transport sessions session1.transport ≠ none) :
    cockpit_session_by_transport
        (cockpit_session_remove_channel a (session_store sessions session1) session1 channel)
        t1 =
      if t1 = session1.transport then
        some { session1 with
          channels := g_hash_table_remove g_str_equal session1.channels channel
          timeout :=
            if g_hash_table_size (g_hash_table_remove g_str_equal session1.channels channel)
              = 0 then some a else session1.timeout }
      else cockpit_session_by_transport sessions t1 := by
  unfold cockpit_session_by_transport at hst ⊢
  unfold cockpit_session_remove_channel
  simp only
  rw [lookup_store]
  have e : ({ session_store sessions session1 with
      by_channel := g_hash_table_remove g_str_equal
        (session_store sessions session1).by_channel channel } : CockpitSessions).by_transport
      = (session_store sessions session1).by_transport := rfl
  rw [e, lookup_store]
  by_cases ht : t1 = session1.transport
  · subst ht
    cases hl : g_hash_table_lookup g_direct_equal sessions.by_transport session1.transport with
    | none => exact absurd hl hst
    | some x => simp
  · simp [ht]

theorem close_last_channel (env : Env) {self : CockpitWebService}
    (hs : SessionsInv self.sessions) (t : CockpitTransport) (S : CockpitSession)
    (ch : String) (options : JsonObject)
    (hS : cockpit_session_by_transport self.sessions t = some S)
    (hch : S.channels = [(ch, ())]) :
    ∃ S1, cockpit_session_by_transport
        (on_session_control env self t "close" (some ch) options).1.sessions t = some S1 ∧
      S1.primary = S.primary ∧ S1.channels = [] ∧
      S1.timeout = some env.cockpit_ws_agent_timeout ∧
      ∀ t1, t1 ≠ t →
        cockpit_session_by_transport
          (on_session_control env self t "close" (some ch) options).1.sessions t1 =
        cockpit_session_by_transport self.sessions t1 := by
  have hT : S.transport = t := (hs.owned _ _ hS).1
  subst hT
  have hhas : session_has_channel S ch := by
    unfold session_has_channel
    rw [hch]
    simp [g_hash_table_lookup, g_str_equal]
  have hbc : g_hash_table_lookup g_str_equal self.sessions.by_channel ch = some S.transport :=
    (hs.index ch S.transport).2 ⟨S, hS, hhas⟩
  have hsession : cockpit_session_by_channel self.sessions ch = some S := by
    unfold cockpit_session_by_channel
    rw [hbc]
    exact hS
  have hrem : g_hash_table_remove g_str_equal S.channels ch = [] := by
    rw [hch]
    simp [g_hash_table_remove, g_str_equal]
  have e : (on_session_control env self S.transport "close" (some ch) options).1 =
      (process_close env self S ch options).2 := by
    unfold on_session_control
    simp [hsession]
  rw [e]
  have key : ∀ session1 : CockpitSession, session1.transport = S.transport →
      session1.channels = S.channels → session1.primary = S.primary →
      ∃ S1, cockpit_session_by_transport
          (cockpit_session_remove_channel env.cockpit_ws_agent_timeout
            (session_store self.sessions session1) session1 ch) S.transport = some S1 ∧
        S1.primary = S.primary ∧ S1.channels = [] ∧
        S1.timeout = some env.cockpit_ws_agent_timeout ∧
        ∀ t1, t1 ≠ S.transport →
          cockpit_session_by_transport
            (cockpit_session_remove_channel env.cockpit_ws_agent_timeout
              (session_store self.sessions session1) session1 ch) t1 =
          cockpit_session_by_transport self.sessions t1 := by
    intro session1 h1 h2 h3
    have hst : cockpit_session_by_transport self.sessions session1.transport ≠ none := by
      rw [h1, hS]; simp
    have hl := remove_channel_by_transport env.cockpit_ws_agent_timeout self.sessions
      session1 ch S.transport hst
    rw [h1] at hl
    simp only [if_true] at hl
    refine ⟨_, hl, h3, ?_, ?_, ?_⟩
    · simp only [h2, hrem]
    · simp only [h2, hrem, g_hash_table_size, List.length_nil, if_true]
    · intro t1 hne
      rw [remove_channel_by_transport _ _ _ _ _ hst, h1]
      simp [hne]
  unfold process_close
  simp only
  cases hr : json_object_get_member options "resources" with
  | none => exact key S rfl rfl rfl
  | some node =>
    cases node with
    | object R => exact key { S with checksums := process_resources R } rfl rfl rfl
    | _ => exact key S rfl rfl rfl

theorem sample_primary_timed_out_reach : Reach 2 sample_primary_timed_out :=
  reach_run_event sample_env (Event.timeout 0)
    (reach_run_event sample_env (Event.session_control 0 "close" (some "2:a") [])
      sample_primary_busy_reach (by intro c; simp) (by unfold Event.enabled; decide)
      (by decide))
    (by intro c; simp) (by unfold Event.enabled; decide) (by decide)

theorem closed_primary_disposes (env : Env) {self : CockpitWebService}
    (hs : SessionsInv self.sessions) (t : CockpitTransport) (S : CockpitSession)
    (problem : Option String)
    (hS : cockpit_session_by_transport self.sessions t = some S)
    (hp : S.primary = true) :
    (on_session_closed env self t problem).1.closing = true ∧
    (∀ t1, cockpit_session_by_transport (on_session_closed env self t problem).1.sessions t1 =
      if t1 = t then none
      else (cockpit_session_by_transport self.sessions t1).map
        (fun S1 => { S1 with sent_eof := true })) ∧
    (Effect.g_signal_emit "destroy" ∈ (on_session_closed env self t problem).2 ↔
      self.closing = false) := by
  have hT : S.transport = t := (hs.owned _ _ hS).1
  subst hT
  have e1 : (on_session_closed env self S.transport problem).1 =
      (cockpit_web_service_dispose env
        { self with sessions := cockpit_session_destroy self.sessions S }).1 := by
    unfold on_session_closed
    simp [hS, hp]
  refine ⟨?_, ?_, ?_⟩
  · rw [e1]; rfl
  · intro t1
    rw [e1, dispose_by_transport]
    unfold cockpit_session_by_transport
    simp only [cockpit_session_destroy,
      lookup_remove _ g_direct_equal_iff _ _ _ hs.transports_nodup]
    by_cases ht : t1 = S.transport
    · subst ht; simp
    · have ht1 : ¬ S.transport = t1 := fun e => ht e.symm
      simp [ht, ht1]
  · have e2 : ∃ sends : List Effect, (∀ e ∈ sends, e.signal = none) ∧
        (on_session_closed env self S.transport problem).2 = sends ++
          (cockpit_web_service_dispose env
            { self with sessions := cockpit_session_destroy self.sessions S }).2 := by
      unfold on_session_closed
      simp only [hS, hp, if_true]
      refine ⟨_, ?_, rfl⟩
      intro e he
      simp only [List.mem_filterMap] at he
      obtain ⟨node, _, hn⟩ := he
      split at hn
      · split at hn
        · cases hn; rfl
        · cases hn
      · cases hn
    obtain ⟨sends, hsends, e3⟩ := e2
    rw [e3, List.mem_append]
    have hd := (dispose_emits_destroy env
      { self with sessions := cockpit_session_destroy self.sessions S }).1
    constructor
    · rintro (h | h)
      · have := hsends _ h
        cases this
      · exact hd.1 h
    · intro h
      exact Or.inr (hd.2 h)

/-- C38: in a reachable state with a primary session `S` on the tracked transport `t`:
(1) when `S` has exactly one channel, the close control of the agent for that channel leaves
`S` tracked and primary, without channel and with the idle timer armed with the agent
timeout, so the timer can fire, and leaves every other session as it is; (2) when `S` has no
channel, the firing of its idle timer closes `t` with "timeout", disarms the timer and
changes nothing else of `S`; (3) the "closed" of `t` then disposes the service: `closing` is
true afterwards, the session of `t` is gone, every other session is tracked as before with
`sent_eof` set, and "destroy" is emitted exactly when the service was not closing before. -/
theorem primary_idle_timeout {self : CockpitWebService} (h : Reachable self) (env : Env)
    (t : CockpitTransport) (S : CockpitSession)
    (hS : cockpit_session_by_transport self.sessions t = some S)
    (hprimary : S.primary = true) :
    (∀ (ch : String) (options : JsonObject), S.channels = [(ch, ())] →
      ∃ S1, cockpit_session_by_transport
          (on_session_control env self t "close" (some ch) options).1.sessions t = some S1 ∧
        S1.primary = true ∧ S1.channels = [] ∧
        S1.timeout = some env.cockpit_ws_agent_timeout ∧
        (Event.timeout t).enabled (on_session_control env self t "close" (some ch) options).1 ∧
        ∀ t1, t1 ≠ t →
          cockpit_session_by_transport
            (on_session_control env self t "close" (some ch) options).1.sessions t1 =
          cockpit_session_by_transport self.sessions t1) ∧
    (S.channels = [] →
      ∃ self2, step env self (Event.timeout t) =
          some (self2, [Effect.cockpit_transport_close t (some "timeout")]) ∧
        (∀ t1, cockpit_session_by_transport self2.sessions t1 =
          if t1 = t then some { S with timeout := none }
          else cockpit_session_by_transport self.sessions t1) ∧
        self2.closing = self.closing) ∧
    (∀ problem : Option String,
      (on_session_closed env self t problem).1.closing = true ∧
      (∀ t1, cockpit_session_by_transport (on_session_closed env self t problem).1.sessions t1 =
        if t1 = t then none
        else (cockpit_session_by_transport self.sessions t1).map
          (fun S1 => { S1 with sent_eof := true })) ∧
      (Effect.g_signal_emit "destroy" ∈ (on_session_closed env self t problem).2 ↔
        self.closing = false)) := by
  obtain ⟨n, hr⟩ := h
  have hs := reach_sessions_inv hr
  have hT : S.transport = t := (hs.owned _ _ hS).1
  refine ⟨?_, ?_, ?_⟩
  · intro ch options hch
    obtain ⟨S1, k1, k2, k3, k4, k5⟩ := close_last_channel env hs t S ch options hS hch
    refine ⟨S1, k1, k2.trans hprimary, k3, k4, ?_, k5⟩
    exact ⟨S1, k1, by rw [k4]; simp⟩
  · intro hch
    have hstep : step env self (Event.timeout t) =
        some ({ self with
                sessions := session_store self.sessions { S with timeout := none } },
          [Effect.cockpit_transport_close t (some "timeout")]) := by
      simp only [step, hS, on_timeout_cleanup_session, hch, g_hash_table_size,
        List.length_nil, if_true, hT]
    refine ⟨_, hstep, ?_, rfl⟩
    intro t1
    unfold cockpit_session_by_transport
    simp only [lookup_store]
    have hl : g_hash_table_lookup g_direct_equal self.sessions.by_transport t = some S := hS
    by_cases ht : t1 = t
    · subst ht
      simp [hT, hl]
    · simp [hT, ht]
  · intro problem
    exact closed_primary_disposes env hs t S problem hS hprimary

theorem primary_idle_timeout_witness :
    (∃ S1, cockpit_session_by_transport sample_primary_idle.sessions 0 = some S1 ∧
      S1.primary = true ∧ S1.channels = [] ∧ S1.timeout = some 30) ∧
    step sample_env sample_primary_idle (Event.timeout 0) =
      some (sample_primary_timed_out, [Effect.cockpit_transport_close 0 (some "timeout")]) ∧
    (on_session_closed sample_env sample_primary_timed_out 0 (some "timeout")).1.closing
      = true ∧
    (cockpit_session_by_transport
      (on_session_closed sample_env sample_primary_timed_out 0 (some "timeout")).1.sessions
      1).map (fun S1 => (S1.host, S1.sent_eof)) = some ("x", true) ∧
    cockpit_session_by_transport
      (on_session_closed sample_env sample_primary_timed_out 0 (some "timeout")).1.sessions
      0 = none :=
  have hA := (primary_idle_timeout ⟨2, sample_primary_busy_reach⟩ sample_env 0
    { sample_primary_session with channels := [("2:a", ())] } (by decide) rfl).1
    "2:a" [] rfl
  have hC := (primary_idle_timeout ⟨2, sample_primary_timed_out_reach⟩
    sample_env 0 sample_primary_session (by decide) rfl).2.2 (some "timeout")
  ⟨hA.elim fun S1 h1 => ⟨S1, h1.1, h1.2.1, h1.2.2.1, h1.2.2.2.1⟩,
   by decide, hC.1, by rw [hC.2.1 1]; decide, by rw [hC.2.1 0]; rfl⟩

/-! ## Requests for cached resources -/

theorem sample_two_checksums_reach : Reach 2 sample_two_checksums :=
  reach_run_event _ _
    (reach_run_event _ _ sample_two_blank_hosts_reach (by intro c; simp)
      (by unfold Event.enabled; decide) rfl)
    (by intro c; simp) (by unfold Event.enabled; decide) rfl

theorem cache_prefix (r : String) :
    "/res/".data.isPrefixOf ("/cache/" ++ r).data = false ∧
    "/cache/".data.isPrefixOf ("/cache/" ++ r).data = true ∧
    (⟨("/cache/" ++ r).data.drop 7⟩ : String) = r := by
  have h : ("/cache/" ++ r).data = '/' :: 'c' :: 'a' :: 'c' :: 'h' :: 'e' :: '/' :: r.data := by
    simp [String.data_append]
  have h1 : "/res/".data = ['/', 'r', 'e', 's', '/'] := rfl
  have h2 : "/cache/".data = ['/', 'c', 'a', 'c', 'h', 'e', '/'] := rfl
  rw [h, h1, h2]
  refine ⟨?_, ?_, ?_⟩
  · simp [List.isPrefixOf]
  · simp [List.isPrefixOf]
  · rfl

theorem g_strsplit_two (checksum p : String) (h : '/' ∉ checksum.data) :
    g_strsplit (checksum ++ "/" ++ p) '/' 2 = [checksum, p] := by
  have hd : (checksum ++ "/" ++ p).data = checksum.data ++ '/' :: p.data := by
    simp [String.data_append]
  unfold g_strsplit
  rw [hd]
  have hne : ¬ checksum.data ++ '/' :: p.data = [] := by simp
  simp only [hne, if_false]
  have e1 : g_strsplit_loop '/' 1 (checksum.data ++ '/' :: p.data) =
      [checksum.data, p.data] := by
    rw [g_strsplit_loop, strchr_append _ h]
    simp only [List.tail_cons, g_strsplit_loop]
    have t1 := take_prefix checksum.data ('/' :: p.data)
    rw [t1]
  show List.map String.mk (g_strsplit_loop '/' 1 _) = _
  rw [e1]
  rfl

theorem g_strsplit_one (r : String) (h : '/' ∉ r.data) :
    (g_strsplit r '/' 2).length < 2 := by
  unfold g_strsplit
  split
  · simp
  · simp only [List.length_map]
    have := g_strsplit_loop_length '/' 1 r.data
    have hc : r.data.count '/' = 0 := List.count_eq_zero_of_not_mem h
    show (g_strsplit_loop '/' 1 r.data).length < 2
    omega

theorem checksum_short (env : Env) (self : CockpitWebService) (response : Nat)
    (path r : String) (h : (g_strsplit r '/' 2).length < 2) :
    resource_respond_checksum env self response path r = (false, self, [], none) := by
  unfold resource_respond_checksum
  split
  · rename_i heq
    rw [heq] at h
    simp at h
  · rfl

theorem checksum_two (env : Env) (self : CockpitWebService) (response : Nat)
    (path r part0 part1 : String) (h : g_strsplit r '/' 2 = [part0, part1]) :
    resource_respond_checksum env self response path r =
      match self.sessions.by_transport.find?
          (fun node => (g_hash_table_lookup g_str_equal node.2.checksums part0).isSome) with
      | none => (false, self, [], none)
      | some node =>
        (true,
          { self with next_resource_id := (self.next_resource_id + 1) % G_MAXUINT_SUCC },
          [Effect.cockpit_transport_send node.2.transport none
            (env.json_write_bytes (build_control
              [("command", some "open"),
               ("channel", some ("0:" ++ format_d self.next_resource_id)),
               ("payload", some "resource1"),
               ("module", g_hash_table_lookup g_str_equal node.2.checksums part0),
               ("path", some part1)]))],
          some { logname := path, response := response, transport := node.2.transport,
                 channel := "0:" ++ format_d self.next_resource_id,
                 cache_forever := true }) := by
  unfold resource_respond_checksum
  rw [h]
  simp only
  cases self.sessions.by_transport.find?
      (fun node => (g_hash_table_lookup g_str_equal node.2.checksums part0).isSome) with
  | none => rfl
  | some node => rfl

theorem find_first {α : Type} (f : α → Bool) :
    ∀ (l : List α),
      (∀ x, l.find? f = some x →
        ∃ before after, l = before ++ x :: after ∧ f x = true ∧ ∀ y ∈ before, f y = false) ∧
      (l.find? f = none ↔ ∀ y ∈ l, f y = false) := by
  intro l
  induction l with
  | nil => simp
  | cons a l ih =>
    cases ha : f a with
    | true =>
      refine ⟨?_, ?_⟩
      · intro x hx
        simp only [List.find?_cons, ha, Option.some.injEq] at hx
        subst hx
        exact ⟨[], l, rfl, ha, by simp⟩
      · simp [List.find?_cons, ha]
    | false =>
      refine ⟨?_, ?_⟩
      · intro x hx
        simp only [List.find?_cons, ha] at hx
        obtain ⟨before, after, e, h1, h2⟩ := ih.1 x hx
        refine ⟨a :: before, after, by rw [e]; rfl, h1, ?_⟩
        intro y hy
        simp only [List.mem_cons] at hy
        rcases hy with rfl | hy
        · exact ha
        · exact h2 y hy
      · simp only [List.find?_cons, ha, List.mem_cons, forall_eq_or_imp, true_and]
        exact ih.2

theorem digitChar_mod_ne_minus (n : Nat) : Nat.digitChar (n % 10) ≠ '-' := by
  have h : n % 10 < 10 := Nat.mod_lt _ (by decide)
  interval_cases (n % 10) <;> decide

theorem toDigitsCore_head (fuel : Nat) : ∀ (n : Nat) (ds : List Char),
    '-' ∉ ds → '-' ∉ Nat.toDigitsCore 10 fuel n ds := by
  induction fuel with
  | zero => intro n ds h; simpa [Nat.toDigitsCore] using h
  | succ f ih =>
    intro n ds h
    simp only [Nat.toDigitsCore]
    have hd : '-' ∉ Nat.digitChar (n % 10) :: ds := by
      simp only [List.mem_cons, not_or]
      exact ⟨fun e => digitChar_mod_ne_minus n e.symm, h⟩
    split
    · exact hd
    · exact ih _ _ hd

theorem format_d_injective (a b : Nat) (ha : a < G_MAXUINT_SUCC) (hb : b < G_MAXUINT_SUCC)
    (h : format_d a = format_d b) : a = b := by
  have hrepr : ∀ n : Nat, (Nat.repr n).data = Nat.toDigits 10 n := fun n => rfl
  have hminus : ∀ n : Nat, '-' ∉ Nat.toDigits 10 n :=
    fun n => toDigitsCore_head _ _ _ (by simp)
  have hneg : ∀ n m : Nat, Nat.repr n ≠ "-" ++ Nat.repr m := by
    intro n m e
    have e1 := congrArg String.data e
    rw [hrepr, String.data_append, hrepr] at e1
    apply hminus n
    rw [e1]
    simp
  unfold format_d at h
  unfold G_MAXUINT_SUCC at ha hb h
  by_cases h1 : a < 2147483648
  · by_cases h2 : b < 2147483648
    · simp only [h1, h2, if_true] at h
      exact toDigits_injective (congrArg String.data h)
    · simp only [h1, h2, if_true, if_false] at h
      exact absurd h (hneg _ _)
  · by_cases h2 : b < 2147483648
    · simp only [h1, h2, if_true, if_false] at h
      exact absurd h.symm (hneg _ _)
    · simp only [h1, h2, if_false] at h
      have e1 := congrArg String.data h
      simp only [String.data_append, List.append_cancel_left_eq] at e1
      have := toDigits_injective e1
      omega

/-- C31, as stated, fails.  (1) The sessions of transports 1 and 2 both hold the checksum
"abc", the first for module "mod1" and the second for module "mod2": the request for
"/cache/abc/foo.js" sends one open control, with module "mod1", on transport 1, and none
with module "mod2".  (2) Read as the checksum "abc/d" and the path "foo.js", the request
"/cache/abc/d/foo.js" names a checksum that no session holds, yet it is not answered with
404: an open control for module "mod1" and path "d/foo.js" is sent on transport 1. -/
theorem cache_request_first_session_wins :
    Reachable sample_two_checksums ∧
    (sample_two_checksums.sessions.by_transport.map
      (fun node => (node.2.transport, node.2.checksums))) =
        [(1, [("abc", "mod1")]), (2, [("abc", "mod2")])] ∧
    (cockpit_web_service_resource sample_env_values sample_two_checksums 5
      ("/cache/" ++ ("abc" ++ "/" ++ "foo.js")) 3).map (fun r => r.2.1) =
      some [Effect.cockpit_transport_send 1 none
        "command=open,channel=0:0,payload=resource1,module=mod1,path=foo.js"] ∧
    (∀ node ∈ sample_two_checksums.sessions.by_transport,
      g_hash_table_lookup g_str_equal node.2.checksums "abc/d" = none) ∧
    (cockpit_web_service_resource sample_env_values sample_two_checksums 5
      ("/cache/" ++ ("abc/d" ++ "/" ++ "foo.js")) 3).map (fun r => r.2.1) =
      some [Effect.cockpit_transport_send 1 none
        "command=open,channel=0:0,payload=resource1,module=mod1,path=d/foo.js"] :=
  ⟨⟨2, sample_two_checksums_reach⟩, by decide, by decide, by decide, by decide⟩

/-- C31, amended: for a checksum without '/' and the request path "/cache/", checksum, '/',
`p`: (1) when some session of `by_transport` holds the checksum, the first such session in
the order of the table, with the module `m` that its own table gives for the checksum, gets
exactly one control with null channel header: command "open", the channel "0:" and the
resource counter, payload "resource1", module `m` and path `p`; the counter is advanced, the
response is marked `cache_forever` and no 404 is answered; (2) when no session holds the
checksum, and (3) when the text after "/cache/" has no '/', the only effect is the answer
404 and the state stays as it is; (4) the channels of two different values of the counter
are different. -/
theorem cache_request (env : Env) (self : CockpitWebService) (response : Nat)
    (fresh : CockpitTransport) (checksum p : String) (hc : '/' ∉ checksum.data) :
    ((∃ node ∈ self.sessions.by_transport,
        (g_hash_table_lookup g_str_equal node.2.checksums checksum).isSome = true) →
      ∃ (node : CockpitTransport × CockpitSession) (m : String)
        (before after : List (CockpitTransport × CockpitSession)),
        self.sessions.by_transport = before ++ node :: after ∧
        (∀ other ∈ before,
          g_hash_table_lookup g_str_equal other.2.checksums checksum = none) ∧
        g_hash_table_lookup g_str_equal node.2.checksums checksum = some m ∧
        cockpit_web_service_resource env self response
            ("/cache/" ++ (checksum ++ "/" ++ p)) fresh =
          some ({ self with
                  next_resource_id := (self.next_resource_id + 1) % G_MAXUINT_SUCC },
            [Effect.cockpit_transport_send node.2.transport none
              (env.json_write_bytes (build_control
                [("command", some "open"),
                 ("channel", some ("0:" ++ format_d self.next_resource_id)),
                 ("payload", some "resource1"), ("module", some m),
                 ("path", some p)]))],
            some { logname := "/cache/" ++ (checksum ++ "/" ++ p), response := response,
                   transport := node.2.transport,
                   channel := "0:" ++ format_d self.next_resource_id,
                   cache_forever := true })) ∧
    ((∀ node ∈ self.sessions.by_transport,
        g_hash_table_lookup g_str_equal node.2.checksums checksum = none) →
      cockpit_web_service_resource env self response
          ("/cache/" ++ (checksum ++ "/" ++ p)) fresh =
        some (self, [Effect.cockpit_web_response_error response 404], none)) ∧
    (∀ r : String, '/' ∉ r.data →
      cockpit_web_service_resource env self response ("/cache/" ++ r) fresh =
        some (self, [Effect.cockpit_web_response_error response 404], none)) ∧
    (∀ a b : Nat, a < G_MAXUINT_SUCC → b < G_MAXUINT_SUCC →
      "0:" ++ format_d a = "0:" ++ format_d b → a = b) := by
  have hfind := find_first
    (fun node : CockpitTransport × CockpitSession =>
      (g_hash_table_lookup g_str_equal node.2.checksums checksum).isSome)
    self.sessions.by_transport
  refine ⟨?_, ?_, ?_, ?_⟩
  · rintro ⟨node0, hmem, hsome⟩
    cases hf : self.sessions.by_transport.find?
        (fun node => (g_hash_table_lookup g_str_equal node.2.checksums checksum).isSome) with
    | none =>
      have := hfind.2.1 hf node0 hmem
      simp only at this
      rw [hsome] at this
      cases this
    | some node =>
      obtain ⟨before, after, e, h1, h2⟩ := hfind.1 node hf
      obtain ⟨m, hm⟩ := Option.isSome_iff_exists.1 h1
      refine ⟨node, m, before, after, e, ?_, hm, ?_⟩
      · intro other ho
        have := h2 other ho
        simpa using this
      · obtain ⟨p1, p2, p3⟩ := cache_prefix (checksum ++ "/" ++ p)
        unfold cockpit_web_service_resource
        simp only [p1, p2, p3, Bool.false_eq_true, if_false, if_true]
        rw [checksum_two env self response _ _ checksum p (g_strsplit_two checksum p hc)]
        simp only [hf, hm]
        simp
  · intro hnone
    have hf : self.sessions.by_transport.find?
        (fun node => (g_hash_table_lookup g_str_equal node.2.checksums checksum).isSome)
        = none := by
      rw [hfind.2]
      intro y hy
      simp [hnone y hy]
    obtain ⟨p1, p2, p3⟩ := cache_prefix (checksum ++ "/" ++ p)
    unfold cockpit_web_service_resource
    simp only [p1, p2, p3, Bool.false_eq_true, if_false, if_true]
    rw [checksum_two env self response _ _ checksum p (g_strsplit_two checksum p hc)]
    simp only [hf]
    simp
  · intro r hr
    obtain ⟨p1, p2, p3⟩ := cache_prefix r
    unfold cockpit_web_service_resource
    simp only [p1, p2, p3, Bool.false_eq_true, if_false, if_true]
    rw [checksum_short env self response _ r (g_strsplit_one r hr)]
    simp
  · intro a b ha hb e
    apply format_d_injective a b ha hb
    have e1 := congrArg String.data e
    simp only [String.data_append, List.append_cancel_left_eq] at e1
    exact String.ext e1

theorem cache_request_witness :
    (∃ (node : CockpitTransport × CockpitSession) (m : String)
      (before after : List (CockpitTransport × CockpitSession)),
      sample_two_checksums.sessions.by_transport = before ++ node :: after ∧
      (∀ other ∈ before,
        g_hash_table_lookup g_str_equal other.2.checksums "abc" = none) ∧
      g_hash_table_lookup g_str_equal node.2.checksums "abc" = some m ∧
      cockpit_web_service_resource sample_env_values sample_two_checksums 5
          ("/cache/" ++ ("abc" ++ "/" ++ "dir/foo.js")) 3 =
        some ({ sample_two_checksums with
                next_resource_id :=
                  (sample_two_checksums.next_resource_id + 1) % G_MAXUINT_SUCC },
          [Effect.cockpit_transport_send node.2.transport none
            (sample_env_values.json_write_bytes (build_control
              [("command", some "open"),
               ("channel", some ("0:" ++ format_d sample_two_checksums.next_resource_id)),
               ("payload", some "resource1"), ("module", some m),
               ("path", some "dir/foo.js")]))],
          some { logname := "/cache/" ++ ("abc" ++ "/" ++ "dir/foo.js"), response := 5,
                 transport := node.2.transport,
                 channel := "0:" ++ format_d sample_two_checksums.next_resource_id,
                 cache_forever := true })) ∧
    cockpit_web_service_resource sample_env_values sample_two_checksums 5
        ("/cache/" ++ ("abd" ++ "/" ++ "foo.js")) 3 =
      some (sample_two_checksums, [Effect.cockpit_web_response_error 5 404], none) :=
  ⟨(cache_request sample_env_values sample_two_checksums 5 3 "abc" "dir/foo.js"
      (by decide)).1 (List.any_eq_true.1 (by decide)),
   (cache_request sample_env_values sample_two_checksums 5 3 "abd" "foo.js"
      (by decide)).2.1 (by decide)⟩

/-! ## The end of a resource response -/

theorem control_close_done (rr : ResourceResponse) (state : CockpitWebResponding)
    (options : JsonObject) :
    on_resource_control rr state "close" (some rr.channel) options =
      (true, false, resource_response_done rr state (close_reason options)) := by
  unfold on_resource_control close_reason cockpit_json_get_string
  simp only [ne_eq, not_true_eq_false, if_false, g_str_equal, decide_True, Bool.not_true,
    Bool.false_eq_true]
  cases hm : json_object_get_member options "reason" with
  | none => simp
  | some node =>
    cases node with
    | string r =>
      by_cases hr : r = ""
      · simp [hr]
      · simp [hr]
    | _ => simp

theorem done_outcomes (rr : ResourceResponse) (state : CockpitWebResponding)
    (hstate : state.toNat < CockpitWebResponding.COCKPIT_WEB_RESPONSE_COMPLETE.toNat)
    (problem : Option String) :
    ((resource_response_done rr state problem).filter ResourceEffect.is_outcome).length
      = 1 := by
  cases state with
  | COCKPIT_WEB_RESPONSE_READY =>
    cases problem with
    | none => rfl
    | some p =>
      by_cases hp : p = "not-found"
      · subst hp; rfl
      · simp [resource_response_done, CockpitWebResponding.toNat, g_str_equal, hp,
          ResourceEffect.is_outcome]
  | COCKPIT_WEB_RESPONSE_QUEUING =>
    cases problem with
    | none => rfl
    | some p => rfl
  | COCKPIT_WEB_RESPONSE_COMPLETE => exact absurd hstate (by decide)
  | COCKPIT_WEB_RESPONSE_SENT => exact absurd hstate (by decide)

theorem event_outcomes (rr : ResourceResponse) (state : CockpitWebResponding)
    (hstate : state.toNat < CockpitWebResponding.COCKPIT_WEB_RESPONSE_COMPLETE.toNat)
    (ev : ResourceEvent) :
    (resource_event rr state ev).1 = !ev.terminates rr ∧
    (((resource_event rr state ev).2).filter ResourceEffect.is_outcome).length =
      if ev.terminates rr then 1 else 0 := by
  cases ev with
  | recv channel payload =>
    refine ⟨rfl, ?_⟩
    simp only [resource_event, on_resource_recv, ResourceEvent.terminates]
    by_cases hc : channel = some rr.channel
    · by_cases hs : state = CockpitWebResponding.COCKPIT_WEB_RESPONSE_READY
      · simp [hc, hs, ResourceEffect.is_outcome]
      · simp [hc, hs, ResourceEffect.is_outcome]
    · simp [hc]
  | control command channel options =>
    simp only [resource_event, ResourceEvent.terminates]
    by_cases hc : channel = some rr.channel
    · subst hc
      by_cases hk : command = "close"
      · subst hk
        rw [control_close_done]
        refine ⟨by simp [g_str_equal], ?_⟩
        simp only [g_str_equal, decide_True, Bool.and_self, if_true]
        exact done_outcomes rr state hstate _
      · simp [on_resource_control, g_str_equal, hk]
    · simp [on_resource_control, hc]
  | closed problem =>
    refine ⟨rfl, ?_⟩
    simp only [resource_event, ResourceEvent.terminates, if_true, on_resource_closed]
    exact done_outcomes rr state hstate _

theorem run_outcomes (rr : ResourceResponse) :
    ∀ run : List (CockpitWebResponding × ResourceEvent),
      (∀ x ∈ run, x.1.toNat < CockpitWebResponding.COCKPIT_WEB_RESPONSE_COMPLETE.toNat) →
      ((resource_run rr run).filter ResourceEffect.is_outcome).length =
        if run.any (fun x => x.2.terminates rr) then 1 else 0 := by
  intro run
  induction run with
  | nil => intro _; rfl
  | cons x rest ih =>
    intro hall
    obtain ⟨state, ev⟩ := x
    have hx := event_outcomes rr state (hall (state, ev) (List.mem_cons_self _ _)) ev
    have hrest := ih (fun y hy => hall y (List.mem_cons_of_mem _ hy))
    obtain ⟨hx1, hx2⟩ := hx
    by_cases ht : ev.terminates rr = true
    · simp only [ht, Bool.not_true, if_true] at hx1 hx2
      simp [resource_run, hx1, hx2, ht]
    · simp only [ht, Bool.not_eq_true] at hx1 hx2
      simp only [Bool.not_eq_true] at ht
      simp only [Bool.not_false] at hx1
      simp only [if_false, Bool.false_eq_true] at hx2
      simp only [resource_run, hx1, if_true, List.filter_append, List.length_append, hx2,
        hrest, List.any_cons, ht, Bool.false_or, Nat.zero_add]

/-- C32, as stated, fails: the close of the transport with the problem "not-found" before
any headers were written is answered with 404, whereas a close control with the reason
"terminated" is answered with 500. -/
theorem closed_keeps_problem :
    on_resource_closed sample_response CockpitWebResponding.COCKPIT_WEB_RESPONSE_READY
      (some "not-found") = [ResourceEffect.cockpit_web_response_error 5 404] ∧
    on_resource_control sample_response CockpitWebResponding.COCKPIT_WEB_RESPONSE_READY
      "close" (some "0:0") [("reason", JsonNode.string "terminated")] =
      (true, false, [ResourceEffect.cockpit_web_response_error 5 500]) :=
  ⟨rfl, rfl⟩

/-- C32, amended: for a resource response whose web response is not yet complete, with
headers not yet sent (READY) or already sent (QUEUING).  A close control on its channel with
the reason `r` that `close_reason` reads (null for a missing or empty reason, "unknown" for
a reason that is not a string): null completes the response, after 200 headers when none
were sent; "not-found" before the headers gives 404; any other reason before the headers
gives 500; any reason after the headers gives abort.  The close of the transport is handled
with the problem of the transport as reason, and with "terminated" when that problem is null
or empty.  A close control on the channel and the close of the transport each make exactly
one call of complete, error or abort and disconnect the handlers; no other signal makes such
a call, and over any sequence of signals exactly one such call is made when one of them
ends the response and none otherwise. -/
theorem resource_response_outcome (rr : ResourceResponse) (state : CockpitWebResponding)
    (hstate : state.toNat < CockpitWebResponding.COCKPIT_WEB_RESPONSE_COMPLETE.toNat) :
    (∀ options : JsonObject,
      (close_reason options = none →
        on_resource_control rr state "close" (some rr.channel) options =
          (true, false,
           (if state = CockpitWebResponding.COCKPIT_WEB_RESPONSE_READY then
              [ResourceEffect.cockpit_web_response_headers rr.response 200 "OK" 0 []]
            else []) ++ [ResourceEffect.cockpit_web_response_complete rr.response])) ∧
      (∀ r : String, close_reason options = some r →
        on_resource_control rr state "close" (some rr.channel) options =
          (true, false,
           if state = CockpitWebResponding.COCKPIT_WEB_RESPONSE_READY then
             [ResourceEffect.cockpit_web_response_error rr.response
               (if r = "not-found" then 404 else 500)]
           else [ResourceEffect.cockpit_web_response_abort rr.response]))) ∧
    (∀ options : JsonObject,
      (close_reason options = none ↔
        (json_object_get_member options "reason" = none ∨
         json_object_get_member options "reason" = some (JsonNode.string ""))) ∧
      (∀ r : String, r ≠ "" →
        json_object_get_member options "reason" = some (JsonNode.string r) →
        close_reason options = some r) ∧
      (∀ node, json_object_get_member options "reason" = some node →
        (∀ r : String, node ≠ JsonNode.string r) → close_reason options = some "unknown")) ∧
    (∀ problem : Option String,
      on_resource_closed rr state problem =
        if state = CockpitWebResponding.COCKPIT_WEB_RESPONSE_READY then
          [ResourceEffect.cockpit_web_response_error rr.response
            (if (if problem = none ∨ problem = some "" then some "terminated" else problem)
              = some "not-found" then 404 else 500)]
        else [ResourceEffect.cockpit_web_response_abort rr.response]) ∧
    (∀ ev : ResourceEvent,
      (resource_event rr state ev).1 = !ev.terminates rr ∧
      (((resource_event rr state ev).2).filter ResourceEffect.is_outcome).length =
        if ev.terminates rr then 1 else 0) ∧
    (∀ run : List (CockpitWebResponding × ResourceEvent),
      (∀ x ∈ run, x.1.toNat < CockpitWebResponding.COCKPIT_WEB_RESPONSE_COMPLETE.toNat) →
      ((resource_run rr run).filter ResourceEffect.is_outcome).length =
        if run.any (fun x => x.2.terminates rr) then 1 else 0) := by
  have hcases : state = CockpitWebResponding.COCKPIT_WEB_RESPONSE_READY ∨
      state = CockpitWebResponding.COCKPIT_WEB_RESPONSE_QUEUING := by
    cases state with
    | COCKPIT_WEB_RESPONSE_READY => exact Or.inl rfl
    | COCKPIT_WEB_RESPONSE_QUEUING => exact Or.inr rfl
    | COCKPIT_WEB_RESPONSE_COMPLETE => exact absurd hstate (by decide)
    | COCKPIT_WEB_RESPONSE_SENT => exact absurd hstate (by decide)
  have hdone : ∀ r : String, resource_response_done rr state (some r) =
      if state = CockpitWebResponding.COCKPIT_WEB_RESPONSE_READY then
        [ResourceEffect.cockpit_web_response_error rr.response
          (if r = "not-found" then 404 else 500)]
      else [ResourceEffect.cockpit_web_response_abort rr.response] := by
    intro r
    rcases hcases with e | e
    · subst e
      by_cases hr : r = "not-found"
      · subst hr; rfl
      · simp [resource_response_done, CockpitWebResponding.toNat, g_str_equal, hr]
    · subst e; rfl
  refine ⟨?_, ?_, ?_, fun ev => event_outcomes rr state hstate ev, run_outcomes rr⟩
  · intro options
    refine ⟨?_, ?_⟩
    · intro h
      rw [control_close_done, h]
      rcases hcases with e | e <;> subst e <;> rfl
    · intro r h
      rw [control_close_done, h, hdone]
  · intro options
    unfold close_reason
    refine ⟨?_, ?_, ?_⟩
    · cases hm : json_object_get_member options "reason" with
      | none => simp
      | some node =>
        cases node with
        | string r =>
          by_cases hr : r = ""
          · simp [hr]
          · simp [hr]
        | _ => simp
    · intro r hr hm
      simp [hm, hr]
    · intro node hm hnode
      rw [hm]
      cases node with
      | string r => exact absurd rfl (hnode r)
      | _ => rfl
  · intro problem
    unfold on_resource_closed
    by_cases hp : problem = none ∨ problem = some ""
    · simp only [hp, if_true]
      exact hdone "terminated"
    · simp only [hp, if_false]
      cases problem with
      | none => exact absurd (Or.inl rfl) hp
      | some p =>
        rw [hdone p]
        simp

theorem resource_response_outcome_witness :
    on_resource_control sample_response CockpitWebResponding.COCKPIT_WEB_RESPONSE_READY
      "close" (some "0:0") [("command", JsonNode.string "close")] =
      (true, false,
       [ResourceEffect.cockpit_web_response_headers 5 200 "OK" 0 [],
        ResourceEffect.cockpit_web_response_complete 5]) ∧
    on_resource_control sample_response CockpitWebResponding.COCKPIT_WEB_RESPONSE_QUEUING
      "close" (some "0:0") [("reason", JsonNode.number 7)] =
      (true, false, [ResourceEffect.cockpit_web_response_abort 5]) ∧
    on_resource_closed sample_response CockpitWebResponding.COCKPIT_WEB_RESPONSE_READY none =
      [ResourceEffect.cockpit_web_response_error 5 500] ∧
    ((resource_run sample_response
      [(CockpitWebResponding.COCKPIT_WEB_RESPONSE_READY, ResourceEvent.recv (some "0:0") "a"),
       (CockpitWebResponding.COCKPIT_WEB_RESPONSE_QUEUING,
        ResourceEvent.control "close" (some "0:0") []),
       (CockpitWebResponding.COCKPIT_WEB_RESPONSE_QUEUING,
        ResourceEvent.closed none)]).filter ResourceEffect.is_outcome).length = 1 :=
  ⟨((resource_response_outcome sample_response
      CockpitWebResponding.COCKPIT_WEB_RESPONSE_READY (by decide)).1
      [("command", JsonNode.string "close")]).1 rfl,
   ((resource_response_outcome sample_response
      CockpitWebResponding.COCKPIT_WEB_RESPONSE_QUEUING (by decide)).1
      [("reason", JsonNode.number 7)]).2 "unknown" rfl,
   (resource_response_outcome sample_response
      CockpitWebResponding.COCKPIT_WEB_RESPONSE_READY (by decide)).2.2.1 none,
   (resource_response_outcome sample_response
      CockpitWebResponding.COCKPIT_WEB_RESPONSE_READY (by decide)).2.2.2.2 _
      (by decide)⟩

/-! ## The headers of a cached resource -/

/-- C33: when the headers are written by the first data frame, `on_resource_recv` passes
"Cache-Control" with the value "max-age=31556926, public" for a response marked
`cache_forever` and with a null value otherwise; when they are written by a close control
without reason before any data, `resource_response_done` passes no header at all, whether
or not the response is marked `cache_forever`.  On the failing input, the response made for
the request "/cache/abc/foo.js": it is marked `cache_forever`, and the close control of the
agent before any data writes the 200 headers without "Cache-Control". -/
theorem close_before_data_omits_cache_control :
    (∀ (rr : ResourceResponse) (payload : GBytes),
      on_resource_recv rr CockpitWebResponding.COCKPIT_WEB_RESPONSE_READY
          (some rr.channel) payload =
        (true,
         [ResourceEffect.cockpit_web_response_headers rr.response 200 "OK" (-1)
            [("Cache-Control",
              if rr.cache_forever then some "max-age=31556926, public" else none)],
          ResourceEffect.cockpit_web_response_queue rr.response payload])) ∧
    (∀ (rr : ResourceResponse) (options : JsonObject), close_reason options = none →
      on_resource_control rr CockpitWebResponding.COCKPIT_WEB_RESPONSE_READY "close"
          (some rr.channel) options =
        (true, false,
         [ResourceEffect.cockpit_web_response_headers rr.response 200 "OK" 0 [],
          ResourceEffect.cockpit_web_response_complete rr.response])) ∧
    Reachable sample_two_checksums ∧
    (cockpit_web_service_resource sample_env_values sample_two_checksums 5
      "/cache/abc/foo.js" 3).map (fun r => r.2.2) = some (some sample_cache_response) ∧
    sample_cache_response.cache_forever = true ∧
    on_resource_control sample_cache_response
        CockpitWebResponding.COCKPIT_WEB_RESPONSE_READY "close" (some "0:0")
        [("command", JsonNode.string "close"), ("channel", JsonNode.string "0:0")] =
      (true, false,
       [ResourceEffect.cockpit_web_response_headers 5 200 "OK" 0 [],
        ResourceEffect.cockpit_web_response_complete 5]) ∧
    on_resource_recv sample_cache_response CockpitWebResponding.COCKPIT_WEB_RESPONSE_READY
        (some "0:0") "data" =
      (true,
       [ResourceEffect.cockpit_web_response_headers 5 200 "OK" (-1)
          [("Cache-Control", some "max-age=31556926, public")],
        ResourceEffect.cockpit_web_response_queue 5 "data"]) := by
  refine ⟨?_, ?_, ⟨2, sample_two_checksums_reach⟩, by decide, rfl, rfl, rfl⟩
  · intro rr payload
    simp [on_resource_recv]
  · intro rr options h
    rw [control_close_done, h]
    rfl

/-! ## Reading a sealed memfd -/

theorem seals_mod (seals mask : Nat) (h : mask < 16) :
    seals &&& mask = (seals % 16) &&& mask := by
  apply Nat.eq_of_testBit_eq
  intro i
  have e : (16 : Nat) = 2 ^ 4 := by decide
  simp only [Nat.testBit_and]
  rw [e, Nat.testBit_mod_two_pow]
  by_cases hi : i < 4
  · simp [hi]
  · have hm : mask.testBit i = false := by
      apply Nat.testBit_lt_two_pow
      have : (2 : Nat) ^ 4 ≤ 2 ^ i := Nat.pow_le_pow_right (by decide) (by omega)
      omega
    simp [hm]

theorem expected_seals_iff (seals : Nat) :
    seals &&& (F_SEAL_WRITE ||| F_SEAL_GROW ||| F_SEAL_SHRINK) =
        (F_SEAL_WRITE ||| F_SEAL_GROW ||| F_SEAL_SHRINK) ↔
      (seals &&& F_SEAL_WRITE = F_SEAL_WRITE ∧ seals &&& F_SEAL_GROW = F_SEAL_GROW ∧
        seals &&& F_SEAL_SHRINK = F_SEAL_SHRINK) := by
  have e : F_SEAL_WRITE ||| F_SEAL_GROW ||| F_SEAL_SHRINK = 14 := by decide
  rw [e]
  unfold F_SEAL_WRITE F_SEAL_GROW F_SEAL_SHRINK
  rw [seals_mod seals 14 (by decide), seals_mod seals 8 (by decide),
    seals_mod seals 4 (by decide), seals_mod seals 2 (by decide)]
  have hlt : seals % 16 < 16 := Nat.mod_lt _ (by decide)
  interval_cases (seals % 16) <;> decide

theorem memfd_read_ok (sys : MemfdSys) (fd : Int) (content : List Nat) :
    cockpit_memfd_read sys fd = Except.ok content ↔
      ∃ (seals : Nat) (size : Int) (bytes : List Nat),
        sys.fcntl_get_seals fd = some seals ∧
        seals &&& F_SEAL_WRITE = F_SEAL_WRITE ∧ seals &&& F_SEAL_GROW = F_SEAL_GROW ∧
        seals &&& F_SEAL_SHRINK = F_SEAL_SHRINK ∧
        sys.fstat_size fd = some size ∧ 1 ≤ size ∧
        sys.pread fd (size + 1) = some bytes ∧ (bytes.length : Int) = size ∧
        content = bytes ++ [0] := by
  unfold cockpit_memfd_read
  constructor
  · intro h
    cases h1 : sys.fcntl_get_seals fd with
    | none => simp [h1] at h
    | some seals =>
      simp only [h1] at h
      by_cases h2 : seals &&& (F_SEAL_WRITE ||| F_SEAL_GROW ||| F_SEAL_SHRINK) =
          (F_SEAL_WRITE ||| F_SEAL_GROW ||| F_SEAL_SHRINK)
      · simp only [h2, ne_eq, not_true_eq_false, if_false] at h
        cases h3 : sys.fstat_size fd with
        | none => simp [h3] at h
        | some size =>
          simp only [h3] at h
          by_cases h4 : size < 1
          · simp [h4] at h
          · simp only [h4, if_false] at h
            cases h5 : sys.pread fd (size + 1) with
            | none => simp [h5] at h
            | some bytes =>
              simp only [h5] at h
              by_cases h6 : (bytes.length : Int) = size
              · simp only [h6, ne_eq, not_true_eq_false, if_false, Except.ok.injEq] at h
                obtain ⟨s1, s2, s3⟩ := (expected_seals_iff seals).1 h2
                exact ⟨seals, size, bytes, rfl, s1, s2, s3, rfl, by omega, h5, h6, h.symm⟩
              · simp [h6] at h
      · simp [h2] at h
  · rintro ⟨seals, size, bytes, h1, s1, s2, s3, h3, h4, h5, h6, h7⟩
    have h2 := (expected_seals_iff seals).2 ⟨s1, s2, s3⟩
    have h4n : ¬ size < 1 := by omega
    simp only [h1, h2, ne_eq, not_true_eq_false, if_false, h3, h4n, h5, h6, h7]

/-- C40: `cockpit_memfd_read` returns a buffer exactly when the seal query succeeds, the
seals hold each of `F_SEAL_WRITE`, `F_SEAL_GROW` and `F_SEAL_SHRINK` (other seals may be set
as well), `fstat` succeeds with a size of at least 1, and the read of size + 1 bytes at
offset 0 gives exactly size bytes; the buffer then holds those bytes followed by a NUL; in
every other case an error is set and nothing is returned.  When the variable names a valid
descriptor, `cockpit_memfd_read_from_envvar` unsets the variable and closes the descriptor
whether or not the read succeeds; it returns FALSE with the error of a failed read and
stores no result, and returns TRUE with the buffer as result otherwise. -/
theorem memfd_read_content (sys : MemfdSys) (fd : Int) :
    (∀ content : List Nat,
      cockpit_memfd_read sys fd = Except.ok content ↔
        ∃ (seals : Nat) (size : Int) (bytes : List Nat),
          sys.fcntl_get_seals fd = some seals ∧
          seals &&& F_SEAL_WRITE = F_SEAL_WRITE ∧ seals &&& F_SEAL_GROW = F_SEAL_GROW ∧
          seals &&& F_SEAL_SHRINK = F_SEAL_SHRINK ∧
          sys.fstat_size fd = some size ∧ 1 ≤ size ∧
          sys.pread fd (size + 1) = some bytes ∧ (bytes.length : Int) = size ∧
          content = bytes ++ [0]) ∧
    ((∀ content : List Nat, cockpit_memfd_read sys fd ≠ Except.ok content) →
      ∃ e : MemfdError, cockpit_memfd_read sys fd = Except.error e) ∧
    (∀ (envvar fd_str : String), sys.g_getenv envvar = some fd_str →
      sys.strtol fd_str = (fd, "") → 0 ≤ fd → fd < INT_MAX →
      (∀ e : MemfdError, cockpit_memfd_read sys fd = Except.error e →
        cockpit_memfd_read_from_envvar sys envvar =
          { ret := false, result := none, error := some e,
            effects := [MemfdEffect.g_unsetenv envvar, MemfdEffect.close fd] }) ∧
      (∀ content : List Nat, cockpit_memfd_read sys fd = Except.ok content →
        cockpit_memfd_read_from_envvar sys envvar =
          { ret := true, result := some (some content), error := none,
            effects := [MemfdEffect.g_unsetenv envvar, MemfdEffect.close fd] })) := by
  refine ⟨memfd_read_ok sys fd, ?_, ?_⟩
  · intro h
    cases hr : cockpit_memfd_read sys fd with
    | error e => exact ⟨e, rfl⟩
    | ok content => exact absurd hr (h content)
  · intro envvar fd_str hg hs h0 hmax
    have hvalid : ¬ ((sys.strtol fd_str).2 ≠ "" ∨ (sys.strtol fd_str).1 < 0 ∨
        (sys.strtol fd_str).1 ≥ INT_MAX) := by
      rw [hs]
      simp only [ne_eq, not_true_eq_false, false_or, not_or, not_lt, ge_iff_le, not_le]
      exact ⟨h0, hmax⟩
    refine ⟨?_, ?_⟩
    · intro e he
      unfold cockpit_memfd_read_from_envvar
      simp only [hg, hvalid, if_false]
      rw [hs]
      simp only [he]
    · intro content hc
      unfold cockpit_memfd_read_from_envvar
      simp only [hg, hvalid, if_false]
      rw [hs]
      simp only [hc]

theorem memfd_read_content_witness :
    cockpit_memfd_read sample_memfd_sys 3 = Except.ok [104, 105, 0] ∧
    cockpit_memfd_read_from_envvar sample_memfd_sys "COCKPIT_FD" =
      { ret := true, result := some (some [104, 105, 0]), error := none,
        effects := [MemfdEffect.g_unsetenv "COCKPIT_FD", MemfdEffect.close 3] } ∧
    cockpit_memfd_read_from_envvar sample_memfd_sys "OTHER_FD" =
      { ret := false, result := none, error := some (MemfdError.incorrect_seals 6),
        effects := [MemfdEffect.g_unsetenv "OTHER_FD", MemfdEffect.close 4] } :=
  ⟨((memfd_read_content sample_memfd_sys 3).1 [104, 105, 0]).2
      ⟨15, 2, [104, 105], rfl, by decide, by decide, by decide, rfl, by decide, rfl, rfl,
        rfl⟩,
   ((memfd_read_content sample_memfd_sys 3).2.2 "COCKPIT_FD" "3" rfl rfl (by decide)
      (by decide)).2 [104, 105, 0] rfl,
   ((memfd_read_content sample_memfd_sys 4).2.2 "OTHER_FD" "4" rfl rfl (by decide)
      (by decide)).1 (MemfdError.incorrect_seals 6) rfl⟩

end Cockpit
